import Mathlib

/-! Frame codec and file-transfer engine of the distributed file-distortion system.

Shallow embedding of `src/Libs/Frame/frame.c` and
`src/Libs/Communication/communication.c`.

Conventions of the embedding.

* Bytes are natural numbers below 256, byte buffers are lists of bytes.
* `uintN_t` values are natural numbers, `int` and `int32_t` values are integers;
  conversions between the C types are written out (`toUInt8`, `toInt32`, ...).
  Signed overflow is read as wrap-around modulo 2^32, as the compiled program
  does.
* Everything a function obtains from its surroundings (the clock, the result of
  `malloc`, of `read`, of `write`, the uninitialised contents of a stack buffer)
  is an explicit argument.
-/

namespace DFCS

/-! ## C integer conversions and memory helpers -/

/-- Conversion to `uint8_t`. -/
def toUInt8 (x : Int) : Nat := (x % 256).toNat

/-- Conversion to `uint16_t`. -/
def toUInt16 (x : Int) : Nat := (x % 65536).toNat

/-- Conversion to `uint32_t`. -/
def toUInt32 (x : Int) : Nat := (x % 4294967296).toNat

/-- Conversion to `int32_t` / `int`: wrap-around modulo 2^32. -/
def toInt32 (x : Int) : Int := (x + 2147483648) % 4294967296 - 2147483648

/-- The C library call `memcpy(dst + dstOff, src, n)`, for a source holding at
least `n` bytes and a destination holding at least `dstOff + n` bytes. -/
def memcpy (dst : List Nat) (dstOff : Nat) (src : List Nat) (n : Nat) : List Nat :=
  dst.take dstOff ++ src.take n ++ dst.drop (dstOff + n)

/-! ## `frame.h` -/

/-- Size of a frame on the wire: `#define FRAME_SIZE 256`. -/
abbrev FRAME_SIZE : Nat := 256

/-- Size of the data field: `#define DATA_SIZE (FRAME_SIZE - 9)`. -/
abbrev DATA_SIZE : Nat := FRAME_SIZE - 9

/-- The `Frame` struct of `frame.h`. -/
structure Frame where
  /-- Field `uint8_t type`. -/
  type : Nat
  /-- Field `uint16_t data_length`. -/
  data_length : Nat
  /-- Field `uint8_t data[DATA_SIZE]`. -/
  data : List Nat
  /-- Field `uint16_t checksum`. -/
  checksum : Nat
  /-- Field `int32_t timestamp`. -/
  timestamp : Int
  deriving DecidableEq

/-- A value of the C type `Frame`: every field within the range of its type and
the data array of `DATA_SIZE` bytes. -/
def Frame.WF (f : Frame) : Prop :=
  f.type < 256 ∧ f.data_length < 65536 ∧ f.data.length = DATA_SIZE ∧
  (∀ b ∈ f.data, b < 256) ∧ f.checksum < 65536 ∧
  -2147483648 ≤ f.timestamp ∧ f.timestamp < 2147483648

instance (f : Frame) : Decidable f.WF := by
  unfold Frame.WF
  infer_instance

/-- The enum `FrameErrorCode` of `frame.h`. -/
inductive FrameErrorCode where
  | FRAME_SUCCESS
  | FRAME_RECV_ERROR
  | FRAME_DISCONNECTED
  | FRAME_PENDING
  deriving DecidableEq

/-- The struct `FrameResult` of `frame.h`.  `frame = none` is the NULL pointer;
`freed` records that the frame the pointer designates was already released
with `free`. -/
structure FrameResult where
  /-- Field `Frame *frame`. -/
  frame : Option Frame
  /-- Whether `*frame` was already passed to `free`. -/
  freed : Bool
  /-- Field `FrameErrorCode error_code`. -/
  error_code : FrameErrorCode
  deriving DecidableEq

/-- Value of `errno` for a connection reset by the peer (`errno.h`, Linux). -/
def ECONNRESET : Int := 104

/-- Value of `errno` for a bad file descriptor (`errno.h`, Linux). -/
def EBADF : Int := 9

/-- What one call `read(socket, buffer, FRAME_SIZE)` yields: its return value,
`errno` when it fails, and the bytes it stores at the start of the buffer. -/
structure SockRead where
  /-- Return value of `read`. -/
  ret : Int
  /-- Value of `errno` after a failed `read`. -/
  errno : Int
  /-- Bytes stored into the buffer (`ret` of them when `ret > 0`). -/
  bytes : List Nat
  deriving DecidableEq

/-- One call `write(socket, buffer, FRAME_SIZE)`: the buffer handed to the call
and the value the call returned. -/
structure SockWrite where
  /-- Contents of the buffer passed to `write`. -/
  bytes : List Nat
  /-- Return value of `write`. -/
  ret : Int
  deriving DecidableEq

/-! ## `frame.c` -/

/-- Function `FRAME_calculateChecksum` (frame.c 31-42).  The accumulator is a
`uint32_t`; the loop adds the `DATA_SIZE` bytes of the data array in index
order. -/
def FRAME_calculateChecksum (frame : Frame) : Nat :=
  let sum : Nat := 0
  let sum := (sum + frame.type) % 4294967296
  let sum := (sum + frame.data_length) % 4294967296
  let sum := (frame.data.take DATA_SIZE).foldl
    (fun sum byte => (sum + byte) % 4294967296) sum
  let sum := (sum + toUInt32 (Int.land frame.timestamp 0xFFFF)) % 4294967296
  let sum := (sum + toUInt32 (Int.land (frame.timestamp >>> (16 : Nat)) 0xFFFF)) % 4294967296
  (sum % 65536) % 65536

/-- Function `FRAME_createFrame` (frame.c 60-78).  `malloc_ok` tells whether `malloc`
returned a block, `now` is the value of `time(NULL)`, `data = none` is the NULL
pointer. -/
def FRAME_createFrame (malloc_ok : Bool) (now : Int) (type : Int)
    (data : Option (List Nat)) (dataLength : Nat) : Option Frame :=
  if !malloc_ok then none
  else
    let frameType := toUInt8 type
    let frameDataLength :=
      toUInt16 (if dataLength > DATA_SIZE then (DATA_SIZE : Int) else (dataLength : Int))
    let frameData := List.replicate DATA_SIZE 0
    let frameData :=
      match data with
      | some d => memcpy frameData 0 d frameDataLength
      | none => frameData
    let frame : Frame :=
      { type := frameType, data_length := frameDataLength, data := frameData,
        checksum := 0, timestamp := toInt32 now }
    some { frame with checksum := FRAME_calculateChecksum frame }

/-- Function `FRAME_serializeFrame` (frame.c 110-136): the contents of `buffer` after the
call. -/
def FRAME_serializeFrame (frame : Frame) (buffer : List Nat) : List Nat :=
  let offset := 0
  let buffer := buffer.set offset frame.type
  let offset := offset + 1
  let buffer := buffer.set offset ((frame.data_length >>> 8) &&& 0xFF)
  let buffer := buffer.set (offset + 1) (frame.data_length &&& 0xFF)
  let offset := offset + 2
  let buffer := memcpy buffer offset frame.data DATA_SIZE
  let offset := offset + DATA_SIZE
  let buffer := buffer.set offset ((frame.checksum >>> 8) &&& 0xFF)
  let buffer := buffer.set (offset + 1) (frame.checksum &&& 0xFF)
  let offset := offset + 2
  let buffer := buffer.set offset (toUInt8 (Int.land (frame.timestamp >>> (24 : Nat)) 0xFF))
  let buffer := buffer.set (offset + 1) (toUInt8 (Int.land (frame.timestamp >>> (16 : Nat)) 0xFF))
  let buffer := buffer.set (offset + 2) (toUInt8 (Int.land (frame.timestamp >>> (8 : Nat)) 0xFF))
  let buffer := buffer.set (offset + 3) (toUInt8 (Int.land frame.timestamp 0xFF))
  buffer

/-- Function `FRAME_deserializeFrame` (frame.c 150-172).  The function assigns every
field of `*frame`, so the frame is returned. -/
def FRAME_deserializeFrame (buffer : List Nat) : Frame :=
  let offset := 0
  let type := buffer.getD offset 0
  let offset := offset + 1
  let data_length :=
    toUInt16 (((buffer.getD offset 0 <<< 8) ||| buffer.getD (offset + 1) 0 : Nat) : Int)
  let offset := offset + 2
  let data := (buffer.drop offset).take DATA_SIZE
  let offset := offset + DATA_SIZE
  let checksum :=
    toUInt16 (((buffer.getD offset 0 <<< 8) ||| buffer.getD (offset + 1) 0 : Nat) : Int)
  let offset := offset + 2
  let timestamp :=
    toInt32 (((buffer.getD offset 0 <<< 24) ||| (buffer.getD (offset + 1) 0 <<< 16) |||
      (buffer.getD (offset + 2) 0 <<< 8) ||| buffer.getD (offset + 3) 0 : Nat) : Int)
  { type := type, data_length := data_length, data := data, checksum := checksum,
    timestamp := timestamp }

/-- Result of `FRAME_sendFrame`: the return value, the frame after the call
(its checksum is rewritten) and the `write` call made on the socket, if any. -/
structure SendFrameResult where
  /-- Return value, 0 or -1. -/
  ret : Int
  /-- The frame `*frame` after the call. -/
  frame : Option Frame
  /-- The call of `write` on the socket. -/
  written : Option SockWrite
  deriving DecidableEq

/-- Function `FRAME_sendFrame` (frame.c 188-205).  `buffer` is the uninitialised content
of the local array `buffer[FRAME_SIZE]`, `write_ret` the value returned by
`write(socket, buffer, FRAME_SIZE)`. -/
def FRAME_sendFrame (buffer : List Nat) (write_ret : Int) (frame : Option Frame) :
    SendFrameResult :=
  match frame with
  | none => { ret := -1, frame := none, written := none }
  | some frame =>
    let frame := { frame with checksum := FRAME_calculateChecksum frame }
    let buffer := FRAME_serializeFrame frame buffer
    if write_ret ≠ FRAME_SIZE then
      { ret := -1, frame := some frame, written := some { bytes := buffer, ret := write_ret } }
    else
      { ret := 0, frame := some frame, written := some { bytes := buffer, ret := write_ret } }

/-- Function `FRAME_receiveFrame` (frame.c 225-265).  `buffer` is the uninitialised
content of the local array `buffer[FRAME_SIZE]`, `rd` the outcome of
`read(socket, buffer, FRAME_SIZE)`, `malloc_ok` whether `malloc` returned a
block. -/
def FRAME_receiveFrame (buffer : List Nat) (rd : SockRead) (malloc_ok : Bool) :
    FrameResult :=
  let bytes_received := rd.ret
  let buffer := memcpy buffer 0 rd.bytes bytes_received.toNat
  if bytes_received = 0 then
    { frame := none, freed := false, error_code := .FRAME_DISCONNECTED }
  else if bytes_received < 0 then
    if rd.errno = ECONNRESET then
      { frame := none, freed := false, error_code := .FRAME_DISCONNECTED }
    else if rd.errno = EBADF then
      { frame := none, freed := false, error_code := .FRAME_PENDING }
    else
      { frame := none, freed := false, error_code := .FRAME_RECV_ERROR }
  else if !malloc_ok then
    { frame := none, freed := false, error_code := .FRAME_RECV_ERROR }
  else
    let frame := FRAME_deserializeFrame buffer
    if frame.checksum ≠ FRAME_calculateChecksum frame then
      { frame := some frame, freed := true, error_code := .FRAME_RECV_ERROR }
    else
      { frame := some frame, freed := false, error_code := .FRAME_SUCCESS }

/-! ## `communication.h` -/

/-- Constant `#define UNEXPECTED_ERROR -1`. -/
def UNEXPECTED_ERROR : Int := -1

/-- Constant `#define REMOTE_END_DISCONNECTION 0`. -/
def REMOTE_END_DISCONNECTION : Int := 0

/-- Constant `#define TRANSFER_SUCCESS 1`. -/
def TRANSFER_SUCCESS : Int := 1

/-- Constant `#define INTERRUPTED_BY_SIGINT 2`. -/
def INTERRUPTED_BY_SIGINT : Int := 2

/-! ## Surroundings of the transfer functions -/

/-- Surroundings of one call of `FRAME_createFrame`. -/
structure CreateEnv where
  /-- Whether `malloc` returns a block. -/
  malloc_ok : Bool
  /-- Value of `time(NULL)`. -/
  now : Int

/-- Surroundings of one call of `FRAME_sendFrame`. -/
structure SendEnv where
  /-- Uninitialised contents of the local array `buffer[FRAME_SIZE]`. -/
  buffer : List Nat
  /-- Value returned by `write(socket, buffer, FRAME_SIZE)`. -/
  write_ret : Int

/-- Surroundings of one call of `FRAME_receiveFrame`. -/
structure RecvEnv where
  /-- Uninitialised contents of the local array `buffer[FRAME_SIZE]`. -/
  buffer : List Nat
  /-- Outcome of `read(socket, buffer, FRAME_SIZE)`; `none` when the call never
  returns (nothing arrives and the peer keeps the connection open). -/
  read : Option SockRead
  /-- Whether `malloc` returns a block. -/
  malloc_ok : Bool

/-- Surroundings of one call of `COMM_sendFile`; the fields indexed by a number
are consulted by the loop iteration of that number (counted from 0). -/
structure SendFileWorld where
  /-- Whether `open(file_path, O_RDONLY)` succeeds. -/
  open_ok : Bool
  /-- Whether `lseek` succeeds on a non-negative offset. -/
  lseek_ok : Bool
  /-- Uninitialised contents of the local array `buffer[DATA_SIZE]`. -/
  buffer : List Nat
  /-- Value of `*exit_distortion` read by the loop test. -/
  exit_distortion : Nat → Bool
  /-- Value of `*exit_distortion` read after the loop. -/
  exit_after : Bool
  /-- Whether `read(fd, buffer, DATA_SIZE)` succeeds. -/
  file_read_ok : Nat → Bool
  /-- Surroundings of `FRAME_createFrame(0x05, ...)`. -/
  create : Nat → CreateEnv
  /-- Surroundings of `FRAME_sendFrame(worker_socket, packet_frame)`. -/
  send : Nat → SendEnv
  /-- Surroundings of `COMM_retrieveAckFrame(worker_socket)`. -/
  ack : Nat → RecvEnv

/-- Surroundings of one call of `COMM_receiveFile`; the fields indexed by a
number are consulted by the loop iteration of that number (counted from 0). -/
structure RecvFileWorld where
  /-- Whether `open(file_path, O_WRONLY | O_CREAT, 0666)` succeeds. -/
  open_ok : Bool
  /-- Whether `lseek` succeeds on a non-negative offset. -/
  lseek_ok : Bool
  /-- Value of `*exit_distortion` read by the loop test. -/
  exit_distortion : Nat → Bool
  /-- Value of `*exit_distortion` read after the loop. -/
  exit_after : Bool
  /-- Surroundings of `FRAME_receiveFrame(worker_socket)`. -/
  recv : Nat → RecvEnv
  /-- Bytes that follow `packet_frame->data` in memory; `write` reaches them
  when `data_length` exceeds `DATA_SIZE`. -/
  beyond : Nat → List Nat
  /-- Whether `write(fd, packet_frame->data, packet_frame->data_length)` succeeds. -/
  file_write_ok : Nat → Bool
  /-- Surroundings of `FRAME_createFrame(0x12, NULL, 0)` in `COMM_sendAckFrame`. -/
  ack_create : Nat → CreateEnv
  /-- Surroundings of `FRAME_sendFrame` in `COMM_sendAckFrame`. -/
  ack_send : Nat → SendEnv

/-- What a call of `COMM_sendFile` or `COMM_receiveFile` leaves behind. -/
structure TransferResult where
  /-- Return value; `none` when the call never returns (blocked in `read`, or
  stopped by a NULL dereference). -/
  ret : Option Int
  /-- Value of `*n_processed_packets` when the call ends. -/
  n_processed_packets : Int
  /-- Contents of the file at `file_path` when the call ends. -/
  file : List Nat
  /-- The calls of `write` on the socket, in order. -/
  sent : List SockWrite
  /-- The byte strings passed to `write` on the file, in order. -/
  payloads : List (List Nat)
  deriving DecidableEq

/-- A `read(fd, buffer, n)` on a regular file at offset `pos`: the bytes read. -/
def fileRead (file : List Nat) (pos n : Nat) : List Nat :=
  (file.drop pos).take n

/-- A `write(fd, bytes, n)` on a regular file at offset `pos`: the new contents.
A gap between the end of the file and `pos` reads as zeros; a write of no byte
leaves the file as it is. -/
def fileWrite (file : List Nat) (pos : Nat) (bytes : List Nat) : List Nat :=
  if bytes = [] then file
  else file.take pos ++ List.replicate (pos - file.length) 0 ++ bytes ++
    file.drop (pos + bytes.length)

/-- The bytes `write(fd, packet_frame->data, packet_frame->data_length)` takes
from memory: `data_length` bytes from the start of the data array, running
into the memory that follows it when `data_length` exceeds `DATA_SIZE`. -/
def filePayload (packet_frame : Frame) (beyond : List Nat) : List Nat :=
  (packet_frame.data ++ beyond).take packet_frame.data_length

/-! ## `communication.c` -/

/-- Function `COMM_retrieveAckFrame` (communication.c 32-45). -/
def COMM_retrieveAckFrame (buffer : List Nat) (rd : SockRead) (malloc_ok : Bool) : Int :=
  let error := UNEXPECTED_ERROR
  let ack_frame := FRAME_receiveFrame buffer rd malloc_ok
  if ack_frame.error_code ≠ .FRAME_SUCCESS then
    let error :=
      if ack_frame.error_code = .FRAME_DISCONNECTED then REMOTE_END_DISCONNECTION else error
    error
  else TRANSFER_SUCCESS

/-- Function `COMM_sendAckFrame` (communication.c 59-67): the return value and the call
of `write` made on the socket, if any. -/
def COMM_sendAckFrame (c : CreateEnv) (s : SendEnv) : Int × Option SockWrite :=
  match FRAME_createFrame c.malloc_ok c.now 0x12 none 0 with
  | none => (UNEXPECTED_ERROR, none)
  | some ack_frame =>
    let r := FRAME_sendFrame s.buffer s.write_ret (some ack_frame)
    if r.ret < 0 then (UNEXPECTED_ERROR, r.written) else (TRANSFER_SUCCESS, r.written)

/-- Local state of `COMM_sendFile` at the head of its loop. -/
structure SendFileState where
  /-- Value of `*n_processed_packets`. -/
  n_processed_packets : Int
  /-- File offset of `fd`. -/
  pos : Nat
  /-- Contents of the local array `buffer[DATA_SIZE]`. -/
  buffer : List Nat
  /-- The calls of `write` made on the socket so far. -/
  sent : List SockWrite

/-- End of `COMM_sendFile` (communication.c 143-152). -/
def COMM_sendFile_end (w : SendFileWorld) (file : List Nat) (st : SendFileState) :
    TransferResult :=
  { ret := some (if w.exit_after then INTERRUPTED_BY_SIGINT else TRANSFER_SUCCESS),
    n_processed_packets := st.n_processed_packets, file := file, sent := st.sent,
    payloads := [] }

/-- The loop of `COMM_sendFile` (communication.c 111-141), from iteration `i`.
The first argument bounds the number of iterations: every iteration that does
not leave the function increments `*n_processed_packets`, so at most
`n_packets - *n_processed_packets` iterations run, and the loop test is false
once they have (`sendFile_loop_fuel`).  The counter is incremented only while
it is below `n_packets`, an `int`, so the increment does not overflow. -/
def COMM_sendFile_loop (w : SendFileWorld) (file : List Nat) (n_packets : Int) :
    Nat → Nat → SendFileState → TransferResult
  | 0, _, st => COMM_sendFile_end w file st
  | fuel + 1, i, st =>
    if st.n_processed_packets < n_packets ∧ w.exit_distortion i = false then
      if w.file_read_ok i = false then
        { ret := some UNEXPECTED_ERROR, n_processed_packets := st.n_processed_packets,
          file := file, sent := st.sent, payloads := [] }
      else
        let chunk := fileRead file st.pos DATA_SIZE
        let bytes_read := chunk.length
        if bytes_read = 0 then COMM_sendFile_end w file st
        else
          let buffer := memcpy st.buffer 0 chunk bytes_read
          match FRAME_createFrame (w.create i).malloc_ok (w.create i).now 0x05
              (some buffer) bytes_read with
          | none =>
            { ret := some UNEXPECTED_ERROR, n_processed_packets := st.n_processed_packets,
              file := file, sent := st.sent, payloads := [] }
          | some packet_frame =>
            let r := FRAME_sendFrame (w.send i).buffer (w.send i).write_ret (some packet_frame)
            let sent := st.sent ++ r.written.toList
            if r.ret < 0 then
              { ret := some UNEXPECTED_ERROR, n_processed_packets := st.n_processed_packets,
                file := file, sent := sent, payloads := [] }
            else
              match (w.ack i).read with
              | none =>
                { ret := none, n_processed_packets := st.n_processed_packets,
                  file := file, sent := sent, payloads := [] }
              | some rd =>
                let ack_result := COMM_retrieveAckFrame (w.ack i).buffer rd (w.ack i).malloc_ok
                if ack_result = REMOTE_END_DISCONNECTION ∨ ack_result = UNEXPECTED_ERROR then
                  { ret := some ack_result, n_processed_packets := st.n_processed_packets,
                    file := file, sent := sent, payloads := [] }
                else
                  COMM_sendFile_loop w file n_packets fuel (i + 1)
                    { n_processed_packets := st.n_processed_packets + 1,
                      pos := st.pos + bytes_read, buffer := buffer, sent := sent }
    else COMM_sendFile_end w file st

/-- Function `COMM_sendFile` (communication.c 92-153) on the file `file`, entered with
`*n_processed_packets = n_processed_packets`.  The product
`*n_processed_packets * DATA_SIZE` is an `int`. -/
def COMM_sendFile (w : SendFileWorld) (file : List Nat) (n_packets : Int)
    (n_processed_packets : Int) : TransferResult :=
  if !w.open_ok then
    { ret := some UNEXPECTED_ERROR, n_processed_packets := n_processed_packets,
      file := file, sent := [], payloads := [] }
  else
    let offset := toInt32 (n_processed_packets * DATA_SIZE)
    if offset < 0 ∨ !w.lseek_ok then
      { ret := some UNEXPECTED_ERROR, n_processed_packets := n_processed_packets,
        file := file, sent := [], payloads := [] }
    else
      COMM_sendFile_loop w file n_packets (n_packets - n_processed_packets).toNat 0
        { n_processed_packets := n_processed_packets, pos := offset.toNat,
          buffer := w.buffer, sent := [] }

/-- Local state of `COMM_receiveFile` at the head of its loop. -/
structure RecvFileState where
  /-- Value of `*n_processed_packets`. -/
  n_processed_packets : Int
  /-- File offset of `fd`. -/
  pos : Nat
  /-- Contents of the file at `file_path`. -/
  file : List Nat
  /-- The calls of `write` made on the socket so far. -/
  sent : List SockWrite
  /-- The byte strings written to the file so far. -/
  payloads : List (List Nat)

/-- End of `COMM_receiveFile` (communication.c 236-245). -/
def COMM_receiveFile_end (w : RecvFileWorld) (st : RecvFileState) : TransferResult :=
  { ret := some (if w.exit_after then INTERRUPTED_BY_SIGINT else TRANSFER_SUCCESS),
    n_processed_packets := st.n_processed_packets, file := st.file, sent := st.sent,
    payloads := st.payloads }

/-- The loop of `COMM_receiveFile` (communication.c 195-234), from iteration
`i`.  The first argument bounds the number of iterations, as in
`COMM_sendFile_loop` (`receiveFile_loop_fuel`). -/
def COMM_receiveFile_loop (w : RecvFileWorld) (n_packets : Int) :
    Nat → Nat → RecvFileState → TransferResult
  | 0, _, st => COMM_receiveFile_end w st
  | fuel + 1, i, st =>
    if st.n_processed_packets < n_packets ∧ w.exit_distortion i = false then
      match (w.recv i).read with
      | none =>
        { ret := none, n_processed_packets := st.n_processed_packets, file := st.file,
          sent := st.sent, payloads := st.payloads }
      | some rd =>
        let result := FRAME_receiveFrame (w.recv i).buffer rd (w.recv i).malloc_ok
        if result.error_code ≠ .FRAME_SUCCESS then
          { ret := some (if result.error_code = .FRAME_DISCONNECTED
              then REMOTE_END_DISCONNECTION else UNEXPECTED_ERROR),
            n_processed_packets := st.n_processed_packets, file := st.file,
            sent := st.sent, payloads := st.payloads }
        else
          match result.frame with
          | none =>
            { ret := none, n_processed_packets := st.n_processed_packets, file := st.file,
              sent := st.sent, payloads := st.payloads }
          | some packet_frame =>
            if packet_frame.type ≠ 0x05 then
              { ret := some UNEXPECTED_ERROR, n_processed_packets := st.n_processed_packets,
                file := st.file, sent := st.sent, payloads := st.payloads }
            else if w.file_write_ok i = false then
              { ret := some UNEXPECTED_ERROR, n_processed_packets := st.n_processed_packets,
                file := st.file, sent := st.sent, payloads := st.payloads }
            else
              let payload := filePayload packet_frame (w.beyond i)
              let file := fileWrite st.file st.pos payload
              let payloads := st.payloads ++ [payload]
              let ack := COMM_sendAckFrame (w.ack_create i) (w.ack_send i)
              let sent := st.sent ++ ack.2.toList
              if ack.1 ≠ TRANSFER_SUCCESS then
                { ret := some UNEXPECTED_ERROR, n_processed_packets := st.n_processed_packets,
                  file := file, sent := sent, payloads := payloads }
              else
                COMM_receiveFile_loop w n_packets fuel (i + 1)
                  { n_processed_packets := st.n_processed_packets + 1,
                    pos := st.pos + payload.length, file := file, sent := sent,
                    payloads := payloads }
    else COMM_receiveFile_end w st

/-- Function `COMM_receiveFile` (communication.c 177-246) on a file with contents
`file`, entered with `*n_processed_packets = n_processed_packets`.  The file is
opened without `O_TRUNC` and without `O_APPEND`. -/
def COMM_receiveFile (w : RecvFileWorld) (file : List Nat) (n_packets : Int)
    (n_processed_packets : Int) : TransferResult :=
  if !w.open_ok then
    { ret := some UNEXPECTED_ERROR, n_processed_packets := n_processed_packets,
      file := file, sent := [], payloads := [] }
  else
    let offset := toInt32 (n_processed_packets * DATA_SIZE)
    if offset < 0 ∨ !w.lseek_ok then
      { ret := some UNEXPECTED_ERROR, n_processed_packets := n_processed_packets,
        file := file, sent := [], payloads := [] }
    else
      COMM_receiveFile_loop w n_packets (n_packets - n_processed_packets).toNat 0
        { n_processed_packets := n_processed_packets, pos := offset.toNat,
          file := file, sent := [], payloads := [] }

/-! ## Assumptions on the surroundings of a transfer -/

/-- The local calls of a `COMM_sendFile` run succeed (opening, seeking and
reading the file, `malloc`, `write` on the socket taking all 256 bytes) and the
local arrays have their declared sizes. -/
def SendFileWorld.LocalOk (w : SendFileWorld) : Prop :=
  w.open_ok = true ∧ w.lseek_ok = true ∧ w.buffer.length = DATA_SIZE ∧
  ∀ i, w.file_read_ok i = true ∧ (w.create i).malloc_ok = true ∧
    (w.send i).buffer.length = FRAME_SIZE ∧ (w.send i).write_ret = FRAME_SIZE ∧
    (w.ack i).buffer.length = FRAME_SIZE ∧ (w.ack i).malloc_ok = true

/-- The local calls of a `COMM_receiveFile` run succeed (opening, seeking and
writing the file, `malloc`, `write` on the socket taking all 256 bytes) and the
local arrays have their declared sizes. -/
def RecvFileWorld.LocalOk (w : RecvFileWorld) : Prop :=
  w.open_ok = true ∧ w.lseek_ok = true ∧
  ∀ i, (w.recv i).buffer.length = FRAME_SIZE ∧ (w.recv i).malloc_ok = true ∧
    w.file_write_ok i = true ∧ (w.ack_create i).malloc_ok = true ∧
    (w.ack_send i).buffer.length = FRAME_SIZE ∧ (w.ack_send i).write_ret = FRAME_SIZE

/-- No cancellation: `*exit_distortion` reads 0 throughout a `COMM_sendFile` run. -/
def SendFileWorld.NoCancel (w : SendFileWorld) : Prop :=
  (∀ i, w.exit_distortion i = false) ∧ w.exit_after = false

/-- No cancellation: `*exit_distortion` reads 0 throughout a `COMM_receiveFile` run. -/
def RecvFileWorld.NoCancel (w : RecvFileWorld) : Prop :=
  (∀ i, w.exit_distortion i = false) ∧ w.exit_after = false

/-- A reliable in-order channel from a writer to a reader: the read number `i`
of the reader returns, in full, the 256 bytes of the write number `i` of the
writer, and a read for which the writer wrote nothing returns no byte (it
never returns, or it returns 0 or a negative value). -/
def Delivers (written : List SockWrite) (reads : Nat → Option SockRead) : Prop :=
  (∀ i wr, written[i]? = some wr →
    ∃ e, reads i = some { ret := FRAME_SIZE, errno := e, bytes := wr.bytes }) ∧
  (∀ i rd, written.length ≤ i → reads i = some rd → rd.ret ≤ 0)

/-- Number of packets of a file of `filesize` bytes: the quotient by
`DATA_SIZE`, rounded up. -/
def packetCount (filesize : Nat) : Nat := (filesize + (DATA_SIZE - 1)) / DATA_SIZE


/-! ## Concrete surroundings for the examples -/

/-- What a reliable channel hands to the reader for the write number `i` of
the trace `written`: the 256 bytes of that write, or a read that never
returns when there is no such write. -/
def channelRead (written : List SockWrite) (i : Nat) : Option SockRead :=
  written[i]?.map (fun w => { ret := FRAME_SIZE, errno := 0, bytes := w.bytes })

/-- The value of `*exit_distortion` at iteration `i` when the flag is raised
from iteration `stop` on (`none`: never raised). -/
def exitFlag (stop : Option Nat) (i : Nat) : Bool :=
  match stop with
  | none => false
  | some s => decide (s ≤ i)

/-- Surroundings of a `COMM_sendFile` run for the examples: local calls
succeed, buffers start zeroed, the clock reads 0, the exit flag is raised from
iteration `stop` on, the reads of the socket come from the trace `acks`. -/
def exampleSender (stop : Option Nat) (acks : List SockWrite) : SendFileWorld :=
  { open_ok := true, lseek_ok := true, buffer := List.replicate DATA_SIZE 0,
    exit_distortion := exitFlag stop, exit_after := stop.isSome,
    file_read_ok := fun _ => true,
    create := fun _ => { malloc_ok := true, now := 0 },
    send := fun _ => { buffer := List.replicate FRAME_SIZE 0, write_ret := FRAME_SIZE },
    ack := fun i =>
      { buffer := List.replicate FRAME_SIZE 0, read := channelRead acks i, malloc_ok := true } }

/-- Surroundings of a `COMM_receiveFile` run for the examples: local calls
succeed, buffers start zeroed, the clock reads 0, the exit flag is raised from
iteration `stop` on, the reads of the socket come from the trace `frames`. -/
def exampleReceiver (stop : Option Nat) (frames : List SockWrite) : RecvFileWorld :=
  { open_ok := true, lseek_ok := true,
    exit_distortion := exitFlag stop, exit_after := stop.isSome,
    recv := fun i =>
      { buffer := List.replicate FRAME_SIZE 0, read := channelRead frames i,
        malloc_ok := true },
    beyond := fun _ => [],
    file_write_ok := fun _ => true,
    ack_create := fun _ => { malloc_ok := true, now := 0 },
    ack_send := fun _ => { buffer := List.replicate FRAME_SIZE 0, write_ret := FRAME_SIZE } }

/-- The write of an ACK frame (type 0x12, no data) stamped with time 0. -/
def exampleAck : SockWrite :=
  { bytes := [18, 0, 0] ++ List.replicate 247 0 ++ [0, 18, 0, 0, 0, 0], ret := FRAME_SIZE }

/-- A file of 500 bytes. -/
def exampleFile : List Nat := (List.range 500).map (fun i => i % 251)

/-- Surroundings of the receiver that faces, over a reliable channel, the
`COMM_sendFile` run of the sender `ws` on the file `file`. -/
def peerReceiver (stop : Option Nat) (ws : SendFileWorld) (file : List Nat)
    (n_packets n_processed_packets : Int) : RecvFileWorld :=
  exampleReceiver stop (COMM_sendFile ws file n_packets n_processed_packets).sent


/-! ## Further assumptions and measures for the transfer functions -/

/-- The exit flag is only ever raised: the programs assign 1 to
`exit_distortion` in their SIGINT handling (Fleck.c 348, Enigma.c 89,
Harley.c 89) and never assign 0 after start-up, so a read of 1 by the loop test
of `COMM_sendFile` is followed by a read of 1 after the loop. -/
def SendFileWorld.FlagStays (w : SendFileWorld) : Prop :=
  ∀ i, w.exit_distortion i = true → w.exit_after = true

/-- The exit flag is only ever raised, for a `COMM_receiveFile` run. -/
def RecvFileWorld.FlagStays (w : RecvFileWorld) : Prop :=
  ∀ i, w.exit_distortion i = true → w.exit_after = true

/-- The number of `write` calls of a trace that took all 256 bytes of the
frame: the frames that were sent. -/
def framesWritten (sent : List SockWrite) : Nat :=
  sent.countP (fun s => decide (s.ret = (FRAME_SIZE : Int)))

/-- The write of an ERR frame (type 0x09, no data) stamped with time 0. -/
def exampleErr : SockWrite :=
  { bytes := [9, 0, 0] ++ List.replicate 247 0 ++ [0, 9, 0, 0, 0, 0], ret := FRAME_SIZE }

/-! ## C strings and the C library functions the programs call on them

A C string is the list of its bytes, without the terminating NUL; a `char *`
that may be NULL is an `Option`. -/

/-- The bytes of a string literal of the C source. -/
def str (s : String) : List Nat := s.toList.map Char.toNat

/-- The C string that starts at the beginning of the memory `mem`: the bytes
before the first NUL. -/
def cstring (mem : List Nat) : List Nat := mem.takeWhile (fun b => b ≠ 0)

/-- The C library function `strcmp`: 0 exactly when the strings are equal;
otherwise the sign of the first difference, read as -1 or 1. -/
def strcmp (a b : List Nat) : Int :=
  if a = b then 0 else if a < b then -1 else 1

/-- The C library function `strtok`, one call: the token found (NULL when
only delimiters are left) and the position the function saves for the next
call `strtok(NULL, delim)`. -/
def strtok (s delim : List Nat) : Option (List Nat) × List Nat :=
  let s := s.dropWhile (fun b => decide (b ∈ delim))
  if s = [] then (none, [])
  else
    (some (s.takeWhile (fun b => !decide (b ∈ delim))),
      (s.dropWhile (fun b => !decide (b ∈ delim))).drop 1)

/-- The C library function `strrchr` for a character other than NUL: the index
of the last occurrence of `c` in `s`, `none` for NULL. -/
def strrchr (s : List Nat) (c : Nat) : Option Nat :=
  if c ∈ s then some (s.length - 1 - (s.reverse.takeWhile (fun b => b ≠ c)).length)
  else none

/-- The C library function `isspace`, in the C locale. -/
def isspace (c : Nat) : Bool := c = 32 || (9 ≤ c && c ≤ 13)

/-- The C library function `isdigit`. -/
def isdigit (c : Nat) : Bool := 48 ≤ c && c ≤ 57

/-- The value of the decimal digits at the start of `s`. -/
def digitsValue (s : List Nat) : Nat :=
  (s.takeWhile isdigit).foldl (fun acc c => acc * 10 + (c - 48)) 0

/-- The C library function `atoi`: white space, an optional sign, decimal
digits.  The value is converted to `int` by wrap-around (the C standard leaves
the result for a value out of the range of `int` undefined). -/
def atoi (s : List Nat) : Int :=
  let s := s.dropWhile isspace
  if s.head? = some 45 then toInt32 (-(digitsValue s.tail : Int))
  else if s.head? = some 43 then toInt32 (digitsValue s.tail)
  else toInt32 (digitsValue s)

/-- The decimal digits of `n`, most significant first; the first argument
bounds the number of digits. -/
def decimalDigits : Nat → Nat → List Nat
  | 0, n => [48 + n % 10]
  | fuel + 1, n =>
    if n < 10 then [48 + n] else decimalDigits fuel (n / 10) ++ [48 + n % 10]

/-- The text `printf` produces for the conversion `%d`. -/
def decimal (x : Int) : List Nat :=
  if x < 0 then 45 :: decimalDigits x.natAbs x.natAbs else decimalDigits x.natAbs x.natAbs

/-! ## The distortion context and the packet count

`typeDistort.h`, `src/Fleck/Modules/Distortion/distortion.c`,
`src/Fleck/Modules/Communication/communication.c` and
`src/Worker/Modules/Context/context.c`.  Functions of the client program are in
the namespace `Fleck`, after their directory: the worker program has functions
of the same names. -/

/-- The struct `DistortionContext` of `typeDistort.h`. -/
structure DistortionContext where
  /-- Field `char* file_path`. -/
  file_path : Option (List Nat)
  /-- Field `char* filename`. -/
  filename : Option (List Nat)
  /-- Field `char* username`. -/
  username : Option (List Nat)
  /-- Field `char *md5sum`. -/
  md5sum : Option (List Nat)
  /-- Field `int filesize`. -/
  filesize : Int
  /-- Field `int factor`. -/
  factor : Int
  /-- Field `int current_stage`. -/
  current_stage : Int
  /-- Field `int n_packets`. -/
  n_packets : Int
  /-- Field `int n_processed_packets`. -/
  n_processed_packets : Int
  deriving DecidableEq

/-- What `DIST_setupDistortionContext` of the client obtains from the calls it
makes. -/
structure SetupEnv where
  /-- Result of `FILE_buildPrivateFilePath(folder_path, filename, NULL)`. -/
  file_path : Option (List Nat)
  /-- Whether `strdup(filename)` returns a copy. -/
  filename_dup_ok : Bool
  /-- Result of `FILE_getFileSize(context->file_path)`. -/
  filesize : Int
  /-- Result of `FILE_calculateMD5(context->file_path)`. -/
  md5sum : Option (List Nat)
  /-- Whether `strdup(username)` returns a copy. -/
  username_dup_ok : Bool

/-- What `COMM_retrieveFileMetadata` of the client obtains from the calls it
makes. -/
structure MetadataEnv where
  /-- Surroundings of `FRAME_receiveFrame(worker_socket)`. -/
  recv : RecvEnv
  /-- Bytes that follow `response_frame->data` in memory; `strdup` reaches them
  when the data array holds no NUL. -/
  beyond : List Nat
  /-- Whether `strdup((char *)response_frame->data)` returns a copy. -/
  data_dup_ok : Bool
  /-- Whether `strdup` of the MD5 token returns a copy. -/
  md5_dup_ok : Bool

namespace Fleck

/-- Function `DIST_setupDistortionContext` of the client (Fleck distortion.c 230-256):
the return value and the context after the call.  The quotient and remainder
are those of C on `int`; the increment cannot overflow, the quotient being
below 2^31 / 247. -/
def DIST_setupDistortionContext (e : SetupEnv) (context : DistortionContext)
    (filename username : List Nat) (factor : Int) : Int × DistortionContext :=
  let context := { context with file_path := e.file_path }
  if context.file_path = none then (-1, context)
  else
    let context :=
      { context with filename := if e.filename_dup_ok then some filename else none }
    if context.filename = none then (-1, context)
    else
      let context := { context with factor := factor }
      let context := { context with filesize := e.filesize }
      if context.filesize < 0 then (0, context)
      else
        let context := { context with md5sum := e.md5sum }
        if context.md5sum = none then (0, context)
        else
          let context :=
            { context with username := if e.username_dup_ok then some username else none }
          if context.username = none then (0, context)
          else
            let context :=
              { context with n_packets := Int.tdiv context.filesize (DATA_SIZE : Nat) }
            let context :=
              if Int.tmod context.filesize (DATA_SIZE : Nat) ≠ 0 then
                { context with n_packets := context.n_packets + 1 }
              else context
            let context := { context with n_processed_packets := 0 }
            (1, context)

/-- Function `COMM_retrieveFileMetadata` of the client (Fleck communication.c 544-598):
the return value and the context after the call; `none` when the call does
not return (the `read` blocks for ever, or a NULL pointer is passed on to
`atoi` or `strdup`, or is dereferenced). -/
def COMM_retrieveFileMetadata (e : MetadataEnv) (distorted_file : DistortionContext) :
    Option (Int × DistortionContext) :=
  match e.recv.read with
  | none => none
  | some rd =>
    let result := FRAME_receiveFrame e.recv.buffer rd e.recv.malloc_ok
    if result.error_code ≠ .FRAME_SUCCESS then
      some (if result.error_code = .FRAME_DISCONNECTED then REMOTE_END_DISCONNECTION
        else UNEXPECTED_ERROR, distorted_file)
    else
      match result.frame with
      | none => none
      | some response_frame =>
        if response_frame.type = 0x04 then
          if !e.data_dup_ok then some (UNEXPECTED_ERROR, distorted_file)
          else
            let data_buffer := cstring (response_frame.data ++ e.beyond)
            let tok := strtok data_buffer (str "&")
            match tok.1 with
            | none => none
            | some filesize_str =>
              let distorted_file := { distorted_file with filesize := atoi filesize_str }
              match (strtok tok.2 (str "&")).1 with
              | none => none
              | some md5 =>
                let distorted_file :=
                  { distorted_file with md5sum := if e.md5_dup_ok then some md5 else none }
                let distorted_file :=
                  { distorted_file with
                    n_packets := Int.tdiv distorted_file.filesize (DATA_SIZE : Nat) }
                let distorted_file :=
                  if Int.tmod distorted_file.filesize (DATA_SIZE : Nat) ≠ 0 then
                    { distorted_file with n_packets := distorted_file.n_packets + 1 }
                  else distorted_file
                let distorted_file := { distorted_file with n_processed_packets := 0 }
                some (TRANSFER_SUCCESS, distorted_file)
        else some (UNEXPECTED_ERROR, distorted_file)

end Fleck

/-- Function `CONTEXT_initDistortionProgress` of the worker (context.c 162-178): the
return value and the context after the call. -/
def CONTEXT_initDistortionProgress (distortion_context : DistortionContext)
    (current_stage n_processed_packets : Int) : Int × DistortionContext :=
  let distortion_context := { distortion_context with current_stage := current_stage }
  let total_packets := Int.tdiv distortion_context.filesize (DATA_SIZE : Nat)
  let total_packets :=
    if Int.tmod distortion_context.filesize (DATA_SIZE : Nat) ≠ 0 then total_packets + 1
    else total_packets
  let distortion_context := { distortion_context with n_packets := total_packets }
  let distortion_context :=
    { distortion_context with n_processed_packets := n_processed_packets }
  (1, distortion_context)

/-- A context with every field zero or NULL. -/
def emptyContext : DistortionContext :=
  { file_path := none, filename := none, username := none, md5sum := none, filesize := 0,
    factor := 0, current_stage := 0, n_packets := 0, n_processed_packets := 0 }

/-- Surroundings of a `DIST_setupDistortionContext` call in which every call
succeeds, for a file of `filesize` bytes. -/
def exampleSetup (filesize : Int) : SetupEnv :=
  { file_path := some (str "./a/b.txt"), filename_dup_ok := true, filesize := filesize,
    md5sum := some (str "0123456789abcdef0123456789abcdef"), username_dup_ok := true }

/-- Surroundings of a `COMM_retrieveFileMetadata` call of the client in which
the socket delivers the write `wr` and every local call succeeds. -/
def exampleMetadata (wr : SockWrite) : MetadataEnv :=
  { recv := { buffer := List.replicate FRAME_SIZE 0,
              read := some { ret := FRAME_SIZE, errno := 0, bytes := wr.bytes },
              malloc_ok := true },
    beyond := [], data_dup_ok := true, md5_dup_ok := true }

/-- The write of the frame `FRAME_createFrame(type, s, strlen(s))` stamped with
time 0, from a zeroed buffer. -/
def exampleFrameWrite (type : Int) (s : List Nat) : SockWrite :=
  { bytes := FRAME_serializeFrame
      ((FRAME_createFrame true 0 type (some (s ++ [0])) s.length).getD
        { type := 0, data_length := 0, data := [], checksum := 0, timestamp := 0 })
      (List.replicate FRAME_SIZE 0),
    ret := FRAME_SIZE }

/-! ## The registry: rosters, joins, removals and election

`types.h`, `typeGotham.h`, `src/Libs/LinkedList/workerLinkedList.c`,
`src/Libs/LinkedList/fleckLinkedList.c`, `src/Gotham/Modules/MC/manage_client.c` and
`src/Gotham/Modules/Communication/communication.c`.  Functions of the registry
program are in the namespace `Gotham`, after their directory.

The headers `workerLinkedList.h` and `fleckLinkedList.h` are not among the
sources: the list types below have the fields the functions of the two `.c`
files use, and the error codes are the names these functions assign.

A list is a chain of nodes behind a phantom head node, with a pointer
`previous` into the chain.  The embedding keeps the elements of the chain in
order, and for `previous` the number of nodes between the head and the node it
points to (0 for the head itself), so that `previous->next` holds the element
of that index.  No function frees the node `previous` points to.

Conventions for this part: the values `rand()` returns are an argument, in the
order of the calls; a function that sends frames returns the `write` calls it
made, each with its socket; `close`, the messages printed on the terminal and
the log entries written through `writeLog` are left out; `realloc` and the
`strdup` calls whose result the code does not test are taken to return a
block; counters of workers stay far below 2^31. -/

/-- The struct `Worker` of `types.h`, which the list code names `WorkerElement`. -/
structure WorkerElement where
  /-- Field `char* worker_type`. -/
  worker_type : List Nat
  /-- Field `char* ip`. -/
  ip : List Nat
  /-- Field `int port`. -/
  port : Int
  /-- Field `int socket_fd`. -/
  socket_fd : Int
  /-- Field `int is_main`. -/
  is_main : Int
  deriving DecidableEq

/-- The struct `Fleck` of `types.h`, which the list code names `FleckElement`. -/
structure FleckElement where
  /-- Field `char* username`. -/
  username : List Nat
  /-- Field `char* ip`. -/
  ip : List Nat
  /-- Field `int port`. -/
  port : Int
  /-- Field `int socket_fd`. -/
  socket_fd : Int
  deriving DecidableEq

/-- The error codes of the two lists. -/
inductive ListError where
  | NO_ERROR
  | ERROR_MALLOC
  | ERROR_END
  | ERROR_INDEX_OUT_OF_BOUNDS
  deriving DecidableEq

/-- The type `WorkerLinkedList`. -/
structure WorkerLinkedList where
  /-- The elements of the nodes that follow the phantom node `head`, in order. -/
  elements : List WorkerElement
  /-- The number of nodes between `head` and the node `previous` points to. -/
  previous : Nat
  /-- Field `error`. -/
  error : ListError
  deriving DecidableEq

/-- The type `FleckLinkedList`. -/
structure FleckLinkedList where
  /-- The elements of the nodes that follow the phantom node `head`, in order. -/
  elements : List FleckElement
  /-- The number of nodes between `head` and the node `previous` points to. -/
  previous : Nat
  /-- Field `error`. -/
  error : ListError
  deriving DecidableEq

/-! ### `workerLinkedList.c` -/

/-- Function `WORKER_LINKEDLIST_create` (workerLinkedList.c 37-48). -/
def WORKER_LINKEDLIST_create (malloc_ok : Bool) : WorkerLinkedList :=
  if malloc_ok then { elements := [], previous := 0, error := .NO_ERROR }
  else { elements := [], previous := 0, error := .ERROR_MALLOC }

/-- Function `WORKER_LINKEDLIST_isAtEnd` (workerLinkedList.c 245-247):
`previous->next == NULL`. -/
def WORKER_LINKEDLIST_isAtEnd (list : WorkerLinkedList) : Bool :=
  decide (list.elements.length ≤ list.previous)

/-- Function `WORKER_LINKEDLIST_add` (workerLinkedList.c 66-77): the new node goes
behind the node `previous` points to, and `previous` moves to it. -/
def WORKER_LINKEDLIST_add (malloc_ok : Bool) (list : WorkerLinkedList)
    (element : WorkerElement) : WorkerLinkedList :=
  if malloc_ok then
    { elements := list.elements.take list.previous ++ element ::
        list.elements.drop list.previous,
      previous := list.previous + 1, error := .NO_ERROR }
  else { list with error := .ERROR_MALLOC }

/-- Function `WORKER_LINKEDLIST_remove` (workerLinkedList.c 94-106): the node behind
`previous` leaves the chain. -/
def WORKER_LINKEDLIST_remove (list : WorkerLinkedList) : WorkerLinkedList :=
  if WORKER_LINKEDLIST_isAtEnd list then { list with error := .ERROR_END }
  else { list with elements := list.elements.eraseIdx list.previous, error := .NO_ERROR }

/-- Function `WORKER_LINKEDLIST_get` (workerLinkedList.c 123-132): the list after the
call and the element returned, `none` for the uninitialised element returned
at the end of the list. -/
def WORKER_LINKEDLIST_get (list : WorkerLinkedList) :
    WorkerLinkedList × Option WorkerElement :=
  if WORKER_LINKEDLIST_isAtEnd list then ({ list with error := .ERROR_END }, none)
  else ({ list with error := .NO_ERROR }, list.elements[list.previous]?)

/-- Function `WORKER_LINKEDLIST_getPointer` (workerLinkedList.c 150-158): the list after
the call and the pointer returned, as the index of the element it points to;
`none` for NULL. -/
def WORKER_LINKEDLIST_getPointer (list : WorkerLinkedList) :
    WorkerLinkedList × Option Nat :=
  if WORKER_LINKEDLIST_isAtEnd list then ({ list with error := .ERROR_END }, none)
  else ({ list with error := .NO_ERROR }, some list.previous)

/-- Function `WORKER_LINKEDLIST_goToHead` (workerLinkedList.c 196-198). -/
def WORKER_LINKEDLIST_goToHead (list : WorkerLinkedList) : WorkerLinkedList :=
  { list with previous := 0 }

/-- Function `WORKER_LINKEDLIST_next` (workerLinkedList.c 217-224). -/
def WORKER_LINKEDLIST_next (list : WorkerLinkedList) : WorkerLinkedList :=
  if WORKER_LINKEDLIST_isAtEnd list then { list with error := .ERROR_END }
  else { list with previous := list.previous + 1, error := .NO_ERROR }

/-- Function `WORKER_LINKEDLIST_length` (workerLinkedList.c 318-326): the function walks
a copy of the list from the head to the end and counts the nodes behind the
head. -/
def WORKER_LINKEDLIST_length (list : WorkerLinkedList) : Int :=
  (list.elements.length : Int)

/-- Function `WORKER_LINKEDLIST_gotoIndex` (workerLinkedList.c 344-356). -/
def WORKER_LINKEDLIST_gotoIndex (list : WorkerLinkedList) (index : Int) : WorkerLinkedList :=
  if index < 0 ∨ index ≥ WORKER_LINKEDLIST_length list then
    { list with error := .ERROR_INDEX_OUT_OF_BOUNDS }
  else
    let list := WORKER_LINKEDLIST_goToHead list
    let list := (List.range index.toNat).foldl (fun l _ => WORKER_LINKEDLIST_next l) list
    { list with error := .NO_ERROR }

/-! ### `fleckLinkedList.c` -/

/-- Function `FLECK_LINKEDLIST_create` (fleckLinkedList.c). -/
def FLECK_LINKEDLIST_create (malloc_ok : Bool) : FleckLinkedList :=
  if malloc_ok then { elements := [], previous := 0, error := .NO_ERROR }
  else { elements := [], previous := 0, error := .ERROR_MALLOC }

/-- Function `FLECK_LINKEDLIST_isAtEnd` (fleckLinkedList.c): `previous->next == NULL`. -/
def FLECK_LINKEDLIST_isAtEnd (list : FleckLinkedList) : Bool :=
  decide (list.elements.length ≤ list.previous)

/-- Function `FLECK_LINKEDLIST_add` (fleckLinkedList.c). -/
def FLECK_LINKEDLIST_add (malloc_ok : Bool) (list : FleckLinkedList)
    (element : FleckElement) : FleckLinkedList :=
  if malloc_ok then
    { elements := list.elements.take list.previous ++ element ::
        list.elements.drop list.previous,
      previous := list.previous + 1, error := .NO_ERROR }
  else { list with error := .ERROR_MALLOC }

/-- Function `FLECK_LINKEDLIST_remove` (fleckLinkedList.c). -/
def FLECK_LINKEDLIST_remove (list : FleckLinkedList) : FleckLinkedList :=
  if FLECK_LINKEDLIST_isAtEnd list then { list with error := .ERROR_END }
  else { list with elements := list.elements.eraseIdx list.previous, error := .NO_ERROR }

/-- Function `FLECK_LINKEDLIST_get` (fleckLinkedList.c): the list after the call and the
element returned, `none` for the uninitialised element returned at the end of
the list. -/
def FLECK_LINKEDLIST_get (list : FleckLinkedList) : FleckLinkedList × Option FleckElement :=
  if FLECK_LINKEDLIST_isAtEnd list then ({ list with error := .ERROR_END }, none)
  else ({ list with error := .NO_ERROR }, list.elements[list.previous]?)

/-- Function `FLECK_LINKEDLIST_goToHead` (fleckLinkedList.c). -/
def FLECK_LINKEDLIST_goToHead (list : FleckLinkedList) : FleckLinkedList :=
  { list with previous := 0 }

/-- Function `FLECK_LINKEDLIST_next` (fleckLinkedList.c). -/
def FLECK_LINKEDLIST_next (list : FleckLinkedList) : FleckLinkedList :=
  if FLECK_LINKEDLIST_isAtEnd list then { list with error := .ERROR_END }
  else { list with previous := list.previous + 1, error := .NO_ERROR }

/-! ### `typeGotham.h` -/

/-- The struct `Client` of `typeGotham.h`. -/
structure Client where
  /-- Field `int socket_fd`. -/
  socket_fd : Int
  /-- Field `char type`: `'f'` for a client program, `'w'` for a worker. -/
  type : Nat
  deriving DecidableEq

/-- The struct `GothamServer` of `typeGotham.h`.  The array `clients` is the list
of its `n_clients` elements; the set `active_fds` is the list of the
descriptors in it. -/
structure GothamServer where
  /-- Field `int fleck_listen_socket`. -/
  fleck_listen_socket : Int
  /-- Field `int worker_listen_socket`. -/
  worker_listen_socket : Int
  /-- Fields `int n_clients` and `Client* clients`. -/
  clients : List Client
  /-- Field `int max_fd`. -/
  max_fd : Int
  /-- Field `fd_set active_fds`. -/
  active_fds : List Int
  /-- Field `int n_enigmas`: the count of workers of class Text. -/
  n_enigmas : Int
  /-- Field `int n_harleys`: the count of workers of class Media. -/
  n_harleys : Int
  /-- Field `FleckLinkedList fleck_list`. -/
  fleck_list : FleckLinkedList
  /-- Field `WorkerLinkedList worker_list`. -/
  worker_list : WorkerLinkedList
  /-- Field `int fd_log`. -/
  fd_log : Int
  deriving DecidableEq

/-- What a removal obtains from the calls it makes. -/
structure RemoveEnv where
  /-- Whether `strdup(worker.ip)` (or `strdup(fleck.ip)`) returns a copy. -/
  ip_dup_ok : Bool
  /-- Whether `strdup` of the name of the kind of peer returns a copy. -/
  type_dup_ok : Bool
  /-- The values the calls of `rand()` return, in order. -/
  draws : List Nat
  /-- Surroundings of `FRAME_createFrame(0x08, "", 0)`. -/
  create : CreateEnv
  /-- Surroundings of `FRAME_sendFrame` for that frame. -/
  send : SendEnv
  /-- Whether `asprintf` builds the log text in `MC_removeClient`. -/
  asprintf_ok : Bool

/-- The values `MC_removeClient` receives through the pointers `port`, `ip` and
`type`. -/
structure RemovedPeer where
  /-- The variable `int port`. -/
  port : Int
  /-- The variable `char *ip`. -/
  ip : Option (List Nat)
  /-- The variable `char *type`. -/
  type : Option (List Nat)
  deriving DecidableEq

namespace Gotham

/-! ### `src/Gotham/Modules/Communication/communication.c` -/

/-- Function `COMM_sendNewMainWorkerResponse` (Gotham communication.c 29-40): the `write`
made on the socket, if any. -/
def COMM_sendNewMainWorkerResponse (c : CreateEnv) (s : SendEnv) (client_socket : Int) :
    List (Int × SockWrite) :=
  let response_frame := FRAME_createFrame c.malloc_ok c.now 0x08 (some [0]) 0
  (FRAME_sendFrame s.buffer s.write_ret response_frame).written.toList.map
    (fun w => (client_socket, w))

/-- Function `COMM_sendDistortResponse` (Gotham communication.c 80-94): the `write` made
on the socket, if any.  Both branches on `is_valid` build the same frame. -/
def COMM_sendDistortResponse (c : CreateEnv) (s : SendEnv) (client_socket : Int)
    (string : List Nat) (is_valid : Int) (type : Int) : List (Int × SockWrite) :=
  let response_frame :=
    if is_valid ≠ 0 then FRAME_createFrame c.malloc_ok c.now type (some (string ++ [0]))
      string.length
    else FRAME_createFrame c.malloc_ok c.now type (some (string ++ [0])) string.length
  (FRAME_sendFrame s.buffer s.write_ret response_frame).written.toList.map
    (fun w => (client_socket, w))

/-! ### `src/Gotham/Modules/MC/manage_client.c` -/

/-- Function `MC_updateMaxFD` (manage_client.c 31-40). -/
def MC_updateMaxFD (server : GothamServer) : GothamServer :=
  let max_fd :=
    if server.fleck_listen_socket > server.worker_listen_socket then
      server.fleck_listen_socket
    else server.worker_listen_socket
  { server with
    max_fd := server.clients.foldl
      (fun max_fd c => if c.socket_fd > max_fd then c.socket_fd else max_fd) max_fd }

/-- Function `MC_addWorkerToServer` (manage_client.c 114-141): the return value and the
server after the call.  `garbage` is the indeterminate value of the local
`new_worker.is_main`, which the function does not assign for a worker type
other than "Text" and "Media" (and not at all when an argument is NULL);
`malloc_ok` is for the `malloc` of `WORKER_LINKEDLIST_add`. -/
def MC_addWorkerToServer (malloc_ok : Bool) (garbage : Int) (server : GothamServer)
    (client_socket : Int) (worker_type ip_address port_str : Option (List Nat)) :
    Int × GothamServer :=
  match worker_type, ip_address, port_str with
  | some worker_type, some ip_address, some port_str =>
    let port := atoi port_str
    let r : Int × GothamServer :=
      if strcmp worker_type (str "Text") = 0 then
        (if server.n_enigmas = 0 then 1 else 0,
          { server with n_enigmas := server.n_enigmas + 1 })
      else if strcmp worker_type (str "Media") = 0 then
        (if server.n_harleys = 0 then 1 else 0,
          { server with n_harleys := server.n_harleys + 1 })
      else (garbage, server)
    let new_worker : WorkerElement :=
      { worker_type := worker_type, ip := ip_address, port := port,
        socket_fd := client_socket, is_main := r.1 }
    let server := r.2
    let server :=
      { server with
        worker_list := WORKER_LINKEDLIST_add malloc_ok server.worker_list new_worker }
    (new_worker.is_main, server)
  | _, _, _ => (garbage, server)

/-- Function `MC_removeClientSocket` (manage_client.c 156-180): the first element of
the array with this socket leaves the array and the set of descriptors. -/
def MC_removeClientSocket (server : GothamServer) (client_socket : Int) : GothamServer :=
  match server.clients.findIdx? (fun c => decide (c.socket_fd = client_socket)) with
  | none => server
  | some i =>
    { server with
      active_fds := server.active_fds.filter (fun fd => decide (fd ≠ client_socket)),
      clients := server.clients.eraseIdx i }

/-- Function `MC_canAssignNewMain` (manage_client.c 196-202). -/
def MC_canAssignNewMain (server : GothamServer) (worker_type : List Nat) : Int :=
  if (strcmp worker_type (str "Text") = 0 ∧ server.n_enigmas = 0) ∨
      (strcmp worker_type (str "Media") = 0 ∧ server.n_harleys = 0) then 0
  else 1

/-- The loop of `MC_assignNewMainWorker` (manage_client.c 227-243) on the values
`rand()` returns: the server after the call and the frames sent; `none` when
the loop has not ended after the last of these values (the call keeps
drawing), and when `rand() % total_workers` divides by zero. -/
def MC_assignNewMainWorker_loop (e : RemoveEnv) (worker_type : List Nat)
    (total_workers : Int) :
    List Nat → GothamServer → Option (GothamServer × List (Int × SockWrite))
  | [], _ => none
  | r :: draws, server =>
    if total_workers = 0 then none
    else
      let random_index := Int.tmod (r : Int) total_workers
      let server :=
        { server with
          worker_list := WORKER_LINKEDLIST_gotoIndex server.worker_list random_index }
      if server.worker_list.error ≠ .NO_ERROR then some (server, [])
      else
        let p := WORKER_LINKEDLIST_getPointer server.worker_list
        let server := { server with worker_list := p.1 }
        match p.2 with
        | none => MC_assignNewMainWorker_loop e worker_type total_workers draws server
        | some i =>
          match server.worker_list.elements[i]? with
          | none => MC_assignNewMainWorker_loop e worker_type total_workers draws server
          | some new_main_worker =>
            if strcmp new_main_worker.worker_type worker_type = 0 then
              let server :=
                { server with
                  worker_list :=
                    { server.worker_list with
                      elements := server.worker_list.elements.set i
                        { new_main_worker with is_main := 1 } } }
              some (server,
                COMM_sendNewMainWorkerResponse e.create e.send new_main_worker.socket_fd)
            else MC_assignNewMainWorker_loop e worker_type total_workers draws server

/-- Function `MC_assignNewMainWorker` (manage_client.c 216-244). -/
def MC_assignNewMainWorker (e : RemoveEnv) (server : GothamServer) (worker_type : List Nat) :
    Option (GothamServer × List (Int × SockWrite)) :=
  if MC_canAssignNewMain server worker_type = 0 then some (server, [])
  else
    let total_workers := server.n_enigmas + server.n_harleys
    MC_assignNewMainWorker_loop e worker_type total_workers e.draws server

/-- The loop of `MC_removeWorkerFromList` (manage_client.c 294-339).  The first
argument is the number of nodes not yet visited: when none is left the test of
the loop fails. -/
def MC_removeWorkerFromList_loop (e : RemoveEnv) (client_socket : Int) :
    Nat → GothamServer → RemovedPeer →
    Option (GothamServer × RemovedPeer × List (Int × SockWrite))
  | 0, server, out => some (server, out, [])
  | fuel + 1, server, out =>
    if WORKER_LINKEDLIST_isAtEnd server.worker_list then some (server, out, [])
    else
      let g := WORKER_LINKEDLIST_get server.worker_list
      let server := { server with worker_list := g.1 }
      match g.2 with
      | none => some (server, out, [])
      | some worker =>
        if worker.socket_fd = client_socket then
          if strcmp worker.worker_type (str "Text") = 0 then
            let server := { server with n_enigmas := server.n_enigmas - 1 }
            let out := { out with port := worker.port }
            if !e.ip_dup_ok then some (server, { out with ip := none }, [])
            else
              let out := { out with ip := some worker.ip }
              if !e.type_dup_ok then some (server, { out with type := none }, [])
              else
                let out := { out with type := some (str "Enigma") }
                let server :=
                  { server with worker_list := WORKER_LINKEDLIST_remove server.worker_list }
                if worker.is_main ≠ 0 then
                  (MC_assignNewMainWorker e server (str "Text")).map
                    (fun r => (r.1, out, r.2))
                else some (server, out, [])
          else if strcmp worker.worker_type (str "Media") = 0 then
            let server := { server with n_harleys := server.n_harleys - 1 }
            let out := { out with port := worker.port }
            if !e.ip_dup_ok then some (server, { out with ip := none }, [])
            else
              let out := { out with ip := some worker.ip }
              if !e.type_dup_ok then some (server, { out with type := none }, [])
              else
                let out := { out with type := some (str "Harley") }
                let server :=
                  { server with worker_list := WORKER_LINKEDLIST_remove server.worker_list }
                if worker.is_main ≠ 0 then
                  (MC_assignNewMainWorker e server (str "Media")).map
                    (fun r => (r.1, out, r.2))
                else some (server, out, [])
          else
            let server :=
              { server with worker_list := WORKER_LINKEDLIST_remove server.worker_list }
            if worker.is_main ≠ 0 then
              (MC_assignNewMainWorker e server (str "Media")).map (fun r => (r.1, out, r.2))
            else some (server, out, [])
        else
          MC_removeWorkerFromList_loop e client_socket fuel
            { server with worker_list := WORKER_LINKEDLIST_next server.worker_list } out

/-- Function `MC_removeWorkerFromList` (manage_client.c 291-340): the server, the values
of `*port`, `*ip` and `*type` and the frames sent; `none` when the election
keeps drawing. -/
def MC_removeWorkerFromList (e : RemoveEnv) (server : GothamServer) (client_socket : Int)
    (out : RemovedPeer) : Option (GothamServer × RemovedPeer × List (Int × SockWrite)) :=
  let server :=
    { server with worker_list := WORKER_LINKEDLIST_goToHead server.worker_list }
  MC_removeWorkerFromList_loop e client_socket server.worker_list.elements.length server out

/-- The loop of `MC_removeFleckFromList` (manage_client.c 357-379).  The first
argument is the number of nodes not yet visited. -/
def MC_removeFleckFromList_loop (e : RemoveEnv) (client_socket : Int) :
    Nat → GothamServer → RemovedPeer → GothamServer × RemovedPeer
  | 0, server, out => (server, out)
  | fuel + 1, server, out =>
    if FLECK_LINKEDLIST_isAtEnd server.fleck_list then (server, out)
    else
      let g := FLECK_LINKEDLIST_get server.fleck_list
      let server := { server with fleck_list := g.1 }
      match g.2 with
      | none => (server, out)
      | some fleck =>
        if fleck.socket_fd = client_socket then
          let out := { out with port := fleck.port }
          if !e.ip_dup_ok then (server, { out with ip := none })
          else
            let out := { out with ip := some fleck.ip }
            if !e.type_dup_ok then (server, { out with type := none })
            else
              let out := { out with type := some (str "Fleck") }
              ({ server with fleck_list := FLECK_LINKEDLIST_remove server.fleck_list }, out)
        else
          MC_removeFleckFromList_loop e client_socket fuel
            { server with fleck_list := FLECK_LINKEDLIST_next server.fleck_list } out

/-- Function `MC_removeFleckFromList` (manage_client.c 355-380). -/
def MC_removeFleckFromList (e : RemoveEnv) (server : GothamServer) (client_socket : Int)
    (out : RemovedPeer) : GothamServer × RemovedPeer :=
  let server := { server with fleck_list := FLECK_LINKEDLIST_goToHead server.fleck_list }
  MC_removeFleckFromList_loop e client_socket server.fleck_list.elements.length server out

/-- Function `MC_removeClient` (manage_client.c 394-428): the server after the call and
the frames sent; `none` when the election keeps drawing. -/
def MC_removeClient (e : RemoveEnv) (server : GothamServer) (client_socket : Int)
    (client_type : Nat) : Option (GothamServer × List (Int × SockWrite)) :=
  let out : RemovedPeer := { port := 0, ip := none, type := none }
  let server := MC_removeClientSocket server client_socket
  let r : Option (GothamServer × RemovedPeer × List (Int × SockWrite)) :=
    if client_type = 102 then
      let f := MC_removeFleckFromList e server client_socket out
      some (f.1, f.2, [])
    else if client_type = 119 then MC_removeWorkerFromList e server client_socket out
    else some (server, out, [])
  match r with
  | none => none
  | some (server, _, sent) =>
    if !e.asprintf_ok then some (server, sent)
    else some (MC_updateMaxFD server, sent)

end Gotham

/-! ## The registry: job-dispatch queries

`src/Gotham/Modules/Handle/handle.c`, `src/Libs/File/file.c` and the extension
tables of `src/Libs/IO/io.c`. -/

/-- The table `audioExtensions` (io.c 19). -/
def audioExtensions : List (List Nat) := [str "wav"]

/-- The table `imageExtensions` (io.c 20). -/
def imageExtensions : List (List Nat) :=
  [str "png", str "jpg", str "jpeg", str "bmp", str "tga"]

/-- Function `FILE_getFileExtension` (file.c 211-217). -/
def FILE_getFileExtension (filename : List Nat) : List Nat :=
  match strrchr filename 46 with
  | none => []
  | some dot => if dot = 0 then [] else filename.drop (dot + 1)

/-- What the handling of a job-dispatch query obtains from the calls it makes. -/
structure RequestEnv where
  /-- Bytes that follow `result.frame->data` in memory; `strdup` reaches them
  when the data array holds no NUL. -/
  beyond : List Nat
  /-- Whether `strdup((char *)result.frame->data)` returns a copy. -/
  data_dup_ok : Bool
  /-- Whether `asprintf` builds the text `ip&port`. -/
  asprintf_ok : Bool
  /-- Surroundings of `FRAME_createFrame` for the reply. -/
  create : CreateEnv
  /-- Surroundings of `FRAME_sendFrame` for the reply. -/
  send : SendEnv

namespace Gotham

/-- The loop of `HANDLE_provideFleckMainWorkerDetails` (handle.c 41-55): the server
after the loop and, when an entry was found, its `ip` and `port`.  The first
argument is the number of nodes not yet visited. -/
def HANDLE_provideFleckMainWorkerDetails_loop (mediaType : List Nat) :
    Nat → GothamServer → GothamServer × Option (List Nat × Int)
  | 0, server => (server, none)
  | fuel + 1, server =>
    if WORKER_LINKEDLIST_isAtEnd server.worker_list then (server, none)
    else
      let g := WORKER_LINKEDLIST_get server.worker_list
      let server := { server with worker_list := g.1 }
      match g.2 with
      | none => (server, none)
      | some worker =>
        if strcmp worker.worker_type mediaType = 0 ∧ worker.is_main ≠ 0 then
          (server, some (worker.ip, worker.port))
        else
          HANDLE_provideFleckMainWorkerDetails_loop mediaType fuel
            { server with worker_list := WORKER_LINKEDLIST_next server.worker_list }

/-- Function `HANDLE_provideFleckMainWorkerDetails` (handle.c 34-79): the server after
the call and the frames sent. -/
def HANDLE_provideFleckMainWorkerDetails (e : RequestEnv) (server : GothamServer)
    (client_socket : Int) (mediaType : List Nat) (type : Int) :
    GothamServer × List (Int × SockWrite) :=
  let server :=
    { server with worker_list := WORKER_LINKEDLIST_goToHead server.worker_list }
  let r := HANDLE_provideFleckMainWorkerDetails_loop mediaType
    server.worker_list.elements.length server
  match r.2 with
  | some (worker_ip, worker_port) =>
    if !e.asprintf_ok then (r.1, [])
    else
      let data := worker_ip ++ str "&" ++ decimal worker_port
      (r.1, COMM_sendDistortResponse e.create e.send client_socket data 1 type)
  | none =>
    (r.1, COMM_sendDistortResponse e.create e.send client_socket (str "DISTORT_KO") 0 type)

/-- Function `HANDLE_validateAttributesDistortRequest` (handle.c 97-146): the return value
and the value of `*fileName`; `none` when the function dereferences the NULL
pointer `strtok` returned for `mediaType`. -/
def HANDLE_validateAttributesDistortRequest (data_buffer : List Nat) :
    Option (Int × Option (List Nat)) :=
  let tok := strtok data_buffer (str "&")
  let fileName := (strtok tok.2 (str "&")).1
  match tok.1 with
  | none => none
  | some mediaType =>
    if mediaType.head? = none ∨ fileName = none then some (0, fileName)
    else if strcmp mediaType (str "Media") ≠ 0 ∧ strcmp mediaType (str "Text") ≠ 0 then
      some (0, fileName)
    else
      match fileName with
      | none => some (0, fileName)
      | some name =>
        let dot := strrchr name 46
        if dot = none ∨ dot = some 0 then some (0, fileName)
        else
          let extension := FILE_getFileExtension name
          if strcmp mediaType (str "Media") = 0 then
            if audioExtensions.any (fun x => decide (strcmp extension x = 0)) then
              some (1, fileName)
            else if imageExtensions.any (fun x => decide (strcmp extension x = 0)) then
              some (1, fileName)
            else some (0, fileName)
          else if strcmp mediaType (str "Text") = 0 ∧ strcmp extension (str "txt") = 0 then
            some (2, fileName)
          else some (0, fileName)

/-- The loop of `HANDLE_getUsernameFromSocket` (handle.c 162-170).  The first argument
is the number of nodes not yet visited. -/
def HANDLE_getUsernameFromSocket_loop (client_socket : Int) :
    Nat → GothamServer → GothamServer × Option (List Nat)
  | 0, server => (server, none)
  | fuel + 1, server =>
    if FLECK_LINKEDLIST_isAtEnd server.fleck_list then (server, none)
    else
      let g := FLECK_LINKEDLIST_get server.fleck_list
      let server := { server with fleck_list := g.1 }
      match g.2 with
      | none => (server, none)
      | some fleck =>
        if fleck.socket_fd = client_socket then (server, some fleck.username)
        else
          HANDLE_getUsernameFromSocket_loop client_socket fuel
            { server with fleck_list := FLECK_LINKEDLIST_next server.fleck_list }

/-- Function `HANDLE_getUsernameFromSocket` (handle.c 160-171): the server after the call
and the pointer returned, `none` for NULL. -/
def HANDLE_getUsernameFromSocket (server : GothamServer) (client_socket : Int) :
    GothamServer × Option (List Nat) :=
  let server := { server with fleck_list := FLECK_LINKEDLIST_goToHead server.fleck_list }
  HANDLE_getUsernameFromSocket_loop client_socket server.fleck_list.elements.length server

/-- Function `HANDLE_handleDistortionRequest` (handle.c 187-240): the server after the call
and the frames sent; `none` when the call passes a NULL pointer to `strdup` or
dereferences one. -/
def HANDLE_handleDistortionRequest (e : RequestEnv) (server : GothamServer)
    (client_socket : Int) (result : FrameResult) (type : Int) :
    Option (GothamServer × List (Int × SockWrite)) :=
  match result.frame with
  | none => none
  | some frame =>
    if !e.data_dup_ok then
      some (server,
        COMM_sendDistortResponse e.create e.send client_socket (str "MEDIA_KO") 0 type)
    else
      let data_buffer := cstring (frame.data ++ e.beyond)
      let u := HANDLE_getUsernameFromSocket server client_socket
      let server := u.1
      match u.2 with
      | none => none
      | some _ =>
        match HANDLE_validateAttributesDistortRequest data_buffer with
        | none => none
        | some (valid, _) =>
          if valid = 0 then
            some (server,
              COMM_sendDistortResponse e.create e.send client_socket (str "MEDIA_KO") 0 type)
          else if valid = 1 then
            some (HANDLE_provideFleckMainWorkerDetails e server client_socket (str "Media") type)
          else if valid = 2 then
            some (HANDLE_provideFleckMainWorkerDetails e server client_socket (str "Text") type)
          else some (server, [])

end Gotham

/-! ## Properties and example states of the registry -/

/-- The registry after `SRV_initGothamServer` (server.c 31-66), its calls succeeding:
both rosters empty, both counts zero. -/
def emptyServer : GothamServer :=
  { fleck_listen_socket := 3, worker_listen_socket := 4, clients := [], max_fd := 4,
    active_fds := [3, 4], n_enigmas := 0, n_harleys := 0,
    fleck_list := FLECK_LINKEDLIST_create true,
    worker_list := WORKER_LINKEDLIST_create true, fd_log := 5 }

/-- The roster entries of class `c`. -/
def rosterOfClass (server : GothamServer) (c : List Nat) : List WorkerElement :=
  server.worker_list.elements.filter (fun w => decide (w.worker_type = c))

/-- The roster entries of class `c` with `is_main = 1`. -/
def primariesOfClass (server : GothamServer) (c : List Nat) : List WorkerElement :=
  server.worker_list.elements.filter (fun w => decide (w.worker_type = c ∧ w.is_main = 1))

/-- The primary invariant of the worker roster: for each class at most one
entry has `is_main = 1`, and exactly one when the roster has an entry of the
class. -/
def PrimaryInvariant (server : GothamServer) : Prop :=
  ∀ c, c = str "Text" ∨ c = str "Media" →
    (primariesOfClass server c).length ≤ 1 ∧
    (rosterOfClass server c ≠ [] → (primariesOfClass server c).length = 1)

/-- One operation on the worker roster: a join (`MC_addWorkerToServer`) or a
removal (`MC_removeWorkerFromList`), with what the call obtains from its
surroundings. -/
inductive RosterOp where
  | join (malloc_ok : Bool) (garbage : Int) (client_socket : Int)
      (worker_type ip_address port_str : Option (List Nat))
  | leave (e : RemoveEnv) (client_socket : Int)

/-- The operation is a join of a worker of class Text or Media, or a removal,
and its memory allocations succeed. -/
def RosterOp.Valid : RosterOp → Prop
  | .join malloc_ok _ _ worker_type _ _ =>
    malloc_ok = true ∧ (worker_type = some (str "Text") ∨ worker_type = some (str "Media"))
  | .leave e _ => e.ip_dup_ok = true ∧ e.type_dup_ok = true

/-- The registry after one operation; `none` when the election of a removal
keeps drawing. -/
def applyRosterOp (server : GothamServer) : RosterOp → Option GothamServer
  | .join malloc_ok garbage client_socket worker_type ip_address port_str =>
    some (Gotham.MC_addWorkerToServer malloc_ok garbage server client_socket worker_type
      ip_address port_str).2
  | .leave e client_socket =>
    (Gotham.MC_removeWorkerFromList e server client_socket
      { port := 0, ip := none, type := none }).map (fun r => r.1)

/-- The registry after a sequence of operations; `none` when the election of
one of the removals keeps drawing. -/
def runRoster : GothamServer → List RosterOp → Option GothamServer
  | server, [] => some server
  | server, op :: ops =>
    match applyRosterOp server op with
    | none => none
    | some server => runRoster server ops

/-- Surroundings of a removal in which every local call succeeds, buffers start
zeroed and the clock reads 0, for the values `draws` of `rand()`. -/
def exampleRemove (draws : List Nat) : RemoveEnv :=
  { ip_dup_ok := true, type_dup_ok := true, draws := draws,
    create := { malloc_ok := true, now := 0 },
    send := { buffer := List.replicate FRAME_SIZE 0, write_ret := FRAME_SIZE },
    asprintf_ok := true }

/-- A join of a worker of class `c` on the socket `fd`, its calls succeeding. -/
def exampleJoin (fd : Int) (c : String) : RosterOp :=
  .join true 0 fd (some (str c)) (some (str "10.0.0.1")) (some (decimal (9000 + fd)))

/-- The text `ext` is what follows the last dot of `name`, and that dot is not
the first character of `name`: `name` ends with a dot followed by `ext`, `ext`
holds no dot, and something precedes the dot. -/
def HasExtension (name ext : List Nat) : Prop :=
  (46 :: ext) <:+ name ∧ 46 ∉ ext ∧ ext.length + 1 < name.length

instance (name ext : List Nat) : Decidable (HasExtension name ext) := by
  unfold HasExtension
  infer_instance

/-- The extensions of class Media in the extension table of the spec. -/
def mediaExtensions : List (List Nat) :=
  [str "wav", str "png", str "jpg", str "jpeg", str "bmp", str "tga"]

/-- The verdict the extension table of the spec gives for the class `cls` and
the file name `name`: 2 for an accepted Text request, 1 for an accepted Media
request, 0 for a rejected request. -/
def tableVerdict (cls name : List Nat) : Int :=
  if cls = str "Text" ∧ HasExtension name (str "txt") then 2
  else if cls = str "Media" ∧ ∃ ext ∈ mediaExtensions, HasExtension name ext then 1
  else 0

/-- The number of roster entries of class `c`. -/
def classCount (elements : List WorkerElement) (c : List Nat) : Nat :=
  elements.countP (fun w => decide (w.worker_type = c))

/-- The number of roster entries of class `c` with `is_main = 1`. -/
def primaryCount (elements : List WorkerElement) (c : List Nat) : Nat :=
  elements.countP (fun w => decide (w.worker_type = c ∧ w.is_main = 1))

/-- A roster in order: every entry is of class Text or Media with `is_main` 0
or 1, the two counts of the server are the numbers of entries of the two
classes, and each class that has an entry has exactly one with `is_main = 1`. -/
def RosterInvariant (server : GothamServer) : Prop :=
  (∀ w ∈ server.worker_list.elements,
    (w.worker_type = str "Text" ∨ w.worker_type = str "Media") ∧
    (w.is_main = 0 ∨ w.is_main = 1)) ∧
  server.n_enigmas = classCount server.worker_list.elements (str "Text") ∧
  server.n_harleys = classCount server.worker_list.elements (str "Media") ∧
  (∀ c, c = str "Text" ∨ c = str "Media" →
    primaryCount server.worker_list.elements c =
      if classCount server.worker_list.elements c = 0 then 0 else 1)

/-- The entry an election of class `c` settles on: the first of the values
`rand() % total` that is the index of a roster entry of class `c`; `none` when
none of the values is. -/
def electedIndex (elements : List WorkerElement) (c : List Nat) (total : Int) :
    List Nat → Option Nat
  | [] => none
  | r :: draws =>
    match elements[(Int.tmod (r : Int) total).toNat]? with
    | some w =>
      if w.worker_type = c then some (Int.tmod (r : Int) total).toNat
      else electedIndex elements c total draws
    | none => electedIndex elements c total draws

/-- The roster with the entry of index `j` marked as primary. -/
def markPrimary (elements : List WorkerElement) (j : Nat) : List WorkerElement :=
  match elements[j]? with
  | some w => elements.set j { w with is_main := 1 }
  | none => elements

/-- The socket of the roster entry of index `j`. -/
def socketOf (elements : List WorkerElement) (j : Nat) : Int :=
  match elements[j]? with
  | some w => w.socket_fd
  | none => 0

/-- The server with the pointer `previous` of its worker list at position `p`
and the error code `err`. -/
def withCursor (server : GothamServer) (p : Nat) (err : ListError) : GothamServer :=
  { server with worker_list := { server.worker_list with previous := p, error := err } }

/-- The server with the entry of index `j` taken out of its worker roster and
the count of the class of that entry decreased: the state in which
`MC_removeWorkerFromList` calls the election. -/
def withoutEntry (server : GothamServer) (j : Nat) : GothamServer :=
  match server.worker_list.elements[j]? with
  | none => server
  | some w =>
    { server with
      n_enigmas := if w.worker_type = str "Text" then server.n_enigmas - 1 else server.n_enigmas,
      n_harleys :=
        if w.worker_type = str "Media" then server.n_harleys - 1 else server.n_harleys,
      worker_list :=
        { elements := server.worker_list.elements.eraseIdx j, previous := j,
          error := .NO_ERROR } }

/-- The index of the first roster entry with the socket `fd`. -/
def entryOfSocket (elements : List WorkerElement) (fd : Int) : Option Nat :=
  elements.findIdx? (fun w => decide (w.socket_fd = fd))

instance (op : RosterOp) : Decidable op.Valid := by
  cases op <;> unfold RosterOp.Valid <;> infer_instance

/-- A sequence of joins and removals: a Text worker, a Media worker and a
second Text worker join; the first Text worker, the primary of its class,
leaves; a second Media worker joins; the first Media worker, the primary of
its class, leaves. -/
def exampleOps : List RosterOp :=
  [exampleJoin 5 "Text", exampleJoin 6 "Media", exampleJoin 7 "Text",
    .leave (exampleRemove [0, 1]) 5, exampleJoin 8 "Media", .leave (exampleRemove [0]) 6]

/-- The registry after the operations `exampleOps`. -/
def exampleRoster : GothamServer :=
  (runRoster emptyServer exampleOps).getD emptyServer

/-- The registry after the first three operations of `exampleOps`: the two
Text workers and the Media worker have joined. -/
def exampleRosterOfThree : GothamServer :=
  (runRoster emptyServer (exampleOps.take 3)).getD emptyServer

/-- The write `wr` hands the peer a frame of type `type` whose data is the text
`s`: it took all 256 bytes, and read in full into any buffer the bytes decode,
with `FRAME_SUCCESS`, to a frame of this type and of data length `s.length`
whose data array holds `s` followed by zeros. -/
def CarriesFrame (wr : SockWrite) (type : Nat) (s : List Nat) : Prop :=
  wr.ret = FRAME_SIZE ∧ wr.bytes.length = FRAME_SIZE ∧
  ∀ rbuf e, rbuf.length = FRAME_SIZE →
    ∃ f, FRAME_receiveFrame rbuf { ret := FRAME_SIZE, errno := e, bytes := wr.bytes } true =
        { frame := some f, freed := false, error_code := .FRAME_SUCCESS } ∧
      f.type = type ∧ f.data_length = s.length ∧
      f.data = s ++ List.replicate (DATA_SIZE - s.length) 0

/-- Two states of the registry with the same worker roster (the same entries
in the same order, every `is_main` flag included) and the same counts. -/
def SameRoster (a b : GothamServer) : Prop :=
  a.worker_list.elements = b.worker_list.elements ∧ a.n_enigmas = b.n_enigmas ∧
  a.n_harleys = b.n_harleys

/-- A further disconnection event for the worker socket `fd` changes nothing:
whatever its surroundings, `MC_removeClient` returns, sends no frame and leaves
the worker roster and the counts as they are. -/
def DisconnectIsNoop (server : GothamServer) (fd : Int) : Prop :=
  ∀ e : RemoveEnv, ∃ server2, Gotham.MC_removeClient e server fd 119 = some (server2, []) ∧
    SameRoster server2 server

/-- The registry between the removal of the Text primary (socket 5) from
`exampleRosterOfThree` and the election. -/
def exampleElectionState : GothamServer := withoutEntry exampleRosterOfThree 0

/-- The roster entry that `exampleJoin fd c` adds, with the flag `is_main`. -/
def exampleWorker (fd : Int) (c : String) (is_main : Int) : WorkerElement :=
  { worker_type := str c, ip := str "10.0.0.1", port := 9000 + fd, socket_fd := fd,
    is_main := is_main }

/-- A join of a worker of class `c` on the socket `fd`, its calls succeeding,
where the local `new_worker.is_main` of `MC_addWorkerToServer` starts with the
value `garbage` (the function assigns it only for the classes Text and Media). -/
def exampleJoinGarbage (garbage : Int) (fd : Int) (c : String) : RosterOp :=
  .join true garbage fd (some (str c)) (some (str "10.0.0.1")) (some (decimal (9000 + fd)))

/-- The reply the spec prescribes for the job-dispatch query `cls&filename`:
MEDIA_KO when the extension of the file name is not supported by the class;
otherwise DISTORT_KO when the roster holds no primary worker of the class;
otherwise the text `ip&port` of the roster entry of the class with
`is_main = 1`. -/
def replyText (server : GothamServer) (cls filename : List Nat) : List Nat :=
  if tableVerdict cls filename = 0 then str "MEDIA_KO"
  else
    match server.worker_list.elements.find?
        (fun w => decide (w.worker_type = cls ∧ w.is_main = 1)) with
    | none => str "DISTORT_KO"
    | some w => w.ip ++ str "&" ++ decimal w.port

/-- A registry with the roster `exampleRosterOfThree` and one registered
client program, `alice`, on socket 9. -/
def exampleRegistry : GothamServer :=
  { exampleRosterOfThree with
    fleck_list :=
      FLECK_LINKEDLIST_add true exampleRosterOfThree.fleck_list
        { username := str "alice", ip := str "10.0.0.9", port := 8009, socket_fd := 9 } }

/-- Surroundings of the handling of a query in which every local call
succeeds, buffers start zeroed and the clock reads 0. -/
def exampleRequest : RequestEnv :=
  { beyond := [], data_dup_ok := true, asprintf_ok := true,
    create := { malloc_ok := true, now := 0 },
    send := { buffer := List.replicate FRAME_SIZE 0, write_ret := FRAME_SIZE } }

/-- The frame `FRAME_createFrame(type, s, strlen(s))` stamped with time 0. -/
def exampleFrame (type : Int) (s : List Nat) : Frame :=
  (FRAME_createFrame true 0 type (some (s ++ [0])) s.length).getD
    { type := 0, data_length := 0, data := [], checksum := 0, timestamp := 0 }

/-! ## The registry: connection requests and the frame dispatcher

`src/Gotham/Modules/Handle/handle.c` (258-430), `src/Libs/String/string.c`,
`src/Libs/Communication/communication.c` (378-394) and
`src/Gotham/Modules/MC/manage_client.c` (83-94).  As before, the messages
printed on the terminal and the log entries are left out. -/

/-- The loop of the C library function `inet_pton` for `AF_INET` on the
characters left of the text: `saw_digit` tells whether the octet under way has
a digit, `octets` counts the octets begun, `cur` is the value of the octet
under way.  Octets are decimal, at most 255, without a leading zero, and
there are four of them, separated by single dots. -/
def inet_pton4_loop : List Nat → Bool → Nat → Nat → Bool
  | [], _, octets, _ => decide (4 ≤ octets)
  | ch :: src, saw_digit, octets, cur =>
    if 48 ≤ ch ∧ ch ≤ 57 then
      let new := cur * 10 + (ch - 48)
      if saw_digit = true ∧ cur = 0 then false
      else if new > 255 then false
      else if saw_digit then inet_pton4_loop src true octets new
      else if octets + 1 > 4 then false
      else inet_pton4_loop src true (octets + 1) new
    else if ch = 46 ∧ saw_digit = true then
      if octets = 4 then false else inet_pton4_loop src false octets 0
    else false

/-- The C library function `inet_pton(AF_INET, src, dst)`: 1 when `src` is an
IPv4 address in dotted-decimal form, 0 otherwise. -/
def inet_pton (src : List Nat) : Int :=
  if inet_pton4_loop src false 0 0 then 1 else 0

/-- Function `STRING_isValidIP` (string.c 96-99). -/
def STRING_isValidIP (ip : List Nat) : Int :=
  if inet_pton ip ≠ 0 then 1 else 0

/-- Function `COMM_sendConnectionResponse` (communication.c 378-394): the `write`
made on the socket, if any; `none` when the call passes the NULL pointer
`string_err` to `strlen`. -/
def COMM_sendConnectionResponse (c : CreateEnv) (s : SendEnv) (client_socket : Int)
    (string_err : Option (List Nat)) (is_valid : Int) (type : Int) :
    Option (List (Int × SockWrite)) :=
  let response_frame : Option (Option Frame) :=
    if is_valid ≠ 0 then some (FRAME_createFrame c.malloc_ok c.now type (some [0]) 0)
    else
      match string_err with
      | none => none
      | some string_err =>
        some (FRAME_createFrame c.malloc_ok c.now type (some (string_err ++ [0]))
          string_err.length)
  response_frame.map (fun response_frame =>
    (FRAME_sendFrame s.buffer s.write_ret response_frame).written.toList.map
      (fun w => (client_socket, w)))

/-- What the handling of a connection request obtains from the calls it makes. -/
structure ConnectEnv where
  /-- Bytes that follow `result.frame->data` in memory; `strdup` reaches them
  when the data array holds no NUL. -/
  beyond : List Nat
  /-- Whether `strdup((char *)result.frame->data)` returns a copy. -/
  data_dup_ok : Bool
  /-- Surroundings of `FRAME_createFrame` for the connection response. -/
  create : CreateEnv
  /-- Surroundings of `FRAME_sendFrame` for the connection response. -/
  send : SendEnv
  /-- Whether the `malloc` of the list node returns a block. -/
  node_malloc_ok : Bool
  /-- The indeterminate value of the local `new_worker.is_main`. -/
  garbage : Int
  /-- Whether the first `asprintf` of a log text succeeds. -/
  asprintf_ok : Bool
  /-- Surroundings of `FRAME_createFrame(0x08, "", 0)`. -/
  main_create : CreateEnv
  /-- Surroundings of `FRAME_sendFrame` for that frame. -/
  main_send : SendEnv

/-- What `HANDLE_handleFrame` obtains from the calls it makes. -/
structure FrameEnv where
  /-- Surroundings of `FRAME_receiveFrame(client_socket)`. -/
  recv : RecvEnv
  /-- Surroundings of `MC_removeClient`. -/
  remove : RemoveEnv
  /-- Surroundings of `HANDLE_handleConnectionRequest`. -/
  connect : ConnectEnv
  /-- Surroundings of `HANDLE_handleDistortionRequest`. -/
  request : RequestEnv
  /-- Surroundings of `FRAME_createFrame(0x09, NULL, 0)`. -/
  err_create : CreateEnv
  /-- Surroundings of `FRAME_sendFrame` for that frame. -/
  err_send : SendEnv

namespace Gotham

/-- Function `COMM_sendErrorFrame` (Gotham communication.c 53-63): the `write` made on
the socket, if any. -/
def COMM_sendErrorFrame (c : CreateEnv) (s : SendEnv) (client_socket : Int) :
    List (Int × SockWrite) :=
  let error_frame := FRAME_createFrame c.malloc_ok c.now 0x09 none 0
  (FRAME_sendFrame s.buffer s.write_ret error_frame).written.toList.map
    (fun w => (client_socket, w))

/-- Function `MC_addFleckToServer` (manage_client.c 83-94).  `malloc_ok` is for the
`malloc` of `FLECK_LINKEDLIST_add`. -/
def MC_addFleckToServer (malloc_ok : Bool) (server : GothamServer) (client_socket : Int)
    (username ip_address port_str : Option (List Nat)) : GothamServer :=
  match username, ip_address, port_str with
  | some username, some ip_address, some port_str =>
    let new_fleck : FleckElement :=
      { username := username, ip := ip_address, port := atoi port_str,
        socket_fd := client_socket }
    { server with fleck_list := FLECK_LINKEDLIST_add malloc_ok server.fleck_list new_fleck }
  | _, _, _ => server

/-- Function `HANDLE_validateAttributesConnection` (handle.c 258-281): the return value
and the values of `*string`, `*ip_address` and `*port_str`. -/
def HANDLE_validateAttributesConnection (data_buffer : List Nat) :
    Int × Option (List Nat) × Option (List Nat) × Option (List Nat) :=
  let t1 := strtok data_buffer (str "&")
  let t2 := strtok t1.2 (str "&")
  let t3 := strtok t2.2 (str "&")
  let string := t1.1
  let ip_address := t2.1
  let port_str := t3.1
  match string, ip_address, port_str with
  | some _, some ip, some p =>
    if STRING_isValidIP ip = 0 then (0, string, ip_address, port_str)
    else
      let port := atoi p
      if port ≤ 0 ∨ port > 65535 then (0, string, ip_address, port_str)
      else (1, string, ip_address, port_str)
  | _, _, _ => (0, string, ip_address, port_str)

/-- Function `HANDLE_handleConnectionRequest` (handle.c 298-365): the server after the
call and the frames sent; `none` when the call dereferences the NULL pointer
`result.frame`. -/
def HANDLE_handleConnectionRequest (e : ConnectEnv) (server : GothamServer)
    (client_socket : Int) (result : FrameResult) (client_type : Nat) :
    Option (GothamServer × List (Int × SockWrite)) :=
  match result.frame with
  | none => none
  | some frame =>
    if !e.data_dup_ok then
      if client_type = 102 then
        (COMM_sendConnectionResponse e.create e.send client_socket (some (str "CON_KO")) 0
          0x01).map (fun sent => (server, sent))
      else
        (COMM_sendConnectionResponse e.create e.send client_socket (some (str "CON_KO")) 0
          0x02).map (fun sent => (server, sent))
    else
      let data_buffer := cstring (frame.data ++ e.beyond)
      let v := HANDLE_validateAttributesConnection data_buffer
      let valid := v.1
      let username := if client_type = 102 then v.2.1 else none
      let worker_type := if client_type = 102 then none else v.2.1
      let ip_address := v.2.2.1
      let port_str := v.2.2.2
      if valid ≠ 0 then
        if client_type = 102 then
          (COMM_sendConnectionResponse e.create e.send client_socket none 1 0x01).map
            (fun sent =>
              (MC_addFleckToServer e.node_malloc_ok server client_socket username ip_address
                port_str, sent))
        else
          (COMM_sendConnectionResponse e.create e.send client_socket none 1 0x02).map
            (fun sent =>
              let r := MC_addWorkerToServer e.node_malloc_ok e.garbage server client_socket
                worker_type ip_address port_str
              let is_main_worker := r.1
              let server := r.2
              if !e.asprintf_ok then (server, sent)
              else if is_main_worker ≠ 0 then
                (server,
                  sent ++ COMM_sendNewMainWorkerResponse e.main_create e.main_send client_socket)
              else (server, sent))
      else
        (COMM_sendConnectionResponse e.create e.send client_socket (some (str "CON_KO")) 0
          (if client_type = 102 then 0x01 else 0x02)).map (fun sent => (server, sent))

/-- Function `HANDLE_handleFrame` (handle.c 382-430): the server after the call and the
frames sent; `none` when the call does not return (nothing arrives on the
socket, the election keeps drawing, a NULL pointer is dereferenced). -/
def HANDLE_handleFrame (e : FrameEnv) (server : GothamServer) (client_socket : Int)
    (client_type : Nat) : Option (GothamServer × List (Int × SockWrite)) :=
  match e.recv.read with
  | none => none
  | some rd =>
    let result := FRAME_receiveFrame e.recv.buffer rd e.recv.malloc_ok
    if result.error_code ≠ .FRAME_SUCCESS then
      if result.error_code = .FRAME_DISCONNECTED then
        MC_removeClient e.remove server client_socket client_type
      else if result.error_code = .FRAME_RECV_ERROR then
        some (server, COMM_sendErrorFrame e.err_create e.err_send client_socket)
      else some (server, [])
    else
      match result.frame with
      | none => none
      | some frame =>
        if frame.type = 0x01 then
          HANDLE_handleConnectionRequest e.connect server client_socket result client_type
        else if frame.type = 0x02 then
          HANDLE_handleConnectionRequest e.connect server client_socket result client_type
        else if frame.type = 0x10 then
          HANDLE_handleDistortionRequest e.request server client_socket result 0x10
        else if frame.type = 0x11 then
          HANDLE_handleDistortionRequest e.request server client_socket result 0x11
        else if frame.type = 0x07 then
          MC_removeClient e.remove server client_socket client_type
        else if frame.type = 0x09 then some (server, [])
        else some (server, COMM_sendErrorFrame e.err_create e.err_send client_socket)

end Gotham

/-- Surroundings of the handling of a connection request in which every local
call succeeds, buffers start zeroed, the clock reads 0 and the indeterminate
value is `garbage`. -/
def exampleConnect (garbage : Int) : ConnectEnv :=
  { beyond := [], data_dup_ok := true,
    create := { malloc_ok := true, now := 0 },
    send := { buffer := List.replicate FRAME_SIZE 0, write_ret := FRAME_SIZE },
    node_malloc_ok := true, garbage := garbage, asprintf_ok := true,
    main_create := { malloc_ok := true, now := 0 },
    main_send := { buffer := List.replicate FRAME_SIZE 0, write_ret := FRAME_SIZE } }

/-- Surroundings of `HANDLE_handleFrame` in which `read` yields `rd`, every local
call succeeds, buffers start zeroed and the clock reads 0. -/
def exampleFrameEnv (rd : SockRead) (draws : List Nat) : FrameEnv :=
  { recv := { buffer := List.replicate FRAME_SIZE 0, read := some rd, malloc_ok := true },
    remove := exampleRemove draws, connect := exampleConnect 0, request := exampleRequest,
    err_create := { malloc_ok := true, now := 0 },
    err_send := { buffer := List.replicate FRAME_SIZE 0, write_ret := FRAME_SIZE } }

/-- The outcome of a `read` that delivers in full the bytes of the write `wr`. -/
def readOf (wr : SockWrite) : SockRead :=
  { ret := FRAME_SIZE, errno := 0, bytes := wr.bytes }

/-- The number of times `COMM_retrieveAckFrame(socket)` passes the block of the
received frame to `free` (communication.c 32-45 with frame.c 225-265): once in
`FRAME_receiveFrame` on a checksum mismatch, and once through `FRAME_destroyFrame`
when the pointer `ack_frame.frame` is not NULL. -/
def COMM_retrieveAckFrame_frees (buffer : List Nat) (rd : SockRead) (malloc_ok : Bool) : Nat :=
  let ack_frame := FRAME_receiveFrame buffer rd malloc_ok
  (if ack_frame.freed then 1 else 0) + (if ack_frame.frame.isSome then 1 else 0)

/-- An ACK frame (type 0x12, no data, time 0) whose checksum bytes hold 19
instead of 18. -/
def exampleCorruptAck : SockRead :=
  { ret := FRAME_SIZE, errno := 0,
    bytes := [18, 0, 0] ++ List.replicate 247 0 ++ [0, 19, 0, 0, 0, 0] }

/-! ## The client: reconnection and the job thread

`typeFleck.h`, `src/Fleck/Modules/Communication/communication.c` (172-411, 517-523),
`src/Fleck/Modules/Distortion/distortion.c` (77-162) and `src/Libs/Socket/socket.c`.

A function of this part returns, next to its values, the calls it made on
sockets, in order.  `SOCKET_initClientSocket` obtains the result of `socket()`
and of `connect()` from its surroundings. -/

/-- The C library function `strncmp` on strings without NUL, for the first `n`
characters: 0 exactly when the two strings agree on their first `n`
characters or agree entirely. -/
def strncmp (a b : List Nat) (n : Nat) : Int :=
  strcmp ((a ++ [0]).take n) ((b ++ [0]).take n)

/-- The struct `MainWorker` of `typeFleck.h`. -/
structure MainWorker where
  /-- Field `char* ip`. -/
  ip : Option (List Nat)
  /-- Field `int port`. -/
  port : Int
  /-- Field `int socket`. -/
  socket : Int
  deriving DecidableEq

/-- A call the client makes on a socket. -/
inductive NetEvent where
  /-- A call `write(socket, buffer, FRAME_SIZE)`. -/
  | write (socket : Int) (w : SockWrite)
  /-- A call `close(socket)`. -/
  | close (socket : Int)
  /-- A call `connect` on the new descriptor `socket`, to the address `ip` and the
  port `htons(port)`. -/
  | connect (socket : Int) (ip : List Nat) (port : Nat)
  deriving DecidableEq

/-- What a request for a worker and the connection to it obtain from the calls
they make. -/
structure ReconnectEnv where
  /-- Whether `asprintf` builds the text of the request. -/
  asprintf_ok : Bool
  /-- Surroundings of `FRAME_createFrame` for the request. -/
  create : CreateEnv
  /-- Surroundings of `FRAME_sendFrame` for the request. -/
  send : SendEnv
  /-- Surroundings of `FRAME_receiveFrame(gotham_socket)`. -/
  recv : RecvEnv
  /-- Bytes that follow `response_frame->data` in memory. -/
  beyond : List Nat
  /-- Whether `strdup((char *)response_frame->data)` returns a copy. -/
  data_dup_ok : Bool
  /-- Whether `strdup(worker_ip)` returns a copy. -/
  ip_dup_ok : Bool
  /-- Value returned by `socket(AF_INET, SOCK_STREAM, 0)`. -/
  socket_ret : Int
  /-- Whether `connect` succeeds. -/
  connect_ok : Bool

/-- Constant `#define CONNECTED_TO_SAME_WORKER 2`. -/
def CONNECTED_TO_SAME_WORKER : Int := 2

/-- Constant `#define CONNECTED_TO_NEW_WORKER 1`. -/
def CONNECTED_TO_NEW_WORKER : Int := 1

/-- Constant `#define FAILED_TO_CONNECT 0`. -/
def FAILED_TO_CONNECT : Int := 0

/-- Constant `#define RECONNECTION 1`. -/
def RECONNECTION : Int := 1

/-- Constant `#define CONNECTION 0`. -/
def CONNECTION : Int := 0

/-- Function `SOCKET_closeSocket` (socket.c 118-123): the value of `*socket` after the
call and the call of `close`, if any. -/
def SOCKET_closeSocket (socket : Int) : Int × List NetEvent :=
  if socket ≠ -1 then (-1, [.close socket]) else (socket, [])

/-- Function `SOCKET_initClientSocket` (socket.c 75-105). -/
def SOCKET_initClientSocket (e : ReconnectEnv) (ip : List Nat) (port : Int) :
    Int × List NetEvent :=
  let client_socket := e.socket_ret
  if client_socket < 0 then (-1, [])
  else if inet_pton ip ≤ 0 then (-1, [.close client_socket])
  else if !e.connect_ok then
    (-1, [.connect client_socket ip (toUInt16 port), .close client_socket])
  else (client_socket, [.connect client_socket ip (toUInt16 port)])

namespace Fleck

/-- Function `COMM_sendWorkerRequestToGotham` (Fleck communication.c 175-182). -/
def COMM_sendWorkerRequestToGotham (e : ReconnectEnv) (data : List Nat) (gotham_socket : Int)
    (reconnecting : Int) : Int × List NetEvent :=
  let request_frame :=
    FRAME_createFrame e.create.malloc_ok e.create.now (if reconnecting ≠ 0 then 0x11 else 0x10)
      (some (data ++ [0])) data.length
  let r := FRAME_sendFrame e.send.buffer e.send.write_ret request_frame
  (r.ret, r.written.toList.map (fun w => NetEvent.write gotham_socket w))

/-- Function `COMM_processGothamResponse` (Fleck communication.c 207-247): the return
value and the values of `*worker_ip` and `*worker_port`; `none` when the call
passes a NULL pointer to `atoi` or dereferences one. -/
def COMM_processGothamResponse (e : ReconnectEnv) (result_frame : FrameResult)
    (worker_ip : Option (List Nat)) (worker_port : Int) (reconnecting : Int) :
    Option (Int × Option (List Nat) × Int) :=
  if result_frame.error_code ≠ .FRAME_SUCCESS then some (-1, worker_ip, worker_port)
  else
    match result_frame.frame with
    | none => none
    | some response_frame =>
      if response_frame.type = (if reconnecting ≠ 0 then 0x11 else 0x10) then
        let data := cstring (response_frame.data ++ e.beyond)
        if strncmp data (str "DISTORT_KO") 11 = 0 then some (-1, worker_ip, worker_port)
        else if strncmp data (str "MEDIA_KO") 8 = 0 then some (-1, worker_ip, worker_port)
        else if !e.data_dup_ok then some (-1, worker_ip, worker_port)
        else
          let t1 := strtok data (str "&")
          let worker_ip := t1.1
          let worker_port_str := (strtok t1.2 (str "&")).1
          match worker_port_str with
          | none => none
          | some worker_port_str => some (0, worker_ip, atoi worker_port_str)
      else some (-1, worker_ip, worker_port)

/-- Function `COMM_requestWorkerAndProcessResponse` (Fleck communication.c 272-292): the
return value, the values of `*worker_ip` and `*worker_port`, and the calls made
on sockets; `none` when the call does not return (nothing arrives from the
registry, or a NULL pointer is used). -/
def COMM_requestWorkerAndProcessResponse (e : ReconnectEnv) (worker_ip : Option (List Nat))
    (worker_port : Int) (media_type filename : List Nat) (gotham_socket : Int)
    (reconnecting : Int) : Option ((Int × Option (List Nat) × Int) × List NetEvent) :=
  if !e.asprintf_ok then some ((-1, worker_ip, worker_port), [])
  else
    let data := media_type ++ str "&" ++ filename
    let s := COMM_sendWorkerRequestToGotham e data gotham_socket reconnecting
    if s.1 < 0 then some ((-1, worker_ip, worker_port), s.2)
    else
      match e.recv.read with
      | none => none
      | some rd =>
        let result_frame := FRAME_receiveFrame e.recv.buffer rd e.recv.malloc_ok
        (COMM_processGothamResponse e result_frame worker_ip worker_port reconnecting).map
          (fun r => (r, s.2))

/-- Function `COMM_updateMainWorker` (Fleck communication.c 312-324): the return value
and `*main_worker` after the call.  `dup_ok` tells whether `strdup(worker_ip)`
returns a copy. -/
def COMM_updateMainWorker (dup_ok : Bool) (main_worker : MainWorker) (worker_ip : List Nat)
    (worker_port : Int) : Int × MainWorker :=
  let assign_ip_and_port : Int × MainWorker :=
    (0, { main_worker with
          ip := if dup_ok then some worker_ip else none, port := worker_port })
  match main_worker.ip with
  | none => assign_ip_and_port
  | some ip =>
    if strcmp ip worker_ip = 0 ∧ main_worker.port = worker_port then (1, main_worker)
    else assign_ip_and_port

/-- Function `COMM_connectToWorker` (Fleck communication.c 342-349). -/
def COMM_connectToWorker (e : ReconnectEnv) (worker_ip : List Nat) (worker_port : Int) :
    Int × List NetEvent :=
  let r := SOCKET_initClientSocket e worker_ip worker_port
  if r.1 < 0 then (-1, r.2) else r

/-- Function `COMM_requestWorkerAndEstablishConnection` (Fleck communication.c 375-411):
the return value, `*main_worker` after the call and the calls made on sockets;
`none` when the call does not return. -/
def COMM_requestWorkerAndEstablishConnection (e : ReconnectEnv) (filename type : List Nat)
    (main_worker : MainWorker) (gotham_socket : Int) (reconnecting_flag : Int) :
    Option (Int × MainWorker × List NetEvent) :=
  match COMM_requestWorkerAndProcessResponse e none (-1) type filename gotham_socket
      reconnecting_flag with
  | none => none
  | some ((result, worker_ip, worker_port), events) =>
    if result < 0 then some (0, main_worker, events)
    else
      match worker_ip with
      | none => none
      | some worker_ip =>
        let u := COMM_updateMainWorker e.ip_dup_ok main_worker worker_ip worker_port
        let connected_to_same_worker := u.1
        let main_worker := u.2
        if reconnecting_flag ≠ 0 ∧ connected_to_same_worker ≠ 0 then
          some (CONNECTED_TO_SAME_WORKER, main_worker, events)
        else
          let cl := SOCKET_closeSocket main_worker.socket
          let c := COMM_connectToWorker e worker_ip worker_port
          let main_worker := { main_worker with socket := c.1 }
          let events := events ++ cl.2 ++ c.2
          if main_worker.socket < 0 then some (FAILED_TO_CONNECT, main_worker, events)
          else
            some (if connected_to_same_worker ≠ 0 then CONNECTED_TO_SAME_WORKER
              else CONNECTED_TO_NEW_WORKER, main_worker, events)

/-- Function `COMM_reconnectToWorker` (Fleck communication.c 517-523). -/
def COMM_reconnectToWorker (e : ReconnectEnv) (filename worker_type : List Nat)
    (main_worker : MainWorker) (gotham_socket : Int) :
    Option (Int × MainWorker × List NetEvent) :=
  (COMM_requestWorkerAndEstablishConnection e filename worker_type main_worker gotham_socket
    RECONNECTION).map (fun r =>
      (if r.1 = FAILED_TO_CONNECT ∨ r.1 = CONNECTED_TO_SAME_WORKER then 0 else 1, r.2))

end Fleck

/-- Surroundings of a reconnection in which the registry answers with the
write `wr`, every local call succeeds, buffers start zeroed, the clock reads 0
and `socket()` returns the descriptor 11. -/
def exampleReconnect (wr : SockWrite) : ReconnectEnv :=
  { asprintf_ok := true, create := { malloc_ok := true, now := 0 },
    send := { buffer := List.replicate FRAME_SIZE 0, write_ret := FRAME_SIZE },
    recv := { buffer := List.replicate FRAME_SIZE 0,
              read := some { ret := FRAME_SIZE, errno := 0, bytes := wr.bytes },
              malloc_ok := true },
    beyond := [], data_dup_ok := true, ip_dup_ok := true, socket_ret := 11,
    connect_ok := true }

/-- The primary the client is connected to in the examples: `10.0.0.1:9005` on
the descriptor 10. -/
def exampleMainWorker : MainWorker :=
  { ip := some (str "10.0.0.1"), port := 9005, socket := 10 }

/-! ## The client: the job thread

`DIST_handleFileDistortion` of `src/Fleck/Modules/Distortion/distortion.c` (77-162), as a
step function on the state of the thread.  A step is what the thread does
between two of the points `enviaMetadades:`, the test of the `while` loop and
`exit_thread:`.

`COMM_sendFile`, `COMM_receiveFile`, `COMM_retrieveFileMetadata` and
`COMM_reconnectToWorker` are the functions embedded above.  The functions
`COMM_sendFileMetadata`, `COMM_retrieveMD5Check` and `COMM_verifyFileIntegrity` receive the
socket and values of the context, not the context: the step takes their return
values from its surroundings.  The update of the record of distortions and
the messages printed are left out. -/

/-- The points of the thread between which a step runs. -/
inductive JobPoint where
  /-- The label `enviaMetadades:`. -/
  | enviaMetadades
  /-- The test of the `while` loop. -/
  | loop
  /-- The label `exit_thread:`. -/
  | exit_thread
  /-- The thread has returned. -/
  | returned
  deriving DecidableEq

/-- A call the job thread makes. -/
inductive JobEvent where
  /-- Call `COMM_sendFileMetadata(worker_socket, ..., filesize, ..., factor, ...)`. -/
  | sendFileMetadata (worker_socket : Int) (filesize factor : Int)
  /-- Call `COMM_sendFile(..., n_packets, &n_processed_packets, worker_socket, ...)`,
  with the value of the counter at entry. -/
  | sendFile (worker_socket : Int) (n_packets n_processed_packets : Int)
  /-- Call `COMM_receiveFile(..., n_packets, &n_processed_packets, worker_socket, ...)`,
  with the value of the counter at entry. -/
  | receiveFile (worker_socket : Int) (n_packets n_processed_packets : Int)
  /-- A frame written on the socket during `COMM_sendFile` or `COMM_receiveFile`. -/
  | write (worker_socket : Int) (w : SockWrite)
  /-- Call `COMM_retrieveMD5Check(worker_socket, ...)`. -/
  | retrieveMD5Check (worker_socket : Int)
  /-- Call `COMM_retrieveFileMetadata(worker_socket, ...)`. -/
  | retrieveFileMetadata (worker_socket : Int)
  /-- Call `COMM_verifyFileIntegrity(..., worker_socket, ...)`. -/
  | verifyFileIntegrity (worker_socket : Int)
  /-- Call `COMM_disconnectFromServer(worker_socket, ...)`. -/
  | disconnectFromServer (worker_socket : Int)
  /-- Call `COMM_reconnectToWorker`, with the calls it made on sockets. -/
  | reconnectToWorker (events : List NetEvent)
  /-- A call `close(socket)` made by the thread. -/
  | close (socket : Int)
  deriving DecidableEq

/-- What the job thread obtains from its surroundings; the step number `i`
(steps are counted from 0) selects what the step consults. -/
structure JobWorld where
  /-- Value of `*exit_distortion` read by the test of the loop. -/
  exit_distortion : Nat → Bool
  /-- Return value of `COMM_sendFileMetadata`. -/
  metadata_ret : Nat → Int
  /-- Surroundings of `COMM_sendFile`. -/
  sendFile : Nat → SendFileWorld
  /-- Return value of `COMM_retrieveMD5Check`. -/
  md5check_ret : Nat → Int
  /-- Surroundings of `COMM_reconnectToWorker`. -/
  reconnect : Nat → ReconnectEnv
  /-- Surroundings of `COMM_retrieveFileMetadata`. -/
  retrieve : Nat → MetadataEnv
  /-- Whether the `asprintf` of `DIST_updateContextFilePath` succeeds. -/
  path_asprintf_ok : Nat → Bool
  /-- Contents of the file at the path with the suffix `_distorted` before the
  thread writes to it. -/
  distorted_before : List Nat
  /-- Surroundings of `COMM_receiveFile`. -/
  receiveFile : Nat → RecvFileWorld
  /-- Return value of `COMM_verifyFileIntegrity`. -/
  verify_ret : Nat → Int
  /-- The indeterminate value of the local `send_result` when the `switch` jumps
  past its initialisation. -/
  send_result_garbage : Nat → Int

/-- State of the job thread at one of its points. -/
structure JobState where
  /-- Where the thread is. -/
  point : JobPoint
  /-- The struct `*distortion_context`. -/
  context : DistortionContext
  /-- The struct `*main_worker`. -/
  main_worker : MainWorker
  /-- The local `worker_socket`. -/
  worker_socket : Int
  /-- The flag `*distorting_flag`. -/
  distorting_flag : Int
  /-- The flag `*finished_distortion`. -/
  finished_distortion : Int
  /-- Contents of the file at `distortion_context->file_path`. -/
  file : List Nat
  /-- The calls made so far, in order. -/
  events : List JobEvent
  /-- The number of steps made so far. -/
  steps : Nat
  deriving DecidableEq

namespace Fleck

/-- Constant `#define STAGE_SND_FILE 4` (Fleck distortion.h). -/
def STAGE_SND_FILE : Int := 4

/-- Constant `#define STAGE_RCV_METADATA 6` (Fleck distortion.h). -/
def STAGE_RCV_METADATA : Int := 6

/-- Constant `#define STAGE_RECV_FILE 0` (Fleck distortion.h). -/
def STAGE_RECV_FILE : Int := 0

/-- Constant `#define STAGE_DISCONNECT 7` (Fleck distortion.h). -/
def STAGE_DISCONNECT : Int := 7

/-- Function `DIST_updateContextFilePath` (Fleck distortion.c 32-42).  For a NULL path
`asprintf` prints `(null)`. -/
def DIST_updateContextFilePath (asprintf_ok : Bool) (context : DistortionContext) :
    Int × DistortionContext :=
  if !asprintf_ok then (0, context)
  else
    (1, { context with
          file_path := some (context.file_path.getD (str "(null)") ++ str "_distorted") })

/-- Function `EXIT_cleanupDistortionContext` (Fleck exit.c 71-76). -/
def EXIT_cleanupDistortionContext (context : DistortionContext) : DistortionContext :=
  { context with filename := none, md5sum := none, file_path := none, username := none }

/-- The state of the thread when it reaches `enviaMetadades:` for the first time
(distortion.c 78-92). -/
def DIST_handleFileDistortion_start (context : DistortionContext) (main_worker : MainWorker)
    (file : List Nat) : JobState :=
  { point := .enviaMetadades,
    context := { context with current_stage := STAGE_SND_FILE },
    main_worker := main_worker, worker_socket := main_worker.socket, distorting_flag := 1,
    finished_distortion := 0, file := file, events := [], steps := 0 }

/-- The call `COMM_reconnectToWorker(distortion_context->filename, worker_type, main_worker,
gotham_socket, ...)` of the thread and the jump that follows it: to `exit_thread:`
when it returns 0, to `enviaMetadades:` otherwise.  Step number `i`. -/
def DIST_handleFileDistortion_reconnect (w : JobWorld) (worker_type : List Nat)
    (gotham_socket : Int) (i : Nat) (s : JobState) : Option JobState :=
  match COMM_reconnectToWorker (w.reconnect i) (s.context.filename.getD (str "(null)"))
      worker_type s.main_worker gotham_socket with
  | none => none
  | some (r, main_worker, events) =>
    some { s with
      main_worker := main_worker, events := s.events ++ [JobEvent.reconnectToWorker events],
      point := if r = 0 then .exit_thread else .enviaMetadades }

/-- The case `STAGE_SND_FILE` of the `switch` (distortion.c 96-123), step number `i`. -/
def DIST_handleFileDistortion_SND_FILE (w : JobWorld) (worker_type : List Nat)
    (gotham_socket : Int) (i : Nat) (s : JobState) : Option JobState :=
  let r := COMM_sendFile (w.sendFile i) s.file s.context.n_packets
    s.context.n_processed_packets
  let s :=
    { s with
      events := s.events ++
        JobEvent.sendFile s.worker_socket s.context.n_packets s.context.n_processed_packets ::
          r.sent.map (fun wr => JobEvent.write s.worker_socket wr),
      context := { s.context with n_processed_packets := r.n_processed_packets } }
  match r.ret with
  | none => none
  | some send_result =>
    if send_result ≠ TRANSFER_SUCCESS then
      if send_result = UNEXPECTED_ERROR ∨ send_result = INTERRUPTED_BY_SIGINT then
        some { s with point := .exit_thread }
      else DIST_handleFileDistortion_reconnect w worker_type gotham_socket i s
    else
      let s := { s with events := s.events ++ [JobEvent.retrieveMD5Check s.worker_socket] }
      let check_ok := w.md5check_ret i
      if check_ok ≠ TRANSFER_SUCCESS then
        if send_result = UNEXPECTED_ERROR ∨ send_result = INTERRUPTED_BY_SIGINT then
          some { s with point := .exit_thread }
        else DIST_handleFileDistortion_reconnect w worker_type gotham_socket i s
      else
        some { s with
          context := { s.context with current_stage := STAGE_RCV_METADATA }, point := .loop }

/-- The case `STAGE_RCV_METADATA` of the `switch` (distortion.c 124-137), step number
`i`. -/
def DIST_handleFileDistortion_RCV_METADATA (w : JobWorld) (worker_type : List Nat)
    (gotham_socket : Int) (i : Nat) (s : JobState) : Option JobState :=
  let s := { s with events := s.events ++ [JobEvent.retrieveFileMetadata s.worker_socket] }
  match COMM_retrieveFileMetadata (w.retrieve i) s.context with
  | none => none
  | some (frame_error, context) =>
    let s := { s with context := context }
    if frame_error ≠ TRANSFER_SUCCESS then
      if frame_error = UNEXPECTED_ERROR then some { s with point := .exit_thread }
      else DIST_handleFileDistortion_reconnect w worker_type gotham_socket i s
    else
      let u := DIST_updateContextFilePath (w.path_asprintf_ok i) s.context
      if u.1 = 0 then some { s with context := u.2, point := .exit_thread }
      else
        some { s with
          context := { u.2 with current_stage := STAGE_RECV_FILE },
          file := w.distorted_before, point := .loop }

/-- The case `STAGE_RECV_FILE` of the `switch` (distortion.c 138-153), step number `i`.
The test after `COMM_receiveFile` reads `send_result`, which this case has not
assigned. -/
def DIST_handleFileDistortion_RECV_FILE (w : JobWorld) (worker_type : List Nat)
    (gotham_socket : Int) (i : Nat) (s : JobState) : Option JobState :=
  let r := COMM_receiveFile (w.receiveFile i) s.file s.context.n_packets
    s.context.n_processed_packets
  let s :=
    { s with
      events := s.events ++
        JobEvent.receiveFile s.worker_socket s.context.n_packets
            s.context.n_processed_packets ::
          r.sent.map (fun wr => JobEvent.write s.worker_socket wr),
      context := { s.context with n_processed_packets := r.n_processed_packets },
      file := r.file }
  match r.ret with
  | none => none
  | some rcv_result =>
    if rcv_result ≠ TRANSFER_SUCCESS then
      let send_result := w.send_result_garbage i
      if send_result = UNEXPECTED_ERROR ∨ send_result = INTERRUPTED_BY_SIGINT then
        some { s with point := .exit_thread }
      else DIST_handleFileDistortion_reconnect w worker_type gotham_socket i s
    else
      let s := { s with events := s.events ++ [JobEvent.verifyFileIntegrity s.worker_socket] }
      let verify_status := w.verify_ret i
      if verify_status ≠ TRANSFER_SUCCESS then some { s with point := .exit_thread }
      else
        some { s with
          context := { s.context with current_stage := STAGE_DISCONNECT }, point := .loop }

/-- One step of `DIST_handleFileDistortion` (distortion.c 88-162); `none` when the step
does not end (a `read` blocks for ever, or a NULL pointer is used). -/
def DIST_handleFileDistortion_step (w : JobWorld) (worker_type : List Nat)
    (gotham_socket : Int) (s : JobState) : Option JobState :=
  let i := s.steps
  match s.point with
  | .returned => some s
  | .enviaMetadades =>
    let s := { s with steps := i + 1 }
    let s :=
      { s with
        events := s.events ++
          [JobEvent.sendFileMetadata s.worker_socket s.context.filesize s.context.factor] }
    if w.metadata_ret i < 0 then some { s with point := .exit_thread }
    else some { s with point := .loop }
  | .loop =>
    let s := { s with steps := i + 1 }
    if s.finished_distortion = 0 ∧ w.exit_distortion i = false then
      if s.context.current_stage = STAGE_SND_FILE then
        DIST_handleFileDistortion_SND_FILE w worker_type gotham_socket i s
      else if s.context.current_stage = STAGE_RCV_METADATA then
        DIST_handleFileDistortion_RCV_METADATA w worker_type gotham_socket i s
      else if s.context.current_stage = STAGE_RECV_FILE then
        DIST_handleFileDistortion_RECV_FILE w worker_type gotham_socket i s
      else if s.context.current_stage = STAGE_DISCONNECT then
        some { s with
          events := s.events ++ [JobEvent.disconnectFromServer s.worker_socket],
          finished_distortion := 1 }
      else some s
    else some { s with point := .exit_thread }
  | .exit_thread =>
    let s := { s with steps := i + 1 }
    let c := SOCKET_closeSocket s.worker_socket
    some { s with
      worker_socket := c.1,
      events := s.events ++ (if s.worker_socket ≠ -1 then [JobEvent.close s.worker_socket] else []),
      context := EXIT_cleanupDistortionContext s.context, distorting_flag := 0,
      finished_distortion := 1, point := .returned }

/-- The state after `n` steps; `none` when one of them does not end. -/
def DIST_handleFileDistortion_steps (w : JobWorld) (worker_type : List Nat)
    (gotham_socket : Int) : Nat → JobState → Option JobState
  | 0, s => some s
  | n + 1, s =>
    (DIST_handleFileDistortion_step w worker_type gotham_socket s).bind
      (DIST_handleFileDistortion_steps w worker_type gotham_socket n)

end Fleck

/-- Surroundings of a `COMM_sendFile` run in which the peer acknowledges with
the frames `acks` and then closes the connection: local calls succeed, the
exit flag is never raised. -/
def closingSender (acks : List SockWrite) : SendFileWorld :=
  { exampleSender none acks with
    ack := fun i =>
      { buffer := List.replicate FRAME_SIZE 0,
        read := if i < acks.length then channelRead acks i
          else some { ret := 0, errno := 0, bytes := [] },
        malloc_ok := true } }

/-- Surroundings of the job thread for the examples: every worker acknowledges
one packet and then closes the connection, the registry answers every
reconnection with `10.0.0.2&9007`, the other calls succeed. -/
def exampleJob : JobWorld :=
  { exit_distortion := fun _ => false, metadata_ret := fun _ => 0,
    sendFile := fun _ => closingSender [exampleAck],
    md5check_ret := fun _ => TRANSFER_SUCCESS,
    reconnect := fun _ => exampleReconnect (exampleFrameWrite 0x11 (str "10.0.0.2&9007")),
    retrieve := fun _ => exampleMetadata (exampleFrameWrite 0x04 (str "300&0123")),
    path_asprintf_ok := fun _ => true, distorted_before := [],
    receiveFile := fun _ => exampleReceiver none [],
    verify_ret := fun _ => TRANSFER_SUCCESS, send_result_garbage := fun _ => 0 }

/-- The context of a job of the client `alice` on a file of 300 bytes, two
packets. -/
def exampleJobContext : DistortionContext :=
  { file_path := some (str "./a/notes.txt"), filename := some (str "notes.txt"),
    username := some (str "alice"), md5sum := some (str "0123"), filesize := 300, factor := 2,
    current_stage := 0, n_packets := 2, n_processed_packets := 0 }

/-- The calls `COMM_sendFile` among the events, each with the socket, `n_packets`
and the value of the counter at entry. -/
def sendFileCalls (events : List JobEvent) : List (Int × Int × Int) :=
  events.filterMap (fun ev =>
    match ev with
    | .sendFile worker_socket n_packets n_processed_packets =>
      some (worker_socket, n_packets, n_processed_packets)
    | _ => none)

/-- The example job after its first step: the metadata are sent and the
thread is at the test of its loop. -/
def exampleJobAtLoop : JobState :=
  (Fleck.DIST_handleFileDistortion_steps exampleJob (str "Text") 3 1
    (Fleck.DIST_handleFileDistortion_start exampleJobContext exampleMainWorker
      (exampleFile.take 300))).getD
    (Fleck.DIST_handleFileDistortion_start exampleJobContext exampleMainWorker [])

/-! ## The worker: metadata, checkpoint and cleanup

`typeWorker.h`, `typeDistort.h`, `src/Worker/Modules/Context/context.c`,
`src/Worker/Modules/Communication/communication.c` (177-231),
`src/Worker/Modules/Exit/exit.c` (114-209), `src/Libs/File/file.c` (32-64) and
`src/Libs/Dir/dir.c` (213-284).  Functions of the worker programs are in the
namespace `Worker`, after their directory.

The file system and the shared memory are surroundings: a function obtains
the result of each system call from an argument and returns, next to its
values, the changes it made (files moved, created and deleted, regions
removed, checkpoints stored), in order.  The library function `SO_deleteImage`,
which is not among the sources, deletes the file of the path it is given.
For a NULL string `asprintf` prints `(null)`. -/

/-- The struct `DistortionProgress` of `typeDistort.h`: the checkpoint kept in a
shared memory region. -/
structure DistortionProgress where
  /-- Field `int current_stage`. -/
  current_stage : Int
  /-- Field `int n_packets`. -/
  n_packets : Int
  /-- Field `int n_processed_packets`. -/
  n_processed_packets : Int
  deriving DecidableEq

/-- A change a worker makes to the file system or to the shared memory. -/
inductive WorkerEvent where
  /-- A successful `rename(src, dst)`. -/
  | rename (src dst : List Nat)
  /-- A successful `open(path, O_CREAT, 0666)`. -/
  | create (path : List Nat)
  /-- A call `SO_deleteImage(path)`. -/
  | delete (path : List Nat)
  /-- A call `shmctl(shm_id, IPC_RMID, NULL)`. -/
  | rmid (shm_id : Int)
  /-- The three fields of the region `shm_id` are assigned. -/
  | store (shm_id : Int) (progress : DistortionProgress)
  deriving DecidableEq

/-- Function `FILE_buildPrivateFilePath` (file.c 32-42). -/
def FILE_buildPrivateFilePath (asprintf_ok : Bool) (distortions_folder_path filename : List Nat)
    (username : Option (List Nat)) : Option (List Nat) :=
  match username with
  | none =>
    if !asprintf_ok then none
    else some (str "." ++ distortions_folder_path ++ str "/" ++ filename)
  | some username =>
    if !asprintf_ok then none
    else some (str "." ++ distortions_folder_path ++ str "/" ++ username ++ str "_" ++ filename)

/-- Function `FILE_buildSharedFilePath` (file.c 58-64). -/
def FILE_buildSharedFilePath (asprintf_ok : Bool) (filename username : Option (List Nat)) :
    Option (List Nat) :=
  let global_directory := str "../unfinished_distortions"
  if !asprintf_ok then none
  else
    some (global_directory ++ str "/" ++ username.getD (str "(null)") ++ str "_" ++
      filename.getD (str "(null)"))

/-- Function `DIR_moveFileToPrivateFolder` (dir.c 237-251): `rename_ok` tells whether
`rename` succeeds for paths that are not NULL. -/
def DIR_moveFileToPrivateFolder (asprintf_ok rename_ok : Bool)
    (filename username : Option (List Nat))
    (private_path : Option (List Nat)) : Int × List WorkerEvent :=
  match FILE_buildSharedFilePath asprintf_ok filename username with
  | none => (0, [])
  | some global_path =>
    match private_path with
    | none => (0, [])
    | some private_path =>
      if !rename_ok then (0, []) else (1, [.rename global_path private_path])

/-- Function `DIR_moveFileToSharedFolder` (dir.c 267-284). -/
def DIR_moveFileToSharedFolder (asprintf_ok rename_ok : Bool)
    (filename username : Option (List Nat))
    (private_path : Option (List Nat)) : Int × List WorkerEvent :=
  match FILE_buildSharedFilePath asprintf_ok filename username with
  | none => (0, [])
  | some global_path =>
    match private_path with
    | none => (0, [])
    | some private_path =>
      if !rename_ok then (0, []) else (1, [.rename private_path global_path])

/-- What `CONTEXT_fetchDistortionContext` obtains from the calls it makes. -/
structure FetchEnv where
  /-- Whether the `asprintf` of `FILE_buildSharedFilePath` succeeds. -/
  shared_path_ok : Bool
  /-- Whether `stat` finds the file of the shared directory. -/
  file_found : Bool
  /-- Result of `ftok(global_file_path, 12)`, `none` for -1. -/
  ftok : Option Int
  /-- Whether the `asprintf` inside `DIR_moveFileToPrivateFolder` succeeds. -/
  move_path_ok : Bool
  /-- Whether `rename` succeeds. -/
  rename_ok : Bool
  /-- Result of `shmget(key, sizeof(DistortionProgress), IPC_CREAT | 0666)`. -/
  shmget_ret : Int
  /-- Result of `shmat`: the contents of the region, `none` for `(void *)-1`. -/
  shmat : Option DistortionProgress
  /-- Whether `shmdt` succeeds. -/
  shmdt_ok : Bool
  /-- Whether `open(distortion_context->file_path, O_CREAT, 0666)` succeeds. -/
  open_ok : Bool

/-- What `COMM_retrieveFileMetadata` of the worker obtains from the calls it
makes. -/
structure WorkerMetadataEnv where
  /-- Surroundings of `FRAME_receiveFrame(fleck_socket)`. -/
  recv : RecvEnv
  /-- Bytes that follow `response_frame->data` in memory. -/
  beyond : List Nat
  /-- Whether `strdup((char *)response_frame->data)` returns a copy. -/
  data_dup_ok : Bool
  /-- Surroundings of `FRAME_createFrame` for the response. -/
  create : CreateEnv
  /-- Surroundings of `FRAME_sendFrame` for the response. -/
  send : SendEnv
  /-- Whether the `asprintf` of `FILE_buildPrivateFilePath` succeeds. -/
  path_ok : Bool
  /-- Whether `strdup(filename)` returns a copy. -/
  filename_dup_ok : Bool
  /-- Whether `strdup(username)` returns a copy. -/
  username_dup_ok : Bool
  /-- Whether `strdup(md5sum)` returns a copy. -/
  md5_dup_ok : Bool
  /-- Surroundings of `CONTEXT_fetchDistortionContext`. -/
  fetch : FetchEnv

/-- What `EXIT_isLastWorker` obtains from the calls it makes. -/
structure CounterEnv where
  /-- Whether `ftok` returns a key. -/
  ftok_ok : Bool
  /-- Result of `shmat`: the value of the counter of workers of the class,
  `none` for `(void *)-1`. -/
  counter : Option Int
  /-- Whether `shmdt` succeeds. -/
  shmdt_ok : Bool

/-- What `EXIT_cleanupDistortionFiles` obtains from the calls it makes. -/
structure CleanupFilesEnv where
  /-- Surroundings of `EXIT_isLastWorker`. -/
  last : CounterEnv
  /-- Whether the `asprintf` inside `DIR_moveFileToSharedFolder` succeeds. -/
  move_path_ok : Bool
  /-- Whether `rename` succeeds. -/
  rename_ok : Bool

/-- What `EXIT_cleanupSharedMemory` obtains from the calls it makes. -/
structure CleanupMemoryEnv where
  /-- Surroundings of `EXIT_isLastWorker`. -/
  last : CounterEnv
  /-- Whether the `asprintf` of `FILE_buildSharedFilePath` succeeds. -/
  shared_path_ok : Bool
  /-- Result of `ftok(global_file_path, 12)`, `none` for -1. -/
  ftok : Option Int
  /-- Result of `shmget(key, sizeof(DistortionProgress), IPC_CREAT | 0666)`. -/
  shmget_ret : Int
  /-- Whether `shmat` attaches the region. -/
  shmat_ok : Bool
  /-- Whether `shmdt` succeeds. -/
  shmdt_ok : Bool

/-- Values `CONTEXT_extractAndValidateMetadata` returns and leaves behind its pointers. -/
structure ExtractedMetadata where
  /-- Return value. -/
  ret : Int
  /-- The pointer `*username`. -/
  username : Option (List Nat)
  /-- The pointer `*filename`. -/
  filename : Option (List Nat)
  /-- The variable `*filesize`. -/
  filesize : Int
  /-- The pointer `*md5sum`. -/
  md5sum : Option (List Nat)
  /-- The variable `*factor`. -/
  factor : Int
  deriving DecidableEq

namespace Worker

/-- Constant `#define STAGE_RECV_FILE 0` (typeWorker.h). -/
def STAGE_RECV_FILE : Int := 0

/-- Function `CONTEXT_extractAndValidateMetadata` (context.c 118-144); `filesize` and
`factor` are the values of `*filesize` and `*factor` at entry. -/
def CONTEXT_extractAndValidateMetadata (data_buffer : List Nat) (filesize factor : Int) :
    ExtractedMetadata :=
  let t1 := strtok data_buffer (str "&")
  let t2 := strtok t1.2 (str "&")
  let t3 := strtok t2.2 (str "&")
  let t4 := strtok t3.2 (str "&")
  let t5 := strtok t4.2 (str "&")
  let username := t1.1
  let filename := t2.1
  let filesize_str := t3.1
  let md5sum := t4.1
  let factor_str := t5.1
  match username, filename, filesize_str, md5sum, factor_str with
  | some _, some _, some filesize_str, some _, some factor_str =>
    let filesize := atoi filesize_str
    if filesize ≤ 0 then
      { ret := 0, username := username, filename := filename, filesize := filesize,
        md5sum := md5sum, factor := factor }
    else
      let factor := atoi factor_str
      if factor ≤ 0 then
        { ret := 0, username := username, filename := filename, filesize := filesize,
          md5sum := md5sum, factor := factor }
      else
        { ret := 1, username := username, filename := filename, filesize := filesize,
          md5sum := md5sum, factor := factor }
  | _, _, _, _, _ =>
    { ret := 0, username := username, filename := filename, filesize := filesize,
      md5sum := md5sum, factor := factor }

/-- Function `CONTEXT_initContextMetadata` (context.c 293-315). -/
def CONTEXT_initContextMetadata (e : WorkerMetadataEnv) (distortion_context : DistortionContext)
    (filename username md5sum : List Nat) (filesize factor : Int)
    (distortions_folder_path : List Nat) : Int × DistortionContext :=
  let distortion_context :=
    { distortion_context with
      file_path := FILE_buildPrivateFilePath e.path_ok distortions_folder_path filename
        (some username) }
  if distortion_context.file_path = none then (0, distortion_context)
  else
    let distortion_context :=
      { distortion_context with filename := if e.filename_dup_ok then some filename else none }
    if distortion_context.filename = none then (0, distortion_context)
    else
      let distortion_context :=
        { distortion_context with
          username := if e.username_dup_ok then some username else none }
      if distortion_context.username = none then (0, distortion_context)
      else
        let distortion_context :=
          { distortion_context with md5sum := if e.md5_dup_ok then some md5sum else none }
        if distortion_context.md5sum = none then (0, distortion_context)
        else
          (1, { distortion_context with filesize := filesize, factor := factor })

/-- Function `CONTEXT_fetchDistortionContext` (context.c 218-273): the return value,
the context and `*shm_id` after the call, and the changes made.  On the
failure of `open` the function releases `file_path` and leaves the pointer in
the context. -/
def CONTEXT_fetchDistortionContext (e : FetchEnv) (distortion_context : DistortionContext)
    (filename : List Nat) (shm_id : Int) :
    Int × DistortionContext × Int × List WorkerEvent :=
  match FILE_buildSharedFilePath e.shared_path_ok (some filename)
      distortion_context.username with
  | none => (0, distortion_context, shm_id, [])
  | some _ =>
    if e.file_found then
      match e.ftok with
      | none => (0, distortion_context, shm_id, [])
      | some _ =>
        let mv := DIR_moveFileToPrivateFolder e.move_path_ok e.rename_ok (some filename)
          distortion_context.username distortion_context.file_path
        if mv.1 = 0 then (0, distortion_context, shm_id, mv.2)
        else
          let shm_id := e.shmget_ret
          if shm_id = -1 then (0, distortion_context, shm_id, mv.2)
          else
            match e.shmat with
            | none => (0, distortion_context, shm_id, mv.2)
            | some distortion_progress =>
              let r := CONTEXT_initDistortionProgress distortion_context
                distortion_progress.current_stage distortion_progress.n_processed_packets
              if !e.shmdt_ok ∨ r.1 = 0 then (0, r.2, shm_id, mv.2)
              else (1, r.2, shm_id, mv.2)
    else
      match distortion_context.file_path with
      | none => (0, distortion_context, shm_id, [])
      | some file_path =>
        if !e.open_ok then (0, distortion_context, shm_id, [])
        else
          let r := CONTEXT_initDistortionProgress distortion_context STAGE_RECV_FILE 0
          (1, r.2, shm_id, [.create file_path])

/-- Function `COMM_retrieveFileMetadata` of the worker (Worker communication.c 177-231):
the return value, the context and `*shm_id` after the call, the frames sent and
the changes made; `none` when the call does not return (nothing arrives from
the client). -/
def COMM_retrieveFileMetadata (e : WorkerMetadataEnv) (fleck_socket : Int)
    (distortion_context : DistortionContext) (distortions_folder_path : List Nat)
    (shm_id : Int) :
    Option (Int × DistortionContext × Int × List (Int × SockWrite) × List WorkerEvent) :=
  match e.recv.read with
  | none => none
  | some rd =>
    let result := FRAME_receiveFrame e.recv.buffer rd e.recv.malloc_ok
    if result.error_code ≠ .FRAME_SUCCESS then some (0, distortion_context, shm_id, [], [])
    else
      match result.frame with
      | none => none
      | some response_frame =>
        if response_frame.type = 0x03 then
          if !e.data_dup_ok then some (0, distortion_context, shm_id, [], [])
          else
            let data_buffer := cstring (response_frame.data ++ e.beyond)
            let m := CONTEXT_extractAndValidateMetadata data_buffer 0 0
            if m.ret = 0 then
              (COMM_sendConnectionResponse e.create e.send fleck_socket (some (str "CON_KO")) 0
                0x03).map (fun sent => (0, distortion_context, shm_id, sent, []))
            else
              match COMM_sendConnectionResponse e.create e.send fleck_socket none 1 0x03,
                  m.filename, m.username, m.md5sum with
              | some sent, some filename, some username, some md5sum =>
                let c := CONTEXT_initContextMetadata e distortion_context filename username
                  md5sum m.filesize m.factor distortions_folder_path
                let f := CONTEXT_fetchDistortionContext e.fetch c.2 filename shm_id
                if f.1 = 0 then some (0, f.2.1, f.2.2.1, sent, f.2.2.2)
                else some (1, f.2.1, f.2.2.1, sent, f.2.2.2)
              | _, _, _, _ => none
        else some (0, distortion_context, shm_id, [], [])

/-- Function `EXIT_isLastWorker` (exit.c 114-131). -/
def EXIT_isLastWorker (e : CounterEnv) : Int :=
  if !e.ftok_ok then -1
  else
    match e.counter with
    | none => -1
    | some workerCount =>
      let is_last_worker : Int := if workerCount = 1 then 1 else 0
      if !e.shmdt_ok then -1 else is_last_worker

/-- Function `EXIT_cleanupDistortionFiles` (exit.c 150-161): the changes made. -/
def EXIT_cleanupDistortionFiles (e : CleanupFilesEnv) (context : DistortionContext)
    (sigint_flag : Int) (shm_id : Int) : List WorkerEvent :=
  if sigint_flag ≠ 0 ∧ EXIT_isLastWorker e.last = 0 then
    let mv := DIR_moveFileToSharedFolder e.move_path_ok e.rename_ok context.filename
      context.username context.file_path
    if mv.1 = 0 then mv.2 ++ [.rmid shm_id] else mv.2
  else
    match context.file_path with
    | none => []
    | some file_path => [.delete file_path]

/-- Function `EXIT_cleanupSharedMemory` (exit.c 178-209): the changes made. -/
def EXIT_cleanupSharedMemory (e : CleanupMemoryEnv) (distortion_context : DistortionContext)
    (shm_id : Int) (exit_distortion : Int) : List WorkerEvent :=
  if exit_distortion = 0 ∧ shm_id > 0 then [.rmid shm_id]
  else if EXIT_isLastWorker e.last ≠ 0 ∧ shm_id > 0 then [.rmid shm_id]
  else
    let shm_id : Option Int :=
      if shm_id = 0 then
        match FILE_buildSharedFilePath e.shared_path_ok distortion_context.filename
            distortion_context.username with
        | none => none
        | some _ =>
          match e.ftok with
          | none => none
          | some _ => if e.shmget_ret = -1 then none else some e.shmget_ret
      else some shm_id
    match shm_id with
    | none => []
    | some shm_id =>
      if !e.shmat_ok then []
      else
        [.store shm_id
          { current_stage := distortion_context.current_stage,
            n_packets := distortion_context.n_packets,
            n_processed_packets := distortion_context.n_processed_packets }]

end Worker

/-- Surroundings of `CONTEXT_fetchDistortionContext` in which every call succeeds;
`stored` is the checkpoint found in the shared directory (`none`: there is
none), kept in the region 77. -/
def exampleFetch (stored : Option DistortionProgress) : FetchEnv :=
  { shared_path_ok := true, file_found := stored.isSome, ftok := some 1234,
    move_path_ok := true, rename_ok := true, shmget_ret := 77, shmat := stored,
    shmdt_ok := true, open_ok := true }

/-- Surroundings of `COMM_retrieveFileMetadata` of the worker in which the socket
delivers the write `wr` and every local call succeeds. -/
def exampleWorkerMetadata (wr : SockWrite) (stored : Option DistortionProgress) :
    WorkerMetadataEnv :=
  { recv := { buffer := List.replicate FRAME_SIZE 0, read := some (readOf wr),
              malloc_ok := true },
    beyond := [], data_dup_ok := true, create := { malloc_ok := true, now := 0 },
    send := { buffer := List.replicate FRAME_SIZE 0, write_ret := FRAME_SIZE },
    path_ok := true, filename_dup_ok := true, username_dup_ok := true, md5_dup_ok := true,
    fetch := exampleFetch stored }

/-- Surroundings of `EXIT_isLastWorker` in which every call succeeds and the
counter of workers of the class reads `counter`. -/
def exampleCounter (counter : Int) : CounterEnv :=
  { ftok_ok := true, counter := some counter, shmdt_ok := true }

/-- The context of a worker in the middle of receiving the file `notes.txt`
of the client `alice`: 3 packets, 2 of them processed. -/
def exampleWorkerContext : DistortionContext :=
  { file_path := some (str "./enigma/alice_notes.txt"), filename := some (str "notes.txt"),
    username := some (str "alice"), md5sum := some (str "0123"), filesize := 500, factor := 2,
    current_stage := 0, n_packets := 3, n_processed_packets := 2 }

/-! ## Bit arithmetic of the codec -/

theorem serialize_eq (f : Frame) (buf : List Nat) (hd : f.data.length = DATA_SIZE)
    (hb : buf.length = FRAME_SIZE) :
    FRAME_serializeFrame f buf =
      [f.type, (f.data_length >>> 8) &&& 0xFF, f.data_length &&& 0xFF] ++ f.data ++
      [(f.checksum >>> 8) &&& 0xFF, f.checksum &&& 0xFF,
       toUInt8 (Int.land (f.timestamp >>> (24 : Nat)) 0xFF), toUInt8 (Int.land (f.timestamp >>> (16 : Nat)) 0xFF),
       toUInt8 (Int.land (f.timestamp >>> (8 : Nat)) 0xFF), toUInt8 (Int.land f.timestamp 0xFF)] := by
  have hd' : f.data.length = 247 := hd
  have hb' : buf.length = 256 := hb
  apply List.ext_getElem?
  intro i
  simp only [FRAME_serializeFrame, memcpy, List.getElem?_set, List.length_set, List.length_append,
    List.length_take, List.length_drop, hd', hb', List.getElem?_append, List.getElem?_take, List.getElem?_drop,
    DATA_SIZE, FRAME_SIZE, List.length_cons, List.length_nil]
  by_cases h0 : i < 3
  · interval_cases i <;> simp
  · by_cases h1 : i < 250
    · simp [h0, h1, show ¬ (255 = i) by omega, show ¬ (254 = i) by omega, show ¬ (253 = i) by omega,
        show ¬ (252 = i) by omega, show ¬ (251 = i) by omega, show ¬ (250 = i) by omega, show i < 250 by omega,
        show i - 3 < 247 by omega]
    · by_cases h2 : i < 256
      · interval_cases i <;> simp
      · have h3 : 256 ≤ i := by omega
        simp [h0, h1, show ¬ (255 = i) by omega, show ¬ (254 = i) by omega, show ¬ (253 = i) by omega,
        show ¬ (252 = i) by omega, show ¬ (251 = i) by omega, show ¬ (250 = i) by omega,
        show ¬ (i - 3 < 247) by omega, show ¬ (i < 250) by omega]
        rw [if_neg (by omega), if_neg (by omega), if_neg (by omega),
          List.getElem?_eq_none (by omega), List.getElem?_eq_none (by simp; omega)]


theorem Int_land_mask (x : Int) (k : Nat) : Int.land x ((2:Int)^k - 1) = x % 2^k := by
  have h2 : ((2:Int)^k - 1) = Int.ofNat (2^k - 1) := by
    have : 1 ≤ 2^k := Nat.one_le_two_pow
    simp [Int.ofNat_eq_coe, Nat.cast_sub this]
  rw [h2]
  cases x with
  | ofNat m =>
    show Int.ofNat (m &&& (2^k - 1)) = _
    rw [Nat.and_pow_two_sub_one_eq_mod]
    simp [Int.ofNat_eq_coe]
  | negSucc m =>
    show Int.ofNat (Nat.ldiff (2^k - 1) m) = _
    have hm : Nat.ldiff (2^k - 1) m = 2^k - (m % 2^k + 1) := by
      apply Nat.eq_of_testBit_eq
      intro i
      rw [Nat.testBit_ldiff, Nat.testBit_two_pow_sub_one, Nat.testBit_two_pow_sub_succ (Nat.mod_lt _ (by positivity)), Nat.testBit_mod_two_pow]
      by_cases h : i < k <;> simp [h]
    rw [hm]
    have hlt : m % 2^k < 2^k := Nat.mod_lt _ (by positivity)
    rw [Int.negSucc_emod _ (by positivity)]
    simp only [Int.ofNat_eq_coe]
    push_cast [Nat.cast_sub (show m % 2^k + 1 ≤ 2^k by omega)]
    omega

theorem land_FF (x : Int) : Int.land x 0xFF = x % 256 := by
  have := Int_land_mask x 8
  norm_num at this
  exact this

theorem land_FFFF (x : Int) : Int.land x 0xFFFF = x % 65536 := by
  have := Int_land_mask x 16
  norm_num at this
  exact this

theorem and_FF (x : Nat) : x &&& 0xFF = x % 256 := by
  have := Nat.and_pow_two_sub_one_eq_mod x 8
  norm_num at this
  exact this

theorem shl_or (a b i : Nat) (h : b < 2 ^ i) : a <<< i ||| b = a * 2 ^ i + b := by
  rw [Nat.shiftLeft_eq, Nat.mul_comm, Nat.mul_add_lt_is_or h]

theorem be16 (hi lo : Nat) (hlo : lo < 256) : hi <<< 8 ||| lo = hi * 256 + lo := by
  have := shl_or hi lo 8 (by norm_num; exact hlo)
  norm_num at this
  exact this

theorem be32 (b3 b2 b1 b0 : Nat) (h2 : b2 < 256) (h1 : b1 < 256) (h0 : b0 < 256) :
    b3 <<< 24 ||| b2 <<< 16 ||| b1 <<< 8 ||| b0 = b3 * 16777216 + b2 * 65536 + b1 * 256 + b0 := by
  rw [Nat.lor_assoc, Nat.lor_assoc, be16 b1 b0 h0]
  have e1 := shl_or b2 (b1 * 256 + b0) 16 (by norm_num; omega)
  rw [e1]
  have e2 := shl_or b3 (b2 * 2 ^ 16 + (b1 * 256 + b0)) 24 (by norm_num; omega)
  rw [e2]
  norm_num
  omega

theorem be16_roundtrip (x : Nat) (hx : x < 65536) :
    toUInt16 ((((x >>> 8) &&& 0xFF) <<< 8 ||| (x &&& 0xFF) : Nat) : Int) = x := by
  rw [and_FF, and_FF, be16 _ _ (Nat.mod_lt _ (by norm_num)), Nat.shiftRight_eq_div_pow]
  unfold toUInt16
  norm_num
  omega

theorem toUInt8_land_FF (x : Int) : ((toUInt8 (Int.land x 0xFF) : Nat) : Int) = x % 256 := by
  rw [land_FF]
  unfold toUInt8
  rw [Int.emod_emod_of_dvd _ (by norm_num), Int.toNat_of_nonneg (Int.emod_nonneg _ (by norm_num))]

theorem toUInt8_land_FF_lt (x : Int) : toUInt8 (Int.land x 0xFF) < 256 := by
  have := toUInt8_land_FF x
  omega

theorem be32_roundtrip (t : Int) (h1 : -2147483648 ≤ t) (h2 : t < 2147483648) :
    toInt32 (((toUInt8 (Int.land (t >>> (24 : Nat)) 0xFF) <<< 24) ||| (toUInt8 (Int.land (t >>> (16 : Nat)) 0xFF) <<< 16) |||
      (toUInt8 (Int.land (t >>> (8 : Nat)) 0xFF) <<< 8) ||| toUInt8 (Int.land t 0xFF) : Nat) : Int) = t := by
  rw [be32 _ _ _ _ (toUInt8_land_FF_lt _) (toUInt8_land_FF_lt _) (toUInt8_land_FF_lt _)]
  have e24 : t >>> (24 : Nat) = t / 16777216 := by rw [Int.shiftRight_eq_div_pow]; norm_num
  have e16 : t >>> (16 : Nat) = t / 65536 := by rw [Int.shiftRight_eq_div_pow]; norm_num
  have e8 : t >>> (8 : Nat) = t / 256 := by rw [Int.shiftRight_eq_div_pow]; norm_num
  push_cast
  rw [toUInt8_land_FF, toUInt8_land_FF, toUInt8_land_FF, toUInt8_land_FF, e24, e16, e8]
  unfold toInt32
  omega


theorem getD_tail (a b c : Nat) (data l : List Nat) (hd : data.length = 247) (k : Nat) :
    ([a, b, c] ++ data ++ l).getD (250 + k) 0 = l.getD k 0 := by
  rw [List.getD_eq_getElem?_getD, List.getD_eq_getElem?_getD,
    List.getElem?_append_right (by simp [hd])]
  simp [hd]

theorem deserialize_serialize (f : Frame) (buf : List Nat) (hdl : f.data_length < 65536)
    (hd : f.data.length = DATA_SIZE) (hck : f.checksum < 65536)
    (h1 : -2147483648 ≤ f.timestamp) (h2 : f.timestamp < 2147483648)
    (hb : buf.length = FRAME_SIZE) :
    FRAME_deserializeFrame (FRAME_serializeFrame f buf) = f := by
  rw [serialize_eq f buf hd hb]
  obtain ⟨ty, dl, da, ck, ts⟩ := f
  simp only at hdl hd hck h1 h2
  have hd' : da.length = 247 := hd
  have g := fun l k => getD_tail ty ((dl >>> 8) &&& 0xFF) (dl &&& 0xFF) da l hd' k
  have g0 := fun l => g l 0
  simp only [FRAME_deserializeFrame, DATA_SIZE, FRAME_SIZE, Nat.reduceSub, Nat.reduceAdd, Nat.zero_add]
  rw [g0, g _ 1, g _ 2, g _ 3, g _ 4, g _ 5]
  simp only [List.getD_cons_zero, List.getD_cons_succ, List.cons_append, List.nil_append,
    List.drop_succ_cons, List.drop_zero, List.take_left' hd']
  rw [be16_roundtrip dl hdl, be16_roundtrip ck hck, be32_roundtrip ts h1 h2]

theorem foldl_sum_mod (d : List Nat) (M : Nat) :
    ∀ s0, s0 < M → d.foldl (fun sum byte => (sum + byte) % M) s0 = (s0 + d.sum) % M := by
  induction d with
  | nil => intro s0 h; simp [Nat.mod_eq_of_lt h]
  | cons b d ih =>
    intro s0 h
    have hM : 0 < M := by omega
    rw [List.foldl_cons, ih _ (Nat.mod_lt _ hM), List.sum_cons, Nat.mod_add_mod, Nat.add_assoc]

theorem land_FFFF_toUInt32 (x : Int) : toUInt32 (Int.land x 0xFFFF) = (x % 65536).toNat := by
  rw [land_FFFF]
  unfold toUInt32
  congr 1
  omega

theorem checksum_eq (f : Frame) (hd : f.data.length = DATA_SIZE) :
    FRAME_calculateChecksum f =
      (f.type + f.data_length + f.data.sum + toUInt32 f.timestamp % 65536 +
        toUInt32 f.timestamp / 65536) % 65536 := by
  unfold FRAME_calculateChecksum
  simp only [Nat.zero_add]
  rw [foldl_sum_mod _ _ _ (Nat.mod_lt _ (by norm_num)), List.take_of_length_le (by rw [hd]),
    land_FFFF_toUInt32, land_FFFF_toUInt32]
  have e16 : f.timestamp >>> (16 : Nat) = f.timestamp / 65536 := by
    rw [Int.shiftRight_eq_div_pow]; norm_num
  rw [e16]
  unfold toUInt32
  omega

theorem serialize_length (f : Frame) (buf : List Nat) (hd : f.data.length = DATA_SIZE)
    (hb : buf.length = FRAME_SIZE) : (FRAME_serializeFrame f buf).length = FRAME_SIZE := by
  rw [serialize_eq f buf hd hb]
  have hd' : f.data.length = 247 := hd
  simp [hd']

theorem memcpy_full (dst src : List Nat) (n : Nat) (hs : src.length = n) (hd : dst.length = n) :
    memcpy dst 0 src n = src := by
  simp [memcpy, ← hs, List.drop_eq_nil_of_le, hd.le.trans hs.ge]

theorem checksum_with (f : Frame) (c : Nat) :
    FRAME_calculateChecksum { f with checksum := c } = FRAME_calculateChecksum f := rfl

theorem checksum_lt (f : Frame) : FRAME_calculateChecksum f < 65536 := by
  unfold FRAME_calculateChecksum
  exact Nat.mod_lt _ (by norm_num)

/-- Receiving, in one full read, the buffer written by `FRAME_serializeFrame`. -/
theorem receive_serialized (f : Frame) (sbuf rbuf : List Nat) (e : Int)
    (hdl : f.data_length < 65536) (hd : f.data.length = DATA_SIZE) (hck : f.checksum < 65536)
    (h1 : -2147483648 ≤ f.timestamp) (h2 : f.timestamp < 2147483648)
    (hs : sbuf.length = FRAME_SIZE) (hr : rbuf.length = FRAME_SIZE) :
    FRAME_receiveFrame rbuf { ret := FRAME_SIZE, errno := e, bytes := FRAME_serializeFrame f sbuf } true =
      if f.checksum ≠ FRAME_calculateChecksum f then
        { frame := some f, freed := true, error_code := .FRAME_RECV_ERROR }
      else { frame := some f, freed := false, error_code := .FRAME_SUCCESS } := by
  unfold FRAME_receiveFrame
  have hm : memcpy rbuf 0 (FRAME_serializeFrame f sbuf) (Int.toNat (FRAME_SIZE : Int)) =
      FRAME_serializeFrame f sbuf :=
    memcpy_full _ _ _ (serialize_length f sbuf hd hs) hr
  simp only [hm, deserialize_serialize f sbuf hdl hd hck h1 h2 hs]
  simp

/-- What `FRAME_sendFrame` writes when `write` takes the whole buffer, and what
`FRAME_receiveFrame` makes of it. -/
theorem send_receive (f : Frame) (sbuf rbuf : List Nat) (e : Int)
    (hdl : f.data_length < 65536) (hd : f.data.length = DATA_SIZE)
    (h1 : -2147483648 ≤ f.timestamp) (h2 : f.timestamp < 2147483648)
    (hs : sbuf.length = FRAME_SIZE) (hr : rbuf.length = FRAME_SIZE) :
    ∃ bytes, FRAME_sendFrame sbuf FRAME_SIZE (some f) =
        { ret := 0, frame := some { f with checksum := FRAME_calculateChecksum f },
          written := some { bytes := bytes, ret := FRAME_SIZE } } ∧
      bytes.length = FRAME_SIZE ∧
      FRAME_receiveFrame rbuf { ret := FRAME_SIZE, errno := e, bytes := bytes } true =
        { frame := some { f with checksum := FRAME_calculateChecksum f }, freed := false,
          error_code := .FRAME_SUCCESS } := by
  refine ⟨FRAME_serializeFrame { f with checksum := FRAME_calculateChecksum f } sbuf, ?_, ?_, ?_⟩
  · simp [FRAME_sendFrame]
  · exact serialize_length _ _ hd hs
  · rw [receive_serialized { f with checksum := FRAME_calculateChecksum f } sbuf rbuf e hdl hd
      (checksum_lt f) h1 h2 hs hr]
    simp [checksum_with]

theorem toUInt16_min (n : Nat) :
    toUInt16 (if n > DATA_SIZE then (DATA_SIZE : Int) else (n : Int)) = min n DATA_SIZE := by
  unfold toUInt16
  have : DATA_SIZE = 247 := rfl
  split <;> omega

theorem toInt32_range (x : Int) : -2147483648 ≤ toInt32 x ∧ toInt32 x < 2147483648 := by
  unfold toInt32
  omega

/-- The frame built by `FRAME_createFrame` when `malloc` succeeds. -/
theorem createFrame_eq (now type : Int) (data : Option (List Nat)) (n : Nat)
    (h : ∀ d, data = some d → min n DATA_SIZE ≤ d.length) :
    ∃ f, FRAME_createFrame true now type data n = some f ∧
      f.type = toUInt8 type ∧ f.data_length = min n DATA_SIZE ∧
      f.data = (match data with
        | some d => d.take (min n DATA_SIZE) ++ List.replicate (DATA_SIZE - min n DATA_SIZE) 0
        | none => List.replicate DATA_SIZE 0) ∧
      f.data.length = DATA_SIZE ∧
      f.timestamp = toInt32 now ∧ f.checksum = FRAME_calculateChecksum f := by
  unfold FRAME_createFrame
  simp only [Bool.not_true, Bool.false_eq_true, if_false, toUInt16_min]
  refine ⟨_, rfl, rfl, rfl, ?_, ?_, rfl, ?_⟩
  · cases data with
    | none => rfl
    | some d =>
      simp only [memcpy, List.take_zero, List.nil_append, Nat.zero_add, List.drop_replicate]
  · cases data with
    | none => simp
    | some d =>
      have := h d rfl
      simp only [memcpy, List.take_zero, List.nil_append, Nat.zero_add, List.drop_replicate,
        List.length_append, List.length_take, List.length_replicate]
      omega
  · rfl


/-- The frame built by `FRAME_createFrame` is sent and received unchanged. -/
theorem created_frame_received (now type : Int) (data : Option (List Nat)) (n : Nat)
    (sbuf rbuf : List Nat) (e : Int)
    (h : ∀ d, data = some d → min n DATA_SIZE ≤ d.length)
    (hs : sbuf.length = FRAME_SIZE) (hr : rbuf.length = FRAME_SIZE) :
    ∃ f bytes, FRAME_createFrame true now type data n = some f ∧
      FRAME_sendFrame sbuf FRAME_SIZE (some f) =
        { ret := 0, frame := some f, written := some { bytes := bytes, ret := FRAME_SIZE } } ∧
      bytes.length = FRAME_SIZE ∧
      FRAME_receiveFrame rbuf { ret := FRAME_SIZE, errno := e, bytes := bytes } true =
        { frame := some f, freed := false, error_code := .FRAME_SUCCESS } ∧
      f.type = toUInt8 type ∧ f.data_length = min n DATA_SIZE ∧
      f.data = (match data with
        | some d => d.take (min n DATA_SIZE) ++ List.replicate (DATA_SIZE - min n DATA_SIZE) 0
        | none => List.replicate DATA_SIZE 0) ∧
      f.data.length = DATA_SIZE := by
  obtain ⟨f, hf, hty, hdl, hda, hlen, hts, hck⟩ := createFrame_eq now type data n h
  have hdl' : f.data_length < 65536 := by
    rw [hdl]
    have : DATA_SIZE = 247 := rfl
    omega
  have hr1 := (toInt32_range now).1
  have hr2 := (toInt32_range now).2
  rw [← hts] at hr1 hr2
  obtain ⟨bytes, h1, h2, h3⟩ := send_receive f sbuf rbuf e hdl' hlen hr1 hr2 hs hr
  have hff : { f with checksum := FRAME_calculateChecksum f } = f := by
    cases f
    simp only [Frame.mk.injEq, true_and, and_true] at hck ⊢
    exact hck.symm
  rw [hff] at h1 h3
  exact ⟨f, bytes, hf, h1, h2, h3, hty, hdl, hda, hlen⟩

theorem deserialize_checksum (bytes : List Nat) (hb : ∀ b ∈ bytes, b < 256) :
    (FRAME_deserializeFrame bytes).checksum = bytes.getD 250 0 * 256 + bytes.getD 251 0 := by
  have h : ∀ i, bytes.getD i 0 < 256 := by
    intro i
    rw [List.getD_eq_getElem?_getD]
    cases hi : bytes[i]? with
    | none => simp
    | some b => exact hb b (List.getElem?_mem hi)
  simp only [FRAME_deserializeFrame, DATA_SIZE, FRAME_SIZE, Nat.reduceSub, Nat.reduceAdd,
    Nat.zero_add]
  rw [be16 _ _ (h 251)]
  have h0 := h 250
  have h1 := h 251
  unfold toUInt16
  omega

/-! ## Steps of the transfer loops -/

theorem sendFile_sent_extends (w : SendFileWorld) (F : List Nat) (N : Int) (fuel : Nat) :
    ∀ i st, ∃ rest, (COMM_sendFile_loop w F N fuel i st).sent = st.sent ++ rest := by
  induction fuel with
  | zero => intro i st; exact ⟨[], by simp [COMM_sendFile_loop, COMM_sendFile_end]⟩
  | succ fuel ih =>
    intro i st
    unfold COMM_sendFile_loop
    simp only []
    split
    · split
      · exact ⟨[], by simp⟩
      · split
        · exact ⟨[], by simp [COMM_sendFile_end]⟩
        · split
          · exact ⟨[], by simp⟩
          · split
            · exact ⟨_, rfl⟩
            · split
              · exact ⟨_, rfl⟩
              · split
                · exact ⟨_, rfl⟩
                · obtain ⟨rest, hrest⟩ := ih (i + 1) _
                  rw [hrest]
                  simp only [List.append_assoc]
                  exact ⟨_, rfl⟩
    · exact ⟨[], by simp [COMM_sendFile_end]⟩

theorem receiveFile_sent_extends (w : RecvFileWorld) (N : Int) (fuel : Nat) :
    ∀ i st, ∃ rest, (COMM_receiveFile_loop w N fuel i st).sent = st.sent ++ rest := by
  induction fuel with
  | zero => intro i st; exact ⟨[], by simp [COMM_receiveFile_loop, COMM_receiveFile_end]⟩
  | succ fuel ih =>
    intro i st
    unfold COMM_receiveFile_loop
    simp only []
    split
    · split
      · exact ⟨[], by simp⟩
      · split
        · exact ⟨[], by simp⟩
        · split
          · exact ⟨[], by simp⟩
          · split
            · exact ⟨[], by simp⟩
            · split
              · exact ⟨[], by simp⟩
              · split
                · exact ⟨_, rfl⟩
                · obtain ⟨rest, hrest⟩ := ih (i + 1) _
                  rw [hrest]
                  simp only [List.append_assoc]
                  exact ⟨_, rfl⟩
    · exact ⟨[], by simp [COMM_receiveFile_end]⟩

theorem fileRead_length_le (F : List Nat) (pos n : Nat) : (fileRead F pos n).length ≤ n := by
  simp [fileRead, List.length_take]

/-- The DATA frame `COMM_sendFile` builds for a chunk, as its peer receives it. -/
theorem data_frame (now : Int) (buffer chunk sbuf : List Nat) (hc : chunk.length ≤ DATA_SIZE)
    (hs : sbuf.length = FRAME_SIZE) :
    ∃ f bytes,
      FRAME_createFrame true now 0x05 (some (memcpy buffer 0 chunk chunk.length)) chunk.length =
        some f ∧
      FRAME_sendFrame sbuf FRAME_SIZE (some f) =
        { ret := 0, frame := some f, written := some { bytes := bytes, ret := FRAME_SIZE } } ∧
      (∀ rbuf e, rbuf.length = FRAME_SIZE →
        FRAME_receiveFrame rbuf { ret := FRAME_SIZE, errno := e, bytes := bytes } true =
          { frame := some f, freed := false, error_code := .FRAME_SUCCESS }) ∧
      f.type = 0x05 ∧ ∀ beyond, filePayload f beyond = chunk := by
  have hmem : memcpy buffer 0 chunk chunk.length = chunk ++ buffer.drop chunk.length := by
    simp [memcpy]
  have hmin : min chunk.length DATA_SIZE = chunk.length := Nat.min_eq_left hc
  have hpre : ∀ d, some (memcpy buffer 0 chunk chunk.length) = some d →
      min chunk.length DATA_SIZE ≤ d.length := by
    intro d hd
    cases hd
    rw [hmem, hmin]
    simp
  obtain ⟨f, bytes, h1, h2, _, _, h5, h6, h7, h8⟩ :=
    created_frame_received now 0x05 (some (memcpy buffer 0 chunk chunk.length)) chunk.length
      sbuf (List.replicate FRAME_SIZE 0) 0 hpre hs (by simp)
  refine ⟨f, bytes, h1, h2, ?_, ?_, ?_⟩
  · intro rbuf e hr
    obtain ⟨f', bytes', h1', h2', _, h4', _⟩ :=
      created_frame_received now 0x05 (some (memcpy buffer 0 chunk chunk.length)) chunk.length
        sbuf rbuf e hpre hs hr
    rw [h1] at h1'
    cases h1'
    rw [h2] at h2'
    cases h2'
    exact h4'
  · rw [h5]; decide
  · intro beyond
    unfold filePayload
    have hd : f.data = chunk ++ List.replicate (DATA_SIZE - chunk.length) 0 := by
      rw [h7]
      simp only [hmin, hmem]
      rw [List.take_left']
      rfl
    rw [h6, hmin, hd, List.append_assoc, List.take_left' rfl]

/-- The ACK frame `COMM_sendAckFrame` writes, as its peer receives it. -/
theorem ack_frame (c : CreateEnv) (s : SendEnv) (hc : c.malloc_ok = true)
    (hs : s.buffer.length = FRAME_SIZE) (hw : s.write_ret = FRAME_SIZE) :
    ∃ bytes, COMM_sendAckFrame c s = (TRANSFER_SUCCESS, some { bytes := bytes, ret := FRAME_SIZE }) ∧
      ∀ rbuf e, rbuf.length = FRAME_SIZE →
        COMM_retrieveAckFrame rbuf { ret := FRAME_SIZE, errno := e, bytes := bytes } true =
          TRANSFER_SUCCESS := by
  have hpre : ∀ d, (none : Option (List Nat)) = some d → min 0 DATA_SIZE ≤ d.length := by
    intro d hd; cases hd
  obtain ⟨f, bytes, h1, h2, _, _, _⟩ :=
    created_frame_received c.now 0x12 none 0 s.buffer (List.replicate FRAME_SIZE 0) 0 hpre hs
      (by simp)
  refine ⟨bytes, ?_, ?_⟩
  · unfold COMM_sendAckFrame
    rw [hc, h1]
    simp only [hw, h2]
    simp
  · intro rbuf e hr
    obtain ⟨f', bytes', h1', h2', _, h4', _⟩ :=
      created_frame_received c.now 0x12 none 0 s.buffer rbuf e hpre hs hr
    rw [h1] at h1'
    cases h1'
    rw [h2] at h2'
    cases h2'
    unfold COMM_retrieveAckFrame
    rw [h4']
    simp

/-- A read that returns no byte is not a received frame. -/
theorem receive_nothing (buffer : List Nat) (rd : SockRead) (m : Bool) (h : rd.ret ≤ 0) :
    (FRAME_receiveFrame buffer rd m).error_code ≠ .FRAME_SUCCESS := by
  unfold FRAME_receiveFrame
  simp only []
  by_cases h0 : rd.ret = 0
  · simp [h0]
  · have hneg : rd.ret < 0 := by omega
    simp only [h0, if_false, hneg, if_true]
    split
    · simp
    · split <;> simp

/-- The loop of `COMM_sendFile` stops at once when its test fails. -/
theorem sendFile_loop_stop (w : SendFileWorld) (F : List Nat) (N : Int) (fuel i : Nat)
    (st : SendFileState)
    (h : ¬ (st.n_processed_packets < N ∧ w.exit_distortion i = false)) :
    COMM_sendFile_loop w F N fuel i st = COMM_sendFile_end w F st := by
  cases fuel with
  | zero => rfl
  | succ fuel =>
    unfold COMM_sendFile_loop
    rw [if_neg h]

/-- The loop of `COMM_sendFile` stops at the end of the file. -/
theorem sendFile_loop_eof (w : SendFileWorld) (F : List Nat) (N : Int) (fuel i : Nat)
    (st : SendFileState) (hw : w.LocalOk)
    (h : fileRead F st.pos DATA_SIZE = []) :
    COMM_sendFile_loop w F N fuel i st = COMM_sendFile_end w F st := by
  cases fuel with
  | zero => rfl
  | succ fuel =>
    unfold COMM_sendFile_loop
    split
    · simp only [(hw.2.2.2 i).1, h]
      simp
    · rfl

/-- One iteration of the loop of `COMM_sendFile` that sends a packet. -/
theorem sendFile_loop_step (w : SendFileWorld) (F : List Nat) (N : Int) (fuel i : Nat)
    (st : SendFileState) (hw : w.LocalOk)
    (hn : st.n_processed_packets < N) (hx : w.exit_distortion i = false)
    (hc : fileRead F st.pos DATA_SIZE ≠ []) :
    ∃ f bytes,
      (∀ rbuf e, rbuf.length = FRAME_SIZE →
        FRAME_receiveFrame rbuf { ret := FRAME_SIZE, errno := e, bytes := bytes } true =
          { frame := some f, freed := false, error_code := .FRAME_SUCCESS }) ∧
      f.type = 0x05 ∧ (∀ beyond, filePayload f beyond = fileRead F st.pos DATA_SIZE) ∧
      COMM_sendFile_loop w F N (fuel + 1) i st =
        match (w.ack i).read with
        | none =>
          { ret := none, n_processed_packets := st.n_processed_packets, file := F,
            sent := st.sent ++ [{ bytes := bytes, ret := FRAME_SIZE }], payloads := [] }
        | some rd =>
          if COMM_retrieveAckFrame (w.ack i).buffer rd (w.ack i).malloc_ok =
                REMOTE_END_DISCONNECTION ∨
              COMM_retrieveAckFrame (w.ack i).buffer rd (w.ack i).malloc_ok =
                UNEXPECTED_ERROR then
            { ret := some (COMM_retrieveAckFrame (w.ack i).buffer rd (w.ack i).malloc_ok),
              n_processed_packets := st.n_processed_packets, file := F,
              sent := st.sent ++ [{ bytes := bytes, ret := FRAME_SIZE }], payloads := [] }
          else
            COMM_sendFile_loop w F N fuel (i + 1)
              { n_processed_packets := st.n_processed_packets + 1,
                pos := st.pos + (fileRead F st.pos DATA_SIZE).length,
                buffer := memcpy st.buffer 0 (fileRead F st.pos DATA_SIZE)
                  (fileRead F st.pos DATA_SIZE).length,
                sent := st.sent ++ [{ bytes := bytes, ret := FRAME_SIZE }] } := by
  obtain ⟨_, _, _, hi⟩ := hw
  obtain ⟨h1, h2, h3, h4, _, _⟩ := hi i
  obtain ⟨f, bytes, hcreate, hsend, hrecv, hty, hpay⟩ :=
    data_frame (w.create i).now st.buffer (fileRead F st.pos DATA_SIZE) (w.send i).buffer
      (fileRead_length_le F st.pos DATA_SIZE) h3
  refine ⟨f, bytes, hrecv, hty, hpay, ?_⟩
  have hlen : (fileRead F st.pos DATA_SIZE).length ≠ 0 := by
    intro h0
    exact hc (List.length_eq_zero.mp h0)
  rw [COMM_sendFile_loop]
  simp only [hn, hx, and_self, if_true, h1, hlen, if_false, h2, hcreate, h4, hsend]
  simp

/-- The loop of `COMM_receiveFile` stops at once when its test fails. -/
theorem receiveFile_loop_stop (w : RecvFileWorld) (N : Int) (fuel i : Nat)
    (st : RecvFileState)
    (h : ¬ (st.n_processed_packets < N ∧ w.exit_distortion i = false)) :
    COMM_receiveFile_loop w N fuel i st = COMM_receiveFile_end w st := by
  cases fuel with
  | zero => rfl
  | succ fuel =>
    unfold COMM_receiveFile_loop
    rw [if_neg h]

/-- An iteration of the loop of `COMM_receiveFile` whose read brings no byte
ends the call (or blocks it) and leaves counter, file and trace as they are. -/
theorem receiveFile_loop_starved (w : RecvFileWorld) (N : Int) (fuel i : Nat)
    (st : RecvFileState)
    (h : ∀ rd, (w.recv i).read = some rd → rd.ret ≤ 0) :
    (COMM_receiveFile_loop w N fuel i st).n_processed_packets = st.n_processed_packets ∧
    (COMM_receiveFile_loop w N fuel i st).file = st.file ∧
    (COMM_receiveFile_loop w N fuel i st).sent = st.sent ∧
    (COMM_receiveFile_loop w N fuel i st).payloads = st.payloads ∧
    (st.n_processed_packets < N → w.exit_distortion i = false → 0 < fuel →
      (COMM_receiveFile_loop w N fuel i st).ret ≠ some TRANSFER_SUCCESS) := by
  cases fuel with
  | zero => simp [COMM_receiveFile_loop, COMM_receiveFile_end]
  | succ fuel =>
    unfold COMM_receiveFile_loop
    split
    · next hcond =>
      cases hrd : (w.recv i).read with
      | none => simp
      | some rd =>
        have hne := receive_nothing (w.recv i).buffer rd (w.recv i).malloc_ok (h rd hrd)
        simp only [hne, ne_eq, not_false_eq_true, if_true, true_and]
        intro _ _ _
        split <;> decide
    · next hcond =>
      simp only [COMM_receiveFile_end, true_and]
      intro h1 h2
      exact absurd ⟨h1, h2⟩ hcond

/-- One iteration of the loop of `COMM_receiveFile` that receives a DATA frame. -/
theorem receiveFile_loop_step (w : RecvFileWorld) (N : Int) (fuel i : Nat)
    (st : RecvFileState) (hw : w.LocalOk)
    (hn : st.n_processed_packets < N) (hx : w.exit_distortion i = false)
    (e : Int) (bytes : List Nat) (f : Frame)
    (hread : (w.recv i).read = some { ret := FRAME_SIZE, errno := e, bytes := bytes })
    (hrecv : FRAME_receiveFrame (w.recv i).buffer
        { ret := FRAME_SIZE, errno := e, bytes := bytes } true =
      { frame := some f, freed := false, error_code := .FRAME_SUCCESS })
    (hty : f.type = 0x05) :
    ∃ ackbytes,
      (∀ rbuf e, rbuf.length = FRAME_SIZE →
        COMM_retrieveAckFrame rbuf { ret := FRAME_SIZE, errno := e, bytes := ackbytes } true =
          TRANSFER_SUCCESS) ∧
      COMM_receiveFile_loop w N (fuel + 1) i st =
        COMM_receiveFile_loop w N fuel (i + 1)
          { n_processed_packets := st.n_processed_packets + 1,
            pos := st.pos + (filePayload f (w.beyond i)).length,
            file := fileWrite st.file st.pos (filePayload f (w.beyond i)),
            sent := st.sent ++ [{ bytes := ackbytes, ret := FRAME_SIZE }],
            payloads := st.payloads ++ [filePayload f (w.beyond i)] } := by
  obtain ⟨_, _, hi⟩ := hw
  obtain ⟨_, h2, h3, h4, h5, h6⟩ := hi i
  obtain ⟨ackbytes, hack, hret⟩ := ack_frame (w.ack_create i) (w.ack_send i) h4 h5 h6
  refine ⟨ackbytes, hret, ?_⟩
  rw [COMM_receiveFile_loop]
  simp only [hn, hx, and_self, if_true, hread, h2, hrecv, hty, h3, hack]
  simp

theorem fileRead_ne_nil (F : List Nat) (p n : Nat) (h : fileRead F p n ≠ []) : p < F.length := by
  by_contra hp
  apply h
  simp [fileRead, List.drop_eq_nil_of_le (Nat.le_of_not_lt hp)]

theorem fileRead_eq_nil (F : List Nat) (p n : Nat) (hn : 0 < n) (h : fileRead F p n = []) :
    F.length ≤ p := by
  have := congrArg List.length h
  simp [fileRead, List.length_take] at this
  omega

theorem fileRead_length (F : List Nat) (p n : Nat) :
    (fileRead F p n).length = min n (F.length - p) := by
  simp [fileRead, List.length_take]

theorem take_add_fileRead (F : List Nat) (p n : Nat) :
    F.take p ++ fileRead F p n = F.take (p + n) := by
  unfold fileRead
  rw [List.take_add]

theorem fileWrite_chunk (F : List Nat) (p n : Nat) (hp : p < F.length) (hn : 0 < n) :
    fileWrite (F.take p) p (fileRead F p n) = F.take (p + n) := by
  have hne : fileRead F p n ≠ [] := by
    intro h
    have := fileRead_eq_nil F p n hn h
    omega
  unfold fileWrite
  rw [if_neg hne, List.take_take, Nat.min_self, List.length_take, Nat.min_eq_left hp.le,
    Nat.sub_self, List.replicate_zero, List.append_nil,
    List.drop_eq_nil_of_le (by rw [List.length_take]; omega), List.append_nil,
    take_add_fileRead]

theorem take_fileRead_length (F : List Nat) (p n : Nat) :
    F.take (p + (fileRead F p n).length) = F.take (p + n) := by
  rw [fileRead_length]
  by_cases h : n ≤ F.length - p
  · rw [Nat.min_eq_left h]
  · have h1 : min n (F.length - p) = F.length - p := Nat.min_eq_right (by omega)
    rw [h1, List.take_of_length_le (by omega), List.take_of_length_le (by omega)]

theorem take_eq_take (F : List Nat) (p q : Nat) (h : F.take p = F.take q) (hp : p < F.length) :
    p = q := by
  have := congrArg List.length h
  simp [List.length_take] at this
  omega

theorem take_eq_take_ge (F : List Nat) (p q : Nat) (h : F.take p = F.take q)
    (hp : F.length ≤ p) : F.length ≤ q := by
  have := congrArg List.length h
  simp [List.length_take] at this
  omega

/-! ## Sender and receiver run against each other -/

theorem getElem?_append_cons (l rest : List SockWrite) (x : SockWrite) (i : Nat)
    (h : l.length = i) : (l ++ x :: rest)[i]? = some x := by
  rw [List.getElem?_append_right (by omega), ← h]
  simp

/-- Sender and receiver running against each other over reliable channels,
from the heads of their loops, both at the same packet and file offset. -/
theorem transfer_joint (ws : SendFileWorld) (wr : RecvFileWorld) (F : List Nat) (N : Int)
    (hs : ws.LocalOk) (hr : wr.LocalOk) :
    ∀ (m fs fr i : Nat) (ss : SendFileState) (sr : RecvFileState),
      (N - ss.n_processed_packets).toNat = m → m ≤ fs → m ≤ fr →
      ss.n_processed_packets = sr.n_processed_packets → 0 ≤ ss.n_processed_packets →
      ss.n_processed_packets ≤ N →
      ss.pos = sr.pos → ss.sent.length = i → sr.sent.length = i →
      sr.file = F.take sr.pos →
      F.take sr.pos = F.take (ss.n_processed_packets.toNat * DATA_SIZE) →
      Delivers (COMM_sendFile_loop ws F N fs i ss).sent (fun j => (wr.recv j).read) →
      Delivers (COMM_receiveFile_loop wr N fr i sr).sent (fun j => (ws.ack j).read) →
      (COMM_receiveFile_loop wr N fr i sr).file =
        F.take ((COMM_receiveFile_loop wr N fr i sr).n_processed_packets.toNat * DATA_SIZE) ∧
      sr.n_processed_packets ≤ (COMM_receiveFile_loop wr N fr i sr).n_processed_packets ∧
      (COMM_receiveFile_loop wr N fr i sr).n_processed_packets ≤ N ∧
      (sr.n_processed_packets < (COMM_receiveFile_loop wr N fr i sr).n_processed_packets →
        ((COMM_receiveFile_loop wr N fr i sr).n_processed_packets.toNat - 1) * DATA_SIZE <
          F.length) ∧
      (ws.NoCancel → wr.NoCancel →
        ((COMM_receiveFile_loop wr N fr i sr).n_processed_packets = N ∨
          F.length ≤
            (COMM_receiveFile_loop wr N fr i sr).n_processed_packets.toNat * DATA_SIZE)) ∧
      (ws.NoCancel → wr.NoCancel → N.toNat * DATA_SIZE < F.length + DATA_SIZE →
        (COMM_sendFile_loop ws F N fs i ss).ret = some TRANSFER_SUCCESS ∧
        (COMM_receiveFile_loop wr N fr i sr).ret = some TRANSFER_SUCCESS ∧
        (COMM_sendFile_loop ws F N fs i ss).n_processed_packets = N ∧
        (COMM_receiveFile_loop wr N fr i sr).n_processed_packets = N ∧
        (COMM_receiveFile_loop wr N fr i sr).payloads = sr.payloads ++
          (List.range m).map
            (fun j => fileRead F ((ss.n_processed_packets.toNat + j) * DATA_SIZE) DATA_SIZE)) := by
  intro m
  induction m with
  | zero =>
    intro fs fr i ss sr hm _ _ hnn h0 hle hpos hsl hrl hfile htake _ _
    have hge : ¬ (ss.n_processed_packets < N) := by omega
    have hge' : ¬ (sr.n_processed_packets < N) := by rw [← hnn]; exact hge
    rw [sendFile_loop_stop ws F N fs i ss (fun h => hge h.1),
      receiveFile_loop_stop wr N fr i sr (fun h => hge' h.1)]
    simp only [COMM_sendFile_end, COMM_receiveFile_end]
    refine ⟨?_, le_refl _, ?_, ?_, ?_, ?_⟩
    · rw [hfile, htake, hnn]
    · omega
    · intro h; exact absurd h (lt_irrefl _)
    · intro _ _; left; omega
    · intro hcs hcr _
      simp only [hcs.2, hcr.2]
      refine ⟨rfl, rfl, by omega, by omega, by simp⟩
  | succ m ih =>
    intro fs fr i ss sr hm hfs hfr hnn h0 hle hpos hsl hrl hfile htake hDs hDr
    have hlt : ss.n_processed_packets < N := by omega
    have hlt' : sr.n_processed_packets < N := by rw [← hnn]; exact hlt
    obtain ⟨fs', rfl⟩ : ∃ k, fs = k + 1 := ⟨fs - 1, by omega⟩
    obtain ⟨fr', rfl⟩ : ∃ k, fr = k + 1 := ⟨fr - 1, by omega⟩
    have e247 : DATA_SIZE = 247 := rfl
    by_cases hxr : wr.exit_distortion i = false
    swap
    · -- the receiver sees the exit flag
      rw [receiveFile_loop_stop wr N (fr' + 1) i sr (fun h => hxr h.2)]
      simp only [COMM_receiveFile_end]
      refine ⟨by rw [hfile, htake, hnn], le_refl _, by omega,
        fun h => absurd h (lt_irrefl _), ?_, ?_⟩
      · intro _ hcr; exact absurd (hcr.1 i) hxr
      · intro _ hcr; exact absurd (hcr.1 i) hxr
    by_cases hxs : ws.exit_distortion i = false
    swap
    · -- the sender sees the exit flag: nothing reaches the receiver
      have hS := sendFile_loop_stop ws F N (fs' + 1) i ss (fun h => hxs h.2)
      rw [hS] at hDs
      have hstarve : ∀ rd, (wr.recv i).read = some rd → rd.ret ≤ 0 :=
        fun rd h => hDs.2 i rd (by simp [COMM_sendFile_end, hsl]) h
      obtain ⟨e1, e2, _, _, _⟩ := receiveFile_loop_starved wr N (fr' + 1) i sr hstarve
      rw [e1, e2]
      refine ⟨by rw [hfile, htake, hnn], le_refl _, by omega,
        fun h => absurd h (lt_irrefl _), ?_, ?_⟩
      · intro hcs _; exact absurd (hcs.1 i) hxs
      · intro hcs _; exact absurd (hcs.1 i) hxs
    by_cases hc : fileRead F ss.pos DATA_SIZE = []
    · -- the sender is at the end of its file: nothing reaches the receiver
      have hS := sendFile_loop_eof ws F N (fs' + 1) i ss hs hc
      rw [hS] at hDs
      have hstarve : ∀ rd, (wr.recv i).read = some rd → rd.ret ≤ 0 :=
        fun rd h => hDs.2 i rd (by simp [COMM_sendFile_end, hsl]) h
      obtain ⟨e1, e2, _, _, _⟩ := receiveFile_loop_starved wr N (fr' + 1) i sr hstarve
      rw [e1, e2]
      have hL : F.length ≤ ss.pos := fileRead_eq_nil F ss.pos DATA_SIZE (by decide) hc
      have hL' : F.length ≤ ss.n_processed_packets.toNat * DATA_SIZE :=
        take_eq_take_ge F sr.pos _ htake (hpos ▸ hL)
      refine ⟨by rw [hfile, htake, hnn], le_refl _, by omega,
        fun h => absurd h (lt_irrefl _), ?_, ?_⟩
      · intro _ _; right; rw [← hnn]; exact hL'
      · intro _ _ hN
        exfalso
        rw [e247] at hN hL'
        omega
    · -- a packet goes from the sender to the receiver, an ACK comes back
      obtain ⟨f, bytes, hrecvf, hty, hpay, hS⟩ :=
        sendFile_loop_step ws F N fs' i ss hs hlt hxs hc
      have hSi : (COMM_sendFile_loop ws F N (fs' + 1) i ss).sent[i]? =
          some { bytes := bytes, ret := FRAME_SIZE } := by
        rw [hS]
        cases (ws.ack i).read with
        | none => exact getElem?_append_cons _ [] _ i hsl
        | some rd =>
          simp only []
          split
          · exact getElem?_append_cons _ [] _ i hsl
          · obtain ⟨rest, hrest⟩ := sendFile_sent_extends ws F N fs' (i + 1)
              { n_processed_packets := ss.n_processed_packets + 1,
                pos := ss.pos + (fileRead F ss.pos DATA_SIZE).length,
                buffer := memcpy ss.buffer 0 (fileRead F ss.pos DATA_SIZE)
                  (fileRead F ss.pos DATA_SIZE).length,
                sent := ss.sent ++ [{ bytes := bytes, ret := FRAME_SIZE }] }
            rw [hrest, List.append_assoc]
            exact getElem?_append_cons _ _ _ i hsl
      obtain ⟨e, hread⟩ := hDs.1 i _ hSi
      obtain ⟨ackbytes, hackok, hR⟩ :=
        receiveFile_loop_step wr N fr' i sr hr hlt' hxr e bytes f hread
          (hrecvf _ e (hr.2.2 i).1) hty
      have hRi : (COMM_receiveFile_loop wr N (fr' + 1) i sr).sent[i]? =
          some { bytes := ackbytes, ret := FRAME_SIZE } := by
        rw [hR]
        obtain ⟨rest, hrest⟩ := receiveFile_sent_extends wr N fr' (i + 1)
          { n_processed_packets := sr.n_processed_packets + 1,
            pos := sr.pos + (filePayload f (wr.beyond i)).length,
            file := fileWrite sr.file sr.pos (filePayload f (wr.beyond i)),
            sent := sr.sent ++ [{ bytes := ackbytes, ret := FRAME_SIZE }],
            payloads := sr.payloads ++ [filePayload f (wr.beyond i)] }
        rw [hrest, List.append_assoc]
        exact getElem?_append_cons _ _ _ i hrl
      obtain ⟨e', hackread⟩ := hDr.1 i _ hRi
      simp only at hackread
      have hS' : COMM_sendFile_loop ws F N (fs' + 1) i ss =
          COMM_sendFile_loop ws F N fs' (i + 1)
            { n_processed_packets := ss.n_processed_packets + 1,
              pos := ss.pos + (fileRead F ss.pos DATA_SIZE).length,
              buffer := memcpy ss.buffer 0 (fileRead F ss.pos DATA_SIZE)
                (fileRead F ss.pos DATA_SIZE).length,
              sent := ss.sent ++ [{ bytes := bytes, ret := FRAME_SIZE }] } := by
        rw [hS, hackread]
        simp only []
        rw [(hs.2.2.2 i).2.2.2.2.2, hackok _ e' (hs.2.2.2 i).2.2.2.2.1]
        simp [TRANSFER_SUCCESS, REMOTE_END_DISCONNECTION, UNEXPECTED_ERROR]
      rw [hS'] at hDs ⊢
      rw [hR] at hDr ⊢
      have hp : ss.pos < F.length := fileRead_ne_nil F ss.pos DATA_SIZE hc
      have hpn : ss.pos = ss.n_processed_packets.toNat * DATA_SIZE :=
        take_eq_take F _ _ (hpos ▸ htake) hp
      have hpay' := hpay (wr.beyond i)
      have IH := ih fs' fr' (i + 1) _ _ (by simp only []; omega) (by omega) (by omega)
        (by simp only [hnn]) (by simp only []; omega) (by simp only []; omega)
        (by simp only [hpay', hpos]) (by simp [hsl]) (by simp [hrl])
        (by
          simp only [hpay', hfile, ← hpos]
          rw [fileWrite_chunk F ss.pos DATA_SIZE hp (by decide), take_fileRead_length])
        (by
          simp only [hpay', ← hpos]
          have hnext : ss.n_processed_packets.toNat * DATA_SIZE + DATA_SIZE =
              (ss.n_processed_packets + 1).toNat * DATA_SIZE := by
            rw [e247]
            omega
          rw [take_fileRead_length, hpn, hnext])
        hDs hDr
      obtain ⟨c1, c2, c3, c4, c5, c6⟩ := IH
      simp only at c2 c4 c6
      refine ⟨c1, by omega, c3, ?_, c5, ?_⟩
      · intro _
        by_cases hlast : sr.n_processed_packets + 1 <
            (COMM_receiveFile_loop wr N fr' (i + 1)
              { n_processed_packets := sr.n_processed_packets + 1,
                pos := sr.pos + (filePayload f (wr.beyond i)).length,
                file := fileWrite sr.file sr.pos (filePayload f (wr.beyond i)),
                sent := sr.sent ++ [{ bytes := ackbytes, ret := FRAME_SIZE }],
                payloads := sr.payloads ++ [filePayload f (wr.beyond i)] }).n_processed_packets
        · exact c4 hlast
        · rw [e247] at hpn ⊢
          omega
      · intro hcs hcr hN
        obtain ⟨d1, d2, d3, d4, d5⟩ := c6 hcs hcr hN
        refine ⟨d1, d2, d3, d4, ?_⟩
        have hmap : List.map
            (fun j => fileRead F (((ss.n_processed_packets + 1).toNat + j) * DATA_SIZE) DATA_SIZE)
            (List.range m) =
          List.map ((fun j => fileRead F ((ss.n_processed_packets.toNat + j) * DATA_SIZE)
            DATA_SIZE) ∘ Nat.succ) (List.range m) := by
          apply List.map_congr_left
          intro j _
          have hj : (ss.n_processed_packets + 1).toNat + j =
              ss.n_processed_packets.toNat + Nat.succ j := by omega
          simp only [Function.comp, hj]
        rw [d5, List.range_succ_eq_map, List.map_cons, List.map_map, hpay', hmap,
          List.append_assoc, List.singleton_append, Nat.add_zero, ← hpn]

/-- The two functions entered with the same counter `a` on both sides, the
receiver holding the first `a` packets of the file, over reliable channels. -/
theorem transfer_main (ws : SendFileWorld) (wr : RecvFileWorld) (F P : List Nat) (N a : Int)
    (hs : ws.LocalOk) (hr : wr.LocalOk) (h0 : 0 ≤ a) (hle : a ≤ N)
    (hov : a * DATA_SIZE < 2147483648) (hP : P = F.take (a.toNat * DATA_SIZE))
    (hDs : Delivers (COMM_sendFile ws F N a).sent (fun j => (wr.recv j).read))
    (hDr : Delivers (COMM_receiveFile wr P N a).sent (fun j => (ws.ack j).read)) :
    (COMM_receiveFile wr P N a).file =
        F.take ((COMM_receiveFile wr P N a).n_processed_packets.toNat * DATA_SIZE) ∧
      a ≤ (COMM_receiveFile wr P N a).n_processed_packets ∧
      (COMM_receiveFile wr P N a).n_processed_packets ≤ N ∧
      (a < (COMM_receiveFile wr P N a).n_processed_packets →
        ((COMM_receiveFile wr P N a).n_processed_packets.toNat - 1) * DATA_SIZE < F.length) ∧
      (ws.NoCancel → wr.NoCancel →
        ((COMM_receiveFile wr P N a).n_processed_packets = N ∨
          F.length ≤ (COMM_receiveFile wr P N a).n_processed_packets.toNat * DATA_SIZE)) ∧
      (ws.NoCancel → wr.NoCancel → N.toNat * DATA_SIZE < F.length + DATA_SIZE →
        (COMM_sendFile ws F N a).ret = some TRANSFER_SUCCESS ∧
        (COMM_receiveFile wr P N a).ret = some TRANSFER_SUCCESS ∧
        (COMM_sendFile ws F N a).n_processed_packets = N ∧
        (COMM_receiveFile wr P N a).n_processed_packets = N ∧
        (COMM_receiveFile wr P N a).payloads =
          (List.range (N - a).toNat).map
            (fun j => fileRead F ((a.toNat + j) * DATA_SIZE) DATA_SIZE)) := by
  have e247 : ((DATA_SIZE : Nat) : Int) = 247 := rfl
  have hoff : toInt32 (a * (DATA_SIZE : Nat)) = a * 247 := by
    rw [e247] at hov ⊢
    unfold toInt32
    omega
  have hoffn : (a * 247).toNat = a.toNat * DATA_SIZE := by
    have : DATA_SIZE = 247 := rfl
    rw [this]
    omega
  have hnn : ¬ (a * 247 < 0) := by omega
  have hsend : COMM_sendFile ws F N a =
      COMM_sendFile_loop ws F N (N - a).toNat 0
        { n_processed_packets := a, pos := a.toNat * DATA_SIZE, buffer := ws.buffer,
          sent := [] } := by
    unfold COMM_sendFile
    simp only [hs.1, hs.2.1, hoff, hnn, hoffn]
    simp
  have hrecv : COMM_receiveFile wr P N a =
      COMM_receiveFile_loop wr N (N - a).toNat 0
        { n_processed_packets := a, pos := a.toNat * DATA_SIZE, file := P, sent := [],
          payloads := [] } := by
    unfold COMM_receiveFile
    simp only [hr.1, hr.2.1, hoff, hnn, hoffn]
    simp
  rw [hsend] at hDs ⊢
  rw [hrecv] at hDr ⊢
  have J := transfer_joint ws wr F N hs hr (N - a).toNat (N - a).toNat (N - a).toNat 0
    { n_processed_packets := a, pos := a.toNat * DATA_SIZE, buffer := ws.buffer, sent := [] }
    { n_processed_packets := a, pos := a.toNat * DATA_SIZE, file := P, sent := [],
      payloads := [] }
    rfl (le_refl _) (le_refl _) rfl h0 hle rfl rfl rfl hP rfl hDs hDr
  simpa using J

theorem packetCount_mul_lt (L : Nat) : packetCount L * DATA_SIZE < L + DATA_SIZE := by
  unfold packetCount
  have e : DATA_SIZE = 247 := rfl
  rw [e]
  omega

theorem le_packetCount_mul (L : Nat) : L ≤ packetCount L * DATA_SIZE := by
  unfold packetCount
  have e : DATA_SIZE = 247 := rfl
  rw [e]
  omega

theorem fileRead_chunk_length (F : List Nat) (j : Nat) :
    (fileRead F (j * DATA_SIZE) DATA_SIZE).length = min 247 (F.length - 247 * j) := by
  rw [fileRead_length]
  have e : DATA_SIZE = 247 := rfl
  rw [e, Nat.mul_comm]

theorem take_packets (F : List Nat) (n N : Int) (hle : n ≤ N)
    (h : n = N ∨ F.length ≤ n.toNat * DATA_SIZE) :
    F.take (n.toNat * DATA_SIZE) = F.take (N.toNat * DATA_SIZE) := by
  rcases h with h | h
  · rw [h]
  · have e : DATA_SIZE = 247 := rfl
    rw [List.take_of_length_le h, List.take_of_length_le (by rw [e] at h ⊢; omega)]


/-! ## The example runs -/

set_option maxRecDepth 1000000

theorem delivers_channelRead (l : List SockWrite) : Delivers l (channelRead l) := by
  constructor
  · intro i wr h
    exact ⟨0, by simp [channelRead, h]⟩
  · intro i rd hi h
    have hnone : l[i]? = none := List.getElem?_eq_none hi
    simp [channelRead, hnone] at h

theorem exampleSender_localOk (stop : Option Nat) (acks : List SockWrite) :
    (exampleSender stop acks).LocalOk := by
  refine ⟨rfl, rfl, by simp [exampleSender], ?_⟩
  intro i
  simp [exampleSender]

theorem exampleReceiver_localOk (stop : Option Nat) (frames : List SockWrite) :
    (exampleReceiver stop frames).LocalOk := by
  refine ⟨rfl, rfl, ?_⟩
  intro i
  simp [exampleReceiver]

theorem exampleSender_noCancel (acks : List SockWrite) :
    (exampleSender none acks).NoCancel :=
  ⟨fun _ => rfl, rfl⟩

theorem exampleReceiver_noCancel (frames : List SockWrite) :
    (exampleReceiver none frames).NoCancel :=
  ⟨fun _ => rfl, rfl⟩

/-- The ACK frames written by the receiver of the 500-byte example. -/
theorem example_run_acks :
    (COMM_receiveFile
      (peerReceiver none (exampleSender none (List.replicate 3 exampleAck)) exampleFile 3 0)
      [] 3 0).sent = List.replicate 3 exampleAck := by
  decide!

/-- The payloads written by the receiver of the 500-byte example. -/
theorem example_run_payloads :
    (COMM_receiveFile
      (peerReceiver none (exampleSender none (List.replicate 3 exampleAck)) exampleFile 3 0)
      [] 3 0).payloads.map List.length = [247, 247, 6] := by
  decide!

/-- A file of 245 bytes sent as two packets: one ACK comes back, the receiver
waits for ever and the sender stops with the counter at 1. -/
theorem example_short_run :
    (COMM_receiveFile
      (peerReceiver none (exampleSender none [exampleAck]) (exampleFile.take 245) 2 0)
      [] 2 0).sent = [exampleAck] ∧
    (COMM_receiveFile
      (peerReceiver none (exampleSender none [exampleAck]) (exampleFile.take 245) 2 0)
      [] 2 0).ret = none ∧
    (COMM_sendFile (exampleSender none [exampleAck]) (exampleFile.take 245) 2 0).ret =
      some TRANSFER_SUCCESS ∧
    (COMM_sendFile (exampleSender none [exampleAck]) (exampleFile.take 245)
      2 0).n_processed_packets = 1 := by
  decide!

/-- The 500-byte example interrupted after two packets: two ACK frames were
written and the counter of the receiver is 2. -/
theorem example_interrupted_run :
    (COMM_receiveFile
      (peerReceiver (some 2) (exampleSender (some 2) (List.replicate 2 exampleAck))
        exampleFile 3 0) [] 3 0).sent = List.replicate 2 exampleAck ∧
    (COMM_receiveFile
      (peerReceiver (some 2) (exampleSender (some 2) (List.replicate 2 exampleAck))
        exampleFile 3 0) [] 3 0).n_processed_packets = 2 := by
  decide!

/-- The 500-byte example resumed at packet 2: one ACK frame is written. -/
theorem example_resumed_run :
    (COMM_receiveFile (peerReceiver none (exampleSender none [exampleAck]) exampleFile 3 2)
      (COMM_receiveFile
        (peerReceiver (some 2) (exampleSender (some 2) (List.replicate 2 exampleAck))
          exampleFile 3 0) [] 3 0).file 3 2).sent = [exampleAck] := by
  decide!

theorem delivers_of_eq (sent l : List SockWrite) (h : sent = l) :
    Delivers sent (channelRead l) := by
  rw [h]
  exact delivers_channelRead l

/-! ## The iteration bound of the loops -/

/-- The bound on the number of iterations does not matter once it covers the
packets that remain: the loop of `COMM_sendFile` stops by its own test. -/
theorem sendFile_loop_fuel (w : SendFileWorld) (F : List Nat) (N : Int) :
    ∀ (fuel1 fuel2 i : Nat) (st : SendFileState),
      (N - st.n_processed_packets).toNat ≤ fuel1 →
      (N - st.n_processed_packets).toNat ≤ fuel2 →
      COMM_sendFile_loop w F N fuel1 i st = COMM_sendFile_loop w F N fuel2 i st := by
  intro fuel1
  induction fuel1 with
  | zero =>
    intro fuel2 i st h1 _
    have hn : ¬ (st.n_processed_packets < N) := by omega
    rw [sendFile_loop_stop w F N 0 i st (fun h => hn h.1),
      sendFile_loop_stop w F N fuel2 i st (fun h => hn h.1)]
  | succ fuel1 ih =>
    intro fuel2 i st h1 h2
    by_cases hn : st.n_processed_packets < N
    · obtain ⟨fuel2, rfl⟩ : ∃ k, fuel2 = k + 1 := ⟨fuel2 - 1, by omega⟩
      rw [COMM_sendFile_loop, COMM_sendFile_loop]
      have key := ih fuel2 (i + 1)
      simp only []
      repeat' split
      all_goals first
        | rfl
        | exact key _ (by show (N - (st.n_processed_packets + 1)).toNat ≤ fuel1; omega)
            (by show (N - (st.n_processed_packets + 1)).toNat ≤ fuel2; omega)
    · rw [sendFile_loop_stop w F N _ i st (fun h => hn h.1),
        sendFile_loop_stop w F N fuel2 i st (fun h => hn h.1)]

/-- The bound on the number of iterations does not matter once it covers the
packets that remain: the loop of `COMM_receiveFile` stops by its own test. -/
theorem receiveFile_loop_fuel (w : RecvFileWorld) (N : Int) :
    ∀ (fuel1 fuel2 i : Nat) (st : RecvFileState),
      (N - st.n_processed_packets).toNat ≤ fuel1 →
      (N - st.n_processed_packets).toNat ≤ fuel2 →
      COMM_receiveFile_loop w N fuel1 i st = COMM_receiveFile_loop w N fuel2 i st := by
  intro fuel1
  induction fuel1 with
  | zero =>
    intro fuel2 i st h1 _
    have hn : ¬ (st.n_processed_packets < N) := by omega
    rw [receiveFile_loop_stop w N 0 i st (fun h => hn h.1),
      receiveFile_loop_stop w N fuel2 i st (fun h => hn h.1)]
  | succ fuel1 ih =>
    intro fuel2 i st h1 h2
    by_cases hn : st.n_processed_packets < N
    · obtain ⟨fuel2, rfl⟩ : ∃ k, fuel2 = k + 1 := ⟨fuel2 - 1, by omega⟩
      rw [COMM_receiveFile_loop, COMM_receiveFile_loop]
      have key := ih fuel2 (i + 1)
      simp only []
      repeat' split
      all_goals first
        | rfl
        | exact key _ (by show (N - (st.n_processed_packets + 1)).toNat ≤ fuel1; omega)
            (by show (N - (st.n_processed_packets + 1)).toNat ≤ fuel2; omega)
    · rw [receiveFile_loop_stop w N _ i st (fun h => hn h.1),
        receiveFile_loop_stop w N fuel2 i st (fun h => hn h.1)]

/-! ## Return values and counters of the transfer loops -/

theorem ret_err_ne : (some UNEXPECTED_ERROR : Option Int) ≠ some TRANSFER_SUCCESS := by decide

theorem ret_closed_ne : (some REMOTE_END_DISCONNECTION : Option Int) ≠ some TRANSFER_SUCCESS := by
  decide

theorem ret_sigint_ne : (some INTERRUPTED_BY_SIGINT : Option Int) ≠ some TRANSFER_SUCCESS := by
  decide

theorem ret_none_ne : (none : Option Int) ≠ some TRANSFER_SUCCESS := by simp

theorem sendFile_end_success (w : SendFileWorld) (F : List Nat) (st : SendFileState)
    (h : (COMM_sendFile_end w F st).ret = some TRANSFER_SUCCESS) : w.exit_after = false := by
  unfold COMM_sendFile_end at h
  cases hx : w.exit_after
  · rfl
  · rw [hx] at h
    exact absurd h ret_sigint_ne

theorem sendFile_loop_success (w : SendFileWorld) (F : List Nat) (N : Int)
    (hw : w.FlagStays) :
    ∀ (fuel i : Nat) (st : SendFileState),
      (N - st.n_processed_packets).toNat ≤ fuel →
      0 ≤ st.n_processed_packets → st.n_processed_packets ≤ N →
      st.pos ≤ st.n_processed_packets.toNat * DATA_SIZE →
      (COMM_sendFile_loop w F N fuel i st).ret = some TRANSFER_SUCCESS →
      (COMM_sendFile_loop w F N fuel i st).n_processed_packets = N ∨
      ((COMM_sendFile_loop w F N fuel i st).n_processed_packets < N ∧
        0 ≤ (COMM_sendFile_loop w F N fuel i st).n_processed_packets ∧
        F.length ≤ (COMM_sendFile_loop w F N fuel i st).n_processed_packets.toNat * DATA_SIZE) := by
  intro fuel
  induction fuel with
  | zero =>
    intro i st hf h0 hN hp hr
    left
    show st.n_processed_packets = N
    omega
  | succ fuel ih =>
    intro i st hf h0 hN hp
    unfold COMM_sendFile_loop
    simp only []
    split
    next hc =>
      split
      · intro hr; exact absurd hr ret_err_ne
      · split
        next hz =>
          intro hr
          right
          refine ⟨hc.1, h0, ?_⟩
          show F.length ≤ st.n_processed_packets.toNat * DATA_SIZE
          have := fileRead_eq_nil F st.pos DATA_SIZE (by decide) (List.length_eq_zero.mp hz)
          exact le_trans this hp
        · split
          · intro hr; exact absurd hr ret_err_ne
          · split
            · intro hr; exact absurd hr ret_err_ne
            · split
              · intro hr; exact absurd hr ret_none_ne
              · split
                next hack =>
                  intro hr
                  exfalso
                  simp only [Option.some.injEq] at hr
                  rcases hack with h | h
                  · rw [h] at hr; exact absurd hr (by decide)
                  · rw [h] at hr; exact absurd hr (by decide)
                · apply ih
                  · show (N - (st.n_processed_packets + 1)).toNat ≤ fuel
                    omega
                  · show 0 ≤ st.n_processed_packets + 1
                    omega
                  · show st.n_processed_packets + 1 ≤ N
                    omega
                  · show st.pos + (fileRead F st.pos DATA_SIZE).length ≤
                      (st.n_processed_packets + 1).toNat * DATA_SIZE
                    have := fileRead_length_le F st.pos DATA_SIZE
                    have e : (st.n_processed_packets + 1).toNat = st.n_processed_packets.toNat + 1 := by
                      omega
                    rw [e]
                    have e247 : DATA_SIZE = 247 := rfl
                    rw [e247] at this hp ⊢
                    omega
    next hc =>
      intro hr
      have hx := sendFile_end_success w F st hr
      left
      show st.n_processed_packets = N
      by_contra hne
      apply hc
      refine ⟨by omega, ?_⟩
      cases hxi : w.exit_distortion i
      · rfl
      · have := hw i hxi
        rw [hx] at this
        exact absurd this (by decide)

theorem receiveFile_end_success (w : RecvFileWorld) (st : RecvFileState)
    (h : (COMM_receiveFile_end w st).ret = some TRANSFER_SUCCESS) : w.exit_after = false := by
  unfold COMM_receiveFile_end at h
  cases hx : w.exit_after
  · rfl
  · rw [hx] at h
    exact absurd h ret_sigint_ne

theorem receiveFile_loop_success (w : RecvFileWorld) (N : Int) (hw : w.FlagStays) :
    ∀ (fuel i : Nat) (st : RecvFileState),
      (N - st.n_processed_packets).toNat ≤ fuel → st.n_processed_packets ≤ N →
      (COMM_receiveFile_loop w N fuel i st).ret = some TRANSFER_SUCCESS →
      (COMM_receiveFile_loop w N fuel i st).n_processed_packets = N := by
  intro fuel
  induction fuel with
  | zero =>
    intro i st hf hN hr
    show st.n_processed_packets = N
    omega
  | succ fuel ih =>
    intro i st hf hN
    unfold COMM_receiveFile_loop
    simp only []
    split
    next hc =>
      split
      · intro hr; exact absurd hr ret_none_ne
      · split
        next herr =>
          intro hr
          exfalso
          simp only [Option.some.injEq] at hr
          split at hr
          · exact absurd hr (by decide)
          · exact absurd hr (by decide)
        · split
          · intro hr; exact absurd hr ret_none_ne
          · split
            · intro hr; exact absurd hr ret_err_ne
            · split
              · intro hr; exact absurd hr ret_err_ne
              · split
                · intro hr; exact absurd hr ret_err_ne
                · apply ih
                  · show (N - (st.n_processed_packets + 1)).toNat ≤ fuel
                    omega
                  · show st.n_processed_packets + 1 ≤ N
                    omega
    next hc =>
      intro hr
      have hx := receiveFile_end_success w st hr
      show st.n_processed_packets = N
      by_contra hne
      apply hc
      refine ⟨by omega, ?_⟩
      cases hxi : w.exit_distortion i
      · rfl
      · have := hw i hxi
        rw [hx] at this
        exact absurd this (by decide)

theorem framesWritten_append (a b : List SockWrite) :
    framesWritten (a ++ b) = framesWritten a + framesWritten b := by
  simp [framesWritten, List.countP_append]

theorem sendAckFrame_written (c : CreateEnv) (s : SendEnv) :
    framesWritten (COMM_sendAckFrame c s).2.toList =
      if (COMM_sendAckFrame c s).1 = TRANSFER_SUCCESS then 1 else 0 := by
  unfold COMM_sendAckFrame
  split
  · simp [framesWritten, UNEXPECTED_ERROR, TRANSFER_SUCCESS]
  · unfold FRAME_sendFrame
    simp only []
    by_cases hw : s.write_ret = 256
    · have hw' : ¬ (s.write_ret ≠ (FRAME_SIZE : Int)) := fun h => h hw
      rw [if_neg hw']
      simp [hw, framesWritten, TRANSFER_SUCCESS]
    · have hw' : s.write_ret ≠ (FRAME_SIZE : Int) := hw
      rw [if_pos hw']
      simp [hw, framesWritten, UNEXPECTED_ERROR, TRANSFER_SUCCESS]

theorem receiveFile_loop_progress (w : RecvFileWorld) (N : Int) :
    ∀ (fuel i : Nat) (st : RecvFileState),
      ∃ ps acks,
        (COMM_receiveFile_loop w N fuel i st).payloads = st.payloads ++ ps ∧
        (COMM_receiveFile_loop w N fuel i st).sent = st.sent ++ acks ∧
        (COMM_receiveFile_loop w N fuel i st).n_processed_packets =
          st.n_processed_packets + framesWritten acks ∧
        framesWritten acks ≤ ps.length := by
  intro fuel
  induction fuel with
  | zero =>
    intro i st
    exact ⟨[], [], by simp [COMM_receiveFile_loop, COMM_receiveFile_end, framesWritten]⟩
  | succ fuel ih =>
    intro i st
    have stop : ∀ r : TransferResult, r.payloads = st.payloads → r.sent = st.sent →
        r.n_processed_packets = st.n_processed_packets →
        ∃ ps acks, r.payloads = st.payloads ++ ps ∧ r.sent = st.sent ++ acks ∧
          r.n_processed_packets = st.n_processed_packets + framesWritten acks ∧
          framesWritten acks ≤ ps.length := by
      intro r h1 h2 h3
      exact ⟨[], [], by simp [h1, h2, h3, framesWritten]⟩
    unfold COMM_receiveFile_loop
    simp only []
    split
    · split
      · exact stop _ rfl rfl rfl
      · split
        · exact stop _ rfl rfl rfl
        · split
          · exact stop _ rfl rfl rfl
          · split
            · exact stop _ rfl rfl rfl
            · split
              · exact stop _ rfl rfl rfl
              · rename_i pf _ _ _
                have hack := sendAckFrame_written (w.ack_create i) (w.ack_send i)
                split
                next hne =>
                  rw [if_neg hne] at hack
                  refine ⟨[filePayload pf (w.beyond i)],
                    (COMM_sendAckFrame (w.ack_create i) (w.ack_send i)).2.toList, rfl, rfl, ?_, ?_⟩
                  · rw [hack]; simp
                  · rw [hack]; simp
                next heq =>
                  have heq' : (COMM_sendAckFrame (w.ack_create i) (w.ack_send i)).1 =
                      TRANSFER_SUCCESS := by
                    by_contra h; exact heq h
                  rw [if_pos heq'] at hack
                  obtain ⟨ps, acks, h1, h2, h3, h4⟩ := ih (i + 1)
                    { n_processed_packets := st.n_processed_packets + 1,
                      pos := st.pos + (filePayload pf (w.beyond i)).length,
                      file := fileWrite st.file st.pos (filePayload pf (w.beyond i)),
                      sent := st.sent ++
                        (COMM_sendAckFrame (w.ack_create i) (w.ack_send i)).2.toList,
                      payloads := st.payloads ++ [filePayload pf (w.beyond i)] }
                  refine ⟨filePayload pf (w.beyond i) :: ps,
                    (COMM_sendAckFrame (w.ack_create i) (w.ack_send i)).2.toList ++ acks,
                    ?_, ?_, ?_, ?_⟩
                  · rw [h1]; simp
                  · rw [h2]; simp
                  · rw [h3, framesWritten_append, hack]
                    push_cast
                    ring
                  · rw [framesWritten_append, hack]
                    simp only [List.length_cons]
                    omega
    · exact stop _ rfl rfl rfl

/-! ## Further example runs -/

theorem exampleSender_flagStays (stop : Option Nat) (acks : List SockWrite) :
    (exampleSender stop acks).FlagStays := by
  intro i h
  cases stop with
  | none => exact absurd h (by simp [exampleSender, exitFlag])
  | some s => rfl

theorem exampleReceiver_flagStays (stop : Option Nat) (frames : List SockWrite) :
    (exampleReceiver stop frames).FlagStays := by
  intro i h
  cases stop with
  | none => exact absurd h (by simp [exampleReceiver, exitFlag])
  | some s => rfl

theorem example_one_packet_run :
    (COMM_sendFile (exampleSender none [exampleAck]) (exampleFile.take 245) 1 0).ret =
      some TRANSFER_SUCCESS ∧
    (COMM_receiveFile
      (peerReceiver none (exampleSender none [exampleAck]) (exampleFile.take 245) 1 0)
      [] 1 0).ret = some TRANSFER_SUCCESS := by
  decide!

theorem example_err_reply :
    (FRAME_sendFrame (List.replicate FRAME_SIZE 0) FRAME_SIZE
      (FRAME_createFrame true 0 0x09 none 0)).written = some exampleErr ∧
    (FRAME_receiveFrame (List.replicate FRAME_SIZE 0)
      { ret := FRAME_SIZE, errno := 0, bytes := exampleErr.bytes } true).error_code =
      .FRAME_SUCCESS ∧
    (FRAME_receiveFrame (List.replicate FRAME_SIZE 0)
      { ret := FRAME_SIZE, errno := 0, bytes := exampleErr.bytes } true).frame.map
        (fun f => f.type) = some 0x09 ∧
    (COMM_sendFile (exampleSender none [exampleErr]) [1, 2, 3] 1 0).ret =
      some TRANSFER_SUCCESS ∧
    (COMM_sendFile (exampleSender none [exampleErr]) [1, 2, 3] 1 0).n_processed_packets = 1 := by
  decide!

theorem example_late_entry :
    (COMM_receiveFile (exampleReceiver none []) [] 1 2).ret = some TRANSFER_SUCCESS ∧
    (COMM_receiveFile (exampleReceiver none []) [] 1 2).n_processed_packets = 2 ∧
    (COMM_sendFile (exampleSender none []) [] 1 2).ret = some TRANSFER_SUCCESS ∧
    (COMM_sendFile (exampleSender none []) [] 1 2).n_processed_packets = 2 := by
  decide

/-! ## C strings -/

theorem strcmp_eq_zero (a b : List Nat) : strcmp a b = 0 ↔ a = b := by
  unfold strcmp
  by_cases h : a = b
  · simp [h]
  · simp only [h, if_false, iff_false]
    split <;> decide

theorem strtok_nil (delim : List Nat) : strtok [] delim = (none, []) := by
  simp [strtok]

theorem strtok_sep (tok rest delim : List Nat) (d : Nat) (hd : d ∈ delim) (h0 : tok ≠ [])
    (h : ∀ b ∈ tok, b ∉ delim) : strtok (tok ++ d :: rest) delim = (some tok, rest) := by
  obtain ⟨c, tl, rfl⟩ := List.exists_cons_of_ne_nil h0
  have hc : c ∉ delim := h c (List.mem_cons_self _ _)
  have htl : ∀ b ∈ tl, b ∉ delim := fun b hb => h b (List.mem_cons_of_mem _ hb)
  unfold strtok
  simp only [List.cons_append]
  rw [List.dropWhile_cons_of_neg (by simpa using hc)]
  simp only [List.cons_ne_nil, if_false]
  have e1 : List.takeWhile (fun b => !decide (b ∈ delim)) (c :: (tl ++ d :: rest)) =
      c :: tl := by
    rw [List.takeWhile_cons_of_pos (by simpa using hc),
      List.takeWhile_append_of_pos (by simpa using htl),
      List.takeWhile_cons_of_neg (by simpa using hd)]
    simp
  have e2 : List.dropWhile (fun b => !decide (b ∈ delim)) (c :: (tl ++ d :: rest)) =
      d :: rest := by
    rw [List.dropWhile_cons_of_pos (by simpa using hc),
      List.dropWhile_append_of_pos (by simpa using htl),
      List.dropWhile_cons_of_neg (by simpa using hd)]
  rw [e1, e2]
  rfl

theorem strtok_last (tok delim : List Nat) (h0 : tok ≠ []) (h : ∀ b ∈ tok, b ∉ delim) :
    strtok tok delim = (some tok, []) := by
  obtain ⟨c, tl, rfl⟩ := List.exists_cons_of_ne_nil h0
  have hc : c ∉ delim := h c (List.mem_cons_self _ _)
  have htl : ∀ b ∈ tl, b ∉ delim := fun b hb => h b (List.mem_cons_of_mem _ hb)
  unfold strtok
  rw [List.dropWhile_cons_of_neg (by simpa using hc)]
  simp only [List.cons_ne_nil, if_false]
  have e1 : List.takeWhile (fun b => !decide (b ∈ delim)) (c :: tl) = c :: tl := by
    rw [List.takeWhile_eq_self_iff]
    intro x hx
    simpa using h x hx
  have e2 : List.dropWhile (fun b => !decide (b ∈ delim)) (c :: tl) = [] := by
    rw [List.dropWhile_eq_nil_iff]
    intro x hx
    simpa using h x hx
  rw [e1, e2]
  rfl

theorem decimalDigits_spec :
    ∀ (fuel n : Nat), n ≤ fuel →
      (∀ c ∈ decimalDigits fuel n, isdigit c = true) ∧ decimalDigits fuel n ≠ [] ∧
      (decimalDigits fuel n).foldl (fun acc c => acc * 10 + (c - 48)) 0 = n := by
  intro fuel
  induction fuel with
  | zero =>
    intro n hn
    have : n = 0 := by omega
    subst this
    decide
  | succ fuel ih =>
    intro n hn
    unfold decimalDigits
    by_cases h : n < 10
    · rw [if_pos h]
      refine ⟨?_, by simp, by simp⟩
      intro c hc
      simp only [List.mem_singleton] at hc
      subst hc
      simp [isdigit]
      omega
    · rw [if_neg h]
      obtain ⟨h1, h2, h3⟩ := ih (n / 10) (by omega)
      refine ⟨?_, by simp, ?_⟩
      · intro c hc
        rcases List.mem_append.mp hc with hc | hc
        · exact h1 c hc
        · simp only [List.mem_singleton] at hc
          subst hc
          simp [isdigit]
          omega
      · rw [List.foldl_append, h3]
        simp only [List.foldl_cons, List.foldl_nil]
        omega

theorem digitsValue_append (ds rest : List Nat) (h : ∀ c ∈ ds, isdigit c = true)
    (hr : ∀ c, rest.head? = some c → isdigit c = false) :
    digitsValue (ds ++ rest) = ds.foldl (fun acc c => acc * 10 + (c - 48)) 0 := by
  unfold digitsValue
  rw [List.takeWhile_append_of_pos h]
  have : rest.takeWhile isdigit = [] := by
    cases rest with
    | nil => rfl
    | cons c tl =>
      have := hr c rfl
      simp [List.takeWhile, this]
  rw [this, List.append_nil]

theorem atoi_digits (ds rest : List Nat) (h : ∀ c ∈ ds, isdigit c = true) (h0 : ds ≠ [])
    (hr : ∀ c, rest.head? = some c → isdigit c = false) :
    atoi (ds ++ rest) = toInt32 (ds.foldl (fun acc c => acc * 10 + (c - 48)) 0 : Nat) := by
  obtain ⟨c, tl, rfl⟩ := List.exists_cons_of_ne_nil h0
  have hc : isdigit c = true := h c (List.mem_cons_self _ _)
  have hc' : 48 ≤ c ∧ c ≤ 57 := by simpa [isdigit] using hc
  have hsp : ¬ (isspace c = true) := by
    simp [isspace]
    omega
  unfold atoi
  simp only [List.cons_append]
  rw [List.dropWhile_cons_of_neg hsp]
  have hv := digitsValue_append (c :: tl) rest h hr
  simp only [List.cons_append] at hv
  have h45 : ¬ ((c :: (tl ++ rest)).head? = some 45) := by
    simp only [List.head?_cons, Option.some.injEq]
    omega
  have h43 : ¬ ((c :: (tl ++ rest)).head? = some 43) := by
    simp only [List.head?_cons, Option.some.injEq]
    omega
  rw [if_neg h45, if_neg h43, hv]

theorem atoi_decimal (n : Nat) (hn : n < 2147483648) (rest : List Nat)
    (hr : ∀ c, rest.head? = some c → isdigit c = false) :
    atoi (decimal n ++ rest) = n := by
  obtain ⟨h1, h2, h3⟩ := decimalDigits_spec n n (le_refl _)
  have hd : decimal (n : Int) = decimalDigits n n := by
    unfold decimal
    simp
  rw [hd, atoi_digits _ _ h1 h2 hr, h3]
  unfold toInt32
  omega

theorem decimal_digits (n : Nat) :
    decimal (n : Int) ≠ [] ∧ ∀ c ∈ decimal (n : Int), isdigit c = true := by
  obtain ⟨h1, h2, _⟩ := decimalDigits_spec n n (le_refl _)
  have hd : decimal (n : Int) = decimalDigits n n := by
    unfold decimal
    simp
  rw [hd]
  exact ⟨h2, h1⟩

/-! ## The packet count -/

theorem packets_of_filesize (x : Int) (h : 0 ≤ x) :
    (if Int.tmod x (DATA_SIZE : Nat) ≠ 0 then Int.tdiv x (DATA_SIZE : Nat) + 1
      else Int.tdiv x (DATA_SIZE : Nat)) = (packetCount x.toNat : Int) := by
  have e : ((DATA_SIZE : Nat) : Int) = 247 := rfl
  rw [e, Int.tmod_eq_emod h (by decide), Int.tdiv_eq_ediv h (by decide)]
  unfold packetCount
  have e' : DATA_SIZE = 247 := rfl
  rw [e']
  push_cast
  rw [Int.toNat_of_nonneg h]
  split <;> omega

/-! ## The worker list -/

theorem insert_perm {α : Type} (l : List α) (p : Nat) (x : α) :
    (l.take p ++ x :: l.drop p).Perm (x :: l) := by
  have h := @List.perm_middle α x (l.take p) (l.drop p)
  rw [List.take_append_drop] at h
  exact h

theorem eraseIdx_perm {α : Type} (l : List α) (i : Nat) (w : α) (h : l[i]? = some w) :
    l.Perm (w :: l.eraseIdx i) := by
  have hi : i < l.length := by
    by_contra hn
    rw [List.getElem?_eq_none (by omega)] at h
    cases h
  have e1 : l.eraseIdx i = l.take i ++ l.drop (i + 1) := List.eraseIdx_eq_take_drop_succ l i
  have e2 : l = l.take i ++ w :: l.drop (i + 1) := by
    have hw : l[i] = w := by
      rw [List.getElem?_eq_getElem hi] at h
      exact Option.some.inj h
    rw [← hw, List.getElem_cons_drop l i hi, List.take_append_drop]
  rw [e1]
  nth_rewrite 1 [e2]
  exact List.perm_middle

theorem set_perm {α : Type} (l : List α) (i : Nat) (x : α) (hi : i < l.length) :
    (l.set i x).Perm (x :: l.eraseIdx i) := by
  have e1 : l.eraseIdx i = l.take i ++ l.drop (i + 1) := List.eraseIdx_eq_take_drop_succ l i
  rw [e1, List.set_eq_take_append_cons_drop, if_pos hi]
  exact List.perm_middle

theorem gotoIndex_fold (list : WorkerLinkedList) :
    ∀ n, n ≤ list.elements.length →
      ∃ err, (List.range n).foldl (fun l _ => WORKER_LINKEDLIST_next l)
        (WORKER_LINKEDLIST_goToHead list) =
        { elements := list.elements, previous := n, error := err } := by
  intro n
  induction n with
  | zero =>
    intro _
    exact ⟨list.error, rfl⟩
  | succ n ih =>
    intro hn
    obtain ⟨err, h⟩ := ih (by omega)
    rw [List.range_succ, List.foldl_append, h]
    refine ⟨.NO_ERROR, ?_⟩
    simp only [List.foldl_cons, List.foldl_nil]
    unfold WORKER_LINKEDLIST_next WORKER_LINKEDLIST_isAtEnd
    have : ¬ (list.elements.length ≤ n) := by omega
    simp [this]

theorem gotoIndex_spec (list : WorkerLinkedList) (index : Int) (h0 : 0 ≤ index)
    (h1 : index < list.elements.length) :
    WORKER_LINKEDLIST_gotoIndex list index =
      { elements := list.elements, previous := index.toNat, error := .NO_ERROR } := by
  unfold WORKER_LINKEDLIST_gotoIndex WORKER_LINKEDLIST_length
  have hc : ¬ (index < 0 ∨ index ≥ (list.elements.length : Int)) := by omega
  rw [if_neg hc]
  obtain ⟨err, h⟩ := gotoIndex_fold list index.toNat (by omega)
  simp only [h]

/-! ## The election -/

theorem election_loop_spec (e : RemoveEnv) (c : List Nat) (total : Int)
    (elements : List WorkerElement) (htot : total = elements.length) (hpos : 0 < total) :
    ∀ (draws : List Nat) (server : GothamServer), server.worker_list.elements = elements →
      Gotham.MC_assignNewMainWorker_loop e c total draws server =
        (electedIndex elements c total draws).map (fun j =>
          ({ server with
              worker_list :=
                { elements := markPrimary elements j, previous := j, error := .NO_ERROR } },
            Gotham.COMM_sendNewMainWorkerResponse e.create e.send (socketOf elements j))) := by
  intro draws
  induction draws with
  | nil =>
    intro server _
    rfl
  | cons r draws ih =>
    intro server hel
    have hne : total ≠ 0 := by omega
    have h0 : 0 ≤ Int.tmod (r : Int) total := Int.tmod_nonneg _ (by omega)
    have h1 : Int.tmod (r : Int) total < total := Int.tmod_lt_of_pos _ hpos
    have hidx : (Int.tmod (r : Int) total).toNat < elements.length := by omega
    have hgoto := gotoIndex_spec server.worker_list (Int.tmod (r : Int) total) h0
      (by rw [hel]; omega)
    obtain ⟨w, hw⟩ : ∃ w, elements[(Int.tmod (r : Int) total).toNat]? = some w :=
      ⟨_, List.getElem?_eq_getElem hidx⟩
    unfold Gotham.MC_assignNewMainWorker_loop electedIndex
    rw [if_neg hne]
    simp only [hgoto, hel, hw]
    have hnend : WORKER_LINKEDLIST_isAtEnd
        { elements := elements, previous := (Int.tmod (r : Int) total).toNat,
          error := .NO_ERROR } = false := by
      unfold WORKER_LINKEDLIST_isAtEnd
      simp only [decide_eq_false_iff_not]
      omega
    simp only [WORKER_LINKEDLIST_getPointer, hnend, ne_eq, not_true_eq_false, if_false,
      Bool.false_eq_true, hw, strcmp_eq_zero]
    by_cases hc : w.worker_type = c
    · rw [if_pos hc, if_pos hc]
      simp only [Option.map_some', markPrimary, socketOf, hw]
    · rw [if_neg hc, if_neg hc]
      exact ih _ rfl

theorem electedIndex_some (elements : List WorkerElement) (c : List Nat) (total : Int) :
    ∀ (draws : List Nat) (j : Nat), electedIndex elements c total draws = some j →
      ∃ w, elements[j]? = some w ∧ w.worker_type = c := by
  intro draws
  induction draws with
  | nil => intro j h; cases h
  | cons r draws ih =>
    intro j h
    unfold electedIndex at h
    split at h
    · rename_i w hw
      split at h
      · rename_i hc
        cases h
        exact ⟨w, hw, hc⟩
      · exact ih j h
    · exact ih j h

theorem electedIndex_hit (elements : List WorkerElement) (c : List Nat) (total : Int)
    (j : Nat) (w : WorkerElement) (hw : elements[j]? = some w) (hc : w.worker_type = c)
    (hj : (j : Int) < total) :
    electedIndex elements c total [j] = some j := by
  have e : (Int.tmod (j : Int) total).toNat = j := by
    rw [Int.tmod_eq_emod (by omega) (by omega), Int.emod_eq_of_lt (by omega) hj]
    simp
  unfold electedIndex
  rw [e, hw]
  simp [hc]

/-! ## Counting roster entries -/

theorem classCount_perm (l1 l2 : List WorkerElement) (h : l1.Perm l2) (c : List Nat) :
    classCount l1 c = classCount l2 c := h.countP_eq _

theorem primaryCount_perm (l1 l2 : List WorkerElement) (h : l1.Perm l2) (c : List Nat) :
    primaryCount l1 c = primaryCount l2 c := h.countP_eq _

theorem classCount_cons (w : WorkerElement) (l : List WorkerElement) (c : List Nat) :
    classCount (w :: l) c = classCount l c + if w.worker_type = c then 1 else 0 := by
  unfold classCount
  rw [List.countP_cons]
  simp

theorem primaryCount_cons (w : WorkerElement) (l : List WorkerElement) (c : List Nat) :
    primaryCount (w :: l) c =
      primaryCount l c + if w.worker_type = c ∧ w.is_main = 1 then 1 else 0 := by
  unfold primaryCount
  rw [List.countP_cons]
  simp

theorem primaryCount_le (l : List WorkerElement) (c : List Nat) :
    primaryCount l c ≤ classCount l c := by
  induction l with
  | nil => simp [primaryCount, classCount]
  | cons w l ih =>
    rw [classCount_cons, primaryCount_cons]
    by_cases h : w.worker_type = c
    · simp only [h, true_and, if_true]
      split <;> omega
    · simp only [h, false_and, if_false]
      omega

theorem classCount_total (l : List WorkerElement)
    (h : ∀ w ∈ l, w.worker_type = str "Text" ∨ w.worker_type = str "Media") :
    classCount l (str "Text") + classCount l (str "Media") = l.length := by
  have hne : str "Text" ≠ str "Media" := by decide
  induction l with
  | nil => simp [classCount]
  | cons w l ih =>
    rw [classCount_cons, classCount_cons, List.length_cons]
    have := ih (fun x hx => h x (List.mem_cons_of_mem _ hx))
    rcases h w (List.mem_cons_self _ _) with hw | hw
    · rw [if_pos hw, if_neg (fun (h' : w.worker_type = str "Media") => hne (hw.symm.trans h'))]
      omega
    · rw [if_neg (fun (h' : w.worker_type = str "Text") => hne (h'.symm.trans hw)), if_pos hw]
      omega

theorem classCount_pos_of_mem (l : List WorkerElement) (c : List Nat) (w : WorkerElement)
    (hw : w ∈ l) (hc : w.worker_type = c) : 0 < classCount l c := by
  unfold classCount
  rw [List.countP_pos_iff]
  exact ⟨w, hw, by simp [hc]⟩

theorem exists_of_classCount_pos (l : List WorkerElement) (c : List Nat)
    (h : 0 < classCount l c) :
    ∃ (j : Nat) (w : WorkerElement), l[j]? = some w ∧ w.worker_type = c := by
  unfold classCount at h
  rw [List.countP_pos_iff] at h
  obtain ⟨w, hw, hc⟩ := h
  obtain ⟨j, hj, hjw⟩ := List.getElem_of_mem hw
  refine ⟨j, w, ?_, by simpa using hc⟩
  rw [List.getElem?_eq_getElem hj, hjw]

/-- Function `MC_assignNewMainWorker` on a roster whose counts are right. -/
theorem assignNewMain_spec (e : RemoveEnv) (server : GothamServer) (c : List Nat)
    (hc : c = str "Text" ∨ c = str "Media")
    (ht : ∀ w ∈ server.worker_list.elements,
      w.worker_type = str "Text" ∨ w.worker_type = str "Media")
    (h1 : server.n_enigmas = classCount server.worker_list.elements (str "Text"))
    (h2 : server.n_harleys = classCount server.worker_list.elements (str "Media")) :
    Gotham.MC_assignNewMainWorker e server c =
      if classCount server.worker_list.elements c = 0 then some (server, [])
      else
        (electedIndex server.worker_list.elements c server.worker_list.elements.length
          e.draws).map (fun j =>
          ({ server with
              worker_list :=
                { elements := markPrimary server.worker_list.elements j, previous := j,
                  error := .NO_ERROR } },
            Gotham.COMM_sendNewMainWorkerResponse e.create e.send
              (socketOf server.worker_list.elements j))) := by
  have hne : str "Text" ≠ str "Media" := by decide
  have htotal := classCount_total server.worker_list.elements ht
  have hcan : Gotham.MC_canAssignNewMain server c = 0 ↔
      classCount server.worker_list.elements c = 0 := by
    unfold Gotham.MC_canAssignNewMain
    simp only [strcmp_eq_zero, h1, h2]
    rcases hc with h | h
    · subst h
      simp only [true_and, hne, false_and, or_false]
      constructor
      · intro hh
        by_contra hn
        have : ¬ ((classCount server.worker_list.elements (str "Text") : Int) = 0) := by
          omega
        rw [if_neg this] at hh
        exact absurd hh (by decide)
      · intro hh
        rw [hh]
        rfl
    · subst h
      simp only [hne.symm, false_and, true_and, false_or]
      constructor
      · intro hh
        by_contra hn
        have : ¬ ((classCount server.worker_list.elements (str "Media") : Int) = 0) := by
          omega
        rw [if_neg this] at hh
        exact absurd hh (by decide)
      · intro hh
        rw [hh]
        rfl
  unfold Gotham.MC_assignNewMainWorker
  by_cases hz : classCount server.worker_list.elements c = 0
  · rw [if_pos (hcan.mpr hz), if_pos hz]
  · rw [if_neg (fun h => hz (hcan.mp h)), if_neg hz]
    have hle : classCount server.worker_list.elements c ≤ server.worker_list.elements.length := by
      rcases hc with h | h <;> subst h <;> omega
    have htot : server.n_enigmas + server.n_harleys = server.worker_list.elements.length := by
      rw [h1, h2]
      omega
    simp only []
    rw [htot]
    exact election_loop_spec e c _ server.worker_list.elements rfl (by omega) e.draws server rfl

/-! ## Removal from the worker roster -/

theorem withCursor_self (server : GothamServer) :
    withCursor server server.worker_list.previous server.worker_list.error = server := rfl

theorem withCursor_withCursor (server : GothamServer) (p q : Nat) (e1 e2 : ListError) :
    withCursor (withCursor server p e1) q e2 = withCursor server q e2 := rfl

theorem removeWorker_loop_skip (e : RemoveEnv) (sock : Int) :
    ∀ (n fuel : Nat) (server : GothamServer) (out : RemovedPeer),
      server.worker_list.previous + n ≤ server.worker_list.elements.length → n ≤ fuel →
      (∀ k w, server.worker_list.previous ≤ k → k < server.worker_list.previous + n →
        server.worker_list.elements[k]? = some w → w.socket_fd ≠ sock) →
      ∃ err, Gotham.MC_removeWorkerFromList_loop e sock fuel server out =
        Gotham.MC_removeWorkerFromList_loop e sock (fuel - n)
          (withCursor server (server.worker_list.previous + n) err) out := by
  intro n
  induction n with
  | zero =>
    intro fuel server out _ _ _
    exact ⟨server.worker_list.error, rfl⟩
  | succ n ih =>
    intro fuel server out hlen hfuel hskip
    obtain ⟨fuel, rfl⟩ : ∃ f, fuel = f + 1 := ⟨fuel - 1, by omega⟩
    have hp : server.worker_list.previous < server.worker_list.elements.length := by omega
    obtain ⟨w, hw⟩ : ∃ w, server.worker_list.elements[server.worker_list.previous]? = some w :=
      ⟨_, List.getElem?_eq_getElem hp⟩
    have hsock : w.socket_fd ≠ sock := hskip _ w (le_refl _) (by omega) hw
    have hnend : WORKER_LINKEDLIST_isAtEnd server.worker_list = false := by
      unfold WORKER_LINKEDLIST_isAtEnd
      simp only [decide_eq_false_iff_not]
      omega
    obtain ⟨err, hrec⟩ := ih fuel (withCursor server (server.worker_list.previous + 1) .NO_ERROR)
      out (by
        show server.worker_list.previous + 1 + n ≤ server.worker_list.elements.length
        omega) (by omega) (by
        intro k w' hk1 hk2 hkw
        exact hskip k w' (by
          have : server.worker_list.previous + 1 ≤ k := hk1
          omega) (by
          have : k < server.worker_list.previous + 1 + n := hk2
          omega) hkw)
    refine ⟨err, ?_⟩
    rw [Gotham.MC_removeWorkerFromList_loop]
    simp only [hnend, WORKER_LINKEDLIST_get, hw, hsock, if_false, Bool.false_eq_true]
    have hnext : ({ server with
        worker_list := WORKER_LINKEDLIST_next
          { elements := server.worker_list.elements, previous := server.worker_list.previous,
            error := .NO_ERROR } } : GothamServer) =
        withCursor server (server.worker_list.previous + 1) .NO_ERROR := by
      unfold WORKER_LINKEDLIST_next WORKER_LINKEDLIST_isAtEnd withCursor
      have : ¬ (server.worker_list.elements.length ≤ server.worker_list.previous) := by omega
      simp [this]
    rw [hnext, hrec]
    have e1 : fuel + 1 - (n + 1) = fuel - n := by omega
    rw [e1]
    have e2 : withCursor (withCursor server (server.worker_list.previous + 1) .NO_ERROR)
        ((withCursor server (server.worker_list.previous + 1) .NO_ERROR).worker_list.previous
          + n) err = withCursor server (server.worker_list.previous + (n + 1)) err := by
      show withCursor server (server.worker_list.previous + 1 + n) err = _
      have : server.worker_list.previous + 1 + n = server.worker_list.previous + (n + 1) := by
        omega
      rw [this]
    rw [e2]

theorem removeWorker_absent (e : RemoveEnv) (server : GothamServer) (sock : Int)
    (out : RemovedPeer)
    (h : ∀ w ∈ server.worker_list.elements, w.socket_fd ≠ sock) :
    ∃ err, Gotham.MC_removeWorkerFromList e server sock out =
      some (withCursor server server.worker_list.elements.length err, out, []) := by
  obtain ⟨err, hskip⟩ := removeWorker_loop_skip e sock server.worker_list.elements.length
    server.worker_list.elements.length (withCursor server 0 server.worker_list.error) out
    (by
      show 0 + server.worker_list.elements.length ≤ server.worker_list.elements.length
      omega) (le_refl _) (by
      intro k w _ _ hkw
      exact h w (List.getElem?_mem hkw))
  refine ⟨err, ?_⟩
  have e0 : Gotham.MC_removeWorkerFromList e server sock out =
      Gotham.MC_removeWorkerFromList_loop e sock server.worker_list.elements.length
        (withCursor server 0 server.worker_list.error) out := rfl
  rw [e0, hskip, Nat.sub_self]
  simp only [Gotham.MC_removeWorkerFromList_loop]
  have e2 : (withCursor server 0 server.worker_list.error).worker_list.previous +
      server.worker_list.elements.length = server.worker_list.elements.length := by
    show 0 + server.worker_list.elements.length = server.worker_list.elements.length
    omega
  rw [e2]
  rfl

theorem entryOfSocket_some (elements : List WorkerElement) (fd : Int) (j : Nat)
    (h : entryOfSocket elements fd = some j) :
    ∃ w, elements[j]? = some w ∧ w.socket_fd = fd ∧
      ∀ k w', k < j → elements[k]? = some w' → w'.socket_fd ≠ fd := by
  unfold entryOfSocket at h
  rw [List.findIdx?_eq_some_iff_getElem] at h
  obtain ⟨hj, hp, hfirst⟩ := h
  refine ⟨elements[j], List.getElem?_eq_getElem hj, by simpa using hp, ?_⟩
  intro k w' hk hkw
  have hk' : k < elements.length := by omega
  have := hfirst k hk
  rw [List.getElem?_eq_getElem hk'] at hkw
  cases hkw
  simpa using this

theorem entryOfSocket_none (elements : List WorkerElement) (fd : Int)
    (h : entryOfSocket elements fd = none) : ∀ w ∈ elements, w.socket_fd ≠ fd := by
  unfold entryOfSocket at h
  rw [List.findIdx?_eq_none_iff] at h
  intro w hw
  simpa using h w hw

theorem removeWorker_found (e : RemoveEnv) (he1 : e.ip_dup_ok = true)
    (he2 : e.type_dup_ok = true) (server : GothamServer) (sock : Int) (out : RemovedPeer)
    (j : Nat) (w : WorkerElement) (hw : server.worker_list.elements[j]? = some w)
    (hs : w.socket_fd = sock)
    (hfirst : ∀ k w', k < j → server.worker_list.elements[k]? = some w' → w'.socket_fd ≠ sock)
    (ht : w.worker_type = str "Text" ∨ w.worker_type = str "Media") :
    ∃ out', Gotham.MC_removeWorkerFromList e server sock out =
      if w.is_main ≠ 0 then
        (Gotham.MC_assignNewMainWorker e (withoutEntry server j) w.worker_type).map
          (fun r => (r.1, out', r.2))
      else some (withoutEntry server j, out', []) := by
  have hne : str "Text" ≠ str "Media" := by decide
  have hj : j < server.worker_list.elements.length := by
    by_contra hn
    rw [List.getElem?_eq_none (by omega)] at hw
    cases hw
  obtain ⟨err, hskip⟩ := removeWorker_loop_skip e sock j
    server.worker_list.elements.length (withCursor server 0 server.worker_list.error) out
    (by
      show 0 + j ≤ server.worker_list.elements.length
      omega) (by omega) (by
      intro k w' _ hk hkw
      exact hfirst k w' (by
        have : k < 0 + j := hk
        omega) hkw)
  have e0 : Gotham.MC_removeWorkerFromList e server sock out =
      Gotham.MC_removeWorkerFromList_loop e sock server.worker_list.elements.length
        (withCursor server 0 server.worker_list.error) out := rfl
  have e1 : withCursor (withCursor server 0 server.worker_list.error)
      ((withCursor server 0 server.worker_list.error).worker_list.previous + j) err =
      withCursor server j err := by
    show withCursor server (0 + j) err = _
    rw [Nat.zero_add]
  obtain ⟨f, hf⟩ : ∃ f, server.worker_list.elements.length - j = f + 1 :=
    ⟨server.worker_list.elements.length - j - 1, by omega⟩
  rw [e0, hskip, e1, hf, Gotham.MC_removeWorkerFromList_loop]
  have hnend : WORKER_LINKEDLIST_isAtEnd (withCursor server j err).worker_list = false := by
    unfold WORKER_LINKEDLIST_isAtEnd
    simp only [decide_eq_false_iff_not]
    show ¬ (server.worker_list.elements.length ≤ j)
    omega
  have hget : (withCursor server j err).worker_list.elements[
      (withCursor server j err).worker_list.previous]? = some w := hw
  simp only [hnend, WORKER_LINKEDLIST_get, hget, hs, if_true, Bool.false_eq_true, if_false,
    he1, he2, Bool.not_true, strcmp_eq_zero]
  have hrem : WORKER_LINKEDLIST_remove
      { elements := (withCursor server j err).worker_list.elements,
        previous := (withCursor server j err).worker_list.previous, error := .NO_ERROR } =
      { elements := server.worker_list.elements.eraseIdx j, previous := j,
        error := .NO_ERROR } := by
    unfold WORKER_LINKEDLIST_remove WORKER_LINKEDLIST_isAtEnd
    have : ¬ (server.worker_list.elements.length ≤ j) := by omega
    simp [withCursor, this]
  rcases ht with ht | ht
  · have hnm : ¬ (w.worker_type = str "Media") := fun h => hne (ht.symm.trans h)
    have hwo : withoutEntry server j =
        { server with
          n_enigmas := server.n_enigmas - 1,
          worker_list :=
            { elements := server.worker_list.elements.eraseIdx j, previous := j,
              error := .NO_ERROR } } := by
      unfold withoutEntry
      rw [hw]
      simp only [ht, hnm, if_true, if_false, hne]
    refine ⟨{ port := w.port, ip := some w.ip, type := some (str "Enigma") }, ?_⟩
    rw [if_pos ht, hwo]
    simp only [hrem, ht]
    rfl
  · have hnt : ¬ (w.worker_type = str "Text") := fun h => hne (h.symm.trans ht)
    have hwo : withoutEntry server j =
        { server with
          n_harleys := server.n_harleys - 1,
          worker_list :=
            { elements := server.worker_list.elements.eraseIdx j, previous := j,
              error := .NO_ERROR } } := by
      unfold withoutEntry
      rw [hw]
      simp only [ht, hnt, if_true, if_false, hne.symm]
    refine ⟨{ port := w.port, ip := some w.ip, type := some (str "Harley") }, ?_⟩
    rw [if_neg hnt, if_pos ht, hwo]
    simp only [hrem, ht]
    rfl

/-! ## The roster invariant -/

theorem emptyServer_invariant : RosterInvariant emptyServer := by
  refine ⟨?_, rfl, rfl, ?_⟩
  · intro w hw
    exact absurd hw (List.not_mem_nil _)
  · intro c _
    rfl

theorem counts_of_erase (l : List WorkerElement) (j : Nat) (w : WorkerElement)
    (hw : l[j]? = some w) (c : List Nat) :
    classCount l c = classCount (l.eraseIdx j) c + (if w.worker_type = c then 1 else 0) ∧
    primaryCount l c = primaryCount (l.eraseIdx j) c +
      (if w.worker_type = c ∧ w.is_main = 1 then 1 else 0) := by
  have hp := eraseIdx_perm l j w hw
  rw [classCount_perm _ _ hp c, primaryCount_perm _ _ hp c, classCount_cons, primaryCount_cons]
  exact ⟨rfl, rfl⟩

theorem mem_of_mem_eraseIdx (l : List WorkerElement) (j : Nat) (x : WorkerElement)
    (h : x ∈ l.eraseIdx j) : x ∈ l := by
  rw [List.eraseIdx_eq_take_drop_succ] at h
  rcases List.mem_append.mp h with h | h
  · exact List.mem_of_mem_take h
  · exact List.mem_of_mem_drop h

theorem counts_of_markPrimary (l : List WorkerElement) (i : Nat) (v : WorkerElement)
    (hv : l[i]? = some v) (c : List Nat) :
    classCount (markPrimary l i) c = classCount l c ∧
    primaryCount (markPrimary l i) c + (if v.worker_type = c ∧ v.is_main = 1 then 1 else 0) =
      primaryCount l c + (if v.worker_type = c then 1 else 0) := by
  have hi : i < l.length := by
    by_contra hn
    rw [List.getElem?_eq_none (by omega)] at hv
    cases hv
  have h1 := counts_of_erase l i v hv c
  have hp := set_perm l i { v with is_main := 1 } hi
  have hm : markPrimary l i = l.set i { v with is_main := 1 } := by
    unfold markPrimary
    rw [hv]
  rw [hm, classCount_perm _ _ hp c, primaryCount_perm _ _ hp c, classCount_cons,
    primaryCount_cons, h1.1, h1.2]
  simp only [and_true]
  constructor
  · trivial
  · omega

theorem mem_markPrimary (l : List WorkerElement) (i : Nat) (x : WorkerElement)
    (h : x ∈ markPrimary l i) :
    x ∈ l ∨ ∃ v, v ∈ l ∧ x = { v with is_main := 1 } := by
  unfold markPrimary at h
  split at h
  · rename_i v hv
    rcases List.mem_or_eq_of_mem_set h with h | h
    · exact Or.inl h
    · exact Or.inr ⟨v, List.getElem?_mem hv, h⟩
  · exact Or.inl h

/-- A join of a worker of class Text or Media keeps the roster in order. -/
theorem addWorker_invariant (garbage : Int) (server : GothamServer) (sock : Int)
    (worker_type ip port : Option (List Nat))
    (ht : worker_type = some (str "Text") ∨ worker_type = some (str "Media"))
    (h : RosterInvariant server) :
    RosterInvariant (Gotham.MC_addWorkerToServer true garbage server sock worker_type ip
      port).2 := by
  have hne : str "Text" ≠ str "Media" := by decide
  obtain ⟨hty, hn1, hn2, hpr⟩ := h
  cases ip with
  | none =>
    rcases ht with ht | ht <;> subst ht <;> exact ⟨hty, hn1, hn2, hpr⟩
  | some ip =>
    cases port with
    | none =>
      rcases ht with ht | ht <;> subst ht <;> exact ⟨hty, hn1, hn2, hpr⟩
    | some port =>
      rcases ht with ht | ht
      · subst ht
        have hperm := insert_perm server.worker_list.elements server.worker_list.previous
          ({ worker_type := str "Text", ip := ip, port := atoi port, socket_fd := sock,
             is_main := if server.n_enigmas = 0 then 1 else 0 } : WorkerElement)
        simp only [Gotham.MC_addWorkerToServer, strcmp_eq_zero, if_true,
          WORKER_LINKEDLIST_add]
        refine ⟨?_, ?_, ?_, ?_⟩
        · intro w hw
          rcases List.mem_cons.mp (hperm.subset hw) with h | h
          · subst h
            refine ⟨Or.inl rfl, ?_⟩
            show (if server.n_enigmas = 0 then (1 : Int) else 0) = 0 ∨ _ = 1
            split
            · exact Or.inr rfl
            · exact Or.inl rfl
          · exact hty w h
        · show server.n_enigmas + 1 = _
          rw [classCount_perm _ _ hperm, classCount_cons, hn1]
          simp
        · show server.n_harleys = _
          rw [classCount_perm _ _ hperm, classCount_cons, hn2]
          simp [hne]
        · intro c hc
          show primaryCount _ c = if classCount _ c = 0 then 0 else 1
          rw [classCount_perm _ _ hperm, primaryCount_perm _ _ hperm, classCount_cons,
            primaryCount_cons, hpr c hc]
          rcases hc with hc | hc
          · subst hc
            simp only [true_and, if_true]
            by_cases hz : classCount server.worker_list.elements (str "Text") = 0
            · have : server.n_enigmas = 0 := by rw [hn1, hz]; rfl
              simp [hz, this]
            · have : server.n_enigmas ≠ 0 := by rw [hn1]; omega
              simp [hz, this]
          · subst hc
            simp [hne]
      · subst ht
        have hperm := insert_perm server.worker_list.elements server.worker_list.previous
          ({ worker_type := str "Media", ip := ip, port := atoi port, socket_fd := sock,
             is_main := if server.n_harleys = 0 then 1 else 0 } : WorkerElement)
        simp only [Gotham.MC_addWorkerToServer, strcmp_eq_zero, hne.symm, if_false, if_true,
          WORKER_LINKEDLIST_add]
        refine ⟨?_, ?_, ?_, ?_⟩
        · intro w hw
          rcases List.mem_cons.mp (hperm.subset hw) with h | h
          · subst h
            refine ⟨Or.inr rfl, ?_⟩
            show (if server.n_harleys = 0 then (1 : Int) else 0) = 0 ∨ _ = 1
            split
            · exact Or.inr rfl
            · exact Or.inl rfl
          · exact hty w h
        · show server.n_enigmas = _
          rw [classCount_perm _ _ hperm, classCount_cons, hn1]
          simp [hne.symm]
        · show server.n_harleys + 1 = _
          rw [classCount_perm _ _ hperm, classCount_cons, hn2]
          simp
        · intro c hc
          show primaryCount _ c = if classCount _ c = 0 then 0 else 1
          rw [classCount_perm _ _ hperm, primaryCount_perm _ _ hperm, classCount_cons,
            primaryCount_cons, hpr c hc]
          rcases hc with hc | hc
          · subst hc
            simp [hne.symm]
          · subst hc
            simp only [true_and, if_true]
            by_cases hz : classCount server.worker_list.elements (str "Media") = 0
            · have : server.n_harleys = 0 := by rw [hn2, hz]; rfl
              simp [hz, this]
            · have : server.n_harleys ≠ 0 := by rw [hn2]; omega
              simp [hz, this]

theorem withoutEntry_eq (server : GothamServer) (j : Nat) (w : WorkerElement)
    (hw : server.worker_list.elements[j]? = some w) :
    withoutEntry server j =
      { server with
        n_enigmas :=
          if w.worker_type = str "Text" then server.n_enigmas - 1 else server.n_enigmas,
        n_harleys :=
          if w.worker_type = str "Media" then server.n_harleys - 1 else server.n_harleys,
        worker_list :=
          { elements := server.worker_list.elements.eraseIdx j, previous := j,
            error := .NO_ERROR } } := by
  unfold withoutEntry
  rw [hw]

/-- The roster between the removal of an entry and the election. -/
theorem withoutEntry_props (server : GothamServer) (j : Nat) (w : WorkerElement)
    (hw : server.worker_list.elements[j]? = some w) (h : RosterInvariant server) :
    (∀ x ∈ (withoutEntry server j).worker_list.elements,
      (x.worker_type = str "Text" ∨ x.worker_type = str "Media") ∧
      (x.is_main = 0 ∨ x.is_main = 1)) ∧
    (withoutEntry server j).n_enigmas =
      classCount (withoutEntry server j).worker_list.elements (str "Text") ∧
    (withoutEntry server j).n_harleys =
      classCount (withoutEntry server j).worker_list.elements (str "Media") ∧
    (∀ c, c = str "Text" ∨ c = str "Media" →
      primaryCount (withoutEntry server j).worker_list.elements c =
        if w.worker_type = c ∧ w.is_main = 1 then 0
        else if classCount (withoutEntry server j).worker_list.elements c = 0 then 0 else 1) := by
  obtain ⟨hty, hn1, hn2, hpr⟩ := h
  rw [withoutEntry_eq server j w hw]
  refine ⟨?_, ?_, ?_, ?_⟩
  · intro x hx
    exact hty x (mem_of_mem_eraseIdx _ _ _ hx)
  · show (if w.worker_type = str "Text" then server.n_enigmas - 1 else server.n_enigmas) =
      classCount (server.worker_list.elements.eraseIdx j) (str "Text")
    have := (counts_of_erase server.worker_list.elements j w hw (str "Text")).1
    rw [hn1]
    split <;> simp_all
  · show (if w.worker_type = str "Media" then server.n_harleys - 1 else server.n_harleys) =
      classCount (server.worker_list.elements.eraseIdx j) (str "Media")
    have := (counts_of_erase server.worker_list.elements j w hw (str "Media")).1
    rw [hn2]
    split <;> simp_all
  · intro c hc
    show primaryCount (server.worker_list.elements.eraseIdx j) c =
      if w.worker_type = c ∧ w.is_main = 1 then 0
      else if classCount (server.worker_list.elements.eraseIdx j) c = 0 then 0 else 1
    obtain ⟨h1, h2⟩ := counts_of_erase server.worker_list.elements j w hw c
    have h3 := hpr c hc
    have h4 := primaryCount_le (server.worker_list.elements.eraseIdx j) c
    by_cases hwc : w.worker_type = c
    · by_cases hm : w.is_main = 1
      · simp only [hwc, hm, and_self, if_true] at h1 h2 ⊢
        rw [h1] at h3
        simp only [Nat.add_one_ne_zero, if_false] at h3
        omega
      · simp only [hwc, hm, and_false, if_false, if_true] at h1 h2 ⊢
        rw [h1] at h3
        simp only [Nat.add_one_ne_zero, if_false] at h3
        split <;> omega
    · simp only [hwc, false_and, if_false] at h1 h2 ⊢
      rw [h2, h1] at h3
      exact h3

theorem withCursor_invariant (server : GothamServer) (p : Nat) (err : ListError)
    (h : RosterInvariant server) : RosterInvariant (withCursor server p err) := h

/-- The election after the removal of the primary of a class puts the roster
in order again. -/
theorem election_invariant (e : RemoveEnv) (server : GothamServer) (j : Nat)
    (w : WorkerElement) (hw : server.worker_list.elements[j]? = some w)
    (h : RosterInvariant server) (server2 : GothamServer) (sent : List (Int × SockWrite))
    (hm : w.is_main = 1)
    (hr : Gotham.MC_assignNewMainWorker e (withoutEntry server j) w.worker_type =
      some (server2, sent)) :
    RosterInvariant server2 := by
  obtain ⟨hty, hn1, hn2, hpr⟩ := withoutEntry_props server j w hw h
  have hwt := (h.1 w (List.getElem?_mem hw)).1
  rw [assignNewMain_spec e _ _ hwt (fun x hx => (hty x hx).1) hn1 hn2] at hr
  split at hr
  · rename_i hz
    cases hr
    refine ⟨hty, hn1, hn2, ?_⟩
    intro c hc
    rw [hpr c hc]
    by_cases hwc : w.worker_type = c
    · subst hwc
      simp [hz]
    · simp [hwc]
  · rename_i hz
    cases hel : electedIndex (withoutEntry server j).worker_list.elements w.worker_type
        (withoutEntry server j).worker_list.elements.length e.draws with
    | none =>
      rw [hel] at hr
      cases hr
    | some i =>
      rw [hel] at hr
      simp only [Option.map_some', Option.some.injEq, Prod.mk.injEq] at hr
      obtain ⟨hs2, _⟩ := hr
      subst hs2
      obtain ⟨v, hv, hvc⟩ := electedIndex_some _ _ _ _ _ hel
      refine ⟨?_, ?_, ?_, ?_⟩
      · intro x hx
        rcases mem_markPrimary _ _ _ hx with hx | ⟨y, hy, rfl⟩
        · exact hty x hx
        · exact ⟨(hty y hy).1, Or.inr rfl⟩
      · show (withoutEntry server j).n_enigmas = classCount (markPrimary _ i) _
        rw [(counts_of_markPrimary _ i v hv _).1]
        exact hn1
      · show (withoutEntry server j).n_harleys = classCount (markPrimary _ i) _
        rw [(counts_of_markPrimary _ i v hv _).1]
        exact hn2
      · intro c hc
        show primaryCount (markPrimary _ i) c = if classCount (markPrimary _ i) c = 0 then 0 else 1
        obtain ⟨h1, h2⟩ := counts_of_markPrimary (withoutEntry server j).worker_list.elements
          i v hv c
        rw [h1]
        have h3 := hpr c hc
        have h4 := primaryCount_le (withoutEntry server j).worker_list.elements c
        by_cases hwc : w.worker_type = c
        · subst hwc
          simp only [hm, and_self, if_true] at h3
          have hv1 : ¬ (v.worker_type = w.worker_type ∧ v.is_main = 1) := by
            intro hh
            have : 0 < primaryCount (withoutEntry server j).worker_list.elements
                w.worker_type := by
              unfold primaryCount
              rw [List.countP_pos_iff]
              exact ⟨v, List.getElem?_mem hv, by simpa using hh⟩
            omega
          rw [if_neg hv1, if_pos hvc] at h2
          rw [if_neg hz]
          omega
        · have hvc' : ¬ (v.worker_type = c) := fun hh => hwc (hvc.symm.trans hh)
          simp only [hwc, false_and, if_false] at h3
          simp only [hvc', false_and, if_false] at h2
          rw [← h3]
          omega

/-- A removal keeps the roster in order. -/
theorem removeWorker_invariant (e : RemoveEnv) (he1 : e.ip_dup_ok = true)
    (he2 : e.type_dup_ok = true) (server : GothamServer) (sock : Int) (out : RemovedPeer)
    (h : RosterInvariant server) (server2 : GothamServer) (out2 : RemovedPeer)
    (sent : List (Int × SockWrite))
    (hr : Gotham.MC_removeWorkerFromList e server sock out = some (server2, out2, sent)) :
    RosterInvariant server2 := by
  cases hidx : entryOfSocket server.worker_list.elements sock with
  | none =>
    obtain ⟨err, habs⟩ := removeWorker_absent e server sock out (entryOfSocket_none _ _ hidx)
    rw [habs] at hr
    cases hr
    exact withCursor_invariant server _ err h
  | some j =>
    obtain ⟨w, hw, hs, hfirst⟩ := entryOfSocket_some _ _ _ hidx
    obtain ⟨hwt, hwm⟩ := h.1 w (List.getElem?_mem hw)
    obtain ⟨out', hfound⟩ := removeWorker_found e he1 he2 server sock out j w hw hs hfirst hwt
    rw [hfound] at hr
    rcases hwm with hwm | hwm
    · rw [if_neg (by rw [hwm]; decide)] at hr
      cases hr
      obtain ⟨hty, hn1, hn2, hpr⟩ := withoutEntry_props server j w hw h
      refine ⟨hty, hn1, hn2, ?_⟩
      intro c hc
      rw [hpr c hc, if_neg (by rw [hwm]; simp)]
    · rw [if_pos (by rw [hwm]; decide)] at hr
      cases hres : Gotham.MC_assignNewMainWorker e (withoutEntry server j) w.worker_type with
      | none =>
        rw [hres] at hr
        cases hr
      | some r =>
        rw [hres] at hr
        simp only [Option.map_some', Option.some.injEq, Prod.mk.injEq] at hr
        obtain ⟨hs2, _, _⟩ := hr
        subst hs2
        exact election_invariant e server j w hw h r.1 r.2 hwm hres

theorem runRoster_invariant :
    ∀ (ops : List RosterOp) (server server2 : GothamServer),
      (∀ op ∈ ops, op.Valid) → RosterInvariant server → runRoster server ops = some server2 →
      RosterInvariant server2 := by
  intro ops
  induction ops with
  | nil =>
    intro server server2 _ h hr
    cases hr
    exact h
  | cons op ops ih =>
    intro server server2 hv h hr
    have hop := hv op (List.mem_cons_self _ _)
    have hrest : ∀ o ∈ ops, o.Valid := fun o ho => hv o (List.mem_cons_of_mem _ ho)
    unfold runRoster at hr
    cases op with
    | join malloc_ok garbage client_socket worker_type ip_address port_str =>
      obtain ⟨hm, ht⟩ := hop
      subst hm
      simp only [applyRosterOp] at hr
      exact ih _ _ hrest (addWorker_invariant garbage server client_socket worker_type
        ip_address port_str ht h) hr
    | leave e client_socket =>
      obtain ⟨he1, he2⟩ := hop
      simp only [applyRosterOp] at hr
      cases hrem : Gotham.MC_removeWorkerFromList e server client_socket
          { port := 0, ip := none, type := none } with
      | none =>
        rw [hrem] at hr
        cases hr
      | some r =>
        rw [hrem] at hr
        simp only [Option.map_some'] at hr
        exact ih _ _ hrest (removeWorker_invariant e he1 he2 server client_socket _ h r.1
          r.2.1 r.2.2 hrem) hr

theorem primaryInvariant_of_rosterInvariant (server : GothamServer)
    (h : RosterInvariant server) : PrimaryInvariant server := by
  intro c hc
  have hp := h.2.2.2 c hc
  have e1 : (primariesOfClass server c).length =
      primaryCount server.worker_list.elements c := by
    unfold primariesOfClass primaryCount
    rw [List.countP_eq_length_filter]
  have e2 : (rosterOfClass server c).length = classCount server.worker_list.elements c := by
    unfold rosterOfClass classCount
    rw [List.countP_eq_length_filter]
  rw [e1, hp]
  constructor
  · split <;> omega
  · intro hne
    have : (rosterOfClass server c).length ≠ 0 := fun h0 => hne (List.length_eq_zero.mp h0)
    rw [e2] at this
    rw [if_neg this]

/-- From a roster in order every removal returns for suitable values of
`rand()`: one value that is the index of an entry of the class suffices. -/
theorem removeWorker_returns (e : RemoveEnv) (he1 : e.ip_dup_ok = true)
    (he2 : e.type_dup_ok = true) (server : GothamServer) (sock : Int) (out : RemovedPeer)
    (h : RosterInvariant server) :
    ∃ draws, (Gotham.MC_removeWorkerFromList { e with draws := draws } server sock
      out).isSome = true := by
  cases hidx : entryOfSocket server.worker_list.elements sock with
  | none =>
    refine ⟨[], ?_⟩
    obtain ⟨err, habs⟩ := removeWorker_absent { e with draws := [] } server sock out
      (entryOfSocket_none _ _ hidx)
    rw [habs]
    rfl
  | some j =>
    obtain ⟨w, hw, hs, hfirst⟩ := entryOfSocket_some _ _ _ hidx
    obtain ⟨hwt, hwm⟩ := h.1 w (List.getElem?_mem hw)
    obtain ⟨hty, hn1, hn2, hpr⟩ := withoutEntry_props server j w hw h
    by_cases hz : classCount (withoutEntry server j).worker_list.elements w.worker_type = 0
    · refine ⟨[], ?_⟩
      obtain ⟨out', hfound⟩ := removeWorker_found { e with draws := [] } he1 he2 server sock
        out j w hw hs hfirst hwt
      rw [hfound, assignNewMain_spec _ _ _ hwt (fun x hx => (hty x hx).1) hn1 hn2, if_pos hz]
      split <;> rfl
    · obtain ⟨i, v, hv, hvc⟩ := exists_of_classCount_pos _ _ (Nat.pos_of_ne_zero hz)
      have hi : i < (withoutEntry server j).worker_list.elements.length := by
        by_contra hn
        rw [List.getElem?_eq_none (by omega)] at hv
        cases hv
      refine ⟨[i], ?_⟩
      obtain ⟨out', hfound⟩ := removeWorker_found { e with draws := [i] } he1 he2 server sock
        out j w hw hs hfirst hwt
      rw [hfound, assignNewMain_spec _ _ _ hwt (fun x hx => (hty x hx).1) hn1 hn2, if_neg hz]
      have hel := electedIndex_hit (withoutEntry server j).worker_list.elements w.worker_type
        (withoutEntry server j).worker_list.elements.length i v hv hvc (by omega)
      simp only [hel]
      split <;> rfl

/-! ## File names and extensions -/

theorem last_dot_split (name : List Nat) (h : 46 ∈ name) :
    ∃ pre suf, name = pre ++ 46 :: suf ∧ 46 ∉ suf := by
  have hr : 46 ∈ name.reverse := List.mem_reverse.mpr h
  obtain ⟨as, bs, h1, h2⟩ := List.eq_append_cons_of_mem hr
  refine ⟨bs.reverse, as.reverse, ?_, ?_⟩
  · have := congrArg List.reverse h1
    simpa using this
  · simpa using h2

theorem strrchr_split (pre suf : List Nat) (c : Nat) (h : c ∉ suf) :
    strrchr (pre ++ c :: suf) c = some pre.length := by
  unfold strrchr
  rw [if_pos (by simp)]
  have e : (pre ++ c :: suf).reverse = suf.reverse ++ c :: pre.reverse := by simp
  rw [e, List.takeWhile_append_of_pos (by
    intro a ha
    have : a ∈ suf := List.mem_reverse.mp ha
    simp only [ne_eq, decide_not, Bool.not_eq_true', decide_eq_false_iff_not]
    intro hac
    exact h (hac ▸ this)), List.takeWhile_cons_of_neg (by simp)]
  simp only [List.append_nil, List.length_reverse, List.length_append, List.length_cons]
  congr 1
  omega

theorem strrchr_none (name : List Nat) (c : Nat) (h : c ∉ name) : strrchr name c = none := by
  unfold strrchr
  rw [if_neg h]

theorem hasExtension_split (pre suf ext : List Nat) (hs : 46 ∉ suf) :
    HasExtension (pre ++ 46 :: suf) ext ↔ pre ≠ [] ∧ ext = suf := by
  unfold HasExtension
  constructor
  · rintro ⟨⟨t, ht⟩, he, hl⟩
    have hrev := congrArg List.reverse ht
    simp only [List.reverse_append, List.reverse_cons, List.append_assoc,
      List.singleton_append] at hrev
    have htw := congrArg (List.takeWhile (fun b => decide (b ≠ 46))) hrev
    rw [List.takeWhile_append_of_pos (by
        intro a ha
        have : a ∈ ext := List.mem_reverse.mp ha
        simp only [ne_eq, decide_not, Bool.not_eq_true', decide_eq_false_iff_not]
        intro hac
        exact he (hac ▸ this)),
      List.takeWhile_cons_of_neg (by simp),
      List.takeWhile_append_of_pos (by
        intro a ha
        have : a ∈ suf := List.mem_reverse.mp ha
        simp only [ne_eq, decide_not, Bool.not_eq_true', decide_eq_false_iff_not]
        intro hac
        exact hs (hac ▸ this)),
      List.takeWhile_cons_of_neg (by simp)] at htw
    simp only [List.append_nil, List.reverse_inj] at htw
    subst htw
    refine ⟨?_, rfl⟩
    intro hp
    subst hp
    simp at hl
  · rintro ⟨hp, rfl⟩
    refine ⟨⟨pre, rfl⟩, hs, ?_⟩
    have : 0 < pre.length := List.length_pos.mpr hp
    simp only [List.length_append, List.length_cons]
    omega

theorem hasExtension_mem (name ext : List Nat) (h : HasExtension name ext) : 46 ∈ name := by
  obtain ⟨t, ht⟩ := h.1
  rw [← ht]
  simp

theorem getFileExtension_split (pre suf : List Nat) (hp : pre ≠ []) (h : 46 ∉ suf) :
    FILE_getFileExtension (pre ++ 46 :: suf) = suf := by
  unfold FILE_getFileExtension
  rw [strrchr_split pre suf 46 h]
  have : pre.length ≠ 0 := by
    intro h0
    exact hp (List.length_eq_zero.mp h0)
  simp only [this, if_false]
  rw [List.drop_append_eq_append_drop]
  simp

theorem any_strcmp (ext : List Nat) (table : List (List Nat)) :
    table.any (fun x => decide (strcmp ext x = 0)) = true ↔ ext ∈ table := by
  simp only [List.any_eq_true, decide_eq_true_eq, strcmp_eq_zero]
  constructor
  · rintro ⟨x, hx, rfl⟩; exact hx
  · intro h; exact ⟨ext, h, rfl⟩

theorem not_hasExtension_of_not_mem (name ext : List Nat) (h : 46 ∉ name) :
    ¬ HasExtension name ext := fun he => h (hasExtension_mem name ext he)

theorem tableVerdict_no_dot (cls name : List Nat) (h : 46 ∉ name) : tableVerdict cls name = 0 := by
  unfold tableVerdict
  rw [if_neg (fun hh => not_hasExtension_of_not_mem name _ h hh.2),
    if_neg (fun hh => by
      obtain ⟨_, ext, _, he⟩ := hh
      exact not_hasExtension_of_not_mem name ext h he)]

theorem tableVerdict_split (cls pre suf : List Nat) (hs : 46 ∉ suf) :
    tableVerdict cls (pre ++ 46 :: suf) =
      if cls = str "Text" ∧ pre ≠ [] ∧ suf = str "txt" then 2
      else if cls = str "Media" ∧ pre ≠ [] ∧ suf ∈ mediaExtensions then 1
      else 0 := by
  unfold tableVerdict
  have e1 : HasExtension (pre ++ 46 :: suf) (str "txt") ↔ pre ≠ [] ∧ suf = str "txt" := by
    rw [hasExtension_split pre suf _ hs]
    constructor
    · rintro ⟨h1, h2⟩; exact ⟨h1, h2.symm⟩
    · rintro ⟨h1, h2⟩; exact ⟨h1, h2.symm⟩
  have e2 : (∃ ext ∈ mediaExtensions, HasExtension (pre ++ 46 :: suf) ext) ↔
      pre ≠ [] ∧ suf ∈ mediaExtensions := by
    constructor
    · rintro ⟨ext, hm, he⟩
      obtain ⟨h1, h2⟩ := (hasExtension_split pre suf ext hs).mp he
      exact ⟨h1, h2 ▸ hm⟩
    · rintro ⟨h1, h2⟩
      exact ⟨suf, h2, (hasExtension_split pre suf suf hs).mpr ⟨h1, rfl⟩⟩
  simp only [e1, e2]

/-- The verdict of `HANDLE_validateAttributesDistortRequest` on the text `cls&name`. -/
theorem validate_verdict (cls name : List Nat) (hc : cls ≠ []) (hc38 : 38 ∉ cls)
    (hn38 : 38 ∉ name) :
    Gotham.HANDLE_validateAttributesDistortRequest (cls ++ str "&" ++ name) =
      some (tableVerdict cls name, if name = [] then none else some name) := by
  have e38 : str "&" = [38] := by decide
  have htok1 : strtok (cls ++ str "&" ++ name) (str "&") = (some cls, name) := by
    rw [List.append_assoc, e38]
    have := strtok_sep cls name [38] 38 (by simp) hc (by
      intro b hb
      simp only [List.mem_singleton]
      intro h
      exact hc38 (h ▸ hb))
    simpa using this
  obtain ⟨c0, ctl, hcl⟩ := List.exists_cons_of_ne_nil hc
  have hhead : ¬ (cls.head? = none) := by rw [hcl]; simp
  unfold Gotham.HANDLE_validateAttributesDistortRequest
  simp only [htok1]
  by_cases hname : name = []
  · subst hname
    rw [strtok_nil]
    simp only [or_true, if_true, if_pos]
    rw [tableVerdict_no_dot cls [] (by simp)]
  · have htok2 : strtok name (str "&") = (some name, []) := by
      rw [e38]
      exact strtok_last name [38] hname (by
        intro b hb
        simp only [List.mem_singleton]
        intro h
        exact hn38 (h ▸ hb))
    rw [htok2]
    simp only [hhead, false_or, if_false, hname, reduceCtorEq]
    by_cases hcls : cls = str "Media" ∨ cls = str "Text"
    · have hnot : ¬ (strcmp cls (str "Media") ≠ 0 ∧ strcmp cls (str "Text") ≠ 0) := by
        rintro ⟨h1, h2⟩
        rcases hcls with h | h
        · exact h1 ((strcmp_eq_zero _ _).mpr h)
        · exact h2 ((strcmp_eq_zero _ _).mpr h)
      rw [if_neg hnot]
      by_cases hdot : 46 ∈ name
      · obtain ⟨pre, suf, hsplit, hsuf⟩ := last_dot_split name hdot
        subst hsplit
        rw [strrchr_split pre suf 46 hsuf, tableVerdict_split cls pre suf hsuf]
        by_cases hpre : pre = []
        · subst hpre
          simp
        · have hlen : pre.length ≠ 0 := fun h0 => hpre (List.length_eq_zero.mp h0)
          rw [getFileExtension_split pre suf hpre hsuf]
          simp only [reduceCtorEq, Option.some.injEq, hlen, or_self, if_false]
          simp only [strcmp_eq_zero, any_strcmp]
          have hne : str "Media" ≠ str "Text" := by decide
          rcases hcls with h | h
          · subst h
            simp only [if_true, hne, false_and, if_false, true_and, hpre, ne_eq,
              not_false_eq_true]
            by_cases ha : suf ∈ audioExtensions
            · have : suf ∈ mediaExtensions := by
                simp only [audioExtensions, List.mem_singleton] at ha
                subst ha
                decide
              simp [ha, this]
            · by_cases hi : suf ∈ imageExtensions
              · have : suf ∈ mediaExtensions := by
                  simp only [imageExtensions, List.mem_cons, List.mem_singleton,
                    List.not_mem_nil, or_false] at hi
                  rcases hi with h | h | h | h | h <;> subst h <;> decide
                simp [ha, hi, this]
              · have : suf ∉ mediaExtensions := by
                  intro hm
                  simp only [mediaExtensions, List.mem_cons, List.mem_singleton,
                    List.not_mem_nil, or_false] at hm
                  rcases hm with h | h | h | h | h | h
                  · exact ha (by simp [audioExtensions, h])
                  all_goals exact hi (by simp [imageExtensions, h])
                simp [ha, hi, this]
          · subst h
            simp only [hne.symm, if_false, true_and, hpre, ne_eq, not_false_eq_true,
              false_and]
            by_cases ht : suf = str "txt"
            · simp [ht]
            · simp [ht]
      · rw [strrchr_none name 46 hdot, tableVerdict_no_dot cls name hdot]
        simp
    · have hyes : strcmp cls (str "Media") ≠ 0 ∧ strcmp cls (str "Text") ≠ 0 := by
        constructor
        · intro h; exact hcls (Or.inl ((strcmp_eq_zero _ _).mp h))
        · intro h; exact hcls (Or.inr ((strcmp_eq_zero _ _).mp h))
      rw [if_pos hyes]
      have : tableVerdict cls name = 0 := by
        unfold tableVerdict
        rw [if_neg (fun h => hcls (Or.inr h.1)), if_neg (fun h => hcls (Or.inl h.1))]
      rw [this]

/-! ## Frames the registry sends -/

/-- The frame `FRAME_createFrame(type, s, strlen(s))` as written by `FRAME_sendFrame`
on a socket that takes all 256 bytes. -/
theorem sent_frame_carries (c : CreateEnv) (s : SendEnv) (type : Int) (string : List Nat)
    (hm : c.malloc_ok = true) (hb : s.buffer.length = FRAME_SIZE)
    (hw : s.write_ret = FRAME_SIZE) (hlen : string.length ≤ DATA_SIZE) :
    ∃ wr, (FRAME_sendFrame s.buffer s.write_ret
        (FRAME_createFrame c.malloc_ok c.now type (some (string ++ [0])) string.length)).written =
        some wr ∧
      CarriesFrame wr (toUInt8 type) string := by
  have hmin : min string.length DATA_SIZE = string.length := Nat.min_eq_left hlen
  have hpre : ∀ d, some (string ++ [0]) = some d → min string.length DATA_SIZE ≤ d.length := by
    intro d hd
    cases hd
    rw [hmin]
    simp
  obtain ⟨f, bytes, h1, h2, h3, _, _, _, _, _⟩ :=
    created_frame_received c.now type (some (string ++ [0])) string.length s.buffer
      (List.replicate FRAME_SIZE 0) 0 hpre hb (by simp)
  refine ⟨{ bytes := bytes, ret := FRAME_SIZE }, ?_, rfl, h3, ?_⟩
  · rw [hm, hw, h1, h2]
  · intro rbuf e hr
    obtain ⟨f', bytes', h1', h2', _, h4', h5', h6', h7', _⟩ :=
      created_frame_received c.now type (some (string ++ [0])) string.length s.buffer
        rbuf e hpre hb hr
    rw [h1] at h1'
    cases h1'
    rw [h2] at h2'
    cases h2'
    refine ⟨f, h4', h5', ?_, ?_⟩
    · rw [h6', hmin]
    · rw [h7']
      simp only [hmin]
      rw [List.take_left' rfl]

theorem sendNewMain_carries (c : CreateEnv) (s : SendEnv) (sock : Int)
    (hm : c.malloc_ok = true) (hb : s.buffer.length = FRAME_SIZE)
    (hw : s.write_ret = FRAME_SIZE) :
    ∃ wr, Gotham.COMM_sendNewMainWorkerResponse c s sock = [(sock, wr)] ∧
      CarriesFrame wr 0x08 [] := by
  obtain ⟨wr, h1, h2⟩ := sent_frame_carries c s 0x08 [] hm hb hw (by decide)
  refine ⟨wr, ?_, h2⟩
  unfold Gotham.COMM_sendNewMainWorkerResponse
  simp only [List.nil_append, List.length_nil] at h1
  simp only [h1]
  rfl

theorem sendDistort_carries (c : CreateEnv) (s : SendEnv) (sock : Int) (string : List Nat)
    (is_valid type : Int) (hm : c.malloc_ok = true) (hb : s.buffer.length = FRAME_SIZE)
    (hw : s.write_ret = FRAME_SIZE) (hlen : string.length ≤ DATA_SIZE) :
    ∃ wr, Gotham.COMM_sendDistortResponse c s sock string is_valid type = [(sock, wr)] ∧
      CarriesFrame wr (toUInt8 type) string := by
  obtain ⟨wr, h1, h2⟩ := sent_frame_carries c s type string hm hb hw hlen
  refine ⟨wr, ?_, h2⟩
  unfold Gotham.COMM_sendDistortResponse
  simp only [ite_self, h1]
  rfl

/-! ## Disconnection events -/

theorem removeClientSocket_roster (server : GothamServer) (sock : Int) :
    (Gotham.MC_removeClientSocket server sock).worker_list = server.worker_list ∧
    (Gotham.MC_removeClientSocket server sock).n_enigmas = server.n_enigmas ∧
    (Gotham.MC_removeClientSocket server sock).n_harleys = server.n_harleys := by
  unfold Gotham.MC_removeClientSocket
  split <;> exact ⟨rfl, rfl, rfl⟩

theorem removeClientSocket_invariant (server : GothamServer) (sock : Int)
    (h : RosterInvariant server) : RosterInvariant (Gotham.MC_removeClientSocket server sock) := by
  obtain ⟨h1, h2, h3⟩ := removeClientSocket_roster server sock
  unfold RosterInvariant
  rw [h1, h2, h3]
  exact h

/-- Function `MC_removeClient` for a worker socket, in terms of
`MC_removeWorkerFromList`. -/
theorem removeClient_worker (e : RemoveEnv) (server : GothamServer) (sock : Int) :
    (Gotham.MC_removeWorkerFromList e (Gotham.MC_removeClientSocket server sock) sock
        { port := 0, ip := none, type := none } = none ∧
      Gotham.MC_removeClient e server sock 119 = none) ∨
    (∃ s out sent server1,
      Gotham.MC_removeWorkerFromList e (Gotham.MC_removeClientSocket server sock) sock
        { port := 0, ip := none, type := none } = some (s, out, sent) ∧
      Gotham.MC_removeClient e server sock 119 = some (server1, sent) ∧
      SameRoster server1 s) := by
  unfold Gotham.MC_removeClient
  simp only [show ((119 : Nat) = 102) = False by decide, if_false, if_true]
  cases hr : Gotham.MC_removeWorkerFromList e (Gotham.MC_removeClientSocket server sock) sock
      { port := 0, ip := none, type := none } with
  | none => exact Or.inl ⟨rfl, rfl⟩
  | some r =>
    right
    obtain ⟨s, out, sent⟩ := r
    by_cases ha : e.asprintf_ok = true
    · exact ⟨s, out, sent, Gotham.MC_updateMaxFD s, rfl, by simp [ha], ⟨rfl, rfl, rfl⟩⟩
    · exact ⟨s, out, sent, s, rfl, by simp [ha], ⟨rfl, rfl, rfl⟩⟩

theorem disconnect_absent (server : GothamServer) (sock : Int)
    (h : ∀ x ∈ server.worker_list.elements, x.socket_fd ≠ sock) :
    DisconnectIsNoop server sock := by
  intro e
  obtain ⟨h1, h2, h3⟩ := removeClientSocket_roster server sock
  obtain ⟨err, habs⟩ := removeWorker_absent e (Gotham.MC_removeClientSocket server sock) sock
    { port := 0, ip := none, type := none } (by rw [h1]; exact h)
  rcases removeClient_worker e server sock with ⟨hn, _⟩ | ⟨s, out, sent, server1, hr, hc, hsame⟩
  · rw [habs] at hn
    cases hn
  · rw [habs] at hr
    cases hr
    refine ⟨server1, hc, ?_⟩
    obtain ⟨g1, g2, g3⟩ := hsame
    refine ⟨?_, ?_, ?_⟩
    · rw [g1]
      show (Gotham.MC_removeClientSocket server sock).worker_list.elements = _
      rw [h1]
    · rw [g2]
      exact h2
    · rw [g3]
      exact h3

theorem sockets_distinct (l : List WorkerElement) (j : Nat) (w : WorkerElement)
    (hw : l[j]? = some w) (hnd : (l.map (fun x => x.socket_fd)).Nodup) :
    (∀ x ∈ l.eraseIdx j, x.socket_fd ≠ w.socket_fd) ∧
    (∀ (k : Nat) (x : WorkerElement), k < j → l[k]? = some x → x.socket_fd ≠ w.socket_fd) := by
  have hj : j < l.length := by
    by_contra hn
    rw [List.getElem?_eq_none (by omega)] at hw
    cases hw
  have hwj : l[j] = w := by
    rw [List.getElem?_eq_getElem hj] at hw
    exact Option.some.inj hw
  have e2 : l = l.take j ++ w :: l.drop (j + 1) := by
    rw [← hwj, List.getElem_cons_drop l j hj, List.take_append_drop]
  rw [e2, List.map_append, List.map_cons, List.nodup_append] at hnd
  obtain ⟨_, h2, h3⟩ := hnd
  rw [List.nodup_cons] at h2
  have hleft : ∀ x ∈ l.take j, x.socket_fd ≠ w.socket_fd := by
    intro x hx heq
    exact h3 (List.mem_map_of_mem (fun x => x.socket_fd) hx) (by
      rw [heq]
      exact List.mem_cons_self _ _)
  have hright : ∀ x ∈ l.drop (j + 1), x.socket_fd ≠ w.socket_fd := by
    intro x hx heq
    apply h2.1
    rw [← heq]
    exact List.mem_map_of_mem (fun x => x.socket_fd) hx
  constructor
  · intro x hx
    rw [List.eraseIdx_eq_take_drop_succ] at hx
    rcases List.mem_append.mp hx with hx | hx
    · exact hleft x hx
    · exact hright x hx
  · intro k x hk hkx
    apply hleft
    have hk' : k < l.length := by omega
    rw [List.getElem?_eq_getElem hk'] at hkx
    cases hkx
    rw [List.mem_take_iff_getElem]
    exact ⟨k, by omega, rfl⟩

theorem socket_of_mem_markPrimary (l : List WorkerElement) (i : Nat) (sock : Int)
    (h : ∀ x ∈ l, x.socket_fd ≠ sock) : ∀ x ∈ markPrimary l i, x.socket_fd ≠ sock := by
  intro x hx
  rcases mem_markPrimary l i x hx with hx | ⟨v, hv, rfl⟩
  · exact h x hx
  · exact h v hv

/-- The first disconnection event for the socket of a primary worker. -/
theorem removeClient_primary (e : RemoveEnv) (server : GothamServer) (sock : Int) (j : Nat)
    (w : WorkerElement) (hinv : RosterInvariant server)
    (hnd : (server.worker_list.elements.map (fun x => x.socket_fd)).Nodup)
    (hw : server.worker_list.elements[j]? = some w) (hs : w.socket_fd = sock)
    (hmain : w.is_main = 1) (he1 : e.ip_dup_ok = true) (he2 : e.type_dup_ok = true) :
    (Gotham.MC_removeClient e server sock 119 = none ∧
      Gotham.MC_assignNewMainWorker e
        (withoutEntry (Gotham.MC_removeClientSocket server sock) j) w.worker_type = none) ∨
    (∃ s sent server1,
      Gotham.MC_assignNewMainWorker e
        (withoutEntry (Gotham.MC_removeClientSocket server sock) j) w.worker_type =
        some (s, sent) ∧
      Gotham.MC_removeClient e server sock 119 = some (server1, sent) ∧
      SameRoster server1 s) := by
  obtain ⟨h1, h2, h3⟩ := removeClientSocket_roster server sock
  have hw0 : (Gotham.MC_removeClientSocket server sock).worker_list.elements[j]? = some w := by
    rw [h1]
    exact hw
  obtain ⟨hwt, _⟩ := hinv.1 w (List.getElem?_mem hw)
  obtain ⟨_, hfirst⟩ := sockets_distinct _ j w hw hnd
  obtain ⟨out', hfound⟩ := removeWorker_found e he1 he2
    (Gotham.MC_removeClientSocket server sock) sock { port := 0, ip := none, type := none }
    j w hw0 hs (by
      intro k x hk hkx
      rw [h1] at hkx
      rw [← hs]
      exact hfirst k x hk hkx) hwt
  rw [if_pos (by rw [hmain]; decide)] at hfound
  rcases removeClient_worker e server sock with ⟨hn, hc⟩ | ⟨s, out, sent, server1, hr, hc, hsame⟩
  · left
    refine ⟨hc, ?_⟩
    rw [hfound] at hn
    cases hres : Gotham.MC_assignNewMainWorker e
        (withoutEntry (Gotham.MC_removeClientSocket server sock) j) w.worker_type with
    | none => rfl
    | some r =>
      rw [hres] at hn
      cases hn
  · right
    rw [hfound] at hr
    cases hres : Gotham.MC_assignNewMainWorker e
        (withoutEntry (Gotham.MC_removeClientSocket server sock) j) w.worker_type with
    | none =>
      rw [hres] at hr
      cases hr
    | some r =>
      rw [hres] at hr
      simp only [Option.map_some', Option.some.injEq, Prod.mk.injEq] at hr
      obtain ⟨g1, _, g3⟩ := hr
      subst g1
      subst g3
      exact ⟨r.1, r.2, server1, rfl, hc, hsame⟩

/-! ## The example rosters -/

theorem exampleRosterOfThree_invariant : RosterInvariant exampleRosterOfThree :=
  runRoster_invariant (exampleOps.take 3) emptyServer exampleRosterOfThree (by decide)
    emptyServer_invariant (by decide)

theorem exampleRosterOfThree_elements :
    exampleRosterOfThree.worker_list.elements =
      [exampleWorker 5 "Text" 1, exampleWorker 6 "Media" 1, exampleWorker 7 "Text" 0] := by
  decide

theorem exampleElectionState_elements :
    exampleElectionState.worker_list.elements =
      [exampleWorker 6 "Media" 1, exampleWorker 7 "Text" 0] := by
  decide

/-! ## Job-dispatch queries -/

theorem provide_loop_spec (mt : List Nat) :
    ∀ (fuel : Nat) (server : GothamServer),
      server.worker_list.elements.length ≤ server.worker_list.previous + fuel →
      (Gotham.HANDLE_provideFleckMainWorkerDetails_loop mt fuel server).2 =
        ((server.worker_list.elements.drop server.worker_list.previous).find?
          (fun w => decide (w.worker_type = mt ∧ w.is_main ≠ 0))).map
          (fun w => (w.ip, w.port)) ∧
      ∃ p err, (Gotham.HANDLE_provideFleckMainWorkerDetails_loop mt fuel server).1 =
        withCursor server p err := by
  intro fuel
  induction fuel with
  | zero =>
    intro server h
    have : server.worker_list.elements.drop server.worker_list.previous = [] :=
      List.drop_eq_nil_of_le (by omega)
    rw [this]
    exact ⟨rfl, _, _, (withCursor_self server).symm⟩
  | succ fuel ih =>
    intro server h
    unfold Gotham.HANDLE_provideFleckMainWorkerDetails_loop
    by_cases hend : server.worker_list.elements.length ≤ server.worker_list.previous
    · have hd : server.worker_list.elements.drop server.worker_list.previous = [] :=
        List.drop_eq_nil_of_le hend
      have he : WORKER_LINKEDLIST_isAtEnd server.worker_list = true := by
        unfold WORKER_LINKEDLIST_isAtEnd
        simp [hend]
      rw [hd]
      simp only [he, if_true]
      exact ⟨rfl, _, _, (withCursor_self server).symm⟩
    · have hp : server.worker_list.previous < server.worker_list.elements.length := by omega
      have he : WORKER_LINKEDLIST_isAtEnd server.worker_list = false := by
        unfold WORKER_LINKEDLIST_isAtEnd
        simp [hend]
      have hw : server.worker_list.elements[server.worker_list.previous]? =
          some server.worker_list.elements[server.worker_list.previous] :=
        List.getElem?_eq_getElem hp
      have hd : server.worker_list.elements.drop server.worker_list.previous =
          server.worker_list.elements[server.worker_list.previous] ::
            server.worker_list.elements.drop (server.worker_list.previous + 1) :=
        List.drop_eq_getElem_cons hp
      rw [hd]
      simp only [he, WORKER_LINKEDLIST_get, hw, Bool.false_eq_true, if_false, strcmp_eq_zero]
      by_cases hP : server.worker_list.elements[server.worker_list.previous].worker_type = mt ∧
          server.worker_list.elements[server.worker_list.previous].is_main ≠ 0
      · rw [if_pos hP, List.find?_cons_of_pos _ (by simpa using hP)]
        exact ⟨rfl, server.worker_list.previous, .NO_ERROR, rfl⟩
      · rw [if_neg hP, List.find?_cons_of_neg _ (by simpa using hP)]
        have hnext : ({ server with
            worker_list := WORKER_LINKEDLIST_next
              { elements := server.worker_list.elements,
                previous := server.worker_list.previous, error := .NO_ERROR } } :
            GothamServer) = withCursor server (server.worker_list.previous + 1) .NO_ERROR := by
          unfold WORKER_LINKEDLIST_next WORKER_LINKEDLIST_isAtEnd withCursor
          simp [hend]
        rw [hnext]
        obtain ⟨h1, p, err, h2⟩ := ih (withCursor server (server.worker_list.previous + 1)
          .NO_ERROR) (by
            show server.worker_list.elements.length ≤ server.worker_list.previous + 1 + fuel
            omega)
        exact ⟨h1, p, err, h2⟩

theorem username_loop_spec (sock : Int) :
    ∀ (fuel : Nat) (server : GothamServer),
      server.fleck_list.elements.length ≤ server.fleck_list.previous + fuel →
      ((∃ f ∈ server.fleck_list.elements.drop server.fleck_list.previous,
          f.socket_fd = sock) →
        ∃ u, (Gotham.HANDLE_getUsernameFromSocket_loop sock fuel server).2 = some u) ∧
      (Gotham.HANDLE_getUsernameFromSocket_loop sock fuel server).1.worker_list =
        server.worker_list ∧
      (Gotham.HANDLE_getUsernameFromSocket_loop sock fuel server).1.n_enigmas =
        server.n_enigmas ∧
      (Gotham.HANDLE_getUsernameFromSocket_loop sock fuel server).1.n_harleys =
        server.n_harleys := by
  intro fuel
  induction fuel with
  | zero =>
    intro server h
    have : server.fleck_list.elements.drop server.fleck_list.previous = [] :=
      List.drop_eq_nil_of_le (by omega)
    rw [this]
    refine ⟨?_, rfl, rfl, rfl⟩
    rintro ⟨f, hf, _⟩
    exact absurd hf (List.not_mem_nil _)
  | succ fuel ih =>
    intro server h
    unfold Gotham.HANDLE_getUsernameFromSocket_loop
    by_cases hend : server.fleck_list.elements.length ≤ server.fleck_list.previous
    · have hd : server.fleck_list.elements.drop server.fleck_list.previous = [] :=
        List.drop_eq_nil_of_le hend
      have he : FLECK_LINKEDLIST_isAtEnd server.fleck_list = true := by
        unfold FLECK_LINKEDLIST_isAtEnd
        simp [hend]
      rw [hd]
      simp only [he, if_true]
      refine ⟨?_, trivial, trivial, trivial⟩
      rintro ⟨f, hf, _⟩
      exact absurd hf (List.not_mem_nil _)
    · have hp : server.fleck_list.previous < server.fleck_list.elements.length := by omega
      have he : FLECK_LINKEDLIST_isAtEnd server.fleck_list = false := by
        unfold FLECK_LINKEDLIST_isAtEnd
        simp [hend]
      have hw : server.fleck_list.elements[server.fleck_list.previous]? =
          some server.fleck_list.elements[server.fleck_list.previous] :=
        List.getElem?_eq_getElem hp
      have hd : server.fleck_list.elements.drop server.fleck_list.previous =
          server.fleck_list.elements[server.fleck_list.previous] ::
            server.fleck_list.elements.drop (server.fleck_list.previous + 1) :=
        List.drop_eq_getElem_cons hp
      rw [hd]
      simp only [he, FLECK_LINKEDLIST_get, hw, Bool.false_eq_true, if_false]
      by_cases hP : server.fleck_list.elements[server.fleck_list.previous].socket_fd = sock
      · rw [if_pos hP]
        exact ⟨fun _ => ⟨_, rfl⟩, rfl, rfl, rfl⟩
      · rw [if_neg hP]
        have hnext : (FLECK_LINKEDLIST_next
            { elements := server.fleck_list.elements, previous := server.fleck_list.previous,
              error := .NO_ERROR } : FleckLinkedList) =
            { elements := server.fleck_list.elements,
              previous := server.fleck_list.previous + 1, error := .NO_ERROR } := by
          unfold FLECK_LINKEDLIST_next FLECK_LINKEDLIST_isAtEnd
          simp [hend]
        rw [hnext]
        obtain ⟨h1, h2, h3, h4⟩ := ih
          { server with
            fleck_list :=
              { elements := server.fleck_list.elements,
                previous := server.fleck_list.previous + 1, error := .NO_ERROR } } (by
            show server.fleck_list.elements.length ≤ server.fleck_list.previous + 1 + fuel
            omega)
        refine ⟨?_, h2, h3, h4⟩
        rintro ⟨f, hf, hfs⟩
        apply h1
        rcases List.mem_cons.mp hf with hf | hf
        · subst hf
          exact absurd hfs hP
        · exact ⟨f, hf, hfs⟩

theorem getUsername_spec (server : GothamServer) (sock : Int)
    (h : ∃ f ∈ server.fleck_list.elements, f.socket_fd = sock) :
    (∃ u, (Gotham.HANDLE_getUsernameFromSocket server sock).2 = some u) ∧
    (Gotham.HANDLE_getUsernameFromSocket server sock).1.worker_list = server.worker_list ∧
    (Gotham.HANDLE_getUsernameFromSocket server sock).1.n_enigmas = server.n_enigmas ∧
    (Gotham.HANDLE_getUsernameFromSocket server sock).1.n_harleys = server.n_harleys := by
  obtain ⟨h1, h2, h3, h4⟩ := username_loop_spec sock server.fleck_list.elements.length
    { server with fleck_list := FLECK_LINKEDLIST_goToHead server.fleck_list } (by
      show server.fleck_list.elements.length ≤ 0 + server.fleck_list.elements.length
      omega)
  exact ⟨h1 h, h2, h3, h4⟩

theorem provide_spec (e : RequestEnv) (server : GothamServer) (sock : Int) (mt : List Nat)
    (type : Int) :
    ∃ p err,
      Gotham.HANDLE_provideFleckMainWorkerDetails e server sock mt type =
        (withCursor server p err,
          match server.worker_list.elements.find?
              (fun w => decide (w.worker_type = mt ∧ w.is_main ≠ 0)) with
          | some w =>
            if !e.asprintf_ok then []
            else Gotham.COMM_sendDistortResponse e.create e.send sock
              (w.ip ++ str "&" ++ decimal w.port) 1 type
          | none =>
            Gotham.COMM_sendDistortResponse e.create e.send sock (str "DISTORT_KO") 0 type) := by
  obtain ⟨h1, p, err, h2⟩ := provide_loop_spec mt server.worker_list.elements.length
    (withCursor server 0 server.worker_list.error) (by
      show server.worker_list.elements.length ≤ 0 + server.worker_list.elements.length
      omega)
  have hd : (withCursor server 0 server.worker_list.error).worker_list.elements.drop
      (withCursor server 0 server.worker_list.error).worker_list.previous =
      server.worker_list.elements := rfl
  rw [hd] at h1
  refine ⟨p, err, ?_⟩
  have e0 : Gotham.HANDLE_provideFleckMainWorkerDetails e server sock mt type =
      (match (Gotham.HANDLE_provideFleckMainWorkerDetails_loop mt
          server.worker_list.elements.length
          (withCursor server 0 server.worker_list.error)).2 with
        | some (worker_ip, worker_port) =>
          if !e.asprintf_ok then
            ((Gotham.HANDLE_provideFleckMainWorkerDetails_loop mt
              server.worker_list.elements.length
              (withCursor server 0 server.worker_list.error)).1, [])
          else
            ((Gotham.HANDLE_provideFleckMainWorkerDetails_loop mt
              server.worker_list.elements.length
              (withCursor server 0 server.worker_list.error)).1,
              Gotham.COMM_sendDistortResponse e.create e.send sock
                (worker_ip ++ str "&" ++ decimal worker_port) 1 type)
        | none =>
          ((Gotham.HANDLE_provideFleckMainWorkerDetails_loop mt
            server.worker_list.elements.length
            (withCursor server 0 server.worker_list.error)).1,
            Gotham.COMM_sendDistortResponse e.create e.send sock (str "DISTORT_KO") 0 type)) :=
    rfl
  rw [e0, h1, h2]
  cases server.worker_list.elements.find?
      (fun w => decide (w.worker_type = mt ∧ w.is_main ≠ 0)) with
  | none => rfl
  | some w =>
    simp only [Option.map_some']
    split <;> rfl

theorem find_congr {α : Type} (l : List α) (p q : α → Bool) (h : ∀ x ∈ l, p x = q x) :
    l.find? p = l.find? q := by
  induction l with
  | nil => rfl
  | cons a l ih =>
    have ha := h a (List.mem_cons_self _ _)
    have hl := ih (fun x hx => h x (List.mem_cons_of_mem _ hx))
    simp only [List.find?_cons, ha, hl]

theorem tableVerdict_cases (cls name : List Nat) :
    tableVerdict cls name = 0 ∨ (tableVerdict cls name = 1 ∧ cls = str "Media") ∨
      (tableVerdict cls name = 2 ∧ cls = str "Text") := by
  unfold tableVerdict
  split
  · rename_i h
    exact Or.inr (Or.inr ⟨rfl, h.1⟩)
  · split
    · rename_i h
      exact Or.inr (Or.inl ⟨rfl, h.1⟩)
    · exact Or.inl rfl

/-! ## The client: reconnection -/

theorem strncmp_head_ne (d c : Nat) (rest bs : List Nat) (n : Nat) (hn : 0 < n) (hne : d ≠ c) :
    strncmp (d :: rest) (c :: bs) n ≠ 0 := by
  unfold strncmp
  rw [Ne, strcmp_eq_zero]
  obtain ⟨m, rfl⟩ : ∃ m, n = m + 1 := ⟨n - 1, by omega⟩
  simp only [List.cons_append, List.take_succ_cons]
  intro h
  exact hne (List.cons.inj h).1

theorem sendWorkerRequest_ok (e : ReconnectEnv) (data : List Nat) (gotham_socket : Int)
    (reconnecting : Int) (hm : e.create.malloc_ok = true)
    (hw : e.send.write_ret = FRAME_SIZE) :
    ∃ wr, Fleck.COMM_sendWorkerRequestToGotham e data gotham_socket reconnecting =
      (0, [NetEvent.write gotham_socket wr]) := by
  obtain ⟨f, hf⟩ : ∃ f, FRAME_createFrame e.create.malloc_ok e.create.now
      (if reconnecting ≠ 0 then 0x11 else 0x10) (some (data ++ [0])) data.length = some f := by
    rw [hm]
    exact ⟨_, rfl⟩
  unfold Fleck.COMM_sendWorkerRequestToGotham
  rw [hf]
  unfold FRAME_sendFrame
  rw [hw]
  simp only [ne_eq, not_true_eq_false, if_false, Option.toList, List.map]
  exact ⟨_, rfl⟩

theorem processGothamResponse_address (e : ReconnectEnv) (frame : Frame)
    (ip port_str : List Nat) (d : Nat) (tl : List Nat) (reconnecting : Int)
    (htype : frame.type = (if reconnecting ≠ 0 then 0x11 else 0x10))
    (hdata : cstring (frame.data ++ e.beyond) = ip ++ str "&" ++ port_str)
    (hip : ip = d :: tl) (hd : isdigit d = true) (hip38 : 38 ∉ ip)
    (hport : port_str ≠ []) (hp38 : 38 ∉ port_str) (hdup : e.data_dup_ok = true)
    (worker_ip : Option (List Nat)) (worker_port : Int) :
    Fleck.COMM_processGothamResponse e
      { frame := some frame, freed := false, error_code := .FRAME_SUCCESS }
      worker_ip worker_port reconnecting = some (0, some ip, atoi port_str) := by
  have hd68 : d ≠ 68 := by
    intro h
    subst h
    exact absurd hd (by decide)
  have hd77 : d ≠ 77 := by
    intro h
    subst h
    exact absurd hd (by decide)
  have hs1 : strncmp (ip ++ str "&" ++ port_str) (str "DISTORT_KO") 11 ≠ 0 := by
    rw [hip]
    exact strncmp_head_ne d 68 _ (str "ISTORT_KO") 11 (by decide) hd68
  have hs2 : strncmp (ip ++ str "&" ++ port_str) (str "MEDIA_KO") 8 ≠ 0 := by
    rw [hip]
    exact strncmp_head_ne d 77 _ (str "EDIA_KO") 8 (by decide) hd77
  have hne : ip ≠ [] := by
    rw [hip]
    exact List.cons_ne_nil _ _
  have ht1 : strtok (ip ++ str "&" ++ port_str) (str "&") = (some ip, port_str) := by
    have := strtok_sep ip port_str (str "&") 38 (by decide) hne
      (fun b hb hb2 => by
        have : b = 38 := by simpa [str] using hb2
        subst this
        exact hip38 hb)
    simpa [str, List.append_assoc] using this
  have ht2 : strtok port_str (str "&") = (some port_str, []) :=
    strtok_last port_str (str "&") hport
      (fun b hb hb2 => by
        have : b = 38 := by simpa [str] using hb2
        subst this
        exact hp38 hb)
  unfold Fleck.COMM_processGothamResponse
  simp only [ne_eq, not_true_eq_false, if_false, htype, if_true, hdata, if_neg hs1, if_neg hs2,
    hdup, Bool.not_true, Bool.false_eq_true, ht1, ht2]

/-! ## The client: the job thread -/

theorem job_reconnect_spec (w : JobWorld) (worker_type : List Nat) (gotham_socket : Int)
    (i : Nat) (s s1 : JobState)
    (h : Fleck.DIST_handleFileDistortion_reconnect w worker_type gotham_socket i s = some s1) :
    s1.context = s.context ∧ s1.file = s.file ∧ s1.worker_socket = s.worker_socket ∧
    s1.steps = s.steps ∧ ∃ ev, s1.events = s.events ++ [ev] := by
  unfold Fleck.DIST_handleFileDistortion_reconnect at h
  split at h
  · exact absurd h (by simp)
  · simp only [Option.some.injEq] at h
    subst h
    exact ⟨rfl, rfl, rfl, rfl, _, rfl⟩

theorem job_SND_FILE_events (w : JobWorld) (worker_type : List Nat) (gotham_socket : Int)
    (i : Nat) (s s1 : JobState)
    (h : Fleck.DIST_handleFileDistortion_SND_FILE w worker_type gotham_socket i s = some s1) :
    ∃ rest, s1.events = s.events ++
      JobEvent.sendFile s.worker_socket s.context.n_packets s.context.n_processed_packets ::
        rest := by
  unfold Fleck.DIST_handleFileDistortion_SND_FILE at h
  simp only at h
  split at h
  · exact absurd h (by simp)
  · split at h
    · split at h
      · simp only [Option.some.injEq] at h
        subst h
        exact ⟨_, rfl⟩
      · obtain ⟨_, _, _, _, ev, hev⟩ := job_reconnect_spec _ _ _ _ _ _ h
        rw [hev]
        exact ⟨_, by simp only [List.append_assoc, List.cons_append]; rfl⟩
    · split at h
      · split at h
        · simp only [Option.some.injEq] at h
          subst h
          exact ⟨_, by simp only [List.append_assoc, List.cons_append]; rfl⟩
        · obtain ⟨_, _, _, _, ev, hev⟩ := job_reconnect_spec _ _ _ _ _ _ h
          rw [hev]
          exact ⟨_, by simp only [List.append_assoc, List.cons_append]; rfl⟩
      · simp only [Option.some.injEq] at h
        subst h
        exact ⟨_, by simp only [List.append_assoc, List.cons_append]; rfl⟩

theorem job_step_enviaMetadades (w : JobWorld) (worker_type : List Nat) (gotham_socket : Int)
    (s : JobState) (hp : s.point = .enviaMetadades) (hmeta : 0 ≤ w.metadata_ret s.steps) :
    Fleck.DIST_handleFileDistortion_step w worker_type gotham_socket s =
      some { s with
        steps := s.steps + 1,
        events := s.events ++
          [JobEvent.sendFileMetadata s.worker_socket s.context.filesize s.context.factor],
        point := .loop } := by
  unfold Fleck.DIST_handleFileDistortion_step
  simp only [hp, not_lt.mpr hmeta, if_false]

theorem job_step_SND_FILE (w : JobWorld) (worker_type : List Nat) (gotham_socket : Int)
    (s : JobState) (hp : s.point = .loop) (hfin : s.finished_distortion = 0)
    (hex : w.exit_distortion s.steps = false)
    (hstage : s.context.current_stage = Fleck.STAGE_SND_FILE) :
    Fleck.DIST_handleFileDistortion_step w worker_type gotham_socket s =
      Fleck.DIST_handleFileDistortion_SND_FILE w worker_type gotham_socket s.steps
        { s with steps := s.steps + 1 } := by
  unfold Fleck.DIST_handleFileDistortion_step
  simp only [hp, hfin, hex, hstage, and_self, if_true]

theorem job_SND_FILE_reconnected (w : JobWorld) (worker_type : List Nat) (gotham_socket : Int)
    (i : Nat) (s : JobState) (main_worker : MainWorker) (events : List NetEvent)
    (hsend : (COMM_sendFile (w.sendFile i) s.file s.context.n_packets
      s.context.n_processed_packets).ret = some REMOTE_END_DISCONNECTION)
    (hrec : Fleck.COMM_reconnectToWorker (w.reconnect i)
      (s.context.filename.getD (str "(null)")) worker_type s.main_worker gotham_socket =
      some (1, main_worker, events)) :
    Fleck.DIST_handleFileDistortion_SND_FILE w worker_type gotham_socket i s =
      some { s with
        events := (s.events ++
          JobEvent.sendFile s.worker_socket s.context.n_packets s.context.n_processed_packets ::
            (COMM_sendFile (w.sendFile i) s.file s.context.n_packets
              s.context.n_processed_packets).sent.map
              (fun wr => JobEvent.write s.worker_socket wr)) ++
          [JobEvent.reconnectToWorker events],
        context :=
          { s.context with
            n_processed_packets := (COMM_sendFile (w.sendFile i) s.file s.context.n_packets
              s.context.n_processed_packets).n_processed_packets },
        main_worker := main_worker, point := .enviaMetadades } := by
  have hne : REMOTE_END_DISCONNECTION ≠ TRANSFER_SUCCESS := by decide
  have hne2 : ¬ (REMOTE_END_DISCONNECTION = UNEXPECTED_ERROR ∨
      REMOTE_END_DISCONNECTION = INTERRUPTED_BY_SIGINT) := by decide
  unfold Fleck.DIST_handleFileDistortion_SND_FILE
  simp only [hsend, if_pos hne, if_neg hne2]
  unfold Fleck.DIST_handleFileDistortion_reconnect
  simp only [hrec]
  simp

theorem job_after_reconnect (w : JobWorld) (worker_type : List Nat) (gotham_socket : Int)
    (s1 : JobState) (hp : s1.point = .enviaMetadades) (hmeta : 0 ≤ w.metadata_ret s1.steps)
    (hfin : s1.finished_distortion = 0) (hex : w.exit_distortion (s1.steps + 1) = false)
    (hstage : s1.context.current_stage = Fleck.STAGE_SND_FILE) :
    ∃ s2 : JobState,
      Fleck.DIST_handleFileDistortion_step w worker_type gotham_socket s1 = some s2 ∧
      s2.point = .loop ∧ s2.context = s1.context ∧ s2.file = s1.file ∧
      s2.worker_socket = s1.worker_socket ∧ s2.main_worker = s1.main_worker ∧
      Fleck.DIST_handleFileDistortion_step w worker_type gotham_socket s2 =
        Fleck.DIST_handleFileDistortion_SND_FILE w worker_type gotham_socket (s1.steps + 1)
          { s2 with steps := s1.steps + 2 } ∧
      ∀ s3, Fleck.DIST_handleFileDistortion_step w worker_type gotham_socket s2 = some s3 →
        ∃ rest, s3.events = s2.events ++
          JobEvent.sendFile s1.worker_socket s1.context.n_packets
            s1.context.n_processed_packets :: rest := by
  have h3 := job_step_SND_FILE w worker_type gotham_socket
    { s1 with
      steps := s1.steps + 1,
      events := s1.events ++
        [JobEvent.sendFileMetadata s1.worker_socket s1.context.filesize s1.context.factor],
      point := .loop } rfl hfin hex hstage
  refine ⟨_, job_step_enviaMetadades w worker_type gotham_socket s1 hp hmeta, rfl, rfl, rfl,
    rfl, rfl, h3, ?_⟩
  intro s3 hs3
  rw [h3] at hs3
  obtain ⟨rest, hr⟩ := job_SND_FILE_events _ _ _ _ _ _ hs3
  exact ⟨rest, hr⟩

/-! ## The worker: metadata -/

theorem sendConnectionResponse_ko (c : CreateEnv) (s : SendEnv) (sock : Int)
    (string : List Nat) (type : Int) (hm : c.malloc_ok = true)
    (hb : s.buffer.length = FRAME_SIZE) (hw : s.write_ret = FRAME_SIZE)
    (hlen : string.length ≤ DATA_SIZE) :
    ∃ wr, COMM_sendConnectionResponse c s sock (some string) 0 type = some [(sock, wr)] ∧
      CarriesFrame wr (toUInt8 type) string := by
  obtain ⟨wr, h1, h2⟩ := sent_frame_carries c s type string hm hb hw hlen
  refine ⟨wr, ?_, h2⟩
  unfold COMM_sendConnectionResponse
  simp only [ne_eq, not_true_eq_false, if_false, Option.map_some', h1]
  rfl

theorem sendConnectionResponse_ok (c : CreateEnv) (s : SendEnv) (sock : Int)
    (string_err : Option (List Nat)) (type : Int) (hm : c.malloc_ok = true)
    (hb : s.buffer.length = FRAME_SIZE) (hw : s.write_ret = FRAME_SIZE) :
    ∃ wr, COMM_sendConnectionResponse c s sock string_err 1 type = some [(sock, wr)] ∧
      CarriesFrame wr (toUInt8 type) [] := by
  obtain ⟨wr, h1, h2⟩ := sent_frame_carries c s type [] hm hb hw (by decide)
  refine ⟨wr, ?_, h2⟩
  simp only [List.nil_append, List.length_nil] at h1
  unfold COMM_sendConnectionResponse
  have h10 : ((1 : Int) ≠ 0) = True := by decide
  simp only [h10, if_true, Option.map_some', h1]
  rfl

theorem not_mem_amp (tok : List Nat) (h : 38 ∉ tok) : ∀ b ∈ tok, b ∉ str "&" := by
  intro b hb hb2
  have : b = 38 := by simpa [str] using hb2
  subst this
  exact h hb

theorem extract_five_fields (u f s m k : List Nat) (filesize factor : Int)
    (hu : u ≠ []) (hf : f ≠ []) (hs : s ≠ []) (hm : m ≠ []) (hk : k ≠ [])
    (hu38 : 38 ∉ u) (hf38 : 38 ∉ f) (hs38 : 38 ∉ s) (hm38 : 38 ∉ m) (hk38 : 38 ∉ k) :
    Worker.CONTEXT_extractAndValidateMetadata
        (u ++ str "&" ++ f ++ str "&" ++ s ++ str "&" ++ m ++ str "&" ++ k) filesize factor =
      if atoi s ≤ 0 then
        { ret := 0, username := some u, filename := some f, filesize := atoi s,
          md5sum := some m, factor := factor }
      else if atoi k ≤ 0 then
        { ret := 0, username := some u, filename := some f, filesize := atoi s,
          md5sum := some m, factor := atoi k }
      else
        { ret := 1, username := some u, filename := some f, filesize := atoi s,
          md5sum := some m, factor := atoi k } := by
  have e : u ++ str "&" ++ f ++ str "&" ++ s ++ str "&" ++ m ++ str "&" ++ k =
      u ++ 38 :: (f ++ 38 :: (s ++ 38 :: (m ++ 38 :: k))) := by
    simp [str, List.append_assoc]
  have h38 : 38 ∈ str "&" := by decide
  have t1 := strtok_sep u (f ++ 38 :: (s ++ 38 :: (m ++ 38 :: k))) (str "&") 38 h38 hu
    (not_mem_amp u hu38)
  have t2 := strtok_sep f (s ++ 38 :: (m ++ 38 :: k)) (str "&") 38 h38 hf (not_mem_amp f hf38)
  have t3 := strtok_sep s (m ++ 38 :: k) (str "&") 38 h38 hs (not_mem_amp s hs38)
  have t4 := strtok_sep m k (str "&") 38 h38 hm (not_mem_amp m hm38)
  have t5 := strtok_last k (str "&") hk (not_mem_amp k hk38)
  unfold Worker.CONTEXT_extractAndValidateMetadata
  rw [e]
  simp only [t1, t2, t3, t4, t5]

theorem extract_four_fields (u f s m : List Nat) (filesize factor : Int)
    (hu : u ≠ []) (hf : f ≠ []) (hs : s ≠ []) (hm : m ≠ [])
    (hu38 : 38 ∉ u) (hf38 : 38 ∉ f) (hs38 : 38 ∉ s) (hm38 : 38 ∉ m) :
    (Worker.CONTEXT_extractAndValidateMetadata
        (u ++ str "&" ++ f ++ str "&" ++ s ++ str "&" ++ m) filesize factor).ret = 0 := by
  have e : u ++ str "&" ++ f ++ str "&" ++ s ++ str "&" ++ m =
      u ++ 38 :: (f ++ 38 :: (s ++ 38 :: m)) := by
    simp [str, List.append_assoc]
  have h38 : 38 ∈ str "&" := by decide
  have t1 := strtok_sep u (f ++ 38 :: (s ++ 38 :: m)) (str "&") 38 h38 hu (not_mem_amp u hu38)
  have t2 := strtok_sep f (s ++ 38 :: m) (str "&") 38 h38 hf (not_mem_amp f hf38)
  have t3 := strtok_sep s m (str "&") 38 h38 hs (not_mem_amp s hs38)
  have t4 := strtok_last m (str "&") hm (not_mem_amp m hm38)
  unfold Worker.CONTEXT_extractAndValidateMetadata
  rw [e]
  simp only [t1, t2, t3, t4, strtok_nil]

/-! ## The roster with a worker of a class other than Text and Media -/

/-- The election of `MC_assignNewMainWorker` with `total_workers = 1` when the
first roster entry is not of the class wanted: every draw is index 0, the
entry there fails the comparison, and the loop goes on to the next draw.  It
has not ended after any number of draws. -/
theorem assignNewMainWorker_loop_stuck (e : RemoveEnv) (c : List Nat) (w : WorkerElement)
    (hne : strcmp w.worker_type c ≠ 0) :
    ∀ (draws : List Nat) (server : GothamServer) (rest : List WorkerElement),
      server.worker_list.elements = w :: rest →
      Gotham.MC_assignNewMainWorker_loop e c 1 draws server = none := by
  intro draws
  induction draws with
  | nil => intro server rest _; rfl
  | cons r draws ih =>
    intro server rest hel
    have hm : Int.tmod (r : Int) 1 = 0 := by simp
    have hg : WORKER_LINKEDLIST_gotoIndex server.worker_list 0 =
        { elements := w :: rest, previous := 0, error := .NO_ERROR } := by
      simp [WORKER_LINKEDLIST_gotoIndex, WORKER_LINKEDLIST_length, WORKER_LINKEDLIST_goToHead,
        hel]
    unfold Gotham.MC_assignNewMainWorker_loop
    simp only [hm, hg]
    simp [WORKER_LINKEDLIST_getPointer, WORKER_LINKEDLIST_isAtEnd, hne]
    exact ih _ rest rfl

/-- The removal of the Media primary at the head of the roster when the counts
are 0 and 2 and the entry behind it is not of class Media: the count drops to
1, the election draws index 0 every time, and `MC_removeWorkerFromList` does
not return. -/
theorem removeWorker_stuck (e : RemoveEnv) (server : GothamServer) (fd : Int)
    (out : RemovedPeer) (p w : WorkerElement) (rest : List WorkerElement)
    (hel : server.worker_list.elements = p :: w :: rest) (hfd : p.socket_fd = fd)
    (hp : p.worker_type = str "Media") (hmain : p.is_main ≠ 0)
    (hw : strcmp w.worker_type (str "Media") ≠ 0)
    (hne : server.n_enigmas = 0) (hnh : server.n_harleys = 2)
    (h1 : e.ip_dup_ok = true) (h2 : e.type_dup_ok = true) :
    Gotham.MC_removeWorkerFromList e server fd out = none := by
  have hm : strcmp (str "Media") (str "Text") ≠ 0 := by decide
  have hm2 : strcmp (str "Media") (str "Media") = 0 := by decide
  unfold Gotham.MC_removeWorkerFromList
  simp only [WORKER_LINKEDLIST_goToHead, hel, List.length_cons]
  unfold Gotham.MC_removeWorkerFromList_loop
  simp only [WORKER_LINKEDLIST_isAtEnd, WORKER_LINKEDLIST_get, hel]
  simp [hfd, hp, hm, hm2, h1, h2, hmain, WORKER_LINKEDLIST_remove, WORKER_LINKEDLIST_isAtEnd,
    Gotham.MC_assignNewMainWorker, Gotham.MC_canAssignNewMain, hne, hnh]
  exact assignNewMainWorker_loop_stuck e _ w hw e.draws _ rest rfl

/-! ## The primary invariant when every join is of class Text or Media -/

/-- The primary invariant of the registry roster on the classes the header of
`MC_addWorkerToServer` names.  After a sequence of worker joins of class Text
or Media and removals that starts from the empty roster and has returned,
memory allocation succeeding: for each class in {Text, Media} at most one
roster entry of that class has `is_main = 1`, and exactly one has it whenever
the roster holds an entry of that class; from the state reached every further
removal returns for suitable values of `rand()`. -/
theorem primary_invariant_of_valid_ops (ops : List RosterOp) (server : GothamServer)
    (hv : ∀ op ∈ ops, op.Valid) (hrun : runRoster emptyServer ops = some server) :
    PrimaryInvariant server ∧
    ∀ (e : RemoveEnv) (client_socket : Int), e.ip_dup_ok = true → e.type_dup_ok = true →
      ∃ draws, (applyRosterOp server
        (.leave { e with draws := draws } client_socket)).isSome = true := by
  have hinv := runRoster_invariant ops emptyServer server hv emptyServer_invariant hrun
  refine ⟨primaryInvariant_of_rosterInvariant server hinv, ?_⟩
  intro e client_socket he1 he2
  obtain ⟨draws, hd⟩ := removeWorker_returns e he1 he2 server client_socket
    { port := 0, ip := none, type := none } hinv
  refine ⟨draws, ?_⟩
  simp only [applyRosterOp]
  cases hres : Gotham.MC_removeWorkerFromList { e with draws := draws } server client_socket
      { port := 0, ip := none, type := none } with
  | none =>
    rw [hres] at hd
    cases hd
  | some r => rfl

/-- The six operations of `exampleOps` (three joins, the removal of the Text
primary, a join, the removal of the Media primary) return and leave the roster
with the entries of sockets 8 (Media) and 7 (Text), each the primary of its
class. -/
theorem primary_invariant_of_valid_ops_example :
    (∀ op ∈ exampleOps, op.Valid) ∧
    runRoster emptyServer exampleOps = some exampleRoster ∧
    exampleRoster.worker_list.elements.map (fun w => (w.socket_fd, w.worker_type, w.is_main)) =
      [(8, str "Media", 1), (7, str "Text", 1)] ∧
    PrimaryInvariant exampleRoster :=
  ⟨by decide, by decide, by decide,
    (primary_invariant_of_valid_ops exampleOps exampleRoster (by decide) (by decide)).1⟩

/-! ## Claims C1 to C8: the frame codec -/

/-- C1 (as stated, refuted): the data field has `DATA_SIZE = 247` bytes, not 244.
Whatever was serialised, the decoded frame carries 247 data bytes, so a frame
value with 244 data bytes does not come back from the codec. -/
theorem C1_counterexample :
    (⟨5, 244, List.replicate 244 1, 0, 0⟩ : Frame).data.length = 244 ∧
    (FRAME_deserializeFrame (FRAME_serializeFrame ⟨5, 244, List.replicate 244 1, 0, 0⟩
      (List.replicate 256 0))).data.length = 247 ∧
    FRAME_deserializeFrame (FRAME_serializeFrame ⟨5, 244, List.replicate 244 1, 0, 0⟩
      (List.replicate 256 0)) ≠ ⟨5, 244, List.replicate 244 1, 0, 0⟩ := by
  decide

/-- C1 (amended): round trip of the frame codec.  For every frame `f` of the C
type (type 0..255, data_length 0..65535, 247 data bytes, 16-bit checksum,
32-bit signed timestamp, negative values included) and every 256-byte buffer,
`FRAME_deserializeFrame` applied to the buffer written by
`FRAME_serializeFrame` yields a frame equal to `f` in all five fields. -/
theorem C1_roundtrip (f : Frame) (buffer : List Nat) (hf : f.WF)
    (hb : buffer.length = FRAME_SIZE) :
    FRAME_deserializeFrame (FRAME_serializeFrame f buffer) = f :=
  deserialize_serialize f buffer hf.2.1 hf.2.2.1 hf.2.2.2.2.1 hf.2.2.2.2.2.1 hf.2.2.2.2.2.2 hb

/-- Witness of C1 (amended): a frame with a negative timestamp and 247 data
bytes. -/
theorem C1_roundtrip_witness :
    (⟨5, 247, List.replicate 247 200, 513, -2⟩ : Frame).WF ∧
    (List.replicate 256 7).length = FRAME_SIZE ∧
    FRAME_deserializeFrame (FRAME_serializeFrame ⟨5, 247, List.replicate 247 200, 513, -2⟩
      (List.replicate 256 7)) = ⟨5, 247, List.replicate 247 200, 513, -2⟩ :=
  ⟨by decide, by decide, C1_roundtrip _ _ (by decide) (by decide)⟩

/-- C2: every frame that is sent is accepted by the receiver.  For every frame
`f` of the C type, when `FRAME_sendFrame` recomputes the checksum, serialises
`f` and `write` takes the 256 bytes, it returns 0, and `FRAME_receiveFrame`
reading exactly those 256 bytes returns `FRAME_SUCCESS` with a frame whose
type, data_length, data and timestamp are those of `f` and whose checksum is
`FRAME_calculateChecksum f`. -/
theorem C2_sent_frame_accepted (f : Frame) (sendBuffer recvBuffer : List Nat) (errno : Int)
    (hf : f.WF) (hs : sendBuffer.length = FRAME_SIZE) (hr : recvBuffer.length = FRAME_SIZE) :
    ∃ bytes,
      FRAME_sendFrame sendBuffer FRAME_SIZE (some f) =
        { ret := 0, frame := some { f with checksum := FRAME_calculateChecksum f },
          written := some { bytes := bytes, ret := FRAME_SIZE } } ∧
      bytes.length = FRAME_SIZE ∧
      FRAME_receiveFrame recvBuffer { ret := FRAME_SIZE, errno := errno, bytes := bytes } true =
        { frame := some { type := f.type, data_length := f.data_length, data := f.data,
                          checksum := FRAME_calculateChecksum f, timestamp := f.timestamp },
          freed := false, error_code := .FRAME_SUCCESS } :=
  send_receive f sendBuffer recvBuffer errno hf.2.1 hf.2.2.1 hf.2.2.2.2.2.1 hf.2.2.2.2.2.2 hs hr

/-- Witness of C2: a DATA frame with a stale checksum field. -/
theorem C2_sent_frame_accepted_witness :
    (⟨5, 3, [1, 2, 3] ++ List.replicate 244 0, 9, 1700000000⟩ : Frame).WF ∧
    ∃ bytes,
      FRAME_sendFrame (List.replicate 256 170) FRAME_SIZE
          (some ⟨5, 3, [1, 2, 3] ++ List.replicate 244 0, 9, 1700000000⟩) =
        { ret := 0,
          frame := some { (⟨5, 3, [1, 2, 3] ++ List.replicate 244 0, 9, 1700000000⟩ : Frame) with
            checksum := FRAME_calculateChecksum
              ⟨5, 3, [1, 2, 3] ++ List.replicate 244 0, 9, 1700000000⟩ },
          written := some { bytes := bytes, ret := FRAME_SIZE } } ∧
      bytes.length = FRAME_SIZE ∧
      FRAME_receiveFrame (List.replicate 256 85) { ret := FRAME_SIZE, errno := 0, bytes := bytes }
          true =
        { frame := some { type := 5, data_length := 3, data := [1, 2, 3] ++ List.replicate 244 0,
                          checksum := FRAME_calculateChecksum
                            ⟨5, 3, [1, 2, 3] ++ List.replicate 244 0, 9, 1700000000⟩,
                          timestamp := 1700000000 },
          freed := false, error_code := .FRAME_SUCCESS } :=
  ⟨by decide, C2_sent_frame_accepted _ _ _ 0 (by decide) (by decide) (by decide)⟩

/-- C3 (as stated, refuted): the checksum covers the 247 bytes of the data
field; a frame whose only non-zero byte is the last data byte has checksum 1,
while the sum over 244 data bytes gives 0. -/
theorem C3_counterexample :
    (⟨0, 0, List.replicate 246 0 ++ [1], 0, 0⟩ : Frame).WF ∧
    FRAME_calculateChecksum ⟨0, 0, List.replicate 246 0 ++ [1], 0, 0⟩ = 1 ∧
    (0 + 0 + ((List.replicate 246 0 ++ [1]).take 244).sum + toUInt32 0 % 65536 +
      toUInt32 0 / 65536) % 65536 = 0 := by
  decide

/-- C3 (amended): for every frame, `FRAME_calculateChecksum` returns
(type + data_length + the sum of the 247 data bytes + the low 16 bits of the
timestamp + the high 16 bits of the timestamp) mod 2^16, the timestamp being
read as an unsigned 32-bit value (also when it is negative). -/
theorem C3_checksum_formula (f : Frame) (hd : f.data.length = DATA_SIZE) :
    FRAME_calculateChecksum f =
      (f.type + f.data_length + f.data.sum + toUInt32 f.timestamp % 65536 +
        toUInt32 f.timestamp / 65536) % 65536 :=
  checksum_eq f hd

/-- Witness of C3 (amended): a frame with timestamp -1, whose two halves are
both 0xFFFF. -/
theorem C3_checksum_formula_witness :
    (⟨5, 2, [7, 8] ++ List.replicate 245 0, 0, -1⟩ : Frame).data.length = DATA_SIZE ∧
    FRAME_calculateChecksum ⟨5, 2, [7, 8] ++ List.replicate 245 0, 0, -1⟩ =
      (5 + 2 + ([7, 8] ++ List.replicate 245 0).sum + toUInt32 (-1) % 65536 +
        toUInt32 (-1) / 65536) % 65536 :=
  ⟨by decide, C3_checksum_formula _ (by decide)⟩

/-- C4 (as stated, refuted): byte 247 of the serialised frame is a data byte,
the checksum is at bytes 250-251 and the timestamp at bytes 252-255. -/
theorem C4_counterexample :
    (⟨1, 2, List.replicate 247 9, 2571, 202182159⟩ : Frame).WF ∧
    (FRAME_serializeFrame ⟨1, 2, List.replicate 247 9, 2571, 202182159⟩
      (List.replicate 256 0)).getD 247 0 = 9 ∧
    (2571 : Nat) / 256 = 10 ∧
    (FRAME_serializeFrame ⟨1, 2, List.replicate 247 9, 2571, 202182159⟩
      (List.replicate 256 0)).getD 247 0 ≠ 2571 / 256 ∧
    (FRAME_serializeFrame ⟨1, 2, List.replicate 247 9, 2571, 202182159⟩
      (List.replicate 256 0)).getD 249 0 ≠ toUInt32 202182159 / 16777216 := by
  decide

/-- C4 (amended): wire layout.  For every frame of the C type and every
256-byte buffer, `FRAME_serializeFrame` leaves a 256-byte buffer with the type
at byte 0, data_length big-endian at bytes 1-2, the 247 data bytes at bytes
3-249, the checksum big-endian at bytes 250-251 and the timestamp (as an
unsigned 32-bit value) big-endian at bytes 252-255. -/
theorem C4_wire_layout (f : Frame) (buffer : List Nat) (hf : f.WF)
    (hb : buffer.length = FRAME_SIZE) :
    (FRAME_serializeFrame f buffer).length = FRAME_SIZE ∧
    (FRAME_serializeFrame f buffer).getD 0 0 = f.type ∧
    (FRAME_serializeFrame f buffer).getD 1 0 = f.data_length / 256 ∧
    (FRAME_serializeFrame f buffer).getD 2 0 = f.data_length % 256 ∧
    ((FRAME_serializeFrame f buffer).drop 3).take 247 = f.data ∧
    (FRAME_serializeFrame f buffer).getD 250 0 = f.checksum / 256 ∧
    (FRAME_serializeFrame f buffer).getD 251 0 = f.checksum % 256 ∧
    (FRAME_serializeFrame f buffer).getD 252 0 = toUInt32 f.timestamp / 16777216 ∧
    (FRAME_serializeFrame f buffer).getD 253 0 = toUInt32 f.timestamp / 65536 % 256 ∧
    (FRAME_serializeFrame f buffer).getD 254 0 = toUInt32 f.timestamp / 256 % 256 ∧
    (FRAME_serializeFrame f buffer).getD 255 0 = toUInt32 f.timestamp % 256 := by
  obtain ⟨_, hdl, hd, _, hck, h1, h2⟩ := hf
  have hlen := serialize_length f buffer hd hb
  rw [serialize_eq f buffer hd hb] at hlen ⊢
  have hd' : f.data.length = 247 := hd
  have g := fun l k => getD_tail f.type ((f.data_length >>> 8) &&& 0xFF) (f.data_length &&& 0xFF)
    f.data l hd' k
  have g0 := fun l => g l 0
  have e24 : f.timestamp >>> (24 : Nat) = f.timestamp / 16777216 := by
    rw [Int.shiftRight_eq_div_pow]; norm_num
  have e16 : f.timestamp >>> (16 : Nat) = f.timestamp / 65536 := by
    rw [Int.shiftRight_eq_div_pow]; norm_num
  have e8 : f.timestamp >>> (8 : Nat) = f.timestamp / 256 := by
    rw [Int.shiftRight_eq_div_pow]; norm_num
  refine ⟨hlen, ?_, ?_, ?_, ?_, ?_, ?_, ?_, ?_, ?_, ?_⟩
  · simp
  · simp only [List.cons_append, List.getD_cons_succ, List.getD_cons_zero, and_FF,
      Nat.shiftRight_eq_div_pow]
    omega
  · simp only [List.cons_append, List.getD_cons_succ, List.getD_cons_zero, and_FF]
  · simp only [List.cons_append, List.nil_append, List.drop_succ_cons, List.drop_zero,
      List.take_left' hd']
  · rw [g0]
    simp only [List.getD_cons_zero, and_FF, Nat.shiftRight_eq_div_pow]
    omega
  · rw [g _ 1]
    simp only [List.getD_cons_succ, List.getD_cons_zero, and_FF]
  · rw [g _ 2]
    simp only [List.getD_cons_succ, List.getD_cons_zero, land_FF, e24]
    unfold toUInt8 toUInt32
    omega
  · rw [g _ 3]
    simp only [List.getD_cons_succ, List.getD_cons_zero, land_FF, e16]
    unfold toUInt8 toUInt32
    omega
  · rw [g _ 4]
    simp only [List.getD_cons_succ, List.getD_cons_zero, land_FF, e8]
    unfold toUInt8 toUInt32
    omega
  · rw [g _ 5]
    simp only [List.getD_cons_succ, List.getD_cons_zero, land_FF]
    unfold toUInt8 toUInt32
    omega

/-- Witness of C4 (amended): a frame with a negative timestamp. -/
theorem C4_wire_layout_witness :
    (⟨1, 258, List.replicate 247 9, 2571, -2⟩ : Frame).WF ∧
    (FRAME_serializeFrame ⟨1, 258, List.replicate 247 9, 2571, -2⟩
      (List.replicate 256 0)).getD 250 0 = 2571 / 256 ∧
    (FRAME_serializeFrame ⟨1, 258, List.replicate 247 9, 2571, -2⟩
      (List.replicate 256 0)).getD 255 0 = toUInt32 (-2) % 256 :=
  ⟨by decide,
   (C4_wire_layout ⟨1, 258, List.replicate 247 9, 2571, -2⟩ (List.replicate 256 0)
      (by decide) (by decide)).2.2.2.2.2.1,
   (C4_wire_layout ⟨1, 258, List.replicate 247 9, 2571, -2⟩ (List.replicate 256 0)
      (by decide) (by decide)).2.2.2.2.2.2.2.2.2.2⟩

/-- C5 (as stated, refuted): a 256-byte buffer whose bytes 250-251 hold the
checksum of the decoded fields is accepted although its bytes 247-248 do not. -/
theorem C5_counterexample :
    (FRAME_receiveFrame (List.replicate 256 0)
      { ret := 256, errno := 0,
        bytes := [1] ++ List.replicate 250 0 ++ [1] ++ List.replicate 4 0 } true).error_code =
      .FRAME_SUCCESS ∧
    ([1] ++ List.replicate 250 0 ++ [1] ++ List.replicate 4 0 : List Nat).length = 256 ∧
    ([1] ++ List.replicate 250 0 ++ [1] ++ List.replicate 4 0 : List Nat).getD 247 0 * 256 +
      ([1] ++ List.replicate 250 0 ++ [1] ++ List.replicate 4 0 : List Nat).getD 248 0 ≠
      FRAME_calculateChecksum (FRAME_deserializeFrame
        ([1] ++ List.replicate 250 0 ++ [1] ++ List.replicate 4 0)) := by
  decide

/-- C5 (amended): checksum verification on receive.  For every 256-byte buffer
read in full (and a successful `malloc`), `FRAME_receiveFrame` returns
`FRAME_SUCCESS`, with the decoded frame, if and only if the checksum stored
big-endian at bytes 250-251 equals `FRAME_calculateChecksum` of the decoded
fields; otherwise it returns `FRAME_RECV_ERROR`. -/
theorem C5_checksum_verified (recvBuffer bytes : List Nat) (errno : Int)
    (hlen : bytes.length = FRAME_SIZE) (hbytes : ∀ b ∈ bytes, b < 256)
    (hr : recvBuffer.length = FRAME_SIZE) :
    ((FRAME_receiveFrame recvBuffer { ret := FRAME_SIZE, errno := errno, bytes := bytes }
        true).error_code = .FRAME_SUCCESS ↔
      bytes.getD 250 0 * 256 + bytes.getD 251 0 =
        FRAME_calculateChecksum (FRAME_deserializeFrame bytes)) ∧
    (bytes.getD 250 0 * 256 + bytes.getD 251 0 =
        FRAME_calculateChecksum (FRAME_deserializeFrame bytes) →
      FRAME_receiveFrame recvBuffer { ret := FRAME_SIZE, errno := errno, bytes := bytes } true =
        { frame := some (FRAME_deserializeFrame bytes), freed := false,
          error_code := .FRAME_SUCCESS }) ∧
    (bytes.getD 250 0 * 256 + bytes.getD 251 0 ≠
        FRAME_calculateChecksum (FRAME_deserializeFrame bytes) →
      (FRAME_receiveFrame recvBuffer { ret := FRAME_SIZE, errno := errno, bytes := bytes }
        true).error_code = .FRAME_RECV_ERROR) := by
  have hm : memcpy recvBuffer 0 bytes (Int.toNat (FRAME_SIZE : Int)) = bytes :=
    memcpy_full _ _ _ hlen hr
  have hck := deserialize_checksum bytes hbytes
  unfold FRAME_receiveFrame
  simp only [hm]
  rw [← hck]
  by_cases h : (FRAME_deserializeFrame bytes).checksum =
      FRAME_calculateChecksum (FRAME_deserializeFrame bytes)
  · simp [h]
  · simp [h]

/-- Witness of C5 (amended): the all-zero buffer with type 1 and checksum 1. -/
theorem C5_checksum_verified_witness :
    ([1] ++ List.replicate 250 0 ++ [1] ++ List.replicate 4 0 : List Nat).length = FRAME_SIZE ∧
    (FRAME_receiveFrame (List.replicate 256 0)
      { ret := FRAME_SIZE, errno := 0,
        bytes := [1] ++ List.replicate 250 0 ++ [1] ++ List.replicate 4 0 } true).error_code =
      .FRAME_SUCCESS :=
  ⟨by decide,
   (C5_checksum_verified (List.replicate 256 0)
      ([1] ++ List.replicate 250 0 ++ [1] ++ List.replicate 4 0) 0 (by decide) (by decide)
      (by decide)).1.2 (by decide)⟩

/-- C6 (the code at the failing input): `read` delivers 3 bytes of an ACK frame
into a buffer that still holds the previous ACK frame; `FRAME_receiveFrame`
returns `FRAME_SUCCESS` and a frame. -/
theorem C6_short_read_accepted :
    (0 : Int) < 3 ∧ (3 : Int) < FRAME_SIZE ∧
    FRAME_receiveFrame ([18, 0, 0] ++ List.replicate 247 0 ++ [86, 101, 101, 83, 241, 0])
      { ret := 3, errno := 0, bytes := [18, 0, 0] } true =
      { frame := some ⟨18, 0, List.replicate 247 0, 22117, 1700000000⟩, freed := false,
        error_code := .FRAME_SUCCESS } := by
  decide

/-- C7 (as stated, refuted): the DATA frame that `FRAME_createFrame` builds for
a full chunk of 247 bytes is accepted by `FRAME_receiveFrame` with
`data_length = 247`, above 244, and `COMM_receiveFile` writes its 247 bytes. -/
theorem C7_counterexample :
    (FRAME_createFrame true 1700000000 5 (some (List.replicate 247 65)) 247).bind
        (fun f => (FRAME_sendFrame (List.replicate 256 0) 256 (some f)).written) =
      some { bytes := [5, 0, 247] ++ List.replicate 247 65 ++ [150, 6, 101, 83, 241, 0],
             ret := 256 } ∧
    FRAME_receiveFrame (List.replicate 256 0)
        { ret := 256, errno := 0,
          bytes := [5, 0, 247] ++ List.replicate 247 65 ++ [150, 6, 101, 83, 241, 0] } true =
      { frame := some ⟨5, 247, List.replicate 247 65, 38406, 1700000000⟩, freed := false,
        error_code := .FRAME_SUCCESS } ∧
    ¬ ((⟨5, 247, List.replicate 247 65, 38406, 1700000000⟩ : Frame).data_length ≤ 244) ∧
    (filePayload ⟨5, 247, List.replicate 247 65, 38406, 1700000000⟩ []).length = 247 := by
  decide

/-- C7 (amended): every frame built by `FRAME_createFrame`, sent by
`FRAME_sendFrame` and read in full is accepted by `FRAME_receiveFrame` with a
`data_length` of at most 247 (`DATA_SIZE`), so that the bytes
`COMM_receiveFile` writes for it are at most 247 and lie inside the data
field, whatever follows the frame in memory. -/
theorem C7_created_data_length_bound (now type : Int) (data : Option (List Nat))
    (dataLength : Nat) (sendBuffer recvBuffer beyond : List Nat) (errno : Int)
    (h : ∀ d, data = some d → min dataLength DATA_SIZE ≤ d.length)
    (hs : sendBuffer.length = FRAME_SIZE) (hr : recvBuffer.length = FRAME_SIZE) :
    ∃ f bytes, FRAME_createFrame true now type data dataLength = some f ∧
      (FRAME_sendFrame sendBuffer FRAME_SIZE (some f)).written =
        some { bytes := bytes, ret := FRAME_SIZE } ∧
      FRAME_receiveFrame recvBuffer { ret := FRAME_SIZE, errno := errno, bytes := bytes } true =
        { frame := some f, freed := false, error_code := .FRAME_SUCCESS } ∧
      f.data_length ≤ DATA_SIZE ∧
      (filePayload f beyond).length ≤ DATA_SIZE ∧
      filePayload f beyond = f.data.take f.data_length := by
  obtain ⟨f, bytes, h1, h2, _, h4, _, h6, _, h8⟩ :=
    created_frame_received now type data dataLength sendBuffer recvBuffer errno h hs hr
  have hle : f.data_length ≤ DATA_SIZE := by rw [h6]; exact Nat.min_le_right _ _
  refine ⟨f, bytes, h1, by rw [h2], h4, hle, ?_, ?_⟩
  · unfold filePayload
    rw [List.length_take]
    exact (Nat.min_le_left _ _).trans hle
  · unfold filePayload
    rw [List.take_append_of_le_length (by rw [h8]; exact hle)]

/-- Witness of C7 (amended): a full chunk of 247 bytes cut out of 300. -/
theorem C7_created_data_length_bound_witness :
    ∃ f bytes, FRAME_createFrame true 1700000000 5 (some (List.replicate 300 65)) 300 = some f ∧
      (FRAME_sendFrame (List.replicate 256 0) FRAME_SIZE (some f)).written =
        some { bytes := bytes, ret := FRAME_SIZE } ∧
      FRAME_receiveFrame (List.replicate 256 0)
          { ret := FRAME_SIZE, errno := 0, bytes := bytes } true =
        { frame := some f, freed := false, error_code := .FRAME_SUCCESS } ∧
      f.data_length ≤ DATA_SIZE ∧
      (filePayload f [1, 2, 3]).length ≤ DATA_SIZE ∧
      filePayload f [1, 2, 3] = f.data.take f.data_length :=
  C7_created_data_length_bound 1700000000 5 (some (List.replicate 300 65)) 300
    (List.replicate 256 0) (List.replicate 256 0) [1, 2, 3] 0
    (by intro d hd; cases hd; decide) (by decide) (by decide)

/-- C8 (as stated, refuted): for 300 input bytes `FRAME_createFrame` stores
`data_length = 247`, not `min 300 244 = 244`, and data byte 244 is an input
byte, not zero. -/
theorem C8_counterexample :
    (FRAME_createFrame true 0 5 (some (List.replicate 300 65)) 300).map
        (fun f => f.data_length) = some 247 ∧
    min 300 244 ≠ 247 ∧
    (FRAME_createFrame true 0 5 (some (List.replicate 300 65)) 300).map
        (fun f => f.data.getD 244 0) = some 65 := by
  decide

/-- C8 (amended): when `malloc` succeeds, `FRAME_createFrame` builds a
well-formed frame for every input: data_length = min(dataLength, 247), the
first data_length data bytes are the first data_length bytes of the input,
all remaining data bytes are zero (all 247 are zero when data is NULL), and
the stored checksum is `FRAME_calculateChecksum` of the built frame. -/
theorem C8_createFrame_well_formed (now type : Int) (data : Option (List Nat))
    (dataLength : Nat) (h : ∀ d, data = some d → min dataLength DATA_SIZE ≤ d.length) :
    ∃ f, FRAME_createFrame true now type data dataLength = some f ∧
      f.data_length = min dataLength 247 ∧
      f.data.length = 247 ∧
      (∀ d, data = some d → f.data.take f.data_length = d.take f.data_length) ∧
      f.data.drop f.data_length = List.replicate (247 - f.data_length) 0 ∧
      (data = none → f.data = List.replicate 247 0) ∧
      f.checksum = FRAME_calculateChecksum f := by
  obtain ⟨f, hf, _, hdl, hda, hlen, _, hck⟩ := createFrame_eq now type data dataLength h
  have hdl' : f.data_length = min dataLength 247 := hdl
  have hlen' : f.data.length = 247 := hlen
  refine ⟨f, hf, hdl', hlen', ?_, ?_, ?_, hck⟩
  · intro d hd
    subst hd
    have hle : min dataLength 247 ≤ d.length := h d rfl
    have hda' : f.data = d.take (min dataLength 247) ++
        List.replicate (247 - min dataLength 247) 0 := hda
    rw [hda', hdl', List.take_append_of_le_length (by simp; omega), List.take_take]
    simp
  · cases data with
    | none =>
      have hda' : f.data = List.replicate 247 0 := hda
      rw [hda', List.drop_replicate]
    | some d =>
      have hle : min dataLength 247 ≤ d.length := h d rfl
      have hda' : f.data = d.take (min dataLength 247) ++
          List.replicate (247 - min dataLength 247) 0 := hda
      rw [hda', hdl', List.drop_append_of_le_length (by simp; omega),
        List.drop_eq_nil_of_le (by simp)]
      simp
  · intro hn
    subst hn
    exact hda

/-- Witness of C8 (amended): three bytes of payload. -/
theorem C8_createFrame_well_formed_witness :
    ∃ f, FRAME_createFrame true 1700000000 5 (some [10, 20, 30]) 3 = some f ∧
      f.data_length = min 3 247 ∧
      f.data.length = 247 ∧
      (∀ d, some [10, 20, 30] = some d → f.data.take f.data_length = d.take f.data_length) ∧
      f.data.drop f.data_length = List.replicate (247 - f.data_length) 0 ∧
      ((some [10, 20, 30] : Option (List Nat)) = none → f.data = List.replicate 247 0) ∧
      f.checksum = FRAME_calculateChecksum f :=
  C8_createFrame_well_formed 1700000000 5 (some [10, 20, 30]) 3
    (by intro d hd; cases hd; decide)

/-! ## Claims C9 and C10: the transfer engine -/

/-- C9 (as stated, refuted).  The packets are 247 bytes long.  A file of 500
bytes, n_packets = ceil(500/244) = 3, local calls succeeding, no cancellation,
reliable channels: the DATA payloads are 247, 247 and 6 bytes, not 244, 244
and 12.  A file of 245 bytes, n_packets = ceil(245/244) = 2, same
surroundings: the sender reaches the end of the file after one packet and
returns with the counter at 1, and `COMM_receiveFile`, waiting for a second
packet, does not return `TRANSFER_SUCCESS`. -/
theorem C9_counterexample :
    ((exampleSender none (List.replicate 3 exampleAck)).LocalOk ∧
     (exampleSender none (List.replicate 3 exampleAck)).NoCancel ∧
     (peerReceiver none (exampleSender none (List.replicate 3 exampleAck)) exampleFile 3
       0).LocalOk ∧
     (peerReceiver none (exampleSender none (List.replicate 3 exampleAck)) exampleFile 3
       0).NoCancel ∧
     Delivers (COMM_sendFile (exampleSender none (List.replicate 3 exampleAck)) exampleFile 3
         0).sent
       (fun i => ((peerReceiver none (exampleSender none (List.replicate 3 exampleAck))
         exampleFile 3 0).recv i).read) ∧
     Delivers (COMM_receiveFile
         (peerReceiver none (exampleSender none (List.replicate 3 exampleAck)) exampleFile 3 0)
         [] 3 0).sent
       (fun i => ((exampleSender none (List.replicate 3 exampleAck)).ack i).read) ∧
     exampleFile.length = 500 ∧ (500 + 243) / 244 = 3 ∧
     (COMM_receiveFile
         (peerReceiver none (exampleSender none (List.replicate 3 exampleAck)) exampleFile 3 0)
         [] 3 0).payloads.map List.length = [247, 247, 6]) ∧
    ((exampleSender none [exampleAck]).LocalOk ∧
     (exampleSender none [exampleAck]).NoCancel ∧
     (peerReceiver none (exampleSender none [exampleAck]) (exampleFile.take 245) 2 0).LocalOk ∧
     (peerReceiver none (exampleSender none [exampleAck]) (exampleFile.take 245) 2 0).NoCancel ∧
     Delivers (COMM_sendFile (exampleSender none [exampleAck]) (exampleFile.take 245) 2 0).sent
       (fun i => ((peerReceiver none (exampleSender none [exampleAck]) (exampleFile.take 245) 2
         0).recv i).read) ∧
     Delivers (COMM_receiveFile
         (peerReceiver none (exampleSender none [exampleAck]) (exampleFile.take 245) 2 0)
         [] 2 0).sent
       (fun i => ((exampleSender none [exampleAck]).ack i).read) ∧
     (exampleFile.take 245).length = 245 ∧ (245 + 243) / 244 = 2 ∧
     (COMM_sendFile (exampleSender none [exampleAck]) (exampleFile.take 245)
       2 0).n_processed_packets = 1 ∧
     (COMM_receiveFile
         (peerReceiver none (exampleSender none [exampleAck]) (exampleFile.take 245) 2 0)
         [] 2 0).ret ≠ some TRANSFER_SUCCESS) := by
  refine ⟨⟨exampleSender_localOk _ _, exampleSender_noCancel _, exampleReceiver_localOk _ _,
    exampleReceiver_noCancel _, delivers_channelRead _, delivers_of_eq _ _ example_run_acks,
    by decide, by decide, example_run_payloads⟩,
    ⟨exampleSender_localOk _ _, exampleSender_noCancel _, exampleReceiver_localOk _ _,
    exampleReceiver_noCancel _, delivers_channelRead _,
    delivers_of_eq _ _ example_short_run.1, by decide, by decide, example_short_run.2.2.2, ?_⟩⟩
  rw [example_short_run.2.1]
  exact fun h => Option.noConfusion h

/-- C9 (amended): end-to-end transfer correctness.  For every file F of length
L, with n_packets = ceil(L/247) and both sides starting at n_done = 0, no
cancellation, local calls that succeed and a reliable in-order channel in each
direction, `COMM_sendFile` run against `COMM_receiveFile` writing into an
initially empty file both return `TRANSFER_SUCCESS` with the counter at
n_packets, the file of the receiver equals F byte for byte, and the DATA
payloads are the successive 247-byte chunks of F (lengths
min(247, L - 247 j); for L = 500: 247, 247 and 6 bytes). -/
theorem C9_transfer_correct (F : List Nat) (ws : SendFileWorld) (wr : RecvFileWorld)
    (hs : ws.LocalOk) (hr : wr.LocalOk) (hcs : ws.NoCancel) (hcr : wr.NoCancel)
    (hDs : Delivers (COMM_sendFile ws F (packetCount F.length) 0).sent
      (fun i => (wr.recv i).read))
    (hDr : Delivers (COMM_receiveFile wr [] (packetCount F.length) 0).sent
      (fun i => (ws.ack i).read)) :
    (COMM_sendFile ws F (packetCount F.length) 0).ret = some TRANSFER_SUCCESS ∧
    (COMM_receiveFile wr [] (packetCount F.length) 0).ret = some TRANSFER_SUCCESS ∧
    (COMM_sendFile ws F (packetCount F.length) 0).n_processed_packets = packetCount F.length ∧
    (COMM_receiveFile wr [] (packetCount F.length) 0).n_processed_packets =
      packetCount F.length ∧
    (COMM_receiveFile wr [] (packetCount F.length) 0).file = F ∧
    (COMM_receiveFile wr [] (packetCount F.length) 0).payloads.map List.length =
      (List.range (packetCount F.length)).map (fun j => min 247 (F.length - 247 * j)) := by
  obtain ⟨c1, _, _, _, _, c6⟩ := transfer_main ws wr F [] (packetCount F.length) 0 hs hr
    (le_refl _) (by omega) (by decide) (by simp) hDs hDr
  obtain ⟨d1, d2, d3, d4, d5⟩ := c6 hcs hcr (by
    rw [Int.toNat_ofNat]
    exact packetCount_mul_lt F.length)
  refine ⟨d1, d2, d3, d4, ?_, ?_⟩
  · rw [c1, d4, Int.toNat_ofNat, List.take_of_length_le (le_packetCount_mul F.length)]
  · rw [d5]
    simp only [Int.sub_zero, Int.toNat_ofNat, Int.toNat_zero, Nat.zero_add, List.map_map]
    apply List.map_congr_left
    intro j _
    exact fileRead_chunk_length F j


/-- Witness of C9 (amended): the file of 500 bytes goes over in three packets
of 247, 247 and 6 bytes. -/
theorem C9_transfer_correct_witness :
    (COMM_sendFile (exampleSender none (List.replicate 3 exampleAck)) exampleFile 3 0).ret =
      some TRANSFER_SUCCESS ∧
    (COMM_receiveFile
      (peerReceiver none (exampleSender none (List.replicate 3 exampleAck)) exampleFile 3 0)
      [] 3 0).ret = some TRANSFER_SUCCESS ∧
    (COMM_receiveFile
      (peerReceiver none (exampleSender none (List.replicate 3 exampleAck)) exampleFile 3 0)
      [] 3 0).file = exampleFile ∧
    (COMM_receiveFile
      (peerReceiver none (exampleSender none (List.replicate 3 exampleAck)) exampleFile 3 0)
      [] 3 0).payloads.map List.length = [247, 247, 6] := by
  have e : ((packetCount exampleFile.length : Nat) : Int) = 3 := by decide
  have h := C9_transfer_correct exampleFile (exampleSender none (List.replicate 3 exampleAck))
    (peerReceiver none (exampleSender none (List.replicate 3 exampleAck)) exampleFile 3 0)
    (exampleSender_localOk _ _) (exampleReceiver_localOk _ _) (exampleSender_noCancel _)
    (exampleReceiver_noCancel _)
    (by rw [e]; exact delivers_channelRead _)
    (by rw [e]; exact delivers_of_eq _ _ example_run_acks)
  rw [e] at h
  exact ⟨h.1, h.2.1, h.2.2.2.2.1, example_run_payloads⟩

/-- C10: resumption equivalence.  For every file F of fewer than 2^31 bytes (the
file size is a C `int`), every n_packets (in particular ceil(|F|/244) and the
value ceil(|F|/247) the callers compute) and every k with 0 <= k <= n_packets:
when a first transfer over a reliable channel ends, for whatever reason, with
the counter of the receiver at k, and `COMM_sendFile` and `COMM_receiveFile`
are entered again with n_done = k on both sides, the receiver keeping its
partial file, then the final file of the receiver is identical to the file an
uninterrupted transfer of F produces, namely the first n_packets * 247 bytes
of F. -/
theorem C10_resumption_equivalence (F : List Nat) (n_packets k : Int)
    (ws0 ws1 ws2 : SendFileWorld) (wr0 wr1 wr2 : RecvFileWorld)
    (hL : F.length < 2147483648) (hk0 : 0 ≤ k) (hkN : k ≤ n_packets)
    (hs0 : ws0.LocalOk) (hr0 : wr0.LocalOk) (hcs0 : ws0.NoCancel) (hcr0 : wr0.NoCancel)
    (hD0s : Delivers (COMM_sendFile ws0 F n_packets 0).sent (fun i => (wr0.recv i).read))
    (hD0r : Delivers (COMM_receiveFile wr0 [] n_packets 0).sent (fun i => (ws0.ack i).read))
    (hs1 : ws1.LocalOk) (hr1 : wr1.LocalOk)
    (hD1s : Delivers (COMM_sendFile ws1 F n_packets 0).sent (fun i => (wr1.recv i).read))
    (hD1r : Delivers (COMM_receiveFile wr1 [] n_packets 0).sent (fun i => (ws1.ack i).read))
    (hk : (COMM_receiveFile wr1 [] n_packets 0).n_processed_packets = k)
    (hs2 : ws2.LocalOk) (hr2 : wr2.LocalOk) (hcs2 : ws2.NoCancel) (hcr2 : wr2.NoCancel)
    (hD2s : Delivers (COMM_sendFile ws2 F n_packets k).sent (fun i => (wr2.recv i).read))
    (hD2r : Delivers
      (COMM_receiveFile wr2 (COMM_receiveFile wr1 [] n_packets 0).file n_packets k).sent
      (fun i => (ws2.ack i).read)) :
    (COMM_receiveFile wr2 (COMM_receiveFile wr1 [] n_packets 0).file n_packets k).file =
      (COMM_receiveFile wr0 [] n_packets 0).file ∧
    (COMM_receiveFile wr0 [] n_packets 0).file = F.take (n_packets.toNat * DATA_SIZE) := by
  have e247 : DATA_SIZE = 247 := rfl
  have hN0 : (0 : Int) ≤ n_packets := le_trans hk0 hkN
  -- the uninterrupted transfer
  obtain ⟨a1, _, a3, _, a5, _⟩ := transfer_main ws0 wr0 F [] n_packets 0 hs0 hr0
    (le_refl _) hN0 (by decide) (by simp) hD0s hD0r
  have hfile0 : (COMM_receiveFile wr0 [] n_packets 0).file =
      F.take (n_packets.toNat * DATA_SIZE) := by
    rw [a1]
    exact take_packets F _ _ a3 (a5 hcs0 hcr0)
  -- the interrupted transfer
  obtain ⟨b1, _, _, b4, _, _⟩ := transfer_main ws1 wr1 F [] n_packets 0 hs1 hr1
    (le_refl _) hN0 (by decide) (by simp) hD1s hD1r
  rw [hk] at b1 b4
  refine ⟨?_, hfile0⟩
  rw [hfile0]
  by_cases hov : k * DATA_SIZE < 2147483648
  · -- the resumed transfer
    obtain ⟨c1, _, c3, _, c5, _⟩ := transfer_main ws2 wr2 F
      (COMM_receiveFile wr1 [] n_packets 0).file n_packets k hs2 hr2 hk0 hkN hov b1 hD2s hD2r
    rw [c1]
    exact take_packets F _ _ c3 (c5 hcs2 hcr2)
  · -- the product k * DATA_SIZE leaves the range of int: lseek fails
    have hkpos : 0 < k := by
      by_contra h
      have : k = 0 := by omega
      rw [this] at hov
      exact hov (by decide)
    have hb := b4 hkpos
    have hoff : toInt32 (k * (DATA_SIZE : Nat)) < 0 := by
      have e : ((DATA_SIZE : Nat) : Int) = 247 := rfl
      rw [e] at hov ⊢
      rw [e247] at hb
      unfold toInt32
      omega
    have hres : (COMM_receiveFile wr2 (COMM_receiveFile wr1 [] n_packets 0).file n_packets
        k).file = (COMM_receiveFile wr1 [] n_packets 0).file := by
      unfold COMM_receiveFile
      simp only [hr2.1, hoff]
      simp
    have e : ((DATA_SIZE : Nat) : Int) = 247 := rfl
    rw [e] at hov
    rw [hres, b1, List.take_of_length_le (by rw [e247]; omega),
      List.take_of_length_le (by rw [e247]; omega)]

/-- Witness of C10: the file of 500 bytes, three packets, interrupted after two
packets (both sides see the exit flag at the third loop test) and resumed with
n_done = 2. -/
theorem C10_resumption_equivalence_witness :
    (COMM_receiveFile
      (peerReceiver (some 2) (exampleSender (some 2) (List.replicate 2 exampleAck))
        exampleFile 3 0) [] 3 0).n_processed_packets = 2 ∧
    (COMM_receiveFile (peerReceiver none (exampleSender none [exampleAck]) exampleFile 3 2)
      (COMM_receiveFile
        (peerReceiver (some 2) (exampleSender (some 2) (List.replicate 2 exampleAck))
          exampleFile 3 0) [] 3 0).file 3 2).file =
      (COMM_receiveFile
        (peerReceiver none (exampleSender none (List.replicate 3 exampleAck)) exampleFile 3 0)
        [] 3 0).file :=
  ⟨example_interrupted_run.2,
   (C10_resumption_equivalence exampleFile 3 2
      (exampleSender none (List.replicate 3 exampleAck))
      (exampleSender (some 2) (List.replicate 2 exampleAck))
      (exampleSender none [exampleAck])
      (peerReceiver none (exampleSender none (List.replicate 3 exampleAck)) exampleFile 3 0)
      (peerReceiver (some 2) (exampleSender (some 2) (List.replicate 2 exampleAck))
        exampleFile 3 0)
      (peerReceiver none (exampleSender none [exampleAck]) exampleFile 3 2)
      (by decide) (by decide) (by decide)
      (exampleSender_localOk _ _) (exampleReceiver_localOk _ _) (exampleSender_noCancel _)
      (exampleReceiver_noCancel _) (delivers_channelRead _)
      (delivers_of_eq _ _ example_run_acks)
      (exampleSender_localOk _ _) (exampleReceiver_localOk _ _) (delivers_channelRead _)
      (delivers_of_eq _ _ example_interrupted_run.1) example_interrupted_run.2
      (exampleSender_localOk _ _) (exampleReceiver_localOk _ _) (exampleSender_noCancel _)
      (exampleReceiver_noCancel _) (delivers_channelRead _)
      (delivers_of_eq _ _ example_resumed_run)).1⟩

/-! ## Claims C11, C13 and C14: counters of the transfer engine -/

/-- C11 (as stated, refuted).  A file of 245 bytes sent as n_packets = 2 with
n_done = 0 at entry, the peer acknowledging: `COMM_sendFile` reads the whole
file into its first packet, finds the end of the file at its second `read`,
leaves the loop by `break` and returns `TRANSFER_SUCCESS` with the counter at
1, not 2.  Entered with n_done = 2 and n_packets = 1, both functions skip their
loop and return `TRANSFER_SUCCESS` with the counter still at 2, not 1. -/
theorem C11_counterexample :
    ((COMM_sendFile (exampleSender none [exampleAck]) (exampleFile.take 245) 2 0).ret =
        some TRANSFER_SUCCESS ∧
      (COMM_sendFile (exampleSender none [exampleAck]) (exampleFile.take 245)
        2 0).n_processed_packets = 1) ∧
    ((COMM_receiveFile (exampleReceiver none []) [] 1 2).ret = some TRANSFER_SUCCESS ∧
      (COMM_receiveFile (exampleReceiver none []) [] 1 2).n_processed_packets = 2 ∧
      (COMM_sendFile (exampleSender none []) [] 1 2).ret = some TRANSFER_SUCCESS ∧
      (COMM_sendFile (exampleSender none []) [] 1 2).n_processed_packets = 2) :=
  ⟨⟨example_short_run.2.2.1, example_short_run.2.2.2⟩, example_late_entry⟩

/-- C11 (amended): the counter after a successful transfer.  For every file,
every n_packets and every initial n_done with 0 ≤ n_done ≤ n_packets, the exit
flag being only ever raised: whenever `COMM_receiveFile` returns
`TRANSFER_SUCCESS` the counter `*n_processed_packets` equals n_packets;
whenever `COMM_sendFile` returns `TRANSFER_SUCCESS` the counter equals
n_packets, or it is smaller and the file ended there (the file has at most
counter × 247 bytes); so for a file of more than (n_packets - 1) × 247 bytes
the counter equals n_packets after `COMM_sendFile` too. -/
theorem C11_success_counter (ws : SendFileWorld) (wr : RecvFileWorld) (F file : List Nat)
    (n_packets n_done : Int) (h0 : 0 ≤ n_done) (hN : n_done ≤ n_packets)
    (hws : ws.FlagStays) (hwr : wr.FlagStays) :
    ((COMM_receiveFile wr file n_packets n_done).ret = some TRANSFER_SUCCESS →
      (COMM_receiveFile wr file n_packets n_done).n_processed_packets = n_packets) ∧
    ((COMM_sendFile ws F n_packets n_done).ret = some TRANSFER_SUCCESS →
      (COMM_sendFile ws F n_packets n_done).n_processed_packets = n_packets ∨
      ((COMM_sendFile ws F n_packets n_done).n_processed_packets < n_packets ∧
        F.length ≤ (COMM_sendFile ws F n_packets n_done).n_processed_packets.toNat * DATA_SIZE)) ∧
    ((COMM_sendFile ws F n_packets n_done).ret = some TRANSFER_SUCCESS →
      (n_packets - 1) * DATA_SIZE < F.length →
      (COMM_sendFile ws F n_packets n_done).n_processed_packets = n_packets) := by
  have hsend : (COMM_sendFile ws F n_packets n_done).ret = some TRANSFER_SUCCESS →
      (COMM_sendFile ws F n_packets n_done).n_processed_packets = n_packets ∨
      ((COMM_sendFile ws F n_packets n_done).n_processed_packets < n_packets ∧
        0 ≤ (COMM_sendFile ws F n_packets n_done).n_processed_packets ∧
        F.length ≤
          (COMM_sendFile ws F n_packets n_done).n_processed_packets.toNat * DATA_SIZE) := by
    unfold COMM_sendFile
    simp only []
    split
    · intro hr; exact absurd hr ret_err_ne
    · split
      · intro hr; exact absurd hr ret_err_ne
      · next hoff =>
        apply sendFile_loop_success ws F n_packets hws
        · exact le_refl _
        · exact h0
        · exact hN
        · show (toInt32 (n_done * DATA_SIZE)).toNat ≤ n_done.toNat * DATA_SIZE
          have e247 : ((DATA_SIZE : Nat) : Int) = 247 := rfl
          have e247n : DATA_SIZE = 247 := rfl
          rw [e247, e247n]
          unfold toInt32
          omega
  refine ⟨?_, ?_, ?_⟩
  · unfold COMM_receiveFile
    simp only []
    split
    · intro hr; exact absurd hr ret_err_ne
    · split
      · intro hr; exact absurd hr ret_err_ne
      · apply receiveFile_loop_success wr n_packets hwr
        · exact le_refl _
        · exact hN
  · intro hr
    rcases hsend hr with h | ⟨h1, _, h3⟩
    · exact Or.inl h
    · exact Or.inr ⟨h1, h3⟩
  · intro hr hlen
    rcases hsend hr with h | ⟨h1, h2, h3⟩
    · exact h
    · exfalso
      have e247 : ((DATA_SIZE : Nat) : Int) = 247 := rfl
      have e247n : DATA_SIZE = 247 := rfl
      rw [e247] at hlen
      rw [e247n] at h3
      generalize (COMM_sendFile ws F n_packets n_done).n_processed_packets = n at h1 h2 h3
      have h3' : (F.length : Int) ≤ n * 247 := by
        have : ((n.toNat * 247 : Nat) : Int) = n * 247 := by
          push_cast
          rw [Int.toNat_of_nonneg h2]
        omega
      omega

/-- C11 (amended), at an instance: a file of 245 bytes sent as one packet from
n_done = 0 over a reliable channel; both functions return `TRANSFER_SUCCESS`,
so the counter of each is 1. -/
theorem C11_success_counter_witness :
    (0 : Int) ≤ 0 ∧ (0 : Int) ≤ 1 ∧
    (exampleSender none [exampleAck]).FlagStays ∧
    (peerReceiver none (exampleSender none [exampleAck]) (exampleFile.take 245) 1 0).FlagStays ∧
    (COMM_sendFile (exampleSender none [exampleAck]) (exampleFile.take 245) 1 0).ret =
      some TRANSFER_SUCCESS ∧
    (COMM_receiveFile
      (peerReceiver none (exampleSender none [exampleAck]) (exampleFile.take 245) 1 0)
      [] 1 0).ret = some TRANSFER_SUCCESS ∧
    (COMM_receiveFile
      (peerReceiver none (exampleSender none [exampleAck]) (exampleFile.take 245) 1 0)
      [] 1 0).n_processed_packets = 1 ∧
    (COMM_sendFile (exampleSender none [exampleAck]) (exampleFile.take 245)
      1 0).n_processed_packets = 1 :=
  have h := C11_success_counter (exampleSender none [exampleAck])
    (peerReceiver none (exampleSender none [exampleAck]) (exampleFile.take 245) 1 0)
    (exampleFile.take 245) [] 1 0 (by decide) (by decide)
    (exampleSender_flagStays none [exampleAck]) (exampleReceiver_flagStays none _)
  ⟨by decide, by decide, exampleSender_flagStays none [exampleAck],
    exampleReceiver_flagStays none _, example_one_packet_run.1, example_one_packet_run.2,
    h.1 example_one_packet_run.2,
    h.2.2 example_one_packet_run.1 (by decide)⟩

/-- C13 (the code at the failing input).  The peer answers the DATA frame of a
one-packet file with an ERR frame (type 0x09, valid checksum) instead of an
ACK frame (type 0x12).  `FRAME_receiveFrame` decodes it with `FRAME_SUCCESS`
and type 0x09; `COMM_retrieveAckFrame` does not look at the type, so
`COMM_sendFile` increments the counter to 1 and returns `TRANSFER_SUCCESS`. -/
theorem C13_non_ack_frame_counted :
    (FRAME_sendFrame (List.replicate FRAME_SIZE 0) FRAME_SIZE
      (FRAME_createFrame true 0 0x09 none 0)).written = some exampleErr ∧
    (FRAME_receiveFrame (List.replicate FRAME_SIZE 0)
      { ret := FRAME_SIZE, errno := 0, bytes := exampleErr.bytes } true).error_code =
      .FRAME_SUCCESS ∧
    (FRAME_receiveFrame (List.replicate FRAME_SIZE 0)
      { ret := FRAME_SIZE, errno := 0, bytes := exampleErr.bytes } true).frame.map
        (fun f => f.type) = some 0x09 ∧
    (COMM_sendFile (exampleSender none [exampleErr]) [1, 2, 3] 1 0).ret =
      some TRANSFER_SUCCESS ∧
    (COMM_sendFile (exampleSender none [exampleErr]) [1, 2, 3] 1 0).n_processed_packets = 1 :=
  example_err_reply

/-- C12 (as stated, refuted).  For a file of 245 bytes the client at job setup,
the client on receiving the metadata frame `245&<md5>` (type 0x04) and the
worker when initialising progress all compute 1 packet, the quotient by
`DATA_SIZE = 247` rounded up, while ceil(245/244) = 2. -/
theorem C12_counterexample :
    (Fleck.DIST_setupDistortionContext (exampleSetup 245) emptyContext (str "b.txt")
      (str "al") 3).1 = 1 ∧
    (Fleck.DIST_setupDistortionContext (exampleSetup 245) emptyContext (str "b.txt")
      (str "al") 3).2.n_packets = 1 ∧
    (Fleck.COMM_retrieveFileMetadata
      (exampleMetadata (exampleFrameWrite 0x04 (str "245&0123456789abcdef0123456789abcdef")))
      emptyContext).map (fun r => (r.1, r.2.filesize, r.2.n_packets)) =
      some (TRANSFER_SUCCESS, 245, 1) ∧
    (CONTEXT_initDistortionProgress { emptyContext with filesize := 245 } 0 0).2.n_packets = 1 ∧
    ((245 + 243) / 244 : Int) = 2 := by
  decide!

/-- C12 (amended): the packet count.  For every filesize with
0 ≤ filesize < 2^31 (an `int`), the number of packets computed by the client at
job setup (`DIST_setupDistortionContext`, its calls succeeding), by the client
on receiving a metadata frame (type 0x04) whose data is the text
`<filesize>&<md5>` (`COMM_retrieveFileMetadata`) and by the worker when
initialising progress (`CONTEXT_initDistortionProgress`) is ceil(filesize/247),
the quotient by `DATA_SIZE` rounded up; the three computations agree. -/
theorem C12_packet_count (filesize : Int) (h0 : 0 ≤ filesize) (h1 : filesize < 2147483648) :
    (∀ (e : SetupEnv) (context : DistortionContext) (filename username : List Nat)
        (factor : Int),
      e.filesize = filesize → e.file_path ≠ none → e.filename_dup_ok = true →
      e.md5sum ≠ none → e.username_dup_ok = true →
      (Fleck.DIST_setupDistortionContext e context filename username factor).1 = 1 ∧
      (Fleck.DIST_setupDistortionContext e context filename username factor).2.n_packets =
        packetCount filesize.toNat) ∧
    (∀ (e : MetadataEnv) (distorted_file : DistortionContext) (rd : SockRead)
        (response_frame : Frame) (md5 : List Nat),
      e.recv.read = some rd →
      FRAME_receiveFrame e.recv.buffer rd e.recv.malloc_ok =
        { frame := some response_frame, freed := false, error_code := .FRAME_SUCCESS } →
      response_frame.type = 0x04 → e.data_dup_ok = true →
      cstring (response_frame.data ++ e.beyond) = decimal filesize ++ str "&" ++ md5 →
      md5 ≠ [] → 38 ∉ md5 →
      ∃ context, Fleck.COMM_retrieveFileMetadata e distorted_file =
          some (TRANSFER_SUCCESS, context) ∧
        context.filesize = filesize ∧ context.n_packets = packetCount filesize.toNat) ∧
    (∀ (distortion_context : DistortionContext) (current_stage n_processed_packets : Int),
      distortion_context.filesize = filesize →
      (CONTEXT_initDistortionProgress distortion_context current_stage
        n_processed_packets).2.n_packets = packetCount filesize.toNat) := by
  have hp := packets_of_filesize filesize h0
  refine ⟨?_, ?_, ?_⟩
  · intro e context filename username factor hf hpath hfn hmd5 hun
    unfold Fleck.DIST_setupDistortionContext
    simp only [hfn, hun, hf, if_true]
    rw [if_neg hpath, if_neg (by simp), if_neg (by omega), if_neg hmd5, if_neg (by simp)]
    constructor
    · rfl
    · rw [← hp]
      split <;> rfl
  · intro e distorted_file rd response_frame md5 hrd hrecv htype hdup hdata hmd5 hamp
    obtain ⟨n, rfl⟩ := Int.eq_ofNat_of_zero_le h0
    obtain ⟨hd0, hdig⟩ := decimal_digits n
    have hnot : ∀ b ∈ decimal (n : Int), b ∉ str "&" := by
      intro b hb
      have := hdig b hb
      have e38 : str "&" = [38] := by decide
      rw [e38]
      simp only [List.mem_singleton]
      intro h38
      subst h38
      exact absurd this (by decide)
    have e38 : str "&" = [38] := by decide
    have htok : strtok (decimal (n : Int) ++ str "&" ++ md5) (str "&") =
        (some (decimal (n : Int)), md5) := by
      rw [List.append_assoc, e38]
      have := strtok_sep (decimal (n : Int)) md5 [38] 38 (by simp) hd0 (by rw [← e38]; exact hnot)
      simpa using this
    have htok2 : (strtok md5 (str "&")).1 = some md5 := by
      rw [strtok_last md5 (str "&") hmd5 (by
        intro b hb
        rw [e38]
        simp only [List.mem_singleton]
        intro h
        subst h
        exact hamp hb)]
    have hatoi : atoi (decimal (n : Int)) = n := by
      have := atoi_decimal n (by omega) [] (by simp)
      simpa using this
    unfold Fleck.COMM_retrieveFileMetadata
    rw [hrd]
    simp only [hrecv, hdup, htype, hdata, htok, htok2, hatoi]
    simp only [ne_eq, not_true_eq_false, if_false, if_true, Bool.not_true, Bool.false_eq_true]
    refine ⟨_, rfl, ?_, ?_⟩
    · split <;> rfl
    · rw [← hp]
      split <;> rfl
  · intro distortion_context current_stage n_processed_packets hf
    unfold CONTEXT_initDistortionProgress
    simp only [hf]
    exact hp

/-- C12 (amended), at an instance: a file of 500 bytes, the metadata frame
`500&<md5>`; each of the three computations gives ceil(500/247) = 3. -/
theorem C12_packet_count_witness :
    (0 : Int) ≤ 500 ∧ (500 : Int) < 2147483648 ∧
    (Fleck.DIST_setupDistortionContext (exampleSetup 500) emptyContext (str "b.txt")
      (str "al") 3).2.n_packets = packetCount (500 : Int).toNat ∧
    (∃ context, Fleck.COMM_retrieveFileMetadata
        (exampleMetadata (exampleFrameWrite 0x04 (str "500&0123456789abcdef0123456789abcdef")))
        emptyContext = some (TRANSFER_SUCCESS, context) ∧
      context.filesize = 500 ∧ context.n_packets = packetCount (500 : Int).toNat) ∧
    (CONTEXT_initDistortionProgress { emptyContext with filesize := 500 } 0 0).2.n_packets =
      packetCount (500 : Int).toNat ∧
    packetCount (500 : Int).toNat = 3 :=
  have h := C12_packet_count 500 (by decide) (by decide)
  ⟨by decide, by decide,
    (h.1 (exampleSetup 500) emptyContext (str "b.txt") (str "al") 3 rfl (by decide) rfl
      (by decide) rfl).2,
    h.2.1 (exampleMetadata (exampleFrameWrite 0x04 (str "500&0123456789abcdef0123456789abcdef")))
      emptyContext
      { ret := FRAME_SIZE, errno := 0,
        bytes := (exampleFrameWrite 0x04 (str "500&0123456789abcdef0123456789abcdef")).bytes }
      (FRAME_deserializeFrame
        (exampleFrameWrite 0x04 (str "500&0123456789abcdef0123456789abcdef")).bytes)
      (str "0123456789abcdef0123456789abcdef") rfl (by decide!) (by decide!) rfl (by decide!)
      (by decide) (by decide),
    h.2.2 { emptyContext with filesize := 500 } 0 0 rfl, by decide⟩

/-! ## Claim C15: the primary invariant of the roster -/

/-- C15 (the code at the failing inputs).  `MC_addWorkerToServer` adds a worker
of any class to the roster (the class of a CONN_WORKER request is not checked)
and assigns `is_main` only for the classes Text and Media.  First run: two
Media workers (sockets 6 and 7) and a worker of class `Foo` (socket 8) join,
the unassigned `is_main` of the third holding the value 1; the `Foo` worker
leaves and `rand()` returns 1.  `MC_removeWorkerFromList` holds an election for
the class Media although its primary is still there, and the roster is left
with two Media entries that both have `is_main = 1`: the primary invariant
fails.  Second run, for every value of the unassigned `is_main` and every
sequence of values of `rand()`: a Media worker (socket 6), a `Foo` worker
(socket 8) and a Media worker (socket 7) join, and the Media primary leaves.
The election draws `rand() % 1`, finds the `Foo` entry at index 0 every time,
and the removal does not return: the Media worker that is left has no
primary. -/
theorem C15_foreign_class_breaks_primaries :
    (runRoster emptyServer
        [exampleJoin 6 "Media", exampleJoin 7 "Media", exampleJoinGarbage 1 8 "Foo"]).map
        (fun s => (s.n_enigmas, s.n_harleys, s.worker_list.elements)) =
      some (0, 2,
        [exampleWorker 6 "Media" 1, exampleWorker 7 "Media" 0, exampleWorker 8 "Foo" 1]) ∧
    (∃ s, runRoster emptyServer
        [exampleJoin 6 "Media", exampleJoin 7 "Media", exampleJoinGarbage 1 8 "Foo",
          .leave (exampleRemove [1]) 8] = some s ∧
      s.worker_list.elements = [exampleWorker 6 "Media" 1, exampleWorker 7 "Media" 1] ∧
      (primariesOfClass s (str "Media")).length = 2 ∧ ¬ PrimaryInvariant s) ∧
    (runRoster emptyServer
        [exampleJoin 6 "Media", exampleJoin 8 "Foo", exampleJoin 7 "Media"]).map
        (fun s => (s.n_enigmas, s.n_harleys, s.worker_list.elements)) =
      some (0, 2,
        [exampleWorker 6 "Media" 1, exampleWorker 8 "Foo" 0, exampleWorker 7 "Media" 0]) ∧
    ∀ (garbage : Int) (draws : List Nat),
      runRoster emptyServer
        [exampleJoin 6 "Media", exampleJoinGarbage garbage 8 "Foo", exampleJoin 7 "Media",
          .leave (exampleRemove draws) 6] = none := by
  refine ⟨by decide, ⟨_, rfl, by decide, by decide, ?_⟩, by decide, ?_⟩
  · intro h
    exact absurd (h (str "Media") (Or.inr rfl)).1 (by decide)
  · intro garbage draws
    have h := removeWorker_stuck (exampleRemove draws)
      (Gotham.MC_addWorkerToServer true 0
        (Gotham.MC_addWorkerToServer true garbage
          (Gotham.MC_addWorkerToServer true 0 emptyServer 6 (some (str "Media"))
            (some (str "10.0.0.1")) (some (decimal (9000 + 6)))).2
          8 (some (str "Foo")) (some (str "10.0.0.1")) (some (decimal (9000 + 8)))).2
        7 (some (str "Media")) (some (str "10.0.0.1")) (some (decimal (9000 + 7)))).2
      6 { port := 0, ip := none, type := none } _ _ _ rfl rfl rfl
      (by show (1 : Int) ≠ 0; decide)
      (by show strcmp (str "Foo") (str "Media") ≠ 0; decide) rfl rfl rfl rfl
    simp only [runRoster, applyRosterOp, exampleJoin, exampleJoinGarbage, h]
    rfl

/-! ## Claim C16: the election -/

/-- C16: the election picks a survivor of the same class.  The roster after
the removal of the primary of class `c` (Text or Media): every entry is of
class Text or Media, the two counts are right, and an entry of class `c`
remains; the frame is sent with success.  For every sequence of values of
`rand()`, `MC_assignNewMainWorker` either keeps drawing (none of the values,
taken modulo the number of workers, is the index of an entry of class `c`), or
it returns having set `is_main` to 1 in exactly one entry, of class `c` (the
first such index drawn), leaving every other entry and both counts as they
were, and having sent one frame, ASSIGN_PRIMARY (0x08), to the socket of that
entry. -/
theorem C16_election_same_class (e : RemoveEnv) (server : GothamServer) (c : List Nat)
    (hc : c = str "Text" ∨ c = str "Media")
    (hty : ∀ w ∈ server.worker_list.elements,
      w.worker_type = str "Text" ∨ w.worker_type = str "Media")
    (hn1 : server.n_enigmas = classCount server.worker_list.elements (str "Text"))
    (hn2 : server.n_harleys = classCount server.worker_list.elements (str "Media"))
    (hsurv : 0 < classCount server.worker_list.elements c)
    (hm : e.create.malloc_ok = true) (hb : e.send.buffer.length = FRAME_SIZE)
    (hw : e.send.write_ret = FRAME_SIZE) :
    (electedIndex server.worker_list.elements c server.worker_list.elements.length
        e.draws = none ∧
      Gotham.MC_assignNewMainWorker e server c = none) ∨
    (∃ (j : Nat) (w : WorkerElement) (wr : SockWrite) (server2 : GothamServer),
      electedIndex server.worker_list.elements c server.worker_list.elements.length
        e.draws = some j ∧
      server.worker_list.elements[j]? = some w ∧ w.worker_type = c ∧
      Gotham.MC_assignNewMainWorker e server c = some (server2, [(w.socket_fd, wr)]) ∧
      CarriesFrame wr 0x08 [] ∧
      server2.worker_list.elements =
        server.worker_list.elements.set j { w with is_main := 1 } ∧
      server2.n_enigmas = server.n_enigmas ∧ server2.n_harleys = server.n_harleys ∧
      (∀ (k : Nat) (x : WorkerElement), k ≠ j → server.worker_list.elements[k]? = some x →
        server2.worker_list.elements[k]? = some x) ∧
      (∀ (k : Nat) (x : WorkerElement), server.worker_list.elements[k]? = some x →
        x.worker_type ≠ c → server2.worker_list.elements[k]? = some x)) := by
  rw [assignNewMain_spec e server c hc hty hn1 hn2, if_neg (by omega)]
  cases hel : electedIndex server.worker_list.elements c server.worker_list.elements.length
      e.draws with
  | none => exact Or.inl ⟨rfl, rfl⟩
  | some j =>
    right
    obtain ⟨w, hw', hwc⟩ := electedIndex_some _ _ _ _ _ hel
    obtain ⟨wr, hsend, hcarry⟩ := sendNewMain_carries e.create e.send w.socket_fd hm hb hw
    have hmark : markPrimary server.worker_list.elements j =
        server.worker_list.elements.set j { w with is_main := 1 } := by
      unfold markPrimary
      rw [hw']
    have hsock : socketOf server.worker_list.elements j = w.socket_fd := by
      unfold socketOf
      rw [hw']
    have hother : ∀ k x, k ≠ j → server.worker_list.elements[k]? = some x →
        (server.worker_list.elements.set j { w with is_main := 1 })[k]? = some x := by
      intro k x hk hx
      rw [List.getElem?_set_ne (Ne.symm hk)]
      exact hx
    refine ⟨j, w, wr,
      { server with
        worker_list :=
          { elements := markPrimary server.worker_list.elements j, previous := j,
            error := .NO_ERROR } },
      rfl, hw', hwc, ?_, hcarry, hmark, rfl, rfl, ?_, ?_⟩
    · simp only [Option.map_some', hsock, hsend]
    · intro k x hk hx
      show (markPrimary server.worker_list.elements j)[k]? = some x
      rw [hmark]
      exact hother k x hk hx
    · intro k x hx hxc
      show (markPrimary server.worker_list.elements j)[k]? = some x
      rw [hmark]
      apply hother k x _ hx
      intro hkj
      subst hkj
      rw [hw'] at hx
      cases hx
      exact hxc hwc

/-- C16, at an instance: the Text primary (socket 5) has left the roster of
three workers; the values 0 and 1 of `rand()` designate the Media worker, then
the surviving Text worker (socket 7), which becomes the primary and is sent
the one ASSIGN_PRIMARY frame. -/
theorem C16_election_same_class_witness :
    ((str "Text" = str "Text" ∨ str "Text" = str "Media") ∧
      (∀ w ∈ exampleElectionState.worker_list.elements,
        w.worker_type = str "Text" ∨ w.worker_type = str "Media") ∧
      exampleElectionState.n_enigmas =
        classCount exampleElectionState.worker_list.elements (str "Text") ∧
      exampleElectionState.n_harleys =
        classCount exampleElectionState.worker_list.elements (str "Media") ∧
      0 < classCount exampleElectionState.worker_list.elements (str "Text") ∧
      (exampleRemove [0, 1]).create.malloc_ok = true ∧
      (exampleRemove [0, 1]).send.buffer.length = FRAME_SIZE ∧
      (exampleRemove [0, 1]).send.write_ret = FRAME_SIZE) ∧
    ∃ (wr : SockWrite) (server2 : GothamServer),
      Gotham.MC_assignNewMainWorker (exampleRemove [0, 1]) exampleElectionState (str "Text") =
        some (server2, [(7, wr)]) ∧
      CarriesFrame wr 0x08 [] ∧
      server2.worker_list.elements = [exampleWorker 6 "Media" 1, exampleWorker 7 "Text" 1] := by
  refine ⟨⟨by decide, by decide, by decide, by decide, by decide, rfl, by decide, rfl⟩, ?_⟩
  rcases C16_election_same_class (exampleRemove [0, 1]) exampleElectionState (str "Text")
    (by decide) (by decide) (by decide) (by decide) (by decide) rfl (by decide) rfl with
    ⟨hn, _⟩ | ⟨j, w, wr, server2, hj, hw, _, hres, hcarry, hel, _⟩
  · exact absurd hn (by decide)
  · have hj1 : j = 1 := by
      have h1 : electedIndex exampleElectionState.worker_list.elements (str "Text")
          exampleElectionState.worker_list.elements.length (exampleRemove [0, 1]).draws =
          some 1 := by decide
      rw [h1] at hj
      exact (Option.some.inj hj).symm
    subst hj1
    have hw1 : w = exampleWorker 7 "Text" 0 := by
      have h1 : exampleElectionState.worker_list.elements[1]? =
          some (exampleWorker 7 "Text" 0) := by decide
      rw [h1] at hw
      exact (Option.some.inj hw).symm
    subst hw1
    refine ⟨wr, server2, hres, hcarry, ?_⟩
    rw [hel, exampleElectionState_elements]
    decide

/-! ## Claim C17: two disconnection events for the primary -/

/-- C20 (the code at the failing input).  `Text&a.txt` is accepted (verdict 2)
and `Text&a.TXT` is rejected (verdict 0, answered with MEDIA_KO); likewise
`Media&p.png` is accepted (verdict 1) and `Media&p.PNG` and `Media&p.Png` are
rejected: the extension is compared byte by byte with `strcmp`. -/
theorem C20_upper_case_rejected :
    Gotham.HANDLE_validateAttributesDistortRequest (str "Text&a.txt") =
      some (2, some (str "a.txt")) ∧
    Gotham.HANDLE_validateAttributesDistortRequest (str "Text&a.TXT") =
      some (0, some (str "a.TXT")) ∧
    Gotham.HANDLE_validateAttributesDistortRequest (str "Media&p.png") =
      some (1, some (str "p.png")) ∧
    Gotham.HANDLE_validateAttributesDistortRequest (str "Media&p.PNG") =
      some (0, some (str "p.PNG")) ∧
    Gotham.HANDLE_validateAttributesDistortRequest (str "Media&p.Png") =
      some (0, some (str "p.Png")) := by
  decide

/-! ## Claim C21: the class of a worker that registers -/

/-- C21 (the code at the failing input).  A worker sends CONN_WORKER with the
data `Foo&10.0.0.1&9005` on socket 5 to a registry with empty rosters.
`HANDLE_validateAttributesConnection` returns 1, and `HANDLE_handleConnectionRequest`
answers with the frame of type 0x02 without data (the acceptance, not CON_KO)
and adds an entry of class `Foo` to the worker roster, whose `is_main` is the
indeterminate value of the local variable: with the value 0 nothing else
happens, with the value 1 the worker is also sent ASSIGN_PRIMARY (0x08).
Neither count changes. -/
theorem C21_unknown_class_registered :
    (Gotham.HANDLE_validateAttributesConnection (str "Foo&10.0.0.1&9005")).1 = 1 ∧
    (Gotham.HANDLE_handleConnectionRequest (exampleConnect 0) emptyServer 5
        { frame := some (exampleFrame 0x02 (str "Foo&10.0.0.1&9005")), freed := false,
          error_code := .FRAME_SUCCESS } 119).map
        (fun r => (r.1.worker_list.elements, r.1.n_enigmas, r.1.n_harleys, r.2)) =
      some ([exampleWorker 5 "Foo" 0], 0, 0, [(5, exampleFrameWrite 0x02 [])]) ∧
    (Gotham.HANDLE_handleConnectionRequest (exampleConnect 1) emptyServer 5
        { frame := some (exampleFrame 0x02 (str "Foo&10.0.0.1&9005")), freed := false,
          error_code := .FRAME_SUCCESS } 119).map
        (fun r => (r.1.worker_list.elements, r.1.n_enigmas, r.1.n_harleys, r.2)) =
      some ([exampleWorker 5 "Foo" 1], 0, 0,
        [(5, exampleFrameWrite 0x02 []), (5, exampleFrameWrite 0x08 [])]) ∧
    (exampleFrameWrite 0x02 []).bytes.take 3 = [2, 0, 0] :=
  ⟨by decide, by decide, by decide, by decide⟩

/-! ## Claim C22: a closed connection, a transport error and DISCONNECT -/

/-- C22 (as stated, refuted): a transport error is not handled as DISCONNECT.
On the roster of three workers, `read` on socket 5 (the Text primary) fails
with `errno` 5 (EIO): `FRAME_receiveFrame` reports `FRAME_RECV_ERROR`, and
`HANDLE_handleFrame` leaves the registry as it is and sends an ERR frame (0x09)
to the socket.  A DISCONNECT frame (0x07) from the same socket removes the
worker and elects the Text worker of socket 7. -/
theorem C22_counterexample :
    (FRAME_receiveFrame (List.replicate FRAME_SIZE 0) { ret := -1, errno := 5, bytes := [] }
      true).error_code = .FRAME_RECV_ERROR ∧
    Gotham.HANDLE_handleFrame (exampleFrameEnv { ret := -1, errno := 5, bytes := [] } [0, 1])
        exampleRosterOfThree 5 119 =
      some (exampleRosterOfThree, [(5, exampleErr)]) ∧
    (Gotham.HANDLE_handleFrame (exampleFrameEnv (readOf (exampleFrameWrite 0x07 [])) [0, 1])
        exampleRosterOfThree 5 119).map
        (fun r => (r.1.worker_list.elements, r.2)) =
      some ([exampleWorker 6 "Media" 1, exampleWorker 7 "Text" 1],
        [(7, exampleFrameWrite 0x08 [])]) ∧
    exampleRosterOfThree.worker_list.elements =
      [exampleWorker 5 "Text" 1, exampleWorker 6 "Media" 1, exampleWorker 7 "Text" 0] :=
  ⟨by decide, by decide, by decide, by decide⟩

/-- C22 (amended): a closed connection is handled as DISCONNECT, a transport
error is not.  In `HANDLE_handleFrame`, for every registry state, socket and
client type: when `FRAME_receiveFrame` reports `FRAME_DISCONNECTED` the call does
what it does for a received frame of type 0x07 from that socket, namely
`MC_removeClient` (same server afterwards, same frames sent, in the same
surroundings of the removal); when `FRAME_receiveFrame` reports
`FRAME_RECV_ERROR` the call leaves the registry as it is and sends an ERR frame
(0x09) to the socket. -/
theorem C22_peer_closed_as_disconnect (e1 e2 : FrameEnv) (server : GothamServer)
    (client_socket : Int) (client_type : Nat) (rd1 rd2 : SockRead) (frame : Frame)
    (h1 : e1.recv.read = some rd1) (h2 : e2.recv.read = some rd2)
    (hr : e1.remove = e2.remove)
    (hd : (FRAME_receiveFrame e1.recv.buffer rd1 e1.recv.malloc_ok).error_code =
      .FRAME_DISCONNECTED)
    (hf : FRAME_receiveFrame e2.recv.buffer rd2 e2.recv.malloc_ok =
      { frame := some frame, freed := false, error_code := .FRAME_SUCCESS })
    (ht : frame.type = 0x07) :
    Gotham.HANDLE_handleFrame e1 server client_socket client_type =
      Gotham.HANDLE_handleFrame e2 server client_socket client_type ∧
    Gotham.HANDLE_handleFrame e1 server client_socket client_type =
      Gotham.MC_removeClient e1.remove server client_socket client_type ∧
    ∀ (e3 : FrameEnv) (rd3 : SockRead), e3.recv.read = some rd3 →
      (FRAME_receiveFrame e3.recv.buffer rd3 e3.recv.malloc_ok).error_code =
        .FRAME_RECV_ERROR →
      Gotham.HANDLE_handleFrame e3 server client_socket client_type =
        some (server, Gotham.COMM_sendErrorFrame e3.err_create e3.err_send client_socket) := by
  have a1 : Gotham.HANDLE_handleFrame e1 server client_socket client_type =
      Gotham.MC_removeClient e1.remove server client_socket client_type := by
    unfold Gotham.HANDLE_handleFrame
    simp only [h1, hd]
    simp
  have a2 : Gotham.HANDLE_handleFrame e2 server client_socket client_type =
      Gotham.MC_removeClient e2.remove server client_socket client_type := by
    unfold Gotham.HANDLE_handleFrame
    simp only [h2, hf, ht]
    simp
  refine ⟨by rw [a1, a2, hr], a1, ?_⟩
  intro e3 rd3 h3 he
  unfold Gotham.HANDLE_handleFrame
  simp only [h3, he]
  simp

/-- C22 (amended), at an instance: on the roster of three workers, `read` on
socket 5 (the Text primary) returns 0, and in another run delivers a
DISCONNECT frame; both runs remove the worker, make the Text worker of socket
7 the primary and send it ASSIGN_PRIMARY. -/
theorem C22_peer_closed_as_disconnect_witness :
    (FRAME_receiveFrame (List.replicate FRAME_SIZE 0) { ret := 0, errno := 0, bytes := [] }
      true).error_code = .FRAME_DISCONNECTED ∧
    FRAME_receiveFrame (List.replicate FRAME_SIZE 0) (readOf (exampleFrameWrite 0x07 [])) true =
      { frame := some (exampleFrame 0x07 []), freed := false, error_code := .FRAME_SUCCESS } ∧
    (exampleFrame 0x07 []).type = 0x07 ∧
    Gotham.HANDLE_handleFrame (exampleFrameEnv { ret := 0, errno := 0, bytes := [] } [0, 1])
        exampleRosterOfThree 5 119 =
      Gotham.HANDLE_handleFrame (exampleFrameEnv (readOf (exampleFrameWrite 0x07 [])) [0, 1])
        exampleRosterOfThree 5 119 ∧
    (Gotham.HANDLE_handleFrame (exampleFrameEnv { ret := 0, errno := 0, bytes := [] } [0, 1])
        exampleRosterOfThree 5 119).map (fun r => (r.1.worker_list.elements, r.2)) =
      some ([exampleWorker 6 "Media" 1, exampleWorker 7 "Text" 1],
        [(7, exampleFrameWrite 0x08 [])]) :=
  ⟨by decide, by decide, by decide,
    (C22_peer_closed_as_disconnect
      (exampleFrameEnv { ret := 0, errno := 0, bytes := [] } [0, 1])
      (exampleFrameEnv (readOf (exampleFrameWrite 0x07 [])) [0, 1]) exampleRosterOfThree 5 119
      { ret := 0, errno := 0, bytes := [] } (readOf (exampleFrameWrite 0x07 []))
      (exampleFrame 0x07 []) rfl rfl rfl (by decide) (by decide) (by decide)).1,
    by decide⟩

/-! ## Claim C23: requests the registry cannot parse -/

/-- C23 (the code at the failing inputs).  The registry `exampleRegistry` has
the client `alice` on socket 9.  A REQ_DISTORT frame without data from socket
9, and one with the data `&`, stop `HANDLE_handleDistortionRequest` on the NULL
pointer `strtok` returned for `mediaType` (the model returns `none`); so does
the well-formed request `Text&notes.txt` from socket 8, which has not
registered: `HANDLE_getUsernameFromSocket` returns NULL and the call passes it to
`strdup`.  No frame is sent.  A request without `&` from socket 9 is answered
with MEDIA_KO. -/
theorem C23_request_stops_the_registry :
    (Gotham.HANDLE_getUsernameFromSocket exampleRegistry 9).2 = some (str "alice") ∧
    Gotham.HANDLE_handleDistortionRequest exampleRequest exampleRegistry 9
      { frame := some (exampleFrame 0x10 []), freed := false, error_code := .FRAME_SUCCESS }
      0x10 = none ∧
    Gotham.HANDLE_handleDistortionRequest exampleRequest exampleRegistry 9
      { frame := some (exampleFrame 0x10 (str "&")), freed := false,
        error_code := .FRAME_SUCCESS } 0x10 = none ∧
    (Gotham.HANDLE_getUsernameFromSocket exampleRegistry 8).2 = none ∧
    Gotham.HANDLE_handleDistortionRequest exampleRequest exampleRegistry 8
      { frame := some (exampleFrame 0x10 (str "Text&notes.txt")), freed := false,
        error_code := .FRAME_SUCCESS } 0x10 = none ∧
    (Gotham.HANDLE_handleDistortionRequest exampleRequest exampleRegistry 9
      { frame := some (exampleFrame 0x11 (str "Text")), freed := false,
        error_code := .FRAME_SUCCESS } 0x11).map (fun r => r.2) =
      some [(9, exampleFrameWrite 0x11 (str "MEDIA_KO"))] :=
  ⟨by decide, by decide, by decide, by decide, by decide, by decide⟩

/-! ## Claim C29: the frame pointer after a checksum mismatch -/

/-- C29 (the code at the failing input).  `read` delivers 256 bytes of an ACK
frame whose checksum bytes hold 19 instead of 18.  `FRAME_receiveFrame` reports
`FRAME_RECV_ERROR` with a `frame` pointer that is not NULL and designates the
block it has already released; `COMM_retrieveAckFrame` tests the pointer, finds
it set and releases the block a second time. -/
theorem C29_stale_pointer_after_mismatch :
    FRAME_receiveFrame (List.replicate FRAME_SIZE 0) exampleCorruptAck true =
      { frame := some ⟨18, 0, List.replicate 247 0, 19, 0⟩, freed := true,
        error_code := .FRAME_RECV_ERROR } ∧
    FRAME_calculateChecksum ⟨18, 0, List.replicate 247 0, 19, 0⟩ = 18 ∧
    COMM_retrieveAckFrame (List.replicate FRAME_SIZE 0) exampleCorruptAck true =
      UNEXPECTED_ERROR ∧
    COMM_retrieveAckFrame_frees (List.replicate FRAME_SIZE 0) exampleCorruptAck true = 2 :=
  ⟨by decide, by decide, by decide, by decide⟩

/-! ## Claim C30: the counts of the registry -/

/-- C30 (the code at the failing input).  From the empty roster, one call of
`MC_addWorkerToServer` for a worker of class `Foo` (the class of a CONN_WORKER
request is not checked): the roster has one entry, `n_enigmas` and `n_harleys`
stay 0, so `n_enigmas + n_harleys` is 0 and `WORKER_LINKEDLIST_length` is 1.
After a Text worker has joined as well and the `Foo` worker has left through
`MC_removeWorkerFromList`, the counts are 1 and 0 and the length is 1 again. -/
theorem C30_counts_miss_other_classes :
    (runRoster emptyServer [exampleJoin 5 "Foo"]).map
        (fun s => (s.n_enigmas, s.n_harleys, WORKER_LINKEDLIST_length s.worker_list,
          s.worker_list.elements)) =
      some (0, 0, 1, [exampleWorker 5 "Foo" 0]) ∧
    (runRoster emptyServer [exampleJoin 5 "Foo", exampleJoin 6 "Text"]).map
        (fun s => (s.n_enigmas, s.n_harleys, WORKER_LINKEDLIST_length s.worker_list)) =
      some (1, 0, 2) ∧
    (runRoster emptyServer
        [exampleJoin 5 "Foo", exampleJoin 6 "Text", .leave (exampleRemove []) 5]).map
        (fun s => (s.n_enigmas, s.n_harleys, WORKER_LINKEDLIST_length s.worker_list)) =
      some (1, 0, 1) :=
  ⟨by decide, by decide, by decide⟩

/-! ## Claim C24: the reconnect policy of the client -/

/-- C24: the reconnect policy of the client.  The client asks the registry
for the primary of its class (REQ_RECONNECT, sent with success) and the
registry answers with a frame of type 0x11 whose data is the text `ip&port`
(an `ip` that starts with a digit, no `&` inside `ip` or `port`); the copies
made with `strdup` succeed.  When `ip` and the number `atoi(port)` equal the
address and port stored in `*main_worker`, `COMM_reconnectToWorker` returns 0
(failure), leaves `*main_worker` as it is and makes no call on a socket besides
the request to the registry: no descriptor is closed, no connection opened.
Otherwise it stores `ip` and `atoi(port)` in `*main_worker`, closes the
descriptor of the previous connection and goes on to `COMM_connectToWorker` for
`ip` and that port; it returns 1 when the connection is made and 0 when it is
not.  `COMM_updateMainWorker` returns 1 exactly when the stored address is not
NULL and equals the new one, and the stored port equals the new one. -/
theorem C24_reconnect_policy (e : ReconnectEnv) (filename worker_type : List Nat)
    (main_worker : MainWorker) (gotham_socket : Int) (rd : SockRead) (frame : Frame)
    (ip port_str : List Nat) (d : Nat) (tl : List Nat)
    (hasp : e.asprintf_ok = true) (hm : e.create.malloc_ok = true)
    (hw : e.send.write_ret = FRAME_SIZE) (hread : e.recv.read = some rd)
    (hrecv : FRAME_receiveFrame e.recv.buffer rd e.recv.malloc_ok =
      { frame := some frame, freed := false, error_code := .FRAME_SUCCESS })
    (htype : frame.type = 0x11)
    (hdata : cstring (frame.data ++ e.beyond) = ip ++ str "&" ++ port_str)
    (hip : ip = d :: tl) (hd : isdigit d = true) (hip38 : 38 ∉ ip)
    (hport : port_str ≠ []) (hp38 : 38 ∉ port_str)
    (hdup : e.data_dup_ok = true) (hipdup : e.ip_dup_ok = true) :
    (∃ wr : SockWrite,
      (main_worker.ip = some ip ∧ main_worker.port = atoi port_str →
        Fleck.COMM_reconnectToWorker e filename worker_type main_worker gotham_socket =
          some (0, main_worker, [NetEvent.write gotham_socket wr])) ∧
      (¬ (main_worker.ip = some ip ∧ main_worker.port = atoi port_str) →
        Fleck.COMM_reconnectToWorker e filename worker_type main_worker gotham_socket =
          some (if (Fleck.COMM_connectToWorker e ip (atoi port_str)).1 < 0 then 0 else 1,
            { ip := some ip, port := atoi port_str,
              socket := (Fleck.COMM_connectToWorker e ip (atoi port_str)).1 },
            [NetEvent.write gotham_socket wr] ++ (SOCKET_closeSocket main_worker.socket).2 ++
              (Fleck.COMM_connectToWorker e ip (atoi port_str)).2))) ∧
    ∀ (dup : Bool) (mw : MainWorker) (wip : List Nat) (wport : Int),
      (Fleck.COMM_updateMainWorker dup mw wip wport).1 = 1 ↔
        (mw.ip = some wip ∧ mw.port = wport) := by
  have hupd : ∀ (dup : Bool) (mw : MainWorker) (wip : List Nat) (wport : Int),
      (Fleck.COMM_updateMainWorker dup mw wip wport).1 = 1 ↔
        (mw.ip = some wip ∧ mw.port = wport) := by
    intro dup mw wip wport
    unfold Fleck.COMM_updateMainWorker
    cases hmw : mw.ip with
    | none => simp
    | some ip0 =>
      simp only [strcmp_eq_zero, Option.some.injEq]
      by_cases h : ip0 = wip ∧ mw.port = wport
      · simp [h]
      · simp [h]
  refine ⟨?_, hupd⟩
  obtain ⟨wr, hsend⟩ := sendWorkerRequest_ok e (worker_type ++ str "&" ++ filename)
    gotham_socket RECONNECTION hm hw
  have hproc := processGothamResponse_address e frame ip port_str d tl RECONNECTION
    (by rw [htype]; rfl) hdata hip hd hip38 hport hp38 hdup none (-1)
  have hreq : Fleck.COMM_requestWorkerAndProcessResponse e none (-1) worker_type filename
      gotham_socket RECONNECTION =
      some ((0, some ip, atoi port_str), [NetEvent.write gotham_socket wr]) := by
    unfold Fleck.COMM_requestWorkerAndProcessResponse
    simp only [hasp, Bool.not_true, Bool.false_eq_true, if_false, hsend, hread, hrecv, hproc,
      Option.map_some', lt_self_iff_false]
  refine ⟨wr, ?_, ?_⟩
  · intro hsame
    have h1 := (hupd e.ip_dup_ok main_worker ip (atoi port_str)).2 hsame
    have h2 : (Fleck.COMM_updateMainWorker e.ip_dup_ok main_worker ip (atoi port_str)).2 =
        main_worker := by
      unfold Fleck.COMM_updateMainWorker
      rw [hsame.1]
      simp [hsame.2, strcmp_eq_zero]
    unfold Fleck.COMM_reconnectToWorker Fleck.COMM_requestWorkerAndEstablishConnection
    simp only [hreq, lt_self_iff_false, if_false, h1, h2]
    have hc : RECONNECTION ≠ 0 ∧ (1 : Int) ≠ 0 := by decide
    rw [if_pos hc]
    rfl
  · intro hdiff
    have h1 : (Fleck.COMM_updateMainWorker e.ip_dup_ok main_worker ip (atoi port_str)).1 = 0 := by
      have hne : ¬ (Fleck.COMM_updateMainWorker e.ip_dup_ok main_worker ip (atoi port_str)).1 = 1 :=
        fun h => hdiff ((hupd _ _ _ _).1 h)
      unfold Fleck.COMM_updateMainWorker at hne ⊢
      cases hmw : main_worker.ip with
      | none => rfl
      | some ip0 =>
        rw [hmw] at hne
        simp only at hne ⊢
        split
        · rename_i hc
          rw [if_pos hc] at hne
          exact absurd rfl hne
        · rfl
    have h2 : (Fleck.COMM_updateMainWorker e.ip_dup_ok main_worker ip (atoi port_str)).2 =
        { main_worker with ip := some ip, port := atoi port_str } := by
      have hne : ¬ (Fleck.COMM_updateMainWorker e.ip_dup_ok main_worker ip (atoi port_str)).1 = 1 :=
        fun h => hdiff ((hupd _ _ _ _).1 h)
      unfold Fleck.COMM_updateMainWorker at hne ⊢
      cases hmw : main_worker.ip with
      | none => simp [hipdup]
      | some ip0 =>
        rw [hmw] at hne
        simp only at hne ⊢
        split
        · rename_i hc
          rw [if_pos hc] at hne
          exact absurd rfl hne
        · simp [hipdup]
    unfold Fleck.COMM_reconnectToWorker Fleck.COMM_requestWorkerAndEstablishConnection
    simp only [hreq, lt_self_iff_false, if_false, h1, h2]
    by_cases hc : (Fleck.COMM_connectToWorker e ip (atoi port_str)).1 < 0
    · simp [hc, FAILED_TO_CONNECT, CONNECTED_TO_SAME_WORKER, CONNECTED_TO_NEW_WORKER, RECONNECTION]
    · simp [hc, FAILED_TO_CONNECT, CONNECTED_TO_SAME_WORKER, CONNECTED_TO_NEW_WORKER, RECONNECTION]

/-- C24, at an instance: the client is connected to `10.0.0.1:9005` on the
descriptor 10.  The registry answers `10.0.0.2&9007`: the client stores the new
address, closes the descriptor 10, connects the new descriptor 11 to
`10.0.0.2:9007` and returns 1.  Had the registry answered `10.0.0.1&9005`, the
client would have returned 0 with the request as its only call. -/
theorem C24_reconnect_policy_witness :
    (FRAME_receiveFrame (List.replicate FRAME_SIZE 0)
        (readOf (exampleFrameWrite 0x11 (str "10.0.0.2&9007"))) true =
      { frame := some (exampleFrame 0x11 (str "10.0.0.2&9007")), freed := false,
        error_code := .FRAME_SUCCESS } ∧
      cstring ((exampleFrame 0x11 (str "10.0.0.2&9007")).data ++ []) =
        str "10.0.0.2" ++ str "&" ++ str "9007" ∧
      ¬ (exampleMainWorker.ip = some (str "10.0.0.2") ∧
        exampleMainWorker.port = atoi (str "9007"))) ∧
    (∃ wr : SockWrite,
      Fleck.COMM_reconnectToWorker (exampleReconnect (exampleFrameWrite 0x11 (str "10.0.0.2&9007")))
          (str "notes.txt") (str "Text") exampleMainWorker 3 =
        some (1, { ip := some (str "10.0.0.2"), port := 9007, socket := 11 },
          [NetEvent.write 3 wr, NetEvent.close 10,
            NetEvent.connect 11 (str "10.0.0.2") 9007])) ∧
    Fleck.COMM_reconnectToWorker (exampleReconnect (exampleFrameWrite 0x11 (str "10.0.0.1&9005")))
        (str "notes.txt") (str "Text") exampleMainWorker 3 =
      some (0, exampleMainWorker, [NetEvent.write 3 (exampleFrameWrite 0x11 (str "Text&notes.txt"))]) := by
  refine ⟨⟨by decide, by decide, by decide⟩, ?_, by decide⟩
  obtain ⟨⟨wr, _, h⟩, _⟩ := C24_reconnect_policy
    (exampleReconnect (exampleFrameWrite 0x11 (str "10.0.0.2&9007"))) (str "notes.txt")
    (str "Text") exampleMainWorker 3 (readOf (exampleFrameWrite 0x11 (str "10.0.0.2&9007")))
    (exampleFrame 0x11 (str "10.0.0.2&9007")) (str "10.0.0.2") (str "9007") 49 (str "0.0.0.2")
    rfl rfl rfl rfl (by decide) (by decide) (by decide) (by decide) (by decide) (by decide)
    (by decide) (by decide) rfl rfl
  have h := h (by decide)
  have hc : Fleck.COMM_connectToWorker
      (exampleReconnect (exampleFrameWrite 0x11 (str "10.0.0.2&9007"))) (str "10.0.0.2")
      (atoi (str "9007")) = (11, [NetEvent.connect 11 (str "10.0.0.2") 9007]) := by decide
  have ha : atoi (str "9007") = 9007 := by decide
  rw [hc, ha] at h
  exact ⟨wr, h⟩

/-! ## Claim C25: the send counter across a reconnection -/

/-- C25 (as stated, refuted): the send counter is not reset.  A file of 300
bytes, two packets; the worker acknowledges the first packet and closes the
connection, so `COMM_sendFile` returns `REMOTE_END_DISCONNECTION` with the counter
at 1; the reconnection succeeds and the metadata are sent again.  The second
call of `COMM_sendFile` is entered with the counter at 1, not 0, and sends one
frame, which carries the bytes from offset 247 on. -/
theorem C25_counterexample :
    (COMM_sendFile (closingSender [exampleAck]) (exampleFile.take 300) 2 0).ret =
      some REMOTE_END_DISCONNECTION ∧
    (COMM_sendFile (closingSender [exampleAck]) (exampleFile.take 300) 2 0).n_processed_packets =
      1 ∧
    (Fleck.DIST_handleFileDistortion_steps exampleJob (str "Text") 3 4
        (Fleck.DIST_handleFileDistortion_start exampleJobContext exampleMainWorker
          (exampleFile.take 300))).map
        (fun s => (sendFileCalls s.events, s.context.n_processed_packets)) =
      some ([(10, 2, 0), (10, 2, 1)], 2) ∧
    (COMM_sendFile (closingSender [exampleAck]) (exampleFile.take 300) 2 1).sent.map
        (fun wr => (wr.bytes.drop 3).take 53) =
      [(exampleFile.take 300).drop 247] := by
  refine ⟨by decide!, by decide!, by decide!, by decide!⟩

/-- C25 (amended): the client fault transition in SendFile.  The thread is at
the test of its loop in the stage `STAGE_SND_FILE`, the flags clear;
`COMM_sendFile` returns `REMOTE_END_DISCONNECTION` leaving the counter at `k`, and
`COMM_reconnectToWorker` returns 1.  Then the thread jumps to `enviaMetadades:`
with the counter at `k`; after `COMM_sendFileMetadata` succeeds it is back at the
test of the loop in the stage `STAGE_SND_FILE` with the counter still `k`, the
same `n_packets` and the same file; and its next step is the case
`STAGE_SND_FILE` on that state, so the next `COMM_sendFile` is entered with the
counter at `k`: it starts from packet `k`, whatever `k` is. -/
theorem C25_send_counter_kept (w : JobWorld) (worker_type : List Nat) (gotham_socket : Int)
    (s : JobState) (k : Int) (main_worker : MainWorker) (events : List NetEvent)
    (hp : s.point = .loop) (hfin : s.finished_distortion = 0)
    (hex : w.exit_distortion s.steps = false)
    (hstage : s.context.current_stage = Fleck.STAGE_SND_FILE)
    (hsend : (COMM_sendFile (w.sendFile s.steps) s.file s.context.n_packets
      s.context.n_processed_packets).ret = some REMOTE_END_DISCONNECTION)
    (hk : (COMM_sendFile (w.sendFile s.steps) s.file s.context.n_packets
      s.context.n_processed_packets).n_processed_packets = k)
    (hrec : Fleck.COMM_reconnectToWorker (w.reconnect s.steps)
      (s.context.filename.getD (str "(null)")) worker_type s.main_worker gotham_socket =
      some (1, main_worker, events))
    (hmeta : 0 ≤ w.metadata_ret (s.steps + 1))
    (hex2 : w.exit_distortion (s.steps + 2) = false) :
    ∃ s1 s2 : JobState,
      Fleck.DIST_handleFileDistortion_step w worker_type gotham_socket s = some s1 ∧
      s1.point = .enviaMetadades ∧ s1.context.n_processed_packets = k ∧
      s1.main_worker = main_worker ∧
      Fleck.DIST_handleFileDistortion_step w worker_type gotham_socket s1 = some s2 ∧
      s2.point = .loop ∧ s2.context.current_stage = Fleck.STAGE_SND_FILE ∧
      s2.context.n_processed_packets = k ∧ s2.context.n_packets = s.context.n_packets ∧
      s2.file = s.file ∧
      Fleck.DIST_handleFileDistortion_step w worker_type gotham_socket s2 =
        Fleck.DIST_handleFileDistortion_SND_FILE w worker_type gotham_socket (s.steps + 2)
          { s2 with steps := s.steps + 3 } ∧
      ∀ s3, Fleck.DIST_handleFileDistortion_step w worker_type gotham_socket s2 = some s3 →
        ∃ rest, s3.events = s2.events ++
          JobEvent.sendFile s2.worker_socket s.context.n_packets k :: rest := by
  have h1 := job_step_SND_FILE w worker_type gotham_socket s hp hfin hex hstage
  rw [job_SND_FILE_reconnected w worker_type gotham_socket s.steps { s with steps := s.steps + 1 }
    main_worker events hsend hrec, hk] at h1
  cases hx : Fleck.DIST_handleFileDistortion_step w worker_type gotham_socket s with
  | none =>
    rw [hx] at h1
    cases h1
  | some s1 =>
    rw [hx] at h1
    have e1 := Option.some.inj h1
    have hp1 : s1.point = .enviaMetadades := by rw [e1]
    have hc1 : s1.context = { s.context with n_processed_packets := k } := by rw [e1]
    have hst1 : s1.steps = s.steps + 1 := by rw [e1]
    have hf1 : s1.finished_distortion = 0 := by rw [e1]; exact hfin
    have hfile1 : s1.file = s.file := by rw [e1]
    have hmw1 : s1.main_worker = main_worker := by rw [e1]
    obtain ⟨s2, a1, a2, a3, a4, a5, _, a7, a8⟩ := job_after_reconnect w worker_type
      gotham_socket s1 hp1 (by rw [hst1]; exact hmeta) hf1 (by rw [hst1]; exact hex2)
      (by rw [hc1]; exact hstage)
    refine ⟨s1, s2, rfl, hp1, by rw [hc1], hmw1, a1, a2, by rw [a3, hc1]; exact hstage,
      by rw [a3, hc1], by rw [a3, hc1], by rw [a4, hfile1], ?_, ?_⟩
    · rw [a7, hst1]
    · intro s3 hs3
      obtain ⟨rest, hr⟩ := a8 s3 hs3
      refine ⟨rest, ?_⟩
      rw [hr, a5, hc1]

/-- C25 (amended), at an instance: the example job at the test of its loop,
the counter at 0.  The worker acknowledges one packet and closes the
connection; the reconnection gives the worker `10.0.0.2:9007`.  Two steps
later the thread is at the test of the loop again with the counter at 1. -/
theorem C25_send_counter_kept_witness :
    (exampleJobAtLoop.point = .loop ∧ exampleJobAtLoop.context.n_processed_packets = 0 ∧
      exampleJobAtLoop.context.current_stage = Fleck.STAGE_SND_FILE ∧
      (COMM_sendFile (exampleJob.sendFile exampleJobAtLoop.steps) exampleJobAtLoop.file
        exampleJobAtLoop.context.n_packets exampleJobAtLoop.context.n_processed_packets).ret =
        some REMOTE_END_DISCONNECTION ∧
      Fleck.COMM_reconnectToWorker (exampleJob.reconnect exampleJobAtLoop.steps)
          (exampleJobAtLoop.context.filename.getD (str "(null)")) (str "Text")
          exampleJobAtLoop.main_worker 3 =
        some (1, { ip := some (str "10.0.0.2"), port := 9007, socket := 11 },
          [NetEvent.write 3 (exampleFrameWrite 0x11 (str "Text&notes.txt")), NetEvent.close 10,
            NetEvent.connect 11 (str "10.0.0.2") 9007])) ∧
    ∃ s1 s2 : JobState,
      Fleck.DIST_handleFileDistortion_step exampleJob (str "Text") 3 exampleJobAtLoop = some s1 ∧
      s1.point = .enviaMetadades ∧ s1.context.n_processed_packets = 1 ∧
      Fleck.DIST_handleFileDistortion_step exampleJob (str "Text") 3 s1 = some s2 ∧
      s2.point = .loop ∧ s2.context.current_stage = Fleck.STAGE_SND_FILE ∧
      s2.context.n_processed_packets = 1 := by
  refine ⟨⟨by decide!, by decide!, by decide!, by decide!, by decide!⟩, ?_⟩
  obtain ⟨s1, s2, h1, h2, h3, _, h5, h6, h7, h8, _⟩ := C25_send_counter_kept exampleJob
    (str "Text") 3 exampleJobAtLoop 1
    { ip := some (str "10.0.0.2"), port := 9007, socket := 11 }
    [NetEvent.write 3 (exampleFrameWrite 0x11 (str "Text&notes.txt")), NetEvent.close 10,
      NetEvent.connect 11 (str "10.0.0.2") 9007]
    (by decide!) (by decide!) rfl (by decide!) (by decide!) (by decide!) (by decide!)
    (by decide) rfl
  exact ⟨s1, s2, h1, h2, h3, h5, h6, h7, h8⟩

/-! ## Claim C26: the metadata a worker accepts -/

/-- C26 (as stated, refuted): the payload `alice&notes.txt&12abc&0123&2`, whose
filesize field is not a decimal number, is accepted with filesize 12
(`atoi` stops at the first character that is not a digit), and the worker
answers with the empty frame of type 0x03. -/
theorem C26_counterexample :
    Worker.CONTEXT_extractAndValidateMetadata (str "alice&notes.txt&12abc&0123&2") 0 0 =
      { ret := 1, username := some (str "alice"), filename := some (str "notes.txt"),
        filesize := 12, md5sum := some (str "0123"), factor := 2 } ∧
    (Worker.COMM_retrieveFileMetadata
        (exampleWorkerMetadata (exampleFrameWrite 0x03 (str "alice&notes.txt&12abc&0123&2")) none)
        8 emptyContext (str "/enigma") 0).map (fun r => (r.1, r.2.1.filesize, r.2.2.2.1)) =
      some (1, 12, [(8, exampleFrameWrite 0x03 [])]) :=
  ⟨by decide, by decide!⟩

/-- C26 (amended): worker metadata validation.  For a payload with the five
fields `username&filename&filesize&md5&factor`, none of them empty:
`CONTEXT_extractAndValidateMetadata` accepts it exactly when `atoi(filesize) > 0` and
`atoi(factor) > 0`, and then hands out the five values; so it accepts it when
filesize and factor are the decimal numbers of values from 1 to 2^31 - 1, and
also when a field only starts with such a number.  It rejects the payload of
the first four fields.  When the payload arrives in a frame of type 0x03 and
the reply is sent with success, `COMM_retrieveFileMetadata` sends exactly one
frame, of type 0x03: with the data CON_KO, returning 0 with the context
untouched, when the payload is rejected; without data when it is accepted. -/
theorem C26_metadata_validation (u f s m k : List Nat)
    (hu : u ≠ []) (hf : f ≠ []) (hs : s ≠ []) (hm : m ≠ []) (hk : k ≠ [])
    (hu38 : 38 ∉ u) (hf38 : 38 ∉ f) (hs38 : 38 ∉ s) (hm38 : 38 ∉ m) (hk38 : 38 ∉ k) :
    ((Worker.CONTEXT_extractAndValidateMetadata
        (u ++ str "&" ++ f ++ str "&" ++ s ++ str "&" ++ m ++ str "&" ++ k) 0 0).ret = 1 ↔
      0 < atoi s ∧ 0 < atoi k) ∧
    (0 < atoi s ∧ 0 < atoi k →
      Worker.CONTEXT_extractAndValidateMetadata
          (u ++ str "&" ++ f ++ str "&" ++ s ++ str "&" ++ m ++ str "&" ++ k) 0 0 =
        { ret := 1, username := some u, filename := some f, filesize := atoi s,
          md5sum := some m, factor := atoi k }) ∧
    (∀ n j : Nat, s = decimal n → k = decimal j → 0 < n → n < 2147483648 → 0 < j →
      j < 2147483648 →
      Worker.CONTEXT_extractAndValidateMetadata
          (u ++ str "&" ++ f ++ str "&" ++ s ++ str "&" ++ m ++ str "&" ++ k) 0 0 =
        { ret := 1, username := some u, filename := some f, filesize := n,
          md5sum := some m, factor := j }) ∧
    (Worker.CONTEXT_extractAndValidateMetadata
      (u ++ str "&" ++ f ++ str "&" ++ s ++ str "&" ++ m) 0 0).ret = 0 ∧
    ∀ (e : WorkerMetadataEnv) (fleck_socket : Int) (distortion_context : DistortionContext)
        (distortions_folder_path : List Nat) (shm_id : Int) (rd : SockRead) (frame : Frame),
      e.recv.read = some rd →
      FRAME_receiveFrame e.recv.buffer rd e.recv.malloc_ok =
        { frame := some frame, freed := false, error_code := .FRAME_SUCCESS } →
      frame.type = 0x03 → e.data_dup_ok = true →
      cstring (frame.data ++ e.beyond) =
        u ++ str "&" ++ f ++ str "&" ++ s ++ str "&" ++ m ++ str "&" ++ k →
      e.create.malloc_ok = true → e.send.buffer.length = FRAME_SIZE →
      e.send.write_ret = FRAME_SIZE →
      (¬ (0 < atoi s ∧ 0 < atoi k) →
        ∃ wr, Worker.COMM_retrieveFileMetadata e fleck_socket distortion_context
            distortions_folder_path shm_id =
            some (0, distortion_context, shm_id, [(fleck_socket, wr)], []) ∧
          CarriesFrame wr 0x03 (str "CON_KO")) ∧
      (0 < atoi s ∧ 0 < atoi k →
        ∃ (r : Int) (context : DistortionContext) (id : Int) (wr : SockWrite)
            (events : List WorkerEvent),
          Worker.COMM_retrieveFileMetadata e fleck_socket distortion_context
            distortions_folder_path shm_id =
            some (r, context, id, [(fleck_socket, wr)], events) ∧
          CarriesFrame wr 0x03 []) := by
  have hx := extract_five_fields u f s m k 0 0 hu hf hs hm hk hu38 hf38 hs38 hm38 hk38
  have hacc : 0 < atoi s ∧ 0 < atoi k →
      Worker.CONTEXT_extractAndValidateMetadata
          (u ++ str "&" ++ f ++ str "&" ++ s ++ str "&" ++ m ++ str "&" ++ k) 0 0 =
        { ret := 1, username := some u, filename := some f, filesize := atoi s,
          md5sum := some m, factor := atoi k } := by
    intro h
    rw [hx, if_neg (not_le.mpr h.1), if_neg (not_le.mpr h.2)]
  have hrej : ¬ (0 < atoi s ∧ 0 < atoi k) →
      (Worker.CONTEXT_extractAndValidateMetadata
          (u ++ str "&" ++ f ++ str "&" ++ s ++ str "&" ++ m ++ str "&" ++ k) 0 0).ret = 0 := by
    intro h
    rw [hx]
    by_cases h1 : atoi s ≤ 0
    · rw [if_pos h1]
    · rw [if_neg h1]
      by_cases h2 : atoi k ≤ 0
      · rw [if_pos h2]
      · exact absurd ⟨not_le.mp h1, not_le.mp h2⟩ h
  refine ⟨?_, hacc, ?_, extract_four_fields u f s m 0 0 hu hf hs hm hu38 hf38 hs38 hm38, ?_⟩
  · constructor
    · intro h
      by_contra hn
      rw [hrej hn] at h
      exact absurd h (by decide)
    · intro h
      rw [hacc h]
  · intro n j hsn hkj hn0 hn1 hj0 hj1
    have a1 : atoi s = n := by
      have := atoi_decimal n hn1 [] (by simp)
      rw [List.append_nil] at this
      rw [hsn]
      exact this
    have a2 : atoi k = j := by
      have := atoi_decimal j hj1 [] (by simp)
      rw [List.append_nil] at this
      rw [hkj]
      exact this
    have := hacc ⟨by rw [a1]; exact_mod_cast hn0, by rw [a2]; exact_mod_cast hj0⟩
    rw [a1, a2] at this
    exact this
  · intro e fleck_socket distortion_context distortions_folder_path shm_id rd frame hread
      hrecv htype hdup hdata hmal hbuf hwr
    constructor
    · intro hn
      obtain ⟨wr, h1, h2⟩ := sendConnectionResponse_ko e.create e.send fleck_socket
        (str "CON_KO") 0x03 hmal hbuf hwr (by decide)
      refine ⟨wr, ?_, h2⟩
      unfold Worker.COMM_retrieveFileMetadata
      simp only [hread, hrecv, htype, hdup, hdata, hrej hn, h1]
      simp
    · intro hy
      obtain ⟨wr, h1, h2⟩ := sendConnectionResponse_ok e.create e.send fleck_socket none
        0x03 hmal hbuf hwr
      unfold Worker.COMM_retrieveFileMetadata
      simp only [hread, hrecv, htype, hdup, hdata, hacc hy, h1]
      simp only [ne_eq, not_true_eq_false, if_false, if_true, Bool.not_true,
        Bool.false_eq_true, one_ne_zero]
      split
      · exact ⟨_, _, _, wr, _, rfl, h2⟩
      · exact ⟨_, _, _, wr, _, rfl, h2⟩

/-- C26 (amended), at an instance: the payload `alice&notes.txt&500&0123&2` is
accepted with filesize 500 and factor 2. -/
theorem C26_metadata_validation_witness :
    (0 < atoi (str "500") ∧ 0 < atoi (str "2")) ∧
    Worker.CONTEXT_extractAndValidateMetadata (str "alice&notes.txt&500&0123&2") 0 0 =
      { ret := 1, username := some (str "alice"), filename := some (str "notes.txt"),
        filesize := 500, md5sum := some (str "0123"), factor := 2 } :=
  ⟨by decide,
    (C26_metadata_validation (str "alice") (str "notes.txt") (str "500") (str "0123") (str "2")
      (by decide) (by decide) (by decide) (by decide) (by decide) (by decide) (by decide)
      (by decide) (by decide) (by decide)).2.1 (by decide)⟩

/-! ## Claim C27: the checkpoint a worker adopts -/

/-- C27 (as stated, refuted): the stored `n_packets` is not adopted.  A
checkpoint (stage 0, 5 packets, 2 processed) exists for `alice` and
`notes.txt`, and the metadata frame announces a file of 100 bytes: the context
has stage 0 and 2 processed packets, and `n_packets` 1, computed from the 100
bytes, not 5. -/
theorem C27_counterexample :
    (Worker.COMM_retrieveFileMetadata
        (exampleWorkerMetadata (exampleFrameWrite 0x03 (str "alice&notes.txt&100&0123&2"))
          (some ⟨0, 5, 2⟩))
        8 emptyContext (str "/enigma") 0).map
        (fun r => (r.1, r.2.1.current_stage, r.2.1.n_packets, r.2.1.n_processed_packets,
          r.2.2.1)) =
      some (1, 0, 1, 2, 77) ∧
    (Worker.CONTEXT_fetchDistortionContext (exampleFetch (some ⟨0, 5, 2⟩))
        { exampleWorkerContext with filesize := 100, n_packets := 0, n_processed_packets := 0 }
        (str "notes.txt") 0).2.1.n_packets = 1 :=
  ⟨by decide!, by decide⟩

/-- C27 (amended): checkpoint adoption.  The context holds the metadata of
the job, with a filesize that is not negative and a file path.  When the file
of the job is in the shared directory and the calls succeed,
`CONTEXT_fetchDistortionContext` returns 1 and leaves the context with
`current_stage` and `n_processed_packets` equal to the two values stored in the
region, for every stored triple, and with `n_packets` equal to
ceil(filesize/247) for the filesize of the metadata: the stored `n_packets` is
not read.  When the file is not there and `open` succeeds, the context starts
with the stage `STAGE_RECV_FILE`, no packet processed and the same
`n_packets`. -/
theorem C27_checkpoint_adoption (e : FetchEnv) (distortion_context : DistortionContext)
    (filename file_path : List Nat) (shm_id : Int)
    (hsize : 0 ≤ distortion_context.filesize)
    (hfile : distortion_context.file_path = some file_path)
    (hpath : e.shared_path_ok = true) :
    (∀ stored : DistortionProgress, e.file_found = true → e.ftok ≠ none →
      e.move_path_ok = true → e.rename_ok = true → e.shmget_ret ≠ -1 →
      e.shmat = some stored → e.shmdt_ok = true →
      (Worker.CONTEXT_fetchDistortionContext e distortion_context filename shm_id).1 = 1 ∧
      (Worker.CONTEXT_fetchDistortionContext e distortion_context filename
        shm_id).2.1 =
        { distortion_context with
          current_stage := stored.current_stage,
          n_packets := packetCount distortion_context.filesize.toNat,
          n_processed_packets := stored.n_processed_packets } ∧
      (Worker.CONTEXT_fetchDistortionContext e distortion_context filename shm_id).2.2.1 =
        e.shmget_ret) ∧
    (e.file_found = false → e.open_ok = true →
      (Worker.CONTEXT_fetchDistortionContext e distortion_context filename shm_id).1 = 1 ∧
      (Worker.CONTEXT_fetchDistortionContext e distortion_context filename
        shm_id).2.1 =
        { distortion_context with
          current_stage := Worker.STAGE_RECV_FILE,
          n_packets := packetCount distortion_context.filesize.toNat,
          n_processed_packets := 0 } ∧
      (Worker.CONTEXT_fetchDistortionContext e distortion_context filename shm_id).2.2.1 =
        shm_id) := by
  have hp := packets_of_filesize distortion_context.filesize hsize
  have hinit : ∀ stage done,
      CONTEXT_initDistortionProgress distortion_context stage done =
        (1, { distortion_context with
          current_stage := stage,
          n_packets := packetCount distortion_context.filesize.toNat,
          n_processed_packets := done }) := by
    intro stage done
    unfold CONTEXT_initDistortionProgress
    simp only
    rw [hp]
  constructor
  · intro stored hfound hftok hmp hren hget hat hdt
    obtain ⟨key, hkey⟩ := Option.ne_none_iff_exists'.mp hftok
    unfold Worker.CONTEXT_fetchDistortionContext FILE_buildSharedFilePath
      DIR_moveFileToPrivateFolder FILE_buildSharedFilePath
    simp only [hpath, hfound, hkey, hmp, hren, hfile, hat, hdt, hinit, if_neg hget,
      Bool.not_true, Bool.false_eq_true, if_false, if_true, one_ne_zero, false_or]
    exact ⟨trivial, trivial, trivial⟩
  · intro hfound hopen
    unfold Worker.CONTEXT_fetchDistortionContext FILE_buildSharedFilePath
    simp only [hpath, hfound, hfile, hopen, hinit, Bool.not_true, Bool.false_eq_true, if_false]
    exact ⟨trivial, trivial, trivial⟩

/-- C27 (amended), at an instance: the checkpoint (stage 4, 9 packets, 2
processed) and a context with a filesize of 500 bytes give the stage 4, 2
processed packets and 3 packets. -/
theorem C27_checkpoint_adoption_witness :
    (0 ≤ exampleWorkerContext.filesize ∧
      exampleWorkerContext.file_path = some (str "./enigma/alice_notes.txt")) ∧
    (Worker.CONTEXT_fetchDistortionContext (exampleFetch (some ⟨4, 9, 2⟩)) exampleWorkerContext
      (str "notes.txt") 0).2.1 =
      { exampleWorkerContext with
        current_stage := 4, n_packets := packetCount exampleWorkerContext.filesize.toNat,
        n_processed_packets := 2 } ∧
    packetCount exampleWorkerContext.filesize.toNat = 3 :=
  ⟨⟨by decide, rfl⟩,
    ((C27_checkpoint_adoption (exampleFetch (some ⟨4, 9, 2⟩)) exampleWorkerContext
      (str "notes.txt") (str "./enigma/alice_notes.txt") 0 (by decide) rfl rfl).1 ⟨4, 9, 2⟩
      rfl (by decide) rfl rfl (by decide) rfl rfl).2.1,
    by decide⟩

/-! ## Claim C28: park or discard on SIGINT -/

/-- C28: park or discard on SIGINT.  The exit flag is set; the context has a
file path, a file name and a user name; `shm_id` is the region the worker
attached when it resumed the job (above 0), or 0 when the job started here.
The calls of the two functions succeed and both find the value `counter` in
the shared counter of workers of the class.

When `counter` is not 1, `EXIT_cleanupDistortionFiles` moves the working file to
`../unfinished_distortions/{username}_{filename}` and does nothing else, and
`EXIT_cleanupSharedMemory` stores the stage, `n_packets` and `n_processed_packets` of
the context in the region (the one of `shm_id`, or for `shm_id = 0` the one
`shmget` gives for the key of the moved file) and does nothing else: the region
is not removed.

When `counter` is 1, `EXIT_cleanupDistortionFiles` deletes the working file and does
nothing else, and `EXIT_cleanupSharedMemory` removes the region of `shm_id` and
stores nothing; for `shm_id = 0`, no file of the job being in the shared
directory (`ftok` fails), it does nothing. -/
theorem C28_park_or_discard (ef : CleanupFilesEnv) (em : CleanupMemoryEnv)
    (context : DistortionContext) (file_path filename username : List Nat)
    (shm_id exit_distortion counter : Int)
    (hexit : exit_distortion ≠ 0)
    (hfp : context.file_path = some file_path) (hfn : context.filename = some filename)
    (hun : context.username = some username)
    (hc1 : ef.last = { ftok_ok := true, counter := some counter, shmdt_ok := true })
    (hc2 : em.last = { ftok_ok := true, counter := some counter, shmdt_ok := true }) :
    (counter ≠ 1 → ef.move_path_ok = true → ef.rename_ok = true → em.shmat_ok = true →
      Worker.EXIT_cleanupDistortionFiles ef context exit_distortion shm_id =
        [WorkerEvent.rename file_path
          (str "../unfinished_distortions/" ++ username ++ str "_" ++ filename)] ∧
      (0 < shm_id →
        Worker.EXIT_cleanupSharedMemory em context shm_id exit_distortion =
          [WorkerEvent.store shm_id
            { current_stage := context.current_stage, n_packets := context.n_packets,
              n_processed_packets := context.n_processed_packets }]) ∧
      (shm_id = 0 → em.shared_path_ok = true → em.ftok ≠ none → em.shmget_ret ≠ -1 →
        Worker.EXIT_cleanupSharedMemory em context shm_id exit_distortion =
          [WorkerEvent.store em.shmget_ret
            { current_stage := context.current_stage, n_packets := context.n_packets,
              n_processed_packets := context.n_processed_packets }])) ∧
    (counter = 1 →
      Worker.EXIT_cleanupDistortionFiles ef context exit_distortion shm_id =
        [WorkerEvent.delete file_path] ∧
      (0 < shm_id →
        Worker.EXIT_cleanupSharedMemory em context shm_id exit_distortion =
          [WorkerEvent.rmid shm_id]) ∧
      (shm_id = 0 → em.ftok = none →
        Worker.EXIT_cleanupSharedMemory em context shm_id exit_distortion = [])) := by
  have hl1 : counter ≠ 1 → Worker.EXIT_isLastWorker ef.last = 0 ∧
      Worker.EXIT_isLastWorker em.last = 0 := by
    intro h
    rw [hc1, hc2]
    unfold Worker.EXIT_isLastWorker
    simp [h]
  have hl2 : counter = 1 → Worker.EXIT_isLastWorker ef.last = 1 ∧
      Worker.EXIT_isLastWorker em.last = 1 := by
    intro h
    rw [hc1, hc2]
    unfold Worker.EXIT_isLastWorker
    simp [h]
  constructor
  · intro hne hmp hren hat
    obtain ⟨l1, l2⟩ := hl1 hne
    refine ⟨?_, ?_, ?_⟩
    · unfold Worker.EXIT_cleanupDistortionFiles DIR_moveFileToSharedFolder
        FILE_buildSharedFilePath
      simp [hexit, l1, hmp, hren, hfp, hfn, hun, str, List.append_assoc]
    · intro hpos
      unfold Worker.EXIT_cleanupSharedMemory
      have h0 : shm_id ≠ 0 := by omega
      simp [hexit, l2, h0, hat]
    · intro h0 hsp hftok hget
      obtain ⟨key, hkey⟩ := Option.ne_none_iff_exists'.mp hftok
      unfold Worker.EXIT_cleanupSharedMemory FILE_buildSharedFilePath
      simp [hexit, l2, h0, hat, hsp, hkey, hget]
  · intro h1
    obtain ⟨l1, l2⟩ := hl2 h1
    refine ⟨?_, ?_, ?_⟩
    · unfold Worker.EXIT_cleanupDistortionFiles
      simp [l1, hfp]
    · intro hpos
      unfold Worker.EXIT_cleanupSharedMemory
      simp [hexit, l2, hpos]
    · intro h0 hftok
      unfold Worker.EXIT_cleanupSharedMemory FILE_buildSharedFilePath
      cases hsp : em.shared_path_ok <;> simp [hexit, l2, h0, hftok, hsp]

/-- C28, at an instance: the worker of the example context is interrupted
while two workers of its class are connected: the file goes to
`../unfinished_distortions/alice_notes.txt` and the checkpoint (stage 0, 3
packets, 2 processed) is stored in the region 77. -/
theorem C28_park_or_discard_witness :
    ((1 : Int) ≠ 0 ∧ (2 : Int) ≠ 1) ∧
    Worker.EXIT_cleanupDistortionFiles
        { last := exampleCounter 2, move_path_ok := true, rename_ok := true }
        exampleWorkerContext 1 77 =
      [WorkerEvent.rename (str "./enigma/alice_notes.txt")
        (str "../unfinished_distortions/" ++ str "alice" ++ str "_" ++ str "notes.txt")] ∧
    Worker.EXIT_cleanupSharedMemory
        { last := exampleCounter 2, shared_path_ok := true, ftok := some 1234,
          shmget_ret := 77, shmat_ok := true, shmdt_ok := true }
        exampleWorkerContext 77 1 =
      [WorkerEvent.store 77 { current_stage := 0, n_packets := 3, n_processed_packets := 2 }] :=
  have h := (C28_park_or_discard
    { last := exampleCounter 2, move_path_ok := true, rename_ok := true }
    { last := exampleCounter 2, shared_path_ok := true, ftok := some 1234, shmget_ret := 77,
      shmat_ok := true, shmdt_ok := true }
    exampleWorkerContext (str "./enigma/alice_notes.txt") (str "notes.txt") (str "alice") 77 1 2
    (by decide) rfl rfl rfl rfl rfl).1 (by decide) rfl rfl rfl
  ⟨⟨by decide, by decide⟩, h.1, h.2.1 (by decide)⟩

end DFCS
